import Mathlib

/-!
# Verification of the OIML R 22 alcoholometry engine

This file gives a shallow embedding, over `ℚ`, of the density/alcoholometry
computation engine of the repository (the `density` module family): the
OIML R 22 bivariate polynomial `rho_p_t`, the bisection solver
`abvToMassFraction`, the closed-form inverse `massFractionToAbv`, the derived
calculators (`calculateDensity`, `calculateVolumeFromMass`,
`calculateEthanolMass`, `calculateDilutionWater`), the hydrometer corrector
(`getHydrometerCorrection`, `correctHydrometerReading`) and the range
validator (`validateTemperature`).

JavaScript numbers are modelled as exact rationals; `x.toFixed(d)` followed by
`parseFloat` is modelled by `roundTo d` (round half towards `+∞`, matching the
ECMAScript tie-breaking rule "pick the larger `n`"), and `Math.round` by
`round`.  Presentational string fields (`abvRange`, `message`) are omitted or
replaced by the numeric data they are built from.  A second namespace
`DensityAlt` embeds the other polynomial variant present in the repository
(the one whose `calculateDensity` also returns a contraction factor, with its
own cross-term table).

The `Rat` arithmetic of Batteries is `@[irreducible]` by default; we make it
semireducible so that concrete computations can be settled by `decide`.
-/

attribute [local semireducible] Rat.add Rat.sub Rat.mul Rat.inv Rat.ofScientific

namespace Alquimista

/-- Reference density of pure ethanol at 20 °C in kg/m³ (`RHO_ETH_20`). -/
def RHO_ETH_20 : ℚ := 789.24

/-- The OIML R 22 polynomial of the main module: density in kg/m³ of an
ethanol-water mixture with ethanol mass fraction `p` at temperature `t` °C.
Sum of the `A` terms in `p`, the `B` terms in `Δt = t - 20`, and the cross
terms `C i j · p^i · Δt^j`, with the coefficient tables of the source. -/
def rho_p_t (p t : ℚ) : ℚ :=
    998.20123 - 192.9769495 * p ^ 1 + 389.1238958 * p ^ 2 - 1668.103923 * p ^ 3
    + 13522.15441 * p ^ 4 - 88292.78388 * p ^ 5 + 306287.4042 * p ^ 6 - 613838.1234 * p ^ 7
    + 747017.2998 * p ^ 8 - 547846.1354 * p ^ 9 + 223446.0334 * p ^ 10 - 39032.85426 * p ^ 11
    - 0.20618513 * (t - 20) ^ 1 - 0.0052682542 * (t - 20) ^ 2 + 0.000036130013 * (t - 20) ^ 3
    - 0.00000038957702 * (t - 20) ^ 4 + 0.000000007169354 * (t - 20) ^ 5 - 0.000000000099739231 * (t
    - 20) ^ 6 + 0.16911721 * p ^ 1 * (t - 20) ^ 1 - 0.00001026186 * p ^ 1 * (t - 20) ^ 2
    - 0.0000010859217 * p ^ 1 * (t - 20) ^ 3 - 0.000000018586393 * p ^ 1 * (t - 20) ^ 4
    + 0.00000000059363544 * p ^ 1 * (t - 20) ^ 5 - 0.20369835 * p ^ 2 * (t - 20) ^ 1
    + 0.0031222004 * p ^ 2 * (t - 20) ^ 2 - 0.00012314599 * p ^ 2 * (t - 20) ^ 3
    + 0.000001630665 * p ^ 2 * (t - 20) ^ 4 - 0.000000011111394 * p ^ 2 * (t - 20) ^ 5
    + 0.71175079 * p ^ 3 * (t - 20) ^ 1 - 0.013656474 * p ^ 3 * (t - 20) ^ 2
    + 0.00059376345 * p ^ 3 * (t - 20) ^ 3 - 0.000008613356 * p ^ 3 * (t - 20) ^ 4
    + 0.000000061058245 * p ^ 3 * (t - 20) ^ 5 - 1.2443657 * p ^ 4 * (t - 20) ^ 1
    + 0.027466369 * p ^ 4 * (t - 20) ^ 2 - 0.001487506 * p ^ 4 * (t - 20) ^ 3
    + 0.000024603699 * p ^ 4 * (t - 20) ^ 4 - 0.00000018428128 * p ^ 4 * (t - 20) ^ 5
    + 0.89234477 * p ^ 5 * (t - 20) ^ 1 - 0.03588147 * p ^ 5 * (t - 20) ^ 2
    + 0.0021359045 * p ^ 5 * (t - 20) ^ 3 - 0.000041698377 * p ^ 5 * (t - 20) ^ 4
    + 0.00000033301956 * p ^ 5 * (t - 20) ^ 5 - 0.22211216 * p ^ 6 * (t - 20) ^ 1
    + 0.023377377 * p ^ 6 * (t - 20) ^ 2 - 0.0017755628 * p ^ 6 * (t - 20) ^ 3
    + 0.000040143198 * p ^ 6 * (t - 20) ^ 4 - 0.00000035418367 * p ^ 6 * (t - 20) ^ 5

/-- The pure `A`-polynomial: `rho_p_t p 20` (all `Δt` terms vanish). -/
def rho20 (p : ℚ) : ℚ :=
    998.20123 - 192.9769495 * p ^ 1 + 389.1238958 * p ^ 2 - 1668.103923 * p ^ 3
    + 13522.15441 * p ^ 4 - 88292.78388 * p ^ 5 + 306287.4042 * p ^ 6 - 613838.1234 * p ^ 7
    + 747017.2998 * p ^ 8 - 547846.1354 * p ^ 9 + 223446.0334 * p ^ 10 - 39032.85426 * p ^ 11

theorem rho_p_t_at20 (p : ℚ) : rho_p_t p 20 = rho20 p := by
  unfold rho_p_t rho20; ring

/-- The implied volume fraction used by the bisection solver:
`v(p) = p · ρ(p,20) / RHO_ETH_20`. -/
def vq (p : ℚ) : ℚ := p * rho_p_t p 20 / RHO_ETH_20

/-- One step of the `abvToMassFraction` bisection loop on the state
`(low, high, p)`. -/
def abvStep (targetV : ℚ) (s : ℚ × ℚ × ℚ) : ℚ × ℚ × ℚ :=
  let p := (s.1 + s.2.1) / 2
  if p * rho_p_t p 20 / RHO_ETH_20 < targetV then (p, s.2.1, p) else (s.1, p, p)

/-- `abvToMassFraction`: ABV (volume %) to ethanol mass fraction, by 40
fixed iterations of bisection on `[0,1]`; boundary shortcuts at `abv ≤ 0`
and `abv ≥ 100`. -/
def abvToMassFraction (abv : ℚ) : ℚ :=
  if abv ≤ 0 then 0
  else if 100 ≤ abv then 1
  else ((abvStep (abv / 100))^[40] (0, 1, 1/2)).2.2

/-- `parseFloat(x.toFixed(d))`: round to `d` decimal places. -/
def roundTo (d : ℕ) (x : ℚ) : ℚ := (round (x * 10 ^ d) : ℚ) / 10 ^ d

/-- `calculateDensity` of the main module: g/mL, rounded to 6 decimals. -/
def calculateDensity (abv tempC : ℚ) : ℚ :=
  roundTo 6 (rho_p_t (abvToMassFraction abv) tempC / 1000)

/-- `calculateWaterDensity`. -/
def calculateWaterDensity (tempC : ℚ) : ℚ := calculateDensity 0 tempC

/-- `calculateEthanolDensity`. -/
def calculateEthanolDensity (tempC : ℚ) : ℚ := calculateDensity 100 tempC

/-- `massFractionToAbv`: the closed-form inverse
`(massFrac · ρ(massFrac,20) / RHO_ETH_20) · 100`. -/
def massFractionToAbv (massFrac : ℚ) : ℚ :=
  massFrac * rho_p_t massFrac 20 / RHO_ETH_20 * 100

/-- Result record of `calculateVolumeFromMass`. -/
structure VolumeFromMass where
  volumeMl : ℚ
  density : ℚ

/-- `calculateVolumeFromMass`. -/
def calculateVolumeFromMass (massG abv tempC : ℚ) : VolumeFromMass :=
  let density := calculateDensity abv tempC
  ⟨roundTo 2 (massG / density), density⟩

/-- `calculateEthanolMass`. -/
def calculateEthanolMass (volumeMl abv tempC : ℚ) : ℚ :=
  roundTo 2 (volumeMl * calculateDensity abv tempC * abvToMassFraction abv)

/-- Result record of `calculateDilutionWater`. -/
structure DilutionResult where
  waterToAddG : ℚ
  finalMassG : ℚ
  ethanolMassG : ℚ
  sourceMassFraction : ℚ
  targetMassFraction : ℚ

/-- `calculateDilutionWater`. -/
def calculateDilutionWater (sourceMassG sourceAbv targetAbv : ℚ) : DilutionResult :=
  let p1 := abvToMassFraction sourceAbv
  let p2 := abvToMassFraction targetAbv
  let m2 := sourceMassG * p1 / p2
  { waterToAddG := roundTo 1 (m2 - sourceMassG),
    finalMassG := roundTo 1 m2,
    ethanolMassG := roundTo 2 (sourceMassG * p1),
    sourceMassFraction := roundTo 4 p1,
    targetMassFraction := roundTo 4 p2 }

/-- One step of the `getHydrometerCorrection` bisection loop on `[0,100]`. -/
def hydStep (targetRho tempC : ℚ) (s : ℚ × ℚ × ℚ) : ℚ × ℚ × ℚ :=
  let trueAbv := (s.1 + s.2.1) / 2
  if targetRho < rho_p_t (abvToMassFraction trueAbv) tempC then (trueAbv, s.2.1, trueAbv)
  else (s.1, trueAbv, trueAbv)

/-- Result record of `getHydrometerCorrection`; the string field `abvRange`
of the source is replaced by the integer `abvInt` it is formatted from. -/
structure HydrometerCorrection where
  correction : ℚ
  trueAbv : ℚ
  abvInt : ℤ
  tempRounded : ℤ
  interpolated : Bool

/-- `getHydrometerCorrection`: 30 fixed iterations of bisection for the true
ABV whose density at `tempC` matches the density the instrument senses. -/
def getHydrometerCorrection (readingAbv tempC : ℚ) : HydrometerCorrection :=
  let targetRho := rho_p_t (abvToMassFraction readingAbv) 20
  let trueAbv := ((hydStep targetRho tempC)^[30] (0, 100, 50)).2.2
  { correction := roundTo 1 (trueAbv - readingAbv),
    trueAbv := roundTo 1 trueAbv,
    abvInt := ⌊readingAbv / 10⌋ * 10,
    tempRounded := round tempC,
    interpolated := true }

/-- Result record of `correctHydrometerReading`. -/
structure HydrometerReading where
  correction : ℚ
  trueAbv : ℚ
  abvInt : ℤ
  tempRounded : ℤ
  interpolated : Bool
  outsideTableRange : Bool
  tempUsed : ℤ

/-- `correctHydrometerReading`. -/
def correctHydrometerReading (readingAbv tempC : ℚ) : HydrometerReading :=
  let r := getHydrometerCorrection readingAbv tempC
  { correction := r.correction,
    trueAbv := r.trueAbv,
    abvInt := r.abvInt,
    tempRounded := r.tempRounded,
    interpolated := r.interpolated,
    outsideTableRange := decide (tempC < 10 ∨ 30 < tempC),
    tempUsed := r.tempRounded }

/-- Warning levels of `validateTemperature`. -/
inductive Warning where
  | none
  | caution
  | danger
deriving DecidableEq

/-- Result record of `validateTemperature` (the message string is omitted). -/
structure TempValidation where
  isValid : Bool
  warning : Warning

/-- `validateTemperature`. -/
def validateTemperature (tempC : ℚ) : TempValidation :=
  if tempC < 10 ∨ 30 < tempC then ⟨false, .danger⟩
  else ⟨true, if tempC < 15 ∨ 25 < tempC then .caution else .none⟩

/-- The state of the `abvToMassFraction` bisection after `n` iterations. -/
def abvIter (T : ℚ) (n : ℕ) : ℚ × ℚ × ℚ := (abvStep T)^[n] (0, 1, 1/2)

/-- The state of the `getHydrometerCorrection` bisection after `n` iterations. -/
def hydIter (targetRho tempC : ℚ) (n : ℕ) : ℚ × ℚ × ℚ :=
  (hydStep targetRho tempC)^[n] (0, 100, 50)

end Alquimista

namespace DensityAlt

/-- The other polynomial variant in the repository: same `A` and `B` tables,
different cross-term table. -/
def rho_p_t (p t : ℚ) : ℚ :=
    998.20123 - 192.9769495 * p ^ 1 + 389.1238958 * p ^ 2 - 1668.103923 * p ^ 3
    + 13522.15441 * p ^ 4 - 88292.78388 * p ^ 5 + 306287.4042 * p ^ 6 - 613838.1234 * p ^ 7
    + 747017.2998 * p ^ 8 - 547846.1354 * p ^ 9 + 223446.0334 * p ^ 10 - 39032.85426 * p ^ 11
    - 0.20618513 * (t - 20) ^ 1 - 0.0052682542 * (t - 20) ^ 2 + 0.000036130013 * (t - 20) ^ 3
    - 0.00000038957702 * (t - 20) ^ 4 + 0.000000007169354 * (t - 20) ^ 5 - 0.000000000099739231 * (t
    - 20) ^ 6 - 1.161156 * p ^ 1 * (t - 20) ^ 1 + 1.35032 * p ^ 2 * (t - 20) ^ 1
    - 2.16274 * p ^ 3 * (t - 20) ^ 1 + 3.65593 * p ^ 4 * (t - 20) ^ 1 - 4.13781 * p ^ 5 * (t
    - 20) ^ 1 + 1.7611 * p ^ 6 * (t - 20) ^ 1 + 0.01017 * p ^ 1 * (t - 20) ^ 2
    - 0.038437 * p ^ 2 * (t - 20) ^ 2 + 0.089056 * p ^ 3 * (t - 20) ^ 2 - 0.147321 * p ^ 4 * (t
    - 20) ^ 2 + 0.146237 * p ^ 5 * (t - 20) ^ 2 - 0.060122 * p ^ 6 * (t - 20) ^ 2
    + 0.00018844 * p ^ 1 * (t - 20) ^ 3 + 0.00052018 * p ^ 2 * (t - 20) ^ 3 - 0.0035042 * p ^ 3 * (t
    - 20) ^ 3 + 0.0076163 * p ^ 4 * (t - 20) ^ 3 - 0.0083697 * p ^ 5 * (t - 20) ^ 3
    + 0.0035687 * p ^ 6 * (t - 20) ^ 3 - 0.000020673 * p ^ 1 * (t - 20) ^ 4
    + 0.000085273 * p ^ 2 * (t - 20) ^ 4 - 0.00019806 * p ^ 3 * (t - 20) ^ 4
    + 0.00039634 * p ^ 4 * (t - 20) ^ 4 - 0.00043168 * p ^ 5 * (t - 20) ^ 4
    + 0.00020002 * p ^ 6 * (t - 20) ^ 4 + 0.000000134 * p ^ 1 * (t - 20) ^ 5
    - 0.00000134 * p ^ 2 * (t - 20) ^ 5 + 0.00000522 * p ^ 3 * (t - 20) ^ 5
    - 0.00000939 * p ^ 4 * (t - 20) ^ 5 + 0.00000796 * p ^ 5 * (t - 20) ^ 5
    - 0.00000258 * p ^ 6 * (t - 20) ^ 5

/-- The bisection step of the variant module (texts identical to the main
one; it evaluates its own `rho_p_t`, at the reference temperature). -/
def abvStep (targetV : ℚ) (s : ℚ × ℚ × ℚ) : ℚ × ℚ × ℚ :=
  let p := (s.1 + s.2.1) / 2
  if p * rho_p_t p 20 / Alquimista.RHO_ETH_20 < targetV then (p, s.2.1, p) else (s.1, p, p)

/-- `abvToMassFraction` of the variant module. -/
def abvToMassFraction (abv : ℚ) : ℚ :=
  if abv ≤ 0 then 0
  else if 100 ≤ abv then 1
  else ((abvStep (abv / 100))^[40] (0, 1, 1/2)).2.2

/-- Result record of the variant `calculateDensity`. -/
structure DensityResult where
  density : ℚ
  contractionFactor : ℚ

/-- The variant `calculateDensity`, with the contraction-factor side
computation `(V_water + V_ethanol) / V_mixture` for 1 g of mixture. -/
def calculateDensity (abv tempC : ℚ) : DensityResult :=
  let p := abvToMassFraction abv
  let rho := rho_p_t p tempC / 1000
  let rho_eth := rho_p_t 1 tempC / 1000
  let rho_wat := rho_p_t 0 tempC / 1000
  let v_eth := p / rho_eth
  let v_wat := (1 - p) / rho_wat
  let v_mix := 1 / rho
  ⟨Alquimista.roundTo 6 rho, Alquimista.roundTo 6 ((v_eth + v_wat) / v_mix)⟩

end DensityAlt

namespace Alquimista

/-! ## Rounding lemmas -/

theorem roundTo_sub_abs (d : ℕ) (x : ℚ) : |roundTo d x - x| ≤ 1 / (2 * 10 ^ d) := by
  have hc : (0 : ℚ) < 10 ^ d := by positivity
  have h := abs_sub_round (x * 10 ^ d)
  have h1 : roundTo d x - x = ((round (x * 10 ^ d) : ℚ) - x * 10 ^ d) / 10 ^ d := by
    rw [roundTo]
    field_simp
    ring
  rw [h1, abs_div, abs_of_pos hc, div_le_div_iff₀ hc (by positivity)]
  rw [abs_sub_comm] at h
  nlinarith [h, hc]

theorem roundTo_mono (d : ℕ) {x y : ℚ} (h : x ≤ y) : roundTo d x ≤ roundTo d y := by
  have hc : (0 : ℚ) < 10 ^ d := by positivity
  have hr : round (x * 10 ^ d) ≤ round (y * 10 ^ d) := by
    rw [round_eq, round_eq]
    exact Int.floor_mono (by nlinarith)
  rw [roundTo, roundTo, div_le_div_iff_of_pos_right hc]
  exact_mod_cast hr

theorem roundTo_zero (d : ℕ) : roundTo d 0 = 0 := by
  simp [roundTo]

theorem roundTo_nonneg (d : ℕ) {x : ℚ} (h : 0 ≤ x) : 0 ≤ roundTo d x := by
  have := roundTo_mono d h
  rwa [roundTo_zero] at this

theorem roundTo_eq_zero (d : ℕ) {x : ℚ} (h : |x| < 1 / (2 * 10 ^ d)) : roundTo d x = 0 := by
  have hc : (0 : ℚ) < 10 ^ d := by positivity
  have h0 : round (x * 10 ^ d) = 0 := by
    rw [round_eq_zero_iff]
    rw [abs_lt] at h
    have k1 : (1 / (2 * 10 ^ d) : ℚ) * 10 ^ d = 1 / 2 := by
      field_simp
      ring
    constructor
    · have m1 := mul_lt_mul_of_pos_right h.1 hc
      linarith
    · have m2 := mul_lt_mul_of_pos_right h.2 hc
      linarith
  rw [roundTo, h0]
  simp

theorem roundTo_sub_intTenth (x : ℚ) (n : ℤ) :
    roundTo 1 (x - (n : ℚ) / 10) = roundTo 1 x - (n : ℚ) / 10 := by
  have h1 : (x - (n : ℚ) / 10) * 10 ^ 1 = x * 10 ^ 1 - (n : ℚ) := by ring
  rw [roundTo, h1, round_sub_int, roundTo]
  push_cast
  ring

/-! ## Power difference bounds -/

theorem pow_diff_nonneg {a b : ℚ} (n : ℕ) (h0 : 0 ≤ a) (hab : a ≤ b) :
    0 ≤ b ^ n - a ^ n :=
  sub_nonneg.2 (pow_le_pow_left₀ h0 hab n)

theorem pow_diff_le {a b : ℚ} (n : ℕ) (h0 : 0 ≤ a) (hab : a ≤ b) (hb : b ≤ 1) :
    b ^ n - a ^ n ≤ n * (b - a) := by
  induction n with
  | zero => simp
  | succ n ih =>
    have ha1 : a ≤ 1 := le_trans hab hb
    have h1 : a ^ n ≤ 1 := pow_le_one₀ h0 ha1
    have h2 : 0 ≤ b ^ n - a ^ n := pow_diff_nonneg n h0 hab
    have h3 : b ^ (n + 1) - a ^ (n + 1) = b * (b ^ n - a ^ n) + a ^ n * (b - a) := by ring
    have hb0 : 0 ≤ b := le_trans h0 hab
    rw [h3]
    push_cast
    nlinarith [ih]

/-! ## Lipschitz bound for the bisection comparator `vq` -/

theorem RHO_ETH_20_pos : (0 : ℚ) < RHO_ETH_20 := by norm_num [RHO_ETH_20]

theorem vq_lip {a b : ℚ} (h0 : 0 ≤ a) (hab : a ≤ b) (hb : b ≤ 1) :
    vq b - vq a ≤ 29001 * (b - a) := by
  have key : b * rho20 b - a * rho20 a ≤ 22888000 * (b - a) := by
    have hexp : b * rho20 b - a * rho20 a =
        998.20123 * (b ^ 1 - a ^ 1) - 192.9769495 * (b ^ 2 - a ^ 2)
        + 389.1238958 * (b ^ 3 - a ^ 3) - 1668.103923 * (b ^ 4 - a ^ 4)
        + 13522.15441 * (b ^ 5 - a ^ 5) - 88292.78388 * (b ^ 6 - a ^ 6)
        + 306287.4042 * (b ^ 7 - a ^ 7) - 613838.1234 * (b ^ 8 - a ^ 8)
        + 747017.2998 * (b ^ 9 - a ^ 9) - 547846.1354 * (b ^ 10 - a ^ 10)
        + 223446.0334 * (b ^ 11 - a ^ 11) - 39032.85426 * (b ^ 12 - a ^ 12) := by
      unfold rho20; ring
    have d1 := pow_diff_le 1 h0 hab hb
    have d2 := pow_diff_le 2 h0 hab hb
    have d3 := pow_diff_le 3 h0 hab hb
    have d4 := pow_diff_le 4 h0 hab hb
    have d5 := pow_diff_le 5 h0 hab hb
    have d6 := pow_diff_le 6 h0 hab hb
    have d7 := pow_diff_le 7 h0 hab hb
    have d8 := pow_diff_le 8 h0 hab hb
    have d9 := pow_diff_le 9 h0 hab hb
    have d10 := pow_diff_le 10 h0 hab hb
    have d11 := pow_diff_le 11 h0 hab hb
    have d12 := pow_diff_le 12 h0 hab hb
    have e1 := pow_diff_nonneg 1 h0 hab
    have e2 := pow_diff_nonneg 2 h0 hab
    have e3 := pow_diff_nonneg 3 h0 hab
    have e4 := pow_diff_nonneg 4 h0 hab
    have e5 := pow_diff_nonneg 5 h0 hab
    have e6 := pow_diff_nonneg 6 h0 hab
    have e7 := pow_diff_nonneg 7 h0 hab
    have e8 := pow_diff_nonneg 8 h0 hab
    have e9 := pow_diff_nonneg 9 h0 hab
    have e10 := pow_diff_nonneg 10 h0 hab
    have e11 := pow_diff_nonneg 11 h0 hab
    have e12 := pow_diff_nonneg 12 h0 hab
    rw [hexp]
    push_cast at d1 d2 d3 d4 d5 d6 d7 d8 d9 d10 d11 d12
    norm_num
    linarith
  have hv : vq b - vq a = (b * rho20 b - a * rho20 a) / RHO_ETH_20 := by
    unfold vq
    rw [rho_p_t_at20, rho_p_t_at20]
    ring
  rw [hv, div_le_iff₀ RHO_ETH_20_pos]
  have : (29001 : ℚ) * (b - a) * RHO_ETH_20 = 22888749.24 * (b - a) := by
    norm_num [RHO_ETH_20]; ring
  rw [this]
  linarith

end Alquimista

namespace Alquimista

/-! ## Inner bisection: invariants of the `abvToMassFraction` loop -/

theorem abvIter_succ (T : ℚ) (n : ℕ) : abvIter T (n + 1) = abvStep T (abvIter T n) :=
  Function.iterate_succ_apply' (abvStep T) n (0, 1, 1/2)

theorem abvStep_eq (T : ℚ) (s : ℚ × ℚ × ℚ) :
    abvStep T s =
      if vq ((s.1 + s.2.1) / 2) < T then ((s.1 + s.2.1) / 2, s.2.1, (s.1 + s.2.1) / 2)
      else (s.1, (s.1 + s.2.1) / 2, (s.1 + s.2.1) / 2) := rfl

theorem abvIter_basic (T : ℚ) (n : ℕ) :
    0 ≤ (abvIter T n).1 ∧ (abvIter T n).1 < (abvIter T n).2.1 ∧ (abvIter T n).2.1 ≤ 1 ∧
      (abvIter T n).2.1 - (abvIter T n).1 = (1/2) ^ n := by
  induction n with
  | zero => norm_num [abvIter]
  | succ n ih =>
    obtain ⟨h0, h1, h2, h3⟩ := ih
    have hp : (1/2 : ℚ) ^ (n + 1) = (1/2) ^ n * (1/2) := pow_succ _ _
    rw [abvIter_succ, abvStep_eq]
    split_ifs with hc
    · exact ⟨by dsimp only; linarith, by dsimp only; linarith, by dsimp only; linarith,
        by dsimp only; linarith⟩
    · exact ⟨by dsimp only; linarith, by dsimp only; linarith, by dsimp only; linarith,
        by dsimp only; linarith⟩

theorem abvIter_p_mem (T : ℚ) (n : ℕ) (hn : n ≠ 0) :
    (abvIter T n).2.2 = (abvIter T n).1 ∨ (abvIter T n).2.2 = (abvIter T n).2.1 := by
  obtain ⟨m, rfl⟩ := Nat.exists_eq_succ_of_ne_zero hn
  rw [abvIter_succ, abvStep_eq]
  split_ifs
  · left; rfl
  · right; rfl

theorem abvIter_p_bounds (T : ℚ) (n : ℕ) (hn : n ≠ 0) :
    0 < (abvIter T n).2.2 ∧ (abvIter T n).2.2 < 1 := by
  obtain ⟨m, rfl⟩ := Nat.exists_eq_succ_of_ne_zero hn
  obtain ⟨h0, h1, h2, _⟩ := abvIter_basic T m
  rw [abvIter_succ, abvStep_eq]
  split_ifs
  · exact ⟨by dsimp only; linarith, by dsimp only; linarith⟩
  · exact ⟨by dsimp only; linarith, by dsimp only; linarith⟩

theorem vq_zero : vq 0 = 0 := by
  unfold vq; ring

theorem abvIter_target (T : ℚ) (hT0 : 0 < T) (hT1 : T ≤ vq 1) (n : ℕ) :
    vq (abvIter T n).1 < T ∧ T ≤ vq (abvIter T n).2.1 := by
  induction n with
  | zero =>
    constructor
    · show vq 0 < T
      rw [vq_zero]; exact hT0
    · exact hT1
  | succ n ih =>
    rw [abvIter_succ, abvStep_eq]
    split_ifs with hc
    · exact ⟨hc, ih.2⟩
    · exact ⟨ih.1, not_lt.1 hc⟩

theorem mfa_vq (p : ℚ) : massFractionToAbv p = 100 * vq p := by
  unfold massFractionToAbv vq; ring

set_option maxRecDepth 8000 in
theorem mfa_one_lt : massFractionToAbv 1 < 100 := by decide

set_option maxRecDepth 8000 in
theorem mfa_one_gt : (9999 : ℚ) / 100 < massFractionToAbv 1 := by decide

theorem abv_frac_else {abv : ℚ} (h0 : ¬ abv ≤ 0) (h1 : ¬ 100 ≤ abv) :
    abvToMassFraction abv = (abvIter (abv / 100) 40).2.2 := by
  rw [abvToMassFraction, if_neg h0, if_neg h1]; rfl

theorem abv_frac_nonneg (abv : ℚ) : 0 ≤ abvToMassFraction abv := by
  rw [abvToMassFraction]
  split_ifs with h0 h1
  · norm_num
  · norm_num
  · exact le_of_lt (abvIter_p_bounds (abv / 100) 40 (by norm_num)).1

theorem abv_frac_le_one (abv : ℚ) : abvToMassFraction abv ≤ 1 := by
  rw [abvToMassFraction]
  split_ifs with h0 h1
  · norm_num
  · norm_num
  · exact le_of_lt (abvIter_p_bounds (abv / 100) 40 (by norm_num)).2

theorem abv_frac_pos {abv : ℚ} (h : 0 < abv) : 0 < abvToMassFraction abv := by
  rw [abvToMassFraction, if_neg (not_le.2 h)]
  split_ifs with h1
  · norm_num
  · exact (abvIter_p_bounds (abv / 100) 40 (by norm_num)).1

theorem abv_frac_lt_one {abv : ℚ} (h : abv < 100) : abvToMassFraction abv < 1 := by
  rw [abvToMassFraction]
  split_ifs with h0 h1
  · norm_num
  · exact absurd h (not_lt.2 h1)
  · exact (abvIter_p_bounds (abv / 100) 40 (by norm_num)).2

/-- Round trip of the fraction converter away from the very top of the range:
the result of 40 fixed bisection iterations maps back within `3·10⁻⁶` ABV. -/
theorem roundTrip_bound {abv : ℚ} (h0 : 0 < abv) (h1 : abv ≤ massFractionToAbv 1) :
    |massFractionToAbv (abvToMassFraction abv) - abv| ≤ 3 / 1000000 := by
  have hne0 : ¬ abv ≤ 0 := not_le.2 h0
  have hne100 : ¬ 100 ≤ abv := not_le.2 (lt_of_le_of_lt h1 mfa_one_lt)
  have hf := abv_frac_else hne0 hne100
  obtain ⟨hl0, hlh, hh1, hw⟩ := abvIter_basic (abv / 100) 40
  have hT0 : 0 < abv / 100 := by positivity
  have hT1 : abv / 100 ≤ vq 1 := by
    have := mfa_vq 1
    linarith [h1]
  obtain ⟨ht1, ht2⟩ := abvIter_target (abv / 100) hT0 hT1 40
  have hlip : vq (abvIter (abv / 100) 40).2.1 - vq (abvIter (abv / 100) 40).1 ≤
      29001 * ((1/2) ^ 40) := by
    have h := vq_lip hl0 (le_of_lt hlh) hh1
    rw [hw] at h
    exact h
  have hmem := abvIter_p_mem (abv / 100) 40 (by norm_num)
  have hclose : |vq (abvIter (abv / 100) 40).2.2 - abv / 100| ≤ 29001 * ((1/2) ^ 40) := by
    rcases hmem with hp | hp
    · rw [hp, abs_of_neg (by linarith)]
      linarith
    · rw [hp, abs_of_nonneg (by linarith)]
      linarith
  rw [hf, mfa_vq]
  have : 100 * vq (abvIter (abv / 100) 40).2.2 - abv =
      100 * (vq (abvIter (abv / 100) 40).2.2 - abv / 100) := by ring
  rw [this, abs_mul, abs_of_pos (by norm_num : (0:ℚ) < 100)]
  have h100 : (100 : ℚ) * |vq (abvIter (abv / 100) 40).2.2 - abv / 100| ≤
      100 * (29001 * ((1/2) ^ 40)) := by
    have h100p : (0:ℚ) ≤ 100 := by norm_num
    exact mul_le_mul_of_nonneg_left hclose h100p
  refine le_trans h100 ?_
  norm_num

end Alquimista

namespace Alquimista

/-! ## Monotonicity of the bisection output in the target -/

theorem abvIter_rel (T1 T2 : ℚ) (h : T1 ≤ T2) (n : ℕ) :
    abvIter T1 n = abvIter T2 n ∨
      ((abvIter T1 n).2.1 ≤ (abvIter T2 n).1 ∧
        (abvIter T1 n).2.2 ≤ (abvIter T1 n).2.1 ∧
        (abvIter T2 n).1 ≤ (abvIter T2 n).2.2) := by
  induction n with
  | zero => left; rfl
  | succ n ih =>
    obtain ⟨b10, b1lt, b11, -⟩ := abvIter_basic T1 n
    obtain ⟨b20, b2lt, b21, -⟩ := abvIter_basic T2 n
    rcases ih with heq | ⟨hab, hpa, hpb⟩
    · rw [abvIter_succ, abvIter_succ, heq, abvStep_eq, abvStep_eq]
      split_ifs with hc1 hc2 hc2
      · left; rfl
      · exact absurd (lt_of_lt_of_le hc1 h) hc2
      · right
        refine ⟨le_refl _, le_refl _, le_refl _⟩
      · left; rfl
    · rw [abvIter_succ, abvIter_succ, abvStep_eq, abvStep_eq]
      right
      split_ifs with hc1 hc2 hc2
      · exact ⟨by dsimp only; linarith, by dsimp only; linarith, by dsimp only; linarith⟩
      · exact ⟨by dsimp only; linarith, by dsimp only; linarith, by dsimp only; linarith⟩
      · exact ⟨by dsimp only; linarith, by dsimp only; linarith, by dsimp only; linarith⟩
      · exact ⟨by dsimp only; linarith, by dsimp only; linarith, by dsimp only; linarith⟩

theorem abvIter_p_mono {T1 T2 : ℚ} (h : T1 ≤ T2) (n : ℕ) (hn : n ≠ 0) :
    (abvIter T1 n).2.2 ≤ (abvIter T2 n).2.2 := by
  rcases abvIter_rel T1 T2 h n with heq | ⟨hab, hpa, hpb⟩
  · rw [heq]
  · linarith

theorem abv_frac_mono {a b : ℚ} (h : a ≤ b) :
    abvToMassFraction a ≤ abvToMassFraction b := by
  rcases le_or_lt a 0 with ha | ha
  · have h0 : abvToMassFraction a = 0 := by rw [abvToMassFraction, if_pos ha]
    rw [h0]
    exact abv_frac_nonneg b
  · by_cases hb100 : 100 ≤ b
    · have hb : abvToMassFraction b = 1 := by
        rw [abvToMassFraction, if_neg (by linarith : ¬ b ≤ 0), if_pos hb100]
      rw [hb]
      exact abv_frac_le_one a
    · have ha100 : ¬ 100 ≤ a := fun hh => hb100 (le_trans hh h)
      rw [abv_frac_else (not_le.2 ha) ha100,
        abv_frac_else (not_le.2 (lt_of_lt_of_le ha h)) hb100]
      exact abvIter_p_mono (by linarith : a / 100 ≤ b / 100) 40 (by norm_num)

end Alquimista

namespace Alquimista

/-! ## `rho20` is strictly decreasing on `[0,1]`

`d10_neg_left` and `d10_neg_right` certify that the derivative of the
`A`-polynomial is at most `-1` on the two halves of `[0,1]` (stated as
`derivative + 1 ≤ 0`); the mean value inequality then gives strict
antitonicity over `ℝ`, transported back to `ℚ`. -/

set_option maxHeartbeats 1000000 in
theorem d10_neg_left {x : ℝ} (h1 : 0 ≤ x) (h2 : x ≤ 1/2) :
    -383953899/2000000 + 1945619479/2500000 * x ^ 1 - 5004311769/1000000 * x ^ 2 + 1352215441/25000 * x ^ 3 - 2207319597/5000 * x ^ 4 + 4594311063/2500 * x ^ 5 - 21484334319/5000 * x ^ 6 + 3735086499/625 * x ^ 7 - 24653076093/5000 * x ^ 8 + 1117230167/500 * x ^ 9 - 21468069843/50000 * x ^ 10 ≤ 0 := by
  have hA : (0:ℝ) ≤ x := h1
  have hB : (0:ℝ) ≤ (1/2 - x) := by linarith
  have key : (-383953899/2000000 + 1945619479/2500000 * x ^ 1 - 5004311769/1000000 * x ^ 2 + 1352215441/25000 * x ^ 3 - 2207319597/5000 * x ^ 4 + 4594311063/2500 * x ^ 5 - 21484334319/5000 * x ^ 6 + 3735086499/625 * x ^ 7 - 24653076093/5000 * x ^ 8 + 1117230167/500 * x ^ 9 - 21468069843/50000 * x ^ 10) * (1250000 : ℝ) = (-245730495360 : ℝ) * ((1/2 - x) ^ 10) + (-1959226366976 : ℝ) * (x ^ 1 * (1/2 - x) ^ 9) + (-8176544777664 : ℝ) * (x ^ 2 * (1/2 - x) ^ 8) + (-15713689630976 : ℝ) * (x ^ 3 * (1/2 - x) ^ 7) + (-29341297994624 : ℝ) * (x ^ 4 * (1/2 - x) ^ 6) + (-45499398850176 : ℝ) * (x ^ 5 * (1/2 - x) ^ 5) + (-46194982468576 : ℝ) * (x ^ 6 * (1/2 - x) ^ 4) + (-29670532363264 : ℝ) * (x ^ 7 * (1/2 - x) ^ 3) + (-11887802349576 : ℝ) * (x ^ 8 * (1/2 - x) ^ 2) + (-2749378820824 : ℝ) * (x ^ 9 * (1/2 - x) ^ 1) + (-282569692491 : ℝ) * (x ^ 10) := by ring
  have e0 : (-245730495360 : ℝ) * ((1/2 - x) ^ 10) ≤ 0 :=
    mul_nonpos_of_nonpos_of_nonneg (by norm_num) (pow_nonneg hB 10)
  have e1 : (-1959226366976 : ℝ) * (x ^ 1 * (1/2 - x) ^ 9) ≤ 0 :=
    mul_nonpos_of_nonpos_of_nonneg (by norm_num) (mul_nonneg (pow_nonneg hA 1) (pow_nonneg hB 9))
  have e2 : (-8176544777664 : ℝ) * (x ^ 2 * (1/2 - x) ^ 8) ≤ 0 :=
    mul_nonpos_of_nonpos_of_nonneg (by norm_num) (mul_nonneg (pow_nonneg hA 2) (pow_nonneg hB 8))
  have e3 : (-15713689630976 : ℝ) * (x ^ 3 * (1/2 - x) ^ 7) ≤ 0 :=
    mul_nonpos_of_nonpos_of_nonneg (by norm_num) (mul_nonneg (pow_nonneg hA 3) (pow_nonneg hB 7))
  have e4 : (-29341297994624 : ℝ) * (x ^ 4 * (1/2 - x) ^ 6) ≤ 0 :=
    mul_nonpos_of_nonpos_of_nonneg (by norm_num) (mul_nonneg (pow_nonneg hA 4) (pow_nonneg hB 6))
  have e5 : (-45499398850176 : ℝ) * (x ^ 5 * (1/2 - x) ^ 5) ≤ 0 :=
    mul_nonpos_of_nonpos_of_nonneg (by norm_num) (mul_nonneg (pow_nonneg hA 5) (pow_nonneg hB 5))
  have e6 : (-46194982468576 : ℝ) * (x ^ 6 * (1/2 - x) ^ 4) ≤ 0 :=
    mul_nonpos_of_nonpos_of_nonneg (by norm_num) (mul_nonneg (pow_nonneg hA 6) (pow_nonneg hB 4))
  have e7 : (-29670532363264 : ℝ) * (x ^ 7 * (1/2 - x) ^ 3) ≤ 0 :=
    mul_nonpos_of_nonpos_of_nonneg (by norm_num) (mul_nonneg (pow_nonneg hA 7) (pow_nonneg hB 3))
  have e8 : (-11887802349576 : ℝ) * (x ^ 8 * (1/2 - x) ^ 2) ≤ 0 :=
    mul_nonpos_of_nonpos_of_nonneg (by norm_num) (mul_nonneg (pow_nonneg hA 8) (pow_nonneg hB 2))
  have e9 : (-2749378820824 : ℝ) * (x ^ 9 * (1/2 - x) ^ 1) ≤ 0 :=
    mul_nonpos_of_nonpos_of_nonneg (by norm_num) (mul_nonneg (pow_nonneg hA 9) (pow_nonneg hB 1))
  have e10 : (-282569692491 : ℝ) * (x ^ 10) ≤ 0 :=
    mul_nonpos_of_nonpos_of_nonneg (by norm_num) (pow_nonneg hA 10)
  have hKD : (0:ℝ) < (1250000 : ℝ) := by norm_num
  have hmul : (-383953899/2000000 + 1945619479/2500000 * x ^ 1 - 5004311769/1000000 * x ^ 2 + 1352215441/25000 * x ^ 3 - 2207319597/5000 * x ^ 4 + 4594311063/2500 * x ^ 5 - 21484334319/5000 * x ^ 6 + 3735086499/625 * x ^ 7 - 24653076093/5000 * x ^ 8 + 1117230167/500 * x ^ 9 - 21468069843/50000 * x ^ 10) * (1250000 : ℝ) ≤ 0 * (1250000 : ℝ) := by
    rw [zero_mul, key]
    exact (add_nonpos (add_nonpos (add_nonpos (add_nonpos (add_nonpos (add_nonpos (add_nonpos (add_nonpos (add_nonpos (add_nonpos e0 e1) e2) e3) e4) e5) e6) e7) e8) e9) e10)
  exact le_of_mul_le_mul_right hmul hKD

set_option maxHeartbeats 1000000 in
theorem d10_neg_right {x : ℝ} (h1 : 1/2 ≤ x) (h2 : x ≤ 1) :
    -383953899/2000000 + 1945619479/2500000 * x ^ 1 - 5004311769/1000000 * x ^ 2 + 1352215441/25000 * x ^ 3 - 2207319597/5000 * x ^ 4 + 4594311063/2500 * x ^ 5 - 21484334319/5000 * x ^ 6 + 3735086499/625 * x ^ 7 - 24653076093/5000 * x ^ 8 + 1117230167/500 * x ^ 9 - 21468069843/50000 * x ^ 10 ≤ 0 := by
  have hA : (0:ℝ) ≤ (x - 1/2) := by linarith
  have hB : (0:ℝ) ≤ (1 - x) := by linarith
  have key : (-383953899/2000000 + 1945619479/2500000 * x ^ 1 - 5004311769/1000000 * x ^ 2 + 1352215441/25000 * x ^ 3 - 2207319597/5000 * x ^ 4 + 4594311063/2500 * x ^ 5 - 21484334319/5000 * x ^ 6 + 3735086499/625 * x ^ 7 - 24653076093/5000 * x ^ 8 + 1117230167/500 * x ^ 9 - 21468069843/50000 * x ^ 10) * (1250000 : ℝ) = (-282569692491 : ℝ) * ((1 - x) ^ 10) + (-2902015028996 : ℝ) * ((x - 1/2) ^ 1 * (1 - x) ^ 9) + (-13261528223124 : ℝ) * ((x - 1/2) ^ 2 * (1 - x) ^ 8) + (-35890659822656 : ℝ) * ((x - 1/2) ^ 3 * (1 - x) ^ 7) + (-64092991711424 : ℝ) * ((x - 1/2) ^ 4 * (1 - x) ^ 6) + (-78145422334848 : ℝ) * ((x - 1/2) ^ 5 * (1 - x) ^ 5) + (-64877088935296 : ℝ) * ((x - 1/2) ^ 6 * (1 - x) ^ 4) + (-37291558215424 : ℝ) * ((x - 1/2) ^ 7 * (1 - x) ^ 3) + (-15338756773056 : ℝ) * ((x - 1/2) ^ 8 * (1 - x) ^ 2) + (-3488068551424 : ℝ) * ((x - 1/2) ^ 9 * (1 - x) ^ 1) + (-401490364032 : ℝ) * ((x - 1/2) ^ 10) := by ring
  have e0 : (-282569692491 : ℝ) * ((1 - x) ^ 10) ≤ 0 :=
    mul_nonpos_of_nonpos_of_nonneg (by norm_num) (pow_nonneg hB 10)
  have e1 : (-2902015028996 : ℝ) * ((x - 1/2) ^ 1 * (1 - x) ^ 9) ≤ 0 :=
    mul_nonpos_of_nonpos_of_nonneg (by norm_num) (mul_nonneg (pow_nonneg hA 1) (pow_nonneg hB 9))
  have e2 : (-13261528223124 : ℝ) * ((x - 1/2) ^ 2 * (1 - x) ^ 8) ≤ 0 :=
    mul_nonpos_of_nonpos_of_nonneg (by norm_num) (mul_nonneg (pow_nonneg hA 2) (pow_nonneg hB 8))
  have e3 : (-35890659822656 : ℝ) * ((x - 1/2) ^ 3 * (1 - x) ^ 7) ≤ 0 :=
    mul_nonpos_of_nonpos_of_nonneg (by norm_num) (mul_nonneg (pow_nonneg hA 3) (pow_nonneg hB 7))
  have e4 : (-64092991711424 : ℝ) * ((x - 1/2) ^ 4 * (1 - x) ^ 6) ≤ 0 :=
    mul_nonpos_of_nonpos_of_nonneg (by norm_num) (mul_nonneg (pow_nonneg hA 4) (pow_nonneg hB 6))
  have e5 : (-78145422334848 : ℝ) * ((x - 1/2) ^ 5 * (1 - x) ^ 5) ≤ 0 :=
    mul_nonpos_of_nonpos_of_nonneg (by norm_num) (mul_nonneg (pow_nonneg hA 5) (pow_nonneg hB 5))
  have e6 : (-64877088935296 : ℝ) * ((x - 1/2) ^ 6 * (1 - x) ^ 4) ≤ 0 :=
    mul_nonpos_of_nonpos_of_nonneg (by norm_num) (mul_nonneg (pow_nonneg hA 6) (pow_nonneg hB 4))
  have e7 : (-37291558215424 : ℝ) * ((x - 1/2) ^ 7 * (1 - x) ^ 3) ≤ 0 :=
    mul_nonpos_of_nonpos_of_nonneg (by norm_num) (mul_nonneg (pow_nonneg hA 7) (pow_nonneg hB 3))
  have e8 : (-15338756773056 : ℝ) * ((x - 1/2) ^ 8 * (1 - x) ^ 2) ≤ 0 :=
    mul_nonpos_of_nonpos_of_nonneg (by norm_num) (mul_nonneg (pow_nonneg hA 8) (pow_nonneg hB 2))
  have e9 : (-3488068551424 : ℝ) * ((x - 1/2) ^ 9 * (1 - x) ^ 1) ≤ 0 :=
    mul_nonpos_of_nonpos_of_nonneg (by norm_num) (mul_nonneg (pow_nonneg hA 9) (pow_nonneg hB 1))
  have e10 : (-401490364032 : ℝ) * ((x - 1/2) ^ 10) ≤ 0 :=
    mul_nonpos_of_nonpos_of_nonneg (by norm_num) (pow_nonneg hA 10)
  have hKD : (0:ℝ) < (1250000 : ℝ) := by norm_num
  have hmul : (-383953899/2000000 + 1945619479/2500000 * x ^ 1 - 5004311769/1000000 * x ^ 2 + 1352215441/25000 * x ^ 3 - 2207319597/5000 * x ^ 4 + 4594311063/2500 * x ^ 5 - 21484334319/5000 * x ^ 6 + 3735086499/625 * x ^ 7 - 24653076093/5000 * x ^ 8 + 1117230167/500 * x ^ 9 - 21468069843/50000 * x ^ 10) * (1250000 : ℝ) ≤ 0 * (1250000 : ℝ) := by
    rw [zero_mul, key]
    exact (add_nonpos (add_nonpos (add_nonpos (add_nonpos (add_nonpos (add_nonpos (add_nonpos (add_nonpos (add_nonpos (add_nonpos e0 e1) e2) e3) e4) e5) e6) e7) e8) e9) e10)
  exact le_of_mul_le_mul_right hmul hKD

set_option maxHeartbeats 1000000 in
theorem rho20R_hasDerivAt (x : ℝ) :
    HasDerivAt (fun p : ℝ =>
      998.20123 - 192.9769495 * p ^ 1 + 389.1238958 * p ^ 2 - 1668.103923 * p ^ 3
      + 13522.15441 * p ^ 4 - 88292.78388 * p ^ 5 + 306287.4042 * p ^ 6 - 613838.1234 * p ^ 7
      + 747017.2998 * p ^ 8 - 547846.1354 * p ^ 9 + 223446.0334 * p ^ 10 - 39032.85426 * p ^ 11)
      (-385953899/2000000 + 1945619479/2500000 * x ^ 1 - 5004311769/1000000 * x ^ 2 + 1352215441/25000 * x ^ 3 - 2207319597/5000 * x ^ 4 + 4594311063/2500 * x ^ 5 - 21484334319/5000 * x ^ 6 + 3735086499/625 * x ^ 7 - 24653076093/5000 * x ^ 8 + 1117230167/500 * x ^ 9 - 21468069843/50000 * x ^ 10) x := by
  have t0 := hasDerivAt_const x ((998.20123 : ℚ) : ℝ)
  have t1 := (hasDerivAt_pow 1 x).const_mul ((192.9769495 : ℚ) : ℝ)
  have t2 := (hasDerivAt_pow 2 x).const_mul ((389.1238958 : ℚ) : ℝ)
  have t3 := (hasDerivAt_pow 3 x).const_mul ((1668.103923 : ℚ) : ℝ)
  have t4 := (hasDerivAt_pow 4 x).const_mul ((13522.15441 : ℚ) : ℝ)
  have t5 := (hasDerivAt_pow 5 x).const_mul ((88292.78388 : ℚ) : ℝ)
  have t6 := (hasDerivAt_pow 6 x).const_mul ((306287.4042 : ℚ) : ℝ)
  have t7 := (hasDerivAt_pow 7 x).const_mul ((613838.1234 : ℚ) : ℝ)
  have t8 := (hasDerivAt_pow 8 x).const_mul ((747017.2998 : ℚ) : ℝ)
  have t9 := (hasDerivAt_pow 9 x).const_mul ((547846.1354 : ℚ) : ℝ)
  have t10 := (hasDerivAt_pow 10 x).const_mul ((223446.0334 : ℚ) : ℝ)
  have t11 := (hasDerivAt_pow 11 x).const_mul ((39032.85426 : ℚ) : ℝ)
  have hchain := (((((((((((t0.sub t1).add t2).sub t3).add t4).sub t5).add t6).sub t7).add t8).sub t9).add t10).sub t11)
  convert hchain using 1
  push_cast
  ring

theorem d10_neg {x : ℝ} (h1 : 0 ≤ x) (h2 : x ≤ 1) :
    -385953899/2000000 + 1945619479/2500000 * x ^ 1 - 5004311769/1000000 * x ^ 2 + 1352215441/25000 * x ^ 3 - 2207319597/5000 * x ^ 4 + 4594311063/2500 * x ^ 5 - 21484334319/5000 * x ^ 6 + 3735086499/625 * x ^ 7 - 24653076093/5000 * x ^ 8 + 1117230167/500 * x ^ 9 - 21468069843/50000 * x ^ 10 < 0 := by
  rcases le_or_lt x (1/2) with hx | hx
  · have := d10_neg_left h1 hx
    linarith
  · have := d10_neg_right (le_of_lt hx) h2
    linarith

theorem rho20R_strictAnti :
    StrictAntiOn (fun p : ℝ =>
      998.20123 - 192.9769495 * p ^ 1 + 389.1238958 * p ^ 2 - 1668.103923 * p ^ 3
      + 13522.15441 * p ^ 4 - 88292.78388 * p ^ 5 + 306287.4042 * p ^ 6 - 613838.1234 * p ^ 7
      + 747017.2998 * p ^ 8 - 547846.1354 * p ^ 9 + 223446.0334 * p ^ 10 - 39032.85426 * p ^ 11)
      (Set.Icc 0 1) := by
  apply strictAntiOn_of_deriv_neg (convex_Icc 0 1)
  · exact fun x _ => (rho20R_hasDerivAt x).differentiableAt.continuousAt.continuousWithinAt
  · intro x hx
    rw [interior_Icc] at hx
    rw [(rho20R_hasDerivAt x).deriv]
    exact d10_neg (le_of_lt hx.1) (le_of_lt hx.2)

set_option maxHeartbeats 1000000 in
theorem rho20_cast (p : ℚ) :
    ((rho20 p : ℚ) : ℝ) =
      (fun p : ℝ =>
        998.20123 - 192.9769495 * p ^ 1 + 389.1238958 * p ^ 2 - 1668.103923 * p ^ 3
      + 13522.15441 * p ^ 4 - 88292.78388 * p ^ 5 + 306287.4042 * p ^ 6 - 613838.1234 * p ^ 7
      + 747017.2998 * p ^ 8 - 547846.1354 * p ^ 9 + 223446.0334 * p ^ 10 - 39032.85426 * p ^ 11) (p : ℝ) := by
  unfold rho20
  push_cast
  ring

theorem rho20_strict_anti {a b : ℚ} (h0 : 0 ≤ a) (hab : a < b) (hb : b ≤ 1) :
    rho20 b < rho20 a := by
  have ha : ((a : ℝ)) ∈ Set.Icc (0:ℝ) 1 := by
    constructor
    · exact_mod_cast h0
    · exact_mod_cast le_trans (le_of_lt hab) hb
  have hbm : ((b : ℝ)) ∈ Set.Icc (0:ℝ) 1 := by
    constructor
    · exact_mod_cast le_trans h0 (le_of_lt hab)
    · exact_mod_cast hb
  have h := rho20R_strictAnti ha hbm (by exact_mod_cast hab)
  have hcast : ((rho20 b : ℚ) : ℝ) < ((rho20 a : ℚ) : ℝ) := by
    rw [rho20_cast, rho20_cast]
    exact h
  exact_mod_cast hcast

theorem rho20_anti {a b : ℚ} (h0 : 0 ≤ a) (hab : a ≤ b) (hb : b ≤ 1) :
    rho20 b ≤ rho20 a := by
  rcases eq_or_lt_of_le hab with rfl | h
  · exact le_refl _
  · exact le_of_lt (rho20_strict_anti h0 h hb)

end Alquimista


namespace Alquimista

/-! ## Certificates: the density polynomial is non-increasing in each variable

The partial derivative of the polynomial with respect to the mass fraction is
certified nonpositive on `[0,1] × [-30,30]` (in `(p, Δt)`), and the partial
derivative with respect to temperature on `[0,1] × [-10,30]`, by nested
Bernstein-type certificates: first in the temperature offset, then in the
mass fraction. -/

set_option maxHeartbeats 1000000 in
theorem dpa_s0_l {p : ℝ} (h1 : 0 ≤ p) (h2 : p ≤ 1/2) :
    -99029930953811 + 402960613914200 * p ^ 1 - 2589359130245250 * p ^ 2 + 27297549612788000 * p ^ 3 - 221128462570695000 * p ^ 4 + 919212510159783000 * p ^ 5 - 2148433431900000000 * p ^ 6 + 2988069199200000000 * p ^ 7 - 2465307609300000000 * p ^ 8 + 1117230167000000000 * p ^ 9 - 214680698430000000 * p ^ 10 ≤ 0 := by
  have hA : (0:ℝ) ≤ p := h1
  have hB : (0:ℝ) ≤ (1/2 - p) := by linarith
  have key : (-99029930953811 + 402960613914200 * p ^ 1 - 2589359130245250 * p ^ 2 + 27297549612788000 * p ^ 3 - 221128462570695000 * p ^ 4 + 919212510159783000 * p ^ 5 - 2148433431900000000 * p ^ 6 + 2988069199200000000 * p ^ 7 - 2465307609300000000 * p ^ 8 + 1117230167000000000 * p ^ 9 - 214680698430000000 * p ^ 10) * (1 : ℝ) = (-101406649296702464 : ℝ) * ((1/2 - p) ^ 10) + (-807750658642954240 : ℝ) * (p ^ 1 * (1/2 - p) ^ 9) + (-3369332646777761280 : ℝ) * (p ^ 2 * (1/2 - p) ^ 8) + (-6550349028243169280 : ℝ) * (p ^ 3 * (1/2 - p) ^ 7) + (-12219009666149987840 : ℝ) * (p ^ 4 * (1/2 - p) ^ 6) + (-18802448931991734528 : ℝ) * (p ^ 5 * (1/2 - p) ^ 5) + (-18992151928881207040 : ℝ) * (p ^ 6 * (1/2 - p) ^ 4) + (-12157912945647086080 : ℝ) * (p ^ 7 * (1/2 - p) ^ 3) + (-4853142004645524480 : ℝ) * (p ^ 8 * (1/2 - p) ^ 2) + (-1115034432516215040 : ℝ) * (p ^ 9 * (1/2 - p) ^ 1) + (-113133799719976064 : ℝ) * (p ^ 10) := by ring
  have e0 : (-101406649296702464 : ℝ) * ((1/2 - p) ^ 10) ≤ 0 :=
    mul_nonpos_of_nonpos_of_nonneg (by norm_num) (pow_nonneg hB 10)
  have e1 : (-807750658642954240 : ℝ) * (p ^ 1 * (1/2 - p) ^ 9) ≤ 0 :=
    mul_nonpos_of_nonpos_of_nonneg (by norm_num) (mul_nonneg (pow_nonneg hA 1) (pow_nonneg hB 9))
  have e2 : (-3369332646777761280 : ℝ) * (p ^ 2 * (1/2 - p) ^ 8) ≤ 0 :=
    mul_nonpos_of_nonpos_of_nonneg (by norm_num) (mul_nonneg (pow_nonneg hA 2) (pow_nonneg hB 8))
  have e3 : (-6550349028243169280 : ℝ) * (p ^ 3 * (1/2 - p) ^ 7) ≤ 0 :=
    mul_nonpos_of_nonpos_of_nonneg (by norm_num) (mul_nonneg (pow_nonneg hA 3) (pow_nonneg hB 7))
  have e4 : (-12219009666149987840 : ℝ) * (p ^ 4 * (1/2 - p) ^ 6) ≤ 0 :=
    mul_nonpos_of_nonpos_of_nonneg (by norm_num) (mul_nonneg (pow_nonneg hA 4) (pow_nonneg hB 6))
  have e5 : (-18802448931991734528 : ℝ) * (p ^ 5 * (1/2 - p) ^ 5) ≤ 0 :=
    mul_nonpos_of_nonpos_of_nonneg (by norm_num) (mul_nonneg (pow_nonneg hA 5) (pow_nonneg hB 5))
  have e6 : (-18992151928881207040 : ℝ) * (p ^ 6 * (1/2 - p) ^ 4) ≤ 0 :=
    mul_nonpos_of_nonpos_of_nonneg (by norm_num) (mul_nonneg (pow_nonneg hA 6) (pow_nonneg hB 4))
  have e7 : (-12157912945647086080 : ℝ) * (p ^ 7 * (1/2 - p) ^ 3) ≤ 0 :=
    mul_nonpos_of_nonpos_of_nonneg (by norm_num) (mul_nonneg (pow_nonneg hA 7) (pow_nonneg hB 3))
  have e8 : (-4853142004645524480 : ℝ) * (p ^ 8 * (1/2 - p) ^ 2) ≤ 0 :=
    mul_nonpos_of_nonpos_of_nonneg (by norm_num) (mul_nonneg (pow_nonneg hA 8) (pow_nonneg hB 2))
  have e9 : (-1115034432516215040 : ℝ) * (p ^ 9 * (1/2 - p) ^ 1) ≤ 0 :=
    mul_nonpos_of_nonpos_of_nonneg (by norm_num) (mul_nonneg (pow_nonneg hA 9) (pow_nonneg hB 1))
  have e10 : (-113133799719976064 : ℝ) * (p ^ 10) ≤ 0 :=
    mul_nonpos_of_nonpos_of_nonneg (by norm_num) (pow_nonneg hA 10)
  have hKD : (0:ℝ) < (1 : ℝ) := by norm_num
  have hmul : (-99029930953811 + 402960613914200 * p ^ 1 - 2589359130245250 * p ^ 2 + 27297549612788000 * p ^ 3 - 221128462570695000 * p ^ 4 + 919212510159783000 * p ^ 5 - 2148433431900000000 * p ^ 6 + 2988069199200000000 * p ^ 7 - 2465307609300000000 * p ^ 8 + 1117230167000000000 * p ^ 9 - 214680698430000000 * p ^ 10) * (1 : ℝ) ≤ 0 * (1 : ℝ) := by
    rw [zero_mul, key]
    exact (add_nonpos (add_nonpos (add_nonpos (add_nonpos (add_nonpos (add_nonpos (add_nonpos (add_nonpos (add_nonpos (add_nonpos e0 e1) e2) e3) e4) e5) e6) e7) e8) e9) e10)
  exact le_of_mul_le_mul_right hmul hKD

set_option maxHeartbeats 1000000 in
theorem dpa_s0_r {p : ℝ} (h1 : 1/2 ≤ p) (h2 : p ≤ 1) :
    -99029930953811 + 402960613914200 * p ^ 1 - 2589359130245250 * p ^ 2 + 27297549612788000 * p ^ 3 - 221128462570695000 * p ^ 4 + 919212510159783000 * p ^ 5 - 2148433431900000000 * p ^ 6 + 2988069199200000000 * p ^ 7 - 2465307609300000000 * p ^ 8 + 1117230167000000000 * p ^ 9 - 214680698430000000 * p ^ 10 ≤ 0 := by
  have hA : (0:ℝ) ≤ (p - 1/2) := by linarith
  have hB : (0:ℝ) ≤ (1 - p) := by linarith
  have key : (-99029930953811 + 402960613914200 * p ^ 1 - 2589359130245250 * p ^ 2 + 27297549612788000 * p ^ 3 - 221128462570695000 * p ^ 4 + 919212510159783000 * p ^ 5 - 2148433431900000000 * p ^ 6 + 2988069199200000000 * p ^ 7 - 2465307609300000000 * p ^ 8 + 1117230167000000000 * p ^ 9 - 214680698430000000 * p ^ 10) * (1 : ℝ) = (-113133799719976064 : ℝ) * ((1 - p) ^ 10) + (-1147641561883306240 : ℝ) * ((p - 1/2) ^ 1 * (1 - p) ^ 9) + (-5146606168949345280 : ℝ) * ((p - 1/2) ^ 2 * (1 - p) ^ 8) + (-13535848577523361280 : ℝ) * ((p - 1/2) ^ 3 * (1 - p) ^ 7) + (-23159703618343811840 : ℝ) * ((p - 1/2) ^ 4 * (1 - p) ^ 6) + (-26447849850619945728 : ℝ) * ((p - 1/2) ^ 5 * (1 - p) ^ 5) + (-19726492832007639040 : ℝ) * ((p - 1/2) ^ 6 * (1 - p) ^ 4) + (-9557356896352430080 : ℝ) * ((p - 1/2) ^ 7 * (1 - p) ^ 3) + (-3179699426412756480 : ℝ) * ((p - 1/2) ^ 8 * (1 - p) ^ 2) + (-449091848243159040 : ℝ) * ((p - 1/2) ^ 9 * (1 - p) ^ 1) + (-26833587618673664 : ℝ) * ((p - 1/2) ^ 10) := by ring
  have e0 : (-113133799719976064 : ℝ) * ((1 - p) ^ 10) ≤ 0 :=
    mul_nonpos_of_nonpos_of_nonneg (by norm_num) (pow_nonneg hB 10)
  have e1 : (-1147641561883306240 : ℝ) * ((p - 1/2) ^ 1 * (1 - p) ^ 9) ≤ 0 :=
    mul_nonpos_of_nonpos_of_nonneg (by norm_num) (mul_nonneg (pow_nonneg hA 1) (pow_nonneg hB 9))
  have e2 : (-5146606168949345280 : ℝ) * ((p - 1/2) ^ 2 * (1 - p) ^ 8) ≤ 0 :=
    mul_nonpos_of_nonpos_of_nonneg (by norm_num) (mul_nonneg (pow_nonneg hA 2) (pow_nonneg hB 8))
  have e3 : (-13535848577523361280 : ℝ) * ((p - 1/2) ^ 3 * (1 - p) ^ 7) ≤ 0 :=
    mul_nonpos_of_nonpos_of_nonneg (by norm_num) (mul_nonneg (pow_nonneg hA 3) (pow_nonneg hB 7))
  have e4 : (-23159703618343811840 : ℝ) * ((p - 1/2) ^ 4 * (1 - p) ^ 6) ≤ 0 :=
    mul_nonpos_of_nonpos_of_nonneg (by norm_num) (mul_nonneg (pow_nonneg hA 4) (pow_nonneg hB 6))
  have e5 : (-26447849850619945728 : ℝ) * ((p - 1/2) ^ 5 * (1 - p) ^ 5) ≤ 0 :=
    mul_nonpos_of_nonpos_of_nonneg (by norm_num) (mul_nonneg (pow_nonneg hA 5) (pow_nonneg hB 5))
  have e6 : (-19726492832007639040 : ℝ) * ((p - 1/2) ^ 6 * (1 - p) ^ 4) ≤ 0 :=
    mul_nonpos_of_nonpos_of_nonneg (by norm_num) (mul_nonneg (pow_nonneg hA 6) (pow_nonneg hB 4))
  have e7 : (-9557356896352430080 : ℝ) * ((p - 1/2) ^ 7 * (1 - p) ^ 3) ≤ 0 :=
    mul_nonpos_of_nonpos_of_nonneg (by norm_num) (mul_nonneg (pow_nonneg hA 7) (pow_nonneg hB 3))
  have e8 : (-3179699426412756480 : ℝ) * ((p - 1/2) ^ 8 * (1 - p) ^ 2) ≤ 0 :=
    mul_nonpos_of_nonpos_of_nonneg (by norm_num) (mul_nonneg (pow_nonneg hA 8) (pow_nonneg hB 2))
  have e9 : (-449091848243159040 : ℝ) * ((p - 1/2) ^ 9 * (1 - p) ^ 1) ≤ 0 :=
    mul_nonpos_of_nonpos_of_nonneg (by norm_num) (mul_nonneg (pow_nonneg hA 9) (pow_nonneg hB 1))
  have e10 : (-26833587618673664 : ℝ) * ((p - 1/2) ^ 10) ≤ 0 :=
    mul_nonpos_of_nonpos_of_nonneg (by norm_num) (pow_nonneg hA 10)
  have hKD : (0:ℝ) < (1 : ℝ) := by norm_num
  have hmul : (-99029930953811 + 402960613914200 * p ^ 1 - 2589359130245250 * p ^ 2 + 27297549612788000 * p ^ 3 - 221128462570695000 * p ^ 4 + 919212510159783000 * p ^ 5 - 2148433431900000000 * p ^ 6 + 2988069199200000000 * p ^ 7 - 2465307609300000000 * p ^ 8 + 1117230167000000000 * p ^ 9 - 214680698430000000 * p ^ 10) * (1 : ℝ) ≤ 0 * (1 : ℝ) := by
    rw [zero_mul, key]
    exact (add_nonpos (add_nonpos (add_nonpos (add_nonpos (add_nonpos (add_nonpos (add_nonpos (add_nonpos (add_nonpos (add_nonpos e0 e1) e2) e3) e4) e5) e6) e7) e8) e9) e10)
  exact le_of_mul_le_mul_right hmul hKD

theorem dpa_s0 {p : ℝ} (h1 : 0 ≤ p) (h2 : p ≤ 1) :
    -99029930953811 + 402960613914200 * p ^ 1 - 2589359130245250 * p ^ 2 + 27297549612788000 * p ^ 3 - 221128462570695000 * p ^ 4 + 919212510159783000 * p ^ 5 - 2148433431900000000 * p ^ 6 + 2988069199200000000 * p ^ 7 - 2465307609300000000 * p ^ 8 + 1117230167000000000 * p ^ 9 - 214680698430000000 * p ^ 10 ≤ 0 := by
  rcases le_or_lt p (1/2) with h | h
  · exact dpa_s0_l h1 h
  · exact dpa_s0_r (le_of_lt h) h2

set_option maxHeartbeats 1000000 in
theorem dpa_s1_l {p : ℝ} (h1 : 0 ≤ p) (h2 : p ≤ 1/2) :
    -492581467464265 + 1986463944190000 * p ^ 1 - 12752763351390000 * p ^ 2 + 135869018900980000 * p ^ 3 - 1104542488174425000 * p ^ 4 + 4594965569276040000 * p ^ 5 - 10742167159500000000 * p ^ 6 + 14940345996000000000 * p ^ 7 - 12326538046500000000 * p ^ 8 + 5586150835000000000 * p ^ 9 - 1073403492150000000 * p ^ 10 ≤ 0 := by
  have hA : (0:ℝ) ≤ p := h1
  have hB : (0:ℝ) ≤ (1/2 - p) := by linarith
  have key : (-492581467464265 + 1986463944190000 * p ^ 1 - 12752763351390000 * p ^ 2 + 135869018900980000 * p ^ 3 - 1104542488174425000 * p ^ 4 + 4594965569276040000 * p ^ 5 - 10742167159500000000 * p ^ 6 + 14940345996000000000 * p ^ 7 - 12326538046500000000 * p ^ 8 + 5586150835000000000 * p ^ 9 - 1073403492150000000 * p ^ 10) * (1 : ℝ) = (-504403422683407360 : ℝ) * ((1/2 - p) ^ 10) + (-4026964687408793600 : ℝ) * (p ^ 1 * (1/2 - p) ^ 9) + (-16809235583881651200 : ℝ) * (p ^ 2 * (1/2 - p) ^ 8) + (-32640332227020083200 : ℝ) * (p ^ 3 * (1/2 - p) ^ 7) + (-60854763462440665600 : ℝ) * (p ^ 4 * (1/2 - p) ^ 6) + (-93672010390472094720 : ℝ) * (p ^ 5 * (1/2 - p) ^ 5) + (-94651243491730265600 : ℝ) * (p ^ 6 * (1/2 - p) ^ 4) + (-60626313074353203200 : ℝ) * (p ^ 7 * (1/2 - p) ^ 3) + (-24237237571487731200 : ℝ) * (p ^ 8 * (1/2 - p) ^ 2) + (-5589648161187993600 : ℝ) * (p ^ 9 * (1/2 - p) ^ 1) + (-571788500368447360 : ℝ) * (p ^ 10) := by ring
  have e0 : (-504403422683407360 : ℝ) * ((1/2 - p) ^ 10) ≤ 0 :=
    mul_nonpos_of_nonpos_of_nonneg (by norm_num) (pow_nonneg hB 10)
  have e1 : (-4026964687408793600 : ℝ) * (p ^ 1 * (1/2 - p) ^ 9) ≤ 0 :=
    mul_nonpos_of_nonpos_of_nonneg (by norm_num) (mul_nonneg (pow_nonneg hA 1) (pow_nonneg hB 9))
  have e2 : (-16809235583881651200 : ℝ) * (p ^ 2 * (1/2 - p) ^ 8) ≤ 0 :=
    mul_nonpos_of_nonpos_of_nonneg (by norm_num) (mul_nonneg (pow_nonneg hA 2) (pow_nonneg hB 8))
  have e3 : (-32640332227020083200 : ℝ) * (p ^ 3 * (1/2 - p) ^ 7) ≤ 0 :=
    mul_nonpos_of_nonpos_of_nonneg (by norm_num) (mul_nonneg (pow_nonneg hA 3) (pow_nonneg hB 7))
  have e4 : (-60854763462440665600 : ℝ) * (p ^ 4 * (1/2 - p) ^ 6) ≤ 0 :=
    mul_nonpos_of_nonpos_of_nonneg (by norm_num) (mul_nonneg (pow_nonneg hA 4) (pow_nonneg hB 6))
  have e5 : (-93672010390472094720 : ℝ) * (p ^ 5 * (1/2 - p) ^ 5) ≤ 0 :=
    mul_nonpos_of_nonpos_of_nonneg (by norm_num) (mul_nonneg (pow_nonneg hA 5) (pow_nonneg hB 5))
  have e6 : (-94651243491730265600 : ℝ) * (p ^ 6 * (1/2 - p) ^ 4) ≤ 0 :=
    mul_nonpos_of_nonpos_of_nonneg (by norm_num) (mul_nonneg (pow_nonneg hA 6) (pow_nonneg hB 4))
  have e7 : (-60626313074353203200 : ℝ) * (p ^ 7 * (1/2 - p) ^ 3) ≤ 0 :=
    mul_nonpos_of_nonpos_of_nonneg (by norm_num) (mul_nonneg (pow_nonneg hA 7) (pow_nonneg hB 3))
  have e8 : (-24237237571487731200 : ℝ) * (p ^ 8 * (1/2 - p) ^ 2) ≤ 0 :=
    mul_nonpos_of_nonpos_of_nonneg (by norm_num) (mul_nonneg (pow_nonneg hA 8) (pow_nonneg hB 2))
  have e9 : (-5589648161187993600 : ℝ) * (p ^ 9 * (1/2 - p) ^ 1) ≤ 0 :=
    mul_nonpos_of_nonpos_of_nonneg (by norm_num) (mul_nonneg (pow_nonneg hA 9) (pow_nonneg hB 1))
  have e10 : (-571788500368447360 : ℝ) * (p ^ 10) ≤ 0 :=
    mul_nonpos_of_nonpos_of_nonneg (by norm_num) (pow_nonneg hA 10)
  have hKD : (0:ℝ) < (1 : ℝ) := by norm_num
  have hmul : (-492581467464265 + 1986463944190000 * p ^ 1 - 12752763351390000 * p ^ 2 + 135869018900980000 * p ^ 3 - 1104542488174425000 * p ^ 4 + 4594965569276040000 * p ^ 5 - 10742167159500000000 * p ^ 6 + 14940345996000000000 * p ^ 7 - 12326538046500000000 * p ^ 8 + 5586150835000000000 * p ^ 9 - 1073403492150000000 * p ^ 10) * (1 : ℝ) ≤ 0 * (1 : ℝ) := by
    rw [zero_mul, key]
    exact (add_nonpos (add_nonpos (add_nonpos (add_nonpos (add_nonpos (add_nonpos (add_nonpos (add_nonpos (add_nonpos (add_nonpos e0 e1) e2) e3) e4) e5) e6) e7) e8) e9) e10)
  exact le_of_mul_le_mul_right hmul hKD

set_option maxHeartbeats 1000000 in
theorem dpa_s1_r {p : ℝ} (h1 : 1/2 ≤ p) (h2 : p ≤ 1) :
    -492581467464265 + 1986463944190000 * p ^ 1 - 12752763351390000 * p ^ 2 + 135869018900980000 * p ^ 3 - 1104542488174425000 * p ^ 4 + 4594965569276040000 * p ^ 5 - 10742167159500000000 * p ^ 6 + 14940345996000000000 * p ^ 7 - 12326538046500000000 * p ^ 8 + 5586150835000000000 * p ^ 9 - 1073403492150000000 * p ^ 10 ≤ 0 := by
  have hA : (0:ℝ) ≤ (p - 1/2) := by linarith
  have hB : (0:ℝ) ≤ (1 - p) := by linarith
  have key : (-492581467464265 + 1986463944190000 * p ^ 1 - 12752763351390000 * p ^ 2 + 135869018900980000 * p ^ 3 - 1104542488174425000 * p ^ 4 + 4594965569276040000 * p ^ 5 - 10742167159500000000 * p ^ 6 + 14940345996000000000 * p ^ 7 - 12326538046500000000 * p ^ 8 + 5586150835000000000 * p ^ 9 - 1073403492150000000 * p ^ 10) * (1 : ℝ) = (-571788500368447360 : ℝ) * ((1 - p) ^ 10) + (-5846121846180953600 : ℝ) * ((p - 1/2) ^ 1 * (1 - p) ^ 9) + (-26545500736424371200 : ℝ) * ((p - 1/2) ^ 2 * (1 - p) ^ 8) + (-71177113212088883200 : ℝ) * ((p - 1/2) ^ 3 * (1 - p) ^ 7) + (-125419265377062745600 : ℝ) * ((p - 1/2) ^ 4 * (1 - p) ^ 6) + (-149986819307290014720 : ℝ) * ((p - 1/2) ^ 5 * (1 - p) ^ 5) + (-120923747350840025600 : ℝ) * ((p - 1/2) ^ 6 * (1 - p) ^ 4) + (-66633576111382323200 : ℝ) * ((p - 1/2) ^ 7 * (1 - p) ^ 3) + (-26171311728734131200 : ℝ) * ((p - 1/2) ^ 8 * (1 - p) ^ 2) + (-5507115298936473600 : ℝ) * ((p - 1/2) ^ 9 * (1 - p) ^ 1) + (-592535574598927360 : ℝ) * ((p - 1/2) ^ 10) := by ring
  have e0 : (-571788500368447360 : ℝ) * ((1 - p) ^ 10) ≤ 0 :=
    mul_nonpos_of_nonpos_of_nonneg (by norm_num) (pow_nonneg hB 10)
  have e1 : (-5846121846180953600 : ℝ) * ((p - 1/2) ^ 1 * (1 - p) ^ 9) ≤ 0 :=
    mul_nonpos_of_nonpos_of_nonneg (by norm_num) (mul_nonneg (pow_nonneg hA 1) (pow_nonneg hB 9))
  have e2 : (-26545500736424371200 : ℝ) * ((p - 1/2) ^ 2 * (1 - p) ^ 8) ≤ 0 :=
    mul_nonpos_of_nonpos_of_nonneg (by norm_num) (mul_nonneg (pow_nonneg hA 2) (pow_nonneg hB 8))
  have e3 : (-71177113212088883200 : ℝ) * ((p - 1/2) ^ 3 * (1 - p) ^ 7) ≤ 0 :=
    mul_nonpos_of_nonpos_of_nonneg (by norm_num) (mul_nonneg (pow_nonneg hA 3) (pow_nonneg hB 7))
  have e4 : (-125419265377062745600 : ℝ) * ((p - 1/2) ^ 4 * (1 - p) ^ 6) ≤ 0 :=
    mul_nonpos_of_nonpos_of_nonneg (by norm_num) (mul_nonneg (pow_nonneg hA 4) (pow_nonneg hB 6))
  have e5 : (-149986819307290014720 : ℝ) * ((p - 1/2) ^ 5 * (1 - p) ^ 5) ≤ 0 :=
    mul_nonpos_of_nonpos_of_nonneg (by norm_num) (mul_nonneg (pow_nonneg hA 5) (pow_nonneg hB 5))
  have e6 : (-120923747350840025600 : ℝ) * ((p - 1/2) ^ 6 * (1 - p) ^ 4) ≤ 0 :=
    mul_nonpos_of_nonpos_of_nonneg (by norm_num) (mul_nonneg (pow_nonneg hA 6) (pow_nonneg hB 4))
  have e7 : (-66633576111382323200 : ℝ) * ((p - 1/2) ^ 7 * (1 - p) ^ 3) ≤ 0 :=
    mul_nonpos_of_nonpos_of_nonneg (by norm_num) (mul_nonneg (pow_nonneg hA 7) (pow_nonneg hB 3))
  have e8 : (-26171311728734131200 : ℝ) * ((p - 1/2) ^ 8 * (1 - p) ^ 2) ≤ 0 :=
    mul_nonpos_of_nonpos_of_nonneg (by norm_num) (mul_nonneg (pow_nonneg hA 8) (pow_nonneg hB 2))
  have e9 : (-5507115298936473600 : ℝ) * ((p - 1/2) ^ 9 * (1 - p) ^ 1) ≤ 0 :=
    mul_nonpos_of_nonpos_of_nonneg (by norm_num) (mul_nonneg (pow_nonneg hA 9) (pow_nonneg hB 1))
  have e10 : (-592535574598927360 : ℝ) * ((p - 1/2) ^ 10) ≤ 0 :=
    mul_nonpos_of_nonpos_of_nonneg (by norm_num) (pow_nonneg hA 10)
  have hKD : (0:ℝ) < (1 : ℝ) := by norm_num
  have hmul : (-492581467464265 + 1986463944190000 * p ^ 1 - 12752763351390000 * p ^ 2 + 135869018900980000 * p ^ 3 - 1104542488174425000 * p ^ 4 + 4594965569276040000 * p ^ 5 - 10742167159500000000 * p ^ 6 + 14940345996000000000 * p ^ 7 - 12326538046500000000 * p ^ 8 + 5586150835000000000 * p ^ 9 - 1073403492150000000 * p ^ 10) * (1 : ℝ) ≤ 0 * (1 : ℝ) := by
    rw [zero_mul, key]
    exact (add_nonpos (add_nonpos (add_nonpos (add_nonpos (add_nonpos (add_nonpos (add_nonpos (add_nonpos (add_nonpos (add_nonpos e0 e1) e2) e3) e4) e5) e6) e7) e8) e9) e10)
  exact le_of_mul_le_mul_right hmul hKD

theorem dpa_s1 {p : ℝ} (h1 : 0 ≤ p) (h2 : p ≤ 1) :
    -492581467464265 + 1986463944190000 * p ^ 1 - 12752763351390000 * p ^ 2 + 135869018900980000 * p ^ 3 - 1104542488174425000 * p ^ 4 + 4594965569276040000 * p ^ 5 - 10742167159500000000 * p ^ 6 + 14940345996000000000 * p ^ 7 - 12326538046500000000 * p ^ 8 + 5586150835000000000 * p ^ 9 - 1073403492150000000 * p ^ 10 ≤ 0 := by
  rcases le_or_lt p (1/2) with h | h
  · exact dpa_s1_l h1 h
  · exact dpa_s1_r (le_of_lt h) h2

set_option maxHeartbeats 1000000 in
theorem dpa_s2_l {p : ℝ} (h1 : 0 ≤ p) (h2 : p ≤ 1/2) :
    -980104489968050 + 3939659543810000 * p ^ 1 - 25293087697725000 * p ^ 2 + 271119703568600000 * p ^ 3 - 2208107525622750000 * p ^ 4 + 9189075243906900000 * p ^ 5 - 21484334319000000000 * p ^ 6 + 29880691992000000000 * p ^ 7 - 24653076093000000000 * p ^ 8 + 11172301670000000000 * p ^ 9 - 2146806984300000000 * p ^ 10 ≤ 0 := by
  have hA : (0:ℝ) ≤ p := h1
  have hB : (0:ℝ) ≤ (1/2 - p) := by linarith
  have key : (-980104489968050 + 3939659543810000 * p ^ 1 - 25293087697725000 * p ^ 2 + 271119703568600000 * p ^ 3 - 2208107525622750000 * p ^ 4 + 9189075243906900000 * p ^ 5 - 21484334319000000000 * p ^ 6 + 29880691992000000000 * p ^ 7 - 24653076093000000000 * p ^ 8 + 11172301670000000000 * p ^ 9 - 2146806984300000000 * p ^ 10) * (1 : ℝ) = (-1003626997727283200 : ℝ) * ((1/2 - p) ^ 10) + (-8019164290842112000 : ℝ) * (p ^ 1 * (1/2 - p) ^ 9) + (-33484294170468864000 : ℝ) * (p ^ 2 * (1/2 - p) ^ 8) + (-64916356563928064000 : ℝ) * (p ^ 3 * (1/2 - p) ^ 7) + (-121021271722232192000 : ℝ) * (p ^ 4 * (1/2 - p) ^ 6) + (-186453511013308646400 : ℝ) * (p ^ 5 * (1/2 - p) ^ 5) + (-188522747265098752000 : ℝ) * (p ^ 6 * (1/2 - p) ^ 4) + (-120809210541263104000 : ℝ) * (p ^ 7 * (1/2 - p) ^ 3) + (-48329437346749824000 : ℝ) * (p ^ 8 * (1/2 - p) ^ 2) + (-11161352832903552000 : ℝ) * (p ^ 9 * (1/2 - p) ^ 1) + (-1145024724268563200 : ℝ) * (p ^ 10) := by ring
  have e0 : (-1003626997727283200 : ℝ) * ((1/2 - p) ^ 10) ≤ 0 :=
    mul_nonpos_of_nonpos_of_nonneg (by norm_num) (pow_nonneg hB 10)
  have e1 : (-8019164290842112000 : ℝ) * (p ^ 1 * (1/2 - p) ^ 9) ≤ 0 :=
    mul_nonpos_of_nonpos_of_nonneg (by norm_num) (mul_nonneg (pow_nonneg hA 1) (pow_nonneg hB 9))
  have e2 : (-33484294170468864000 : ℝ) * (p ^ 2 * (1/2 - p) ^ 8) ≤ 0 :=
    mul_nonpos_of_nonpos_of_nonneg (by norm_num) (mul_nonneg (pow_nonneg hA 2) (pow_nonneg hB 8))
  have e3 : (-64916356563928064000 : ℝ) * (p ^ 3 * (1/2 - p) ^ 7) ≤ 0 :=
    mul_nonpos_of_nonpos_of_nonneg (by norm_num) (mul_nonneg (pow_nonneg hA 3) (pow_nonneg hB 7))
  have e4 : (-121021271722232192000 : ℝ) * (p ^ 4 * (1/2 - p) ^ 6) ≤ 0 :=
    mul_nonpos_of_nonpos_of_nonneg (by norm_num) (mul_nonneg (pow_nonneg hA 4) (pow_nonneg hB 6))
  have e5 : (-186453511013308646400 : ℝ) * (p ^ 5 * (1/2 - p) ^ 5) ≤ 0 :=
    mul_nonpos_of_nonpos_of_nonneg (by norm_num) (mul_nonneg (pow_nonneg hA 5) (pow_nonneg hB 5))
  have e6 : (-188522747265098752000 : ℝ) * (p ^ 6 * (1/2 - p) ^ 4) ≤ 0 :=
    mul_nonpos_of_nonpos_of_nonneg (by norm_num) (mul_nonneg (pow_nonneg hA 6) (pow_nonneg hB 4))
  have e7 : (-120809210541263104000 : ℝ) * (p ^ 7 * (1/2 - p) ^ 3) ≤ 0 :=
    mul_nonpos_of_nonpos_of_nonneg (by norm_num) (mul_nonneg (pow_nonneg hA 7) (pow_nonneg hB 3))
  have e8 : (-48329437346749824000 : ℝ) * (p ^ 8 * (1/2 - p) ^ 2) ≤ 0 :=
    mul_nonpos_of_nonpos_of_nonneg (by norm_num) (mul_nonneg (pow_nonneg hA 8) (pow_nonneg hB 2))
  have e9 : (-11161352832903552000 : ℝ) * (p ^ 9 * (1/2 - p) ^ 1) ≤ 0 :=
    mul_nonpos_of_nonpos_of_nonneg (by norm_num) (mul_nonneg (pow_nonneg hA 9) (pow_nonneg hB 1))
  have e10 : (-1145024724268563200 : ℝ) * (p ^ 10) ≤ 0 :=
    mul_nonpos_of_nonpos_of_nonneg (by norm_num) (pow_nonneg hA 10)
  have hKD : (0:ℝ) < (1 : ℝ) := by norm_num
  have hmul : (-980104489968050 + 3939659543810000 * p ^ 1 - 25293087697725000 * p ^ 2 + 271119703568600000 * p ^ 3 - 2208107525622750000 * p ^ 4 + 9189075243906900000 * p ^ 5 - 21484334319000000000 * p ^ 6 + 29880691992000000000 * p ^ 7 - 24653076093000000000 * p ^ 8 + 11172301670000000000 * p ^ 9 - 2146806984300000000 * p ^ 10) * (1 : ℝ) ≤ 0 * (1 : ℝ) := by
    rw [zero_mul, key]
    exact (add_nonpos (add_nonpos (add_nonpos (add_nonpos (add_nonpos (add_nonpos (add_nonpos (add_nonpos (add_nonpos (add_nonpos e0 e1) e2) e3) e4) e5) e6) e7) e8) e9) e10)
  exact le_of_mul_le_mul_right hmul hKD

set_option maxHeartbeats 1000000 in
theorem dpa_s2_r {p : ℝ} (h1 : 1/2 ≤ p) (h2 : p ≤ 1) :
    -980104489968050 + 3939659543810000 * p ^ 1 - 25293087697725000 * p ^ 2 + 271119703568600000 * p ^ 3 - 2208107525622750000 * p ^ 4 + 9189075243906900000 * p ^ 5 - 21484334319000000000 * p ^ 6 + 29880691992000000000 * p ^ 7 - 24653076093000000000 * p ^ 8 + 11172301670000000000 * p ^ 9 - 2146806984300000000 * p ^ 10 ≤ 0 := by
  have hA : (0:ℝ) ≤ (p - 1/2) := by linarith
  have hB : (0:ℝ) ≤ (1 - p) := by linarith
  have key : (-980104489968050 + 3939659543810000 * p ^ 1 - 25293087697725000 * p ^ 2 + 271119703568600000 * p ^ 3 - 2208107525622750000 * p ^ 4 + 9189075243906900000 * p ^ 5 - 21484334319000000000 * p ^ 6 + 29880691992000000000 * p ^ 7 - 24653076093000000000 * p ^ 8 + 11172301670000000000 * p ^ 9 - 2146806984300000000 * p ^ 10) * (1 : ℝ) = (-1145024724268563200 : ℝ) * ((1 - p) ^ 10) + (-11739141652467712000 : ℝ) * ((p - 1/2) ^ 1 * (1 - p) ^ 9) + (-53529536722827264000 : ℝ) * ((p - 1/2) ^ 2 * (1 - p) ^ 8) + (-144450714366443264000 : ℝ) * ((p - 1/2) ^ 3 * (1 - p) ^ 7) + (-256944752354580992000 : ℝ) * ((p - 1/2) ^ 4 * (1 - p) ^ 6) + (-311625767413829606400 : ℝ) * ((p - 1/2) ^ 5 * (1 - p) ^ 5) + (-256799546203572352000 : ℝ) * ((p - 1/2) ^ 6 * (1 - p) ^ 4) + (-146093696441365504000 : ℝ) * ((p - 1/2) ^ 7 * (1 - p) ^ 3) + (-59408349880641024000 : ℝ) * ((p - 1/2) ^ 8 * (1 - p) ^ 2) + (-13276204400804352000 : ℝ) * ((p - 1/2) ^ 9 * (1 - p) ^ 1) + (-1505121373320243200 : ℝ) * ((p - 1/2) ^ 10) := by ring
  have e0 : (-1145024724268563200 : ℝ) * ((1 - p) ^ 10) ≤ 0 :=
    mul_nonpos_of_nonpos_of_nonneg (by norm_num) (pow_nonneg hB 10)
  have e1 : (-11739141652467712000 : ℝ) * ((p - 1/2) ^ 1 * (1 - p) ^ 9) ≤ 0 :=
    mul_nonpos_of_nonpos_of_nonneg (by norm_num) (mul_nonneg (pow_nonneg hA 1) (pow_nonneg hB 9))
  have e2 : (-53529536722827264000 : ℝ) * ((p - 1/2) ^ 2 * (1 - p) ^ 8) ≤ 0 :=
    mul_nonpos_of_nonpos_of_nonneg (by norm_num) (mul_nonneg (pow_nonneg hA 2) (pow_nonneg hB 8))
  have e3 : (-144450714366443264000 : ℝ) * ((p - 1/2) ^ 3 * (1 - p) ^ 7) ≤ 0 :=
    mul_nonpos_of_nonpos_of_nonneg (by norm_num) (mul_nonneg (pow_nonneg hA 3) (pow_nonneg hB 7))
  have e4 : (-256944752354580992000 : ℝ) * ((p - 1/2) ^ 4 * (1 - p) ^ 6) ≤ 0 :=
    mul_nonpos_of_nonpos_of_nonneg (by norm_num) (mul_nonneg (pow_nonneg hA 4) (pow_nonneg hB 6))
  have e5 : (-311625767413829606400 : ℝ) * ((p - 1/2) ^ 5 * (1 - p) ^ 5) ≤ 0 :=
    mul_nonpos_of_nonpos_of_nonneg (by norm_num) (mul_nonneg (pow_nonneg hA 5) (pow_nonneg hB 5))
  have e6 : (-256799546203572352000 : ℝ) * ((p - 1/2) ^ 6 * (1 - p) ^ 4) ≤ 0 :=
    mul_nonpos_of_nonpos_of_nonneg (by norm_num) (mul_nonneg (pow_nonneg hA 6) (pow_nonneg hB 4))
  have e7 : (-146093696441365504000 : ℝ) * ((p - 1/2) ^ 7 * (1 - p) ^ 3) ≤ 0 :=
    mul_nonpos_of_nonpos_of_nonneg (by norm_num) (mul_nonneg (pow_nonneg hA 7) (pow_nonneg hB 3))
  have e8 : (-59408349880641024000 : ℝ) * ((p - 1/2) ^ 8 * (1 - p) ^ 2) ≤ 0 :=
    mul_nonpos_of_nonpos_of_nonneg (by norm_num) (mul_nonneg (pow_nonneg hA 8) (pow_nonneg hB 2))
  have e9 : (-13276204400804352000 : ℝ) * ((p - 1/2) ^ 9 * (1 - p) ^ 1) ≤ 0 :=
    mul_nonpos_of_nonpos_of_nonneg (by norm_num) (mul_nonneg (pow_nonneg hA 9) (pow_nonneg hB 1))
  have e10 : (-1505121373320243200 : ℝ) * ((p - 1/2) ^ 10) ≤ 0 :=
    mul_nonpos_of_nonpos_of_nonneg (by norm_num) (pow_nonneg hA 10)
  have hKD : (0:ℝ) < (1 : ℝ) := by norm_num
  have hmul : (-980104489968050 + 3939659543810000 * p ^ 1 - 25293087697725000 * p ^ 2 + 271119703568600000 * p ^ 3 - 2208107525622750000 * p ^ 4 + 9189075243906900000 * p ^ 5 - 21484334319000000000 * p ^ 6 + 29880691992000000000 * p ^ 7 - 24653076093000000000 * p ^ 8 + 11172301670000000000 * p ^ 9 - 2146806984300000000 * p ^ 10) * (1 : ℝ) ≤ 0 * (1 : ℝ) := by
    rw [zero_mul, key]
    exact (add_nonpos (add_nonpos (add_nonpos (add_nonpos (add_nonpos (add_nonpos (add_nonpos (add_nonpos (add_nonpos (add_nonpos e0 e1) e2) e3) e4) e5) e6) e7) e8) e9) e10)
  exact le_of_mul_le_mul_right hmul hKD

theorem dpa_s2 {p : ℝ} (h1 : 0 ≤ p) (h2 : p ≤ 1) :
    -980104489968050 + 3939659543810000 * p ^ 1 - 25293087697725000 * p ^ 2 + 271119703568600000 * p ^ 3 - 2208107525622750000 * p ^ 4 + 9189075243906900000 * p ^ 5 - 21484334319000000000 * p ^ 6 + 29880691992000000000 * p ^ 7 - 24653076093000000000 * p ^ 8 + 11172301670000000000 * p ^ 9 - 2146806984300000000 * p ^ 10 ≤ 0 := by
  rcases le_or_lt p (1/2) with h | h
  · exact dpa_s2_l h1 h
  · exact dpa_s2_r (le_of_lt h) h2

set_option maxHeartbeats 1000000 in
theorem dpa_s3_l {p : ℝ} (h1 : 0 ≤ p) (h2 : p ≤ 1/2) :
    -975036397937000 + 3918492740360000 * p ^ 1 - 25168110227100000 * p ^ 2 + 270791175432200000 * p ^ 3 - 2207668033738500000 * p ^ 4 + 9188765205295500000 * p ^ 5 - 21484334319000000000 * p ^ 6 + 29880691992000000000 * p ^ 7 - 24653076093000000000 * p ^ 8 + 11172301670000000000 * p ^ 9 - 2146806984300000000 * p ^ 10 ≤ 0 := by
  have hA : (0:ℝ) ≤ p := h1
  have hB : (0:ℝ) ≤ (1/2 - p) := by linarith
  have key : (-975036397937000 + 3918492740360000 * p ^ 1 - 25168110227100000 * p ^ 2 + 270791175432200000 * p ^ 3 - 2207668033738500000 * p ^ 4 + 9188765205295500000 * p ^ 5 - 21484334319000000000 * p ^ 6 + 29880691992000000000 * p ^ 7 - 24653076093000000000 * p ^ 8 + 11172301670000000000 * p ^ 9 - 2146806984300000000 * p ^ 10) * (1 : ℝ) = (-998437271487488000 : ℝ) * ((1/2 - p) ^ 10) + (-7978104431810560000 : ℝ) * (p ^ 1 * (1/2 - p) ^ 9) + (-33316298887495680000 : ℝ) * (p ^ 2 * (1/2 - p) ^ 8) + (-64469833677962240000 : ℝ) * (p ^ 3 * (1/2 - p) ^ 7) + (-120212166314835200000 : ℝ) * (p ^ 4 * (1/2 - p) ^ 6) + (-185443775788822656000 : ℝ) * (p ^ 5 * (1/2 - p) ^ 5) + (-187658321325324160000 : ℝ) * (p ^ 6 * (1/2 - p) ^ 4) + (-120313577051265280000 : ℝ) * (p ^ 7 * (1/2 - p) ^ 3) + (-48150591455120640000 : ℝ) * (p ^ 8 * (1/2 - p) ^ 2) + (-11126240845449600000 : ℝ) * (p ^ 9 * (1/2 - p) ^ 1) + (-1142523525347168000 : ℝ) * (p ^ 10) := by ring
  have e0 : (-998437271487488000 : ℝ) * ((1/2 - p) ^ 10) ≤ 0 :=
    mul_nonpos_of_nonpos_of_nonneg (by norm_num) (pow_nonneg hB 10)
  have e1 : (-7978104431810560000 : ℝ) * (p ^ 1 * (1/2 - p) ^ 9) ≤ 0 :=
    mul_nonpos_of_nonpos_of_nonneg (by norm_num) (mul_nonneg (pow_nonneg hA 1) (pow_nonneg hB 9))
  have e2 : (-33316298887495680000 : ℝ) * (p ^ 2 * (1/2 - p) ^ 8) ≤ 0 :=
    mul_nonpos_of_nonpos_of_nonneg (by norm_num) (mul_nonneg (pow_nonneg hA 2) (pow_nonneg hB 8))
  have e3 : (-64469833677962240000 : ℝ) * (p ^ 3 * (1/2 - p) ^ 7) ≤ 0 :=
    mul_nonpos_of_nonpos_of_nonneg (by norm_num) (mul_nonneg (pow_nonneg hA 3) (pow_nonneg hB 7))
  have e4 : (-120212166314835200000 : ℝ) * (p ^ 4 * (1/2 - p) ^ 6) ≤ 0 :=
    mul_nonpos_of_nonpos_of_nonneg (by norm_num) (mul_nonneg (pow_nonneg hA 4) (pow_nonneg hB 6))
  have e5 : (-185443775788822656000 : ℝ) * (p ^ 5 * (1/2 - p) ^ 5) ≤ 0 :=
    mul_nonpos_of_nonpos_of_nonneg (by norm_num) (mul_nonneg (pow_nonneg hA 5) (pow_nonneg hB 5))
  have e6 : (-187658321325324160000 : ℝ) * (p ^ 6 * (1/2 - p) ^ 4) ≤ 0 :=
    mul_nonpos_of_nonpos_of_nonneg (by norm_num) (mul_nonneg (pow_nonneg hA 6) (pow_nonneg hB 4))
  have e7 : (-120313577051265280000 : ℝ) * (p ^ 7 * (1/2 - p) ^ 3) ≤ 0 :=
    mul_nonpos_of_nonpos_of_nonneg (by norm_num) (mul_nonneg (pow_nonneg hA 7) (pow_nonneg hB 3))
  have e8 : (-48150591455120640000 : ℝ) * (p ^ 8 * (1/2 - p) ^ 2) ≤ 0 :=
    mul_nonpos_of_nonpos_of_nonneg (by norm_num) (mul_nonneg (pow_nonneg hA 8) (pow_nonneg hB 2))
  have e9 : (-11126240845449600000 : ℝ) * (p ^ 9 * (1/2 - p) ^ 1) ≤ 0 :=
    mul_nonpos_of_nonpos_of_nonneg (by norm_num) (mul_nonneg (pow_nonneg hA 9) (pow_nonneg hB 1))
  have e10 : (-1142523525347168000 : ℝ) * (p ^ 10) ≤ 0 :=
    mul_nonpos_of_nonpos_of_nonneg (by norm_num) (pow_nonneg hA 10)
  have hKD : (0:ℝ) < (1 : ℝ) := by norm_num
  have hmul : (-975036397937000 + 3918492740360000 * p ^ 1 - 25168110227100000 * p ^ 2 + 270791175432200000 * p ^ 3 - 2207668033738500000 * p ^ 4 + 9188765205295500000 * p ^ 5 - 21484334319000000000 * p ^ 6 + 29880691992000000000 * p ^ 7 - 24653076093000000000 * p ^ 8 + 11172301670000000000 * p ^ 9 - 2146806984300000000 * p ^ 10) * (1 : ℝ) ≤ 0 * (1 : ℝ) := by
    rw [zero_mul, key]
    exact (add_nonpos (add_nonpos (add_nonpos (add_nonpos (add_nonpos (add_nonpos (add_nonpos (add_nonpos (add_nonpos (add_nonpos e0 e1) e2) e3) e4) e5) e6) e7) e8) e9) e10)
  exact le_of_mul_le_mul_right hmul hKD

set_option maxHeartbeats 1000000 in
theorem dpa_s3_r {p : ℝ} (h1 : 1/2 ≤ p) (h2 : p ≤ 1) :
    -975036397937000 + 3918492740360000 * p ^ 1 - 25168110227100000 * p ^ 2 + 270791175432200000 * p ^ 3 - 2207668033738500000 * p ^ 4 + 9188765205295500000 * p ^ 5 - 21484334319000000000 * p ^ 6 + 29880691992000000000 * p ^ 7 - 24653076093000000000 * p ^ 8 + 11172301670000000000 * p ^ 9 - 2146806984300000000 * p ^ 10 ≤ 0 := by
  have hA : (0:ℝ) ≤ (p - 1/2) := by linarith
  have hB : (0:ℝ) ≤ (1 - p) := by linarith
  have key : (-975036397937000 + 3918492740360000 * p ^ 1 - 25168110227100000 * p ^ 2 + 270791175432200000 * p ^ 3 - 2207668033738500000 * p ^ 4 + 9188765205295500000 * p ^ 5 - 21484334319000000000 * p ^ 6 + 29880691992000000000 * p ^ 7 - 24653076093000000000 * p ^ 8 + 11172301670000000000 * p ^ 9 - 2146806984300000000 * p ^ 10) * (1 : ℝ) = (-1142523525347168000 : ℝ) * ((1 - p) ^ 10) + (-11724229661493760000 : ℝ) * ((p - 1/2) ^ 1 * (1 - p) ^ 9) + (-53532490799518080000 : ℝ) * ((p - 1/2) ^ 2 * (1 - p) ^ 8) + (-144739788819203840000 : ℝ) * ((p - 1/2) ^ 3 * (1 - p) ^ 7) + (-258179682605475200000 : ℝ) * ((p - 1/2) ^ 4 * (1 - p) ^ 6) + (-314388743675999616000 : ℝ) * ((p - 1/2) ^ 5 * (1 - p) ^ 5) + (-260647635140047360000 : ℝ) * ((p - 1/2) ^ 6 * (1 - p) ^ 4) + (-149555180402759680000 : ℝ) * ((p - 1/2) ^ 7 * (1 - p) ^ 3) + (-61373648641290240000 : ℝ) * ((p - 1/2) ^ 8 * (1 - p) ^ 2) + (-13918713352089600000 : ℝ) * ((p - 1/2) ^ 9 * (1 - p) ^ 1) + (-1597482184168448000 : ℝ) * ((p - 1/2) ^ 10) := by ring
  have e0 : (-1142523525347168000 : ℝ) * ((1 - p) ^ 10) ≤ 0 :=
    mul_nonpos_of_nonpos_of_nonneg (by norm_num) (pow_nonneg hB 10)
  have e1 : (-11724229661493760000 : ℝ) * ((p - 1/2) ^ 1 * (1 - p) ^ 9) ≤ 0 :=
    mul_nonpos_of_nonpos_of_nonneg (by norm_num) (mul_nonneg (pow_nonneg hA 1) (pow_nonneg hB 9))
  have e2 : (-53532490799518080000 : ℝ) * ((p - 1/2) ^ 2 * (1 - p) ^ 8) ≤ 0 :=
    mul_nonpos_of_nonpos_of_nonneg (by norm_num) (mul_nonneg (pow_nonneg hA 2) (pow_nonneg hB 8))
  have e3 : (-144739788819203840000 : ℝ) * ((p - 1/2) ^ 3 * (1 - p) ^ 7) ≤ 0 :=
    mul_nonpos_of_nonpos_of_nonneg (by norm_num) (mul_nonneg (pow_nonneg hA 3) (pow_nonneg hB 7))
  have e4 : (-258179682605475200000 : ℝ) * ((p - 1/2) ^ 4 * (1 - p) ^ 6) ≤ 0 :=
    mul_nonpos_of_nonpos_of_nonneg (by norm_num) (mul_nonneg (pow_nonneg hA 4) (pow_nonneg hB 6))
  have e5 : (-314388743675999616000 : ℝ) * ((p - 1/2) ^ 5 * (1 - p) ^ 5) ≤ 0 :=
    mul_nonpos_of_nonpos_of_nonneg (by norm_num) (mul_nonneg (pow_nonneg hA 5) (pow_nonneg hB 5))
  have e6 : (-260647635140047360000 : ℝ) * ((p - 1/2) ^ 6 * (1 - p) ^ 4) ≤ 0 :=
    mul_nonpos_of_nonpos_of_nonneg (by norm_num) (mul_nonneg (pow_nonneg hA 6) (pow_nonneg hB 4))
  have e7 : (-149555180402759680000 : ℝ) * ((p - 1/2) ^ 7 * (1 - p) ^ 3) ≤ 0 :=
    mul_nonpos_of_nonpos_of_nonneg (by norm_num) (mul_nonneg (pow_nonneg hA 7) (pow_nonneg hB 3))
  have e8 : (-61373648641290240000 : ℝ) * ((p - 1/2) ^ 8 * (1 - p) ^ 2) ≤ 0 :=
    mul_nonpos_of_nonpos_of_nonneg (by norm_num) (mul_nonneg (pow_nonneg hA 8) (pow_nonneg hB 2))
  have e9 : (-13918713352089600000 : ℝ) * ((p - 1/2) ^ 9 * (1 - p) ^ 1) ≤ 0 :=
    mul_nonpos_of_nonpos_of_nonneg (by norm_num) (mul_nonneg (pow_nonneg hA 9) (pow_nonneg hB 1))
  have e10 : (-1597482184168448000 : ℝ) * ((p - 1/2) ^ 10) ≤ 0 :=
    mul_nonpos_of_nonpos_of_nonneg (by norm_num) (pow_nonneg hA 10)
  have hKD : (0:ℝ) < (1 : ℝ) := by norm_num
  have hmul : (-975036397937000 + 3918492740360000 * p ^ 1 - 25168110227100000 * p ^ 2 + 270791175432200000 * p ^ 3 - 2207668033738500000 * p ^ 4 + 9188765205295500000 * p ^ 5 - 21484334319000000000 * p ^ 6 + 29880691992000000000 * p ^ 7 - 24653076093000000000 * p ^ 8 + 11172301670000000000 * p ^ 9 - 2146806984300000000 * p ^ 10) * (1 : ℝ) ≤ 0 * (1 : ℝ) := by
    rw [zero_mul, key]
    exact (add_nonpos (add_nonpos (add_nonpos (add_nonpos (add_nonpos (add_nonpos (add_nonpos (add_nonpos (add_nonpos (add_nonpos e0 e1) e2) e3) e4) e5) e6) e7) e8) e9) e10)
  exact le_of_mul_le_mul_right hmul hKD

theorem dpa_s3 {p : ℝ} (h1 : 0 ≤ p) (h2 : p ≤ 1) :
    -975036397937000 + 3918492740360000 * p ^ 1 - 25168110227100000 * p ^ 2 + 270791175432200000 * p ^ 3 - 2207668033738500000 * p ^ 4 + 9188765205295500000 * p ^ 5 - 21484334319000000000 * p ^ 6 + 29880691992000000000 * p ^ 7 - 24653076093000000000 * p ^ 8 + 11172301670000000000 * p ^ 9 - 2146806984300000000 * p ^ 10 ≤ 0 := by
  rcases le_or_lt p (1/2) with h | h
  · exact dpa_s3_l h1 h
  · exact dpa_s3_r (le_of_lt h) h2

set_option maxHeartbeats 1000000 in
theorem dpa_s4_l {p : ℝ} (h1 : 0 ≤ p) (h2 : p ≤ 1/2) :
    -484979131900000 + 1951730429500000 * p ^ 1 - 12542808208050000 * p ^ 2 + 135296206042000000 * p ^ 3 - 1103726724357750000 * p ^ 4 + 4594331053094400000 * p ^ 5 - 10742167159500000000 * p ^ 6 + 14940345996000000000 * p ^ 7 - 12326538046500000000 * p ^ 8 + 5586150835000000000 * p ^ 9 - 1073403492150000000 * p ^ 10 ≤ 0 := by
  have hA : (0:ℝ) ≤ p := h1
  have hB : (0:ℝ) ≤ (1/2 - p) := by linarith
  have key : (-484979131900000 + 1951730429500000 * p ^ 1 - 12542808208050000 * p ^ 2 + 135296206042000000 * p ^ 3 - 1103726724357750000 * p ^ 4 + 4594331053094400000 * p ^ 5 - 10742167159500000000 * p ^ 6 + 14940345996000000000 * p ^ 7 - 12326538046500000000 * p ^ 8 + 5586150835000000000 * p ^ 9 - 1073403492150000000 * p ^ 10) * (1 : ℝ) = (-496618631065600000 : ℝ) * ((1/2 - p) ^ 10) + (-3966900330752000000 : ℝ) * (p ^ 1 * (1/2 - p) ^ 9) + (-16565223480076800000 : ℝ) * (p ^ 2 * (1/2 - p) ^ 8) + (-31989697288038400000 : ℝ) * (p ^ 3 * (1/2 - p) ^ 7) + (-59669849192406400000 : ℝ) * (p ^ 4 * (1/2 - p) ^ 6) + (-92187826644691200000 : ℝ) * (p ^ 5 * (1/2 - p) ^ 5) + (-93379360516304000000 : ℝ) * (p ^ 6 * (1/2 - p) ^ 4) + (-59901109246092800000 : ℝ) * (p ^ 7 * (1/2 - p) ^ 3) + (-23981804503046400000 : ℝ) * (p ^ 8 * (1/2 - p) ^ 2) + (-5543373752246400000 : ℝ) * (p ^ 9 * (1/2 - p) ^ 1) + (-569454431071600000 : ℝ) * (p ^ 10) := by ring
  have e0 : (-496618631065600000 : ℝ) * ((1/2 - p) ^ 10) ≤ 0 :=
    mul_nonpos_of_nonpos_of_nonneg (by norm_num) (pow_nonneg hB 10)
  have e1 : (-3966900330752000000 : ℝ) * (p ^ 1 * (1/2 - p) ^ 9) ≤ 0 :=
    mul_nonpos_of_nonpos_of_nonneg (by norm_num) (mul_nonneg (pow_nonneg hA 1) (pow_nonneg hB 9))
  have e2 : (-16565223480076800000 : ℝ) * (p ^ 2 * (1/2 - p) ^ 8) ≤ 0 :=
    mul_nonpos_of_nonpos_of_nonneg (by norm_num) (mul_nonneg (pow_nonneg hA 2) (pow_nonneg hB 8))
  have e3 : (-31989697288038400000 : ℝ) * (p ^ 3 * (1/2 - p) ^ 7) ≤ 0 :=
    mul_nonpos_of_nonpos_of_nonneg (by norm_num) (mul_nonneg (pow_nonneg hA 3) (pow_nonneg hB 7))
  have e4 : (-59669849192406400000 : ℝ) * (p ^ 4 * (1/2 - p) ^ 6) ≤ 0 :=
    mul_nonpos_of_nonpos_of_nonneg (by norm_num) (mul_nonneg (pow_nonneg hA 4) (pow_nonneg hB 6))
  have e5 : (-92187826644691200000 : ℝ) * (p ^ 5 * (1/2 - p) ^ 5) ≤ 0 :=
    mul_nonpos_of_nonpos_of_nonneg (by norm_num) (mul_nonneg (pow_nonneg hA 5) (pow_nonneg hB 5))
  have e6 : (-93379360516304000000 : ℝ) * (p ^ 6 * (1/2 - p) ^ 4) ≤ 0 :=
    mul_nonpos_of_nonpos_of_nonneg (by norm_num) (mul_nonneg (pow_nonneg hA 6) (pow_nonneg hB 4))
  have e7 : (-59901109246092800000 : ℝ) * (p ^ 7 * (1/2 - p) ^ 3) ≤ 0 :=
    mul_nonpos_of_nonpos_of_nonneg (by norm_num) (mul_nonneg (pow_nonneg hA 7) (pow_nonneg hB 3))
  have e8 : (-23981804503046400000 : ℝ) * (p ^ 8 * (1/2 - p) ^ 2) ≤ 0 :=
    mul_nonpos_of_nonpos_of_nonneg (by norm_num) (mul_nonneg (pow_nonneg hA 8) (pow_nonneg hB 2))
  have e9 : (-5543373752246400000 : ℝ) * (p ^ 9 * (1/2 - p) ^ 1) ≤ 0 :=
    mul_nonpos_of_nonpos_of_nonneg (by norm_num) (mul_nonneg (pow_nonneg hA 9) (pow_nonneg hB 1))
  have e10 : (-569454431071600000 : ℝ) * (p ^ 10) ≤ 0 :=
    mul_nonpos_of_nonpos_of_nonneg (by norm_num) (pow_nonneg hA 10)
  have hKD : (0:ℝ) < (1 : ℝ) := by norm_num
  have hmul : (-484979131900000 + 1951730429500000 * p ^ 1 - 12542808208050000 * p ^ 2 + 135296206042000000 * p ^ 3 - 1103726724357750000 * p ^ 4 + 4594331053094400000 * p ^ 5 - 10742167159500000000 * p ^ 6 + 14940345996000000000 * p ^ 7 - 12326538046500000000 * p ^ 8 + 5586150835000000000 * p ^ 9 - 1073403492150000000 * p ^ 10) * (1 : ℝ) ≤ 0 * (1 : ℝ) := by
    rw [zero_mul, key]
    exact (add_nonpos (add_nonpos (add_nonpos (add_nonpos (add_nonpos (add_nonpos (add_nonpos (add_nonpos (add_nonpos (add_nonpos e0 e1) e2) e3) e4) e5) e6) e7) e8) e9) e10)
  exact le_of_mul_le_mul_right hmul hKD

set_option maxHeartbeats 1000000 in
theorem dpa_s4_r {p : ℝ} (h1 : 1/2 ≤ p) (h2 : p ≤ 1) :
    -484979131900000 + 1951730429500000 * p ^ 1 - 12542808208050000 * p ^ 2 + 135296206042000000 * p ^ 3 - 1103726724357750000 * p ^ 4 + 4594331053094400000 * p ^ 5 - 10742167159500000000 * p ^ 6 + 14940345996000000000 * p ^ 7 - 12326538046500000000 * p ^ 8 + 5586150835000000000 * p ^ 9 - 1073403492150000000 * p ^ 10 ≤ 0 := by
  have hA : (0:ℝ) ≤ (p - 1/2) := by linarith
  have hB : (0:ℝ) ≤ (1 - p) := by linarith
  have key : (-484979131900000 + 1951730429500000 * p ^ 1 - 12542808208050000 * p ^ 2 + 135296206042000000 * p ^ 3 - 1103726724357750000 * p ^ 4 + 4594331053094400000 * p ^ 5 - 10742167159500000000 * p ^ 6 + 14940345996000000000 * p ^ 7 - 12326538046500000000 * p ^ 8 + 5586150835000000000 * p ^ 9 - 1073403492150000000 * p ^ 10) * (1 : ℝ) = (-569454431071600000 : ℝ) * ((1 - p) ^ 10) + (-5845714869185600000 : ℝ) * ((p - 1/2) ^ 1 * (1 - p) ^ 9) + (-26702874555499200000 : ℝ) * ((p - 1/2) ^ 2 * (1 - p) ^ 8) + (-72238196307904000000 : ℝ) * ((p - 1/2) ^ 3 * (1 - p) ^ 7) + (-128945662303196800000 : ℝ) * ((p - 1/2) ^ 4 * (1 - p) ^ 6) + (-157158787876588800000 : ℝ) * ((p - 1/2) ^ 5 * (1 - p) ^ 5) + (-130448252774537600000 : ℝ) * ((p - 1/2) ^ 6 * (1 - p) ^ 4) + (-74968973902515200000 : ℝ) * ((p - 1/2) ^ 7 * (1 - p) ^ 3) + (-30820864385472000000 : ℝ) * ((p - 1/2) ^ 8 * (1 - p) ^ 2) + (-7008318625996800000 : ℝ) * ((p - 1/2) ^ 9 * (1 - p) ^ 1) + (-806286624563200000 : ℝ) * ((p - 1/2) ^ 10) := by ring
  have e0 : (-569454431071600000 : ℝ) * ((1 - p) ^ 10) ≤ 0 :=
    mul_nonpos_of_nonpos_of_nonneg (by norm_num) (pow_nonneg hB 10)
  have e1 : (-5845714869185600000 : ℝ) * ((p - 1/2) ^ 1 * (1 - p) ^ 9) ≤ 0 :=
    mul_nonpos_of_nonpos_of_nonneg (by norm_num) (mul_nonneg (pow_nonneg hA 1) (pow_nonneg hB 9))
  have e2 : (-26702874555499200000 : ℝ) * ((p - 1/2) ^ 2 * (1 - p) ^ 8) ≤ 0 :=
    mul_nonpos_of_nonpos_of_nonneg (by norm_num) (mul_nonneg (pow_nonneg hA 2) (pow_nonneg hB 8))
  have e3 : (-72238196307904000000 : ℝ) * ((p - 1/2) ^ 3 * (1 - p) ^ 7) ≤ 0 :=
    mul_nonpos_of_nonpos_of_nonneg (by norm_num) (mul_nonneg (pow_nonneg hA 3) (pow_nonneg hB 7))
  have e4 : (-128945662303196800000 : ℝ) * ((p - 1/2) ^ 4 * (1 - p) ^ 6) ≤ 0 :=
    mul_nonpos_of_nonpos_of_nonneg (by norm_num) (mul_nonneg (pow_nonneg hA 4) (pow_nonneg hB 6))
  have e5 : (-157158787876588800000 : ℝ) * ((p - 1/2) ^ 5 * (1 - p) ^ 5) ≤ 0 :=
    mul_nonpos_of_nonpos_of_nonneg (by norm_num) (mul_nonneg (pow_nonneg hA 5) (pow_nonneg hB 5))
  have e6 : (-130448252774537600000 : ℝ) * ((p - 1/2) ^ 6 * (1 - p) ^ 4) ≤ 0 :=
    mul_nonpos_of_nonpos_of_nonneg (by norm_num) (mul_nonneg (pow_nonneg hA 6) (pow_nonneg hB 4))
  have e7 : (-74968973902515200000 : ℝ) * ((p - 1/2) ^ 7 * (1 - p) ^ 3) ≤ 0 :=
    mul_nonpos_of_nonpos_of_nonneg (by norm_num) (mul_nonneg (pow_nonneg hA 7) (pow_nonneg hB 3))
  have e8 : (-30820864385472000000 : ℝ) * ((p - 1/2) ^ 8 * (1 - p) ^ 2) ≤ 0 :=
    mul_nonpos_of_nonpos_of_nonneg (by norm_num) (mul_nonneg (pow_nonneg hA 8) (pow_nonneg hB 2))
  have e9 : (-7008318625996800000 : ℝ) * ((p - 1/2) ^ 9 * (1 - p) ^ 1) ≤ 0 :=
    mul_nonpos_of_nonpos_of_nonneg (by norm_num) (mul_nonneg (pow_nonneg hA 9) (pow_nonneg hB 1))
  have e10 : (-806286624563200000 : ℝ) * ((p - 1/2) ^ 10) ≤ 0 :=
    mul_nonpos_of_nonpos_of_nonneg (by norm_num) (pow_nonneg hA 10)
  have hKD : (0:ℝ) < (1 : ℝ) := by norm_num
  have hmul : (-484979131900000 + 1951730429500000 * p ^ 1 - 12542808208050000 * p ^ 2 + 135296206042000000 * p ^ 3 - 1103726724357750000 * p ^ 4 + 4594331053094400000 * p ^ 5 - 10742167159500000000 * p ^ 6 + 14940345996000000000 * p ^ 7 - 12326538046500000000 * p ^ 8 + 5586150835000000000 * p ^ 9 - 1073403492150000000 * p ^ 10) * (1 : ℝ) ≤ 0 * (1 : ℝ) := by
    rw [zero_mul, key]
    exact (add_nonpos (add_nonpos (add_nonpos (add_nonpos (add_nonpos (add_nonpos (add_nonpos (add_nonpos (add_nonpos (add_nonpos e0 e1) e2) e3) e4) e5) e6) e7) e8) e9) e10)
  exact le_of_mul_le_mul_right hmul hKD

theorem dpa_s4 {p : ℝ} (h1 : 0 ≤ p) (h2 : p ≤ 1) :
    -484979131900000 + 1951730429500000 * p ^ 1 - 12542808208050000 * p ^ 2 + 135296206042000000 * p ^ 3 - 1103726724357750000 * p ^ 4 + 4594331053094400000 * p ^ 5 - 10742167159500000000 * p ^ 6 + 14940345996000000000 * p ^ 7 - 12326538046500000000 * p ^ 8 + 5586150835000000000 * p ^ 9 - 1073403492150000000 * p ^ 10 ≤ 0 := by
  rcases le_or_lt p (1/2) with h | h
  · exact dpa_s4_l h1 h
  · exact dpa_s4_r (le_of_lt h) h2

set_option maxHeartbeats 1000000 in
theorem dpa_s5_l {p : ℝ} (h1 : 0 ≤ p) (h2 : p ≤ 1/2) :
    -96488474750000 + 389123895800000 * p ^ 1 - 2502155884500000 * p ^ 2 + 27044308820000000 * p ^ 3 - 220731959700000000 * p ^ 4 + 918862212600000000 * p ^ 5 - 2148433431900000000 * p ^ 6 + 2988069199200000000 * p ^ 7 - 2465307609300000000 * p ^ 8 + 1117230167000000000 * p ^ 9 - 214680698430000000 * p ^ 10 ≤ 0 := by
  have hA : (0:ℝ) ≤ p := h1
  have hB : (0:ℝ) ≤ (1/2 - p) := by linarith
  have key : (-96488474750000 + 389123895800000 * p ^ 1 - 2502155884500000 * p ^ 2 + 27044308820000000 * p ^ 3 - 220731959700000000 * p ^ 4 + 918862212600000000 * p ^ 5 - 2148433431900000000 * p ^ 6 + 2988069199200000000 * p ^ 7 - 2465307609300000000 * p ^ 8 + 1117230167000000000 * p ^ 9 - 214680698430000000 * p ^ 10) * (1 : ℝ) = (-98804198144000000 : ℝ) * ((1/2 - p) ^ 10) + (-788810546790400000 : ℝ) * (p ^ 1 * (1/2 - p) ^ 9) + (-3293657911065600000 : ℝ) * (p ^ 2 * (1/2 - p) ^ 8) + (-6346915852390400000 : ℝ) * (p ^ 3 * (1/2 - p) ^ 7) + (-11844039197849600000 : ℝ) * (p ^ 4 * (1/2 - p) ^ 6) + (-18328783540070400000 : ℝ) * (p ^ 5 * (1/2 - p) ^ 5) + (-18585512987430400000 : ℝ) * (p ^ 6 * (1/2 - p) ^ 4) + (-11929652945305600000 : ℝ) * (p ^ 7 * (1/2 - p) ^ 3) + (-4778160939830400000 : ℝ) * (p ^ 8 * (1/2 - p) ^ 2) + (-1104871528329600000 : ℝ) * (p ^ 9 * (1/2 - p) ^ 1) + (-113539876996400000 : ℝ) * (p ^ 10) := by ring
  have e0 : (-98804198144000000 : ℝ) * ((1/2 - p) ^ 10) ≤ 0 :=
    mul_nonpos_of_nonpos_of_nonneg (by norm_num) (pow_nonneg hB 10)
  have e1 : (-788810546790400000 : ℝ) * (p ^ 1 * (1/2 - p) ^ 9) ≤ 0 :=
    mul_nonpos_of_nonpos_of_nonneg (by norm_num) (mul_nonneg (pow_nonneg hA 1) (pow_nonneg hB 9))
  have e2 : (-3293657911065600000 : ℝ) * (p ^ 2 * (1/2 - p) ^ 8) ≤ 0 :=
    mul_nonpos_of_nonpos_of_nonneg (by norm_num) (mul_nonneg (pow_nonneg hA 2) (pow_nonneg hB 8))
  have e3 : (-6346915852390400000 : ℝ) * (p ^ 3 * (1/2 - p) ^ 7) ≤ 0 :=
    mul_nonpos_of_nonpos_of_nonneg (by norm_num) (mul_nonneg (pow_nonneg hA 3) (pow_nonneg hB 7))
  have e4 : (-11844039197849600000 : ℝ) * (p ^ 4 * (1/2 - p) ^ 6) ≤ 0 :=
    mul_nonpos_of_nonpos_of_nonneg (by norm_num) (mul_nonneg (pow_nonneg hA 4) (pow_nonneg hB 6))
  have e5 : (-18328783540070400000 : ℝ) * (p ^ 5 * (1/2 - p) ^ 5) ≤ 0 :=
    mul_nonpos_of_nonpos_of_nonneg (by norm_num) (mul_nonneg (pow_nonneg hA 5) (pow_nonneg hB 5))
  have e6 : (-18585512987430400000 : ℝ) * (p ^ 6 * (1/2 - p) ^ 4) ≤ 0 :=
    mul_nonpos_of_nonpos_of_nonneg (by norm_num) (mul_nonneg (pow_nonneg hA 6) (pow_nonneg hB 4))
  have e7 : (-11929652945305600000 : ℝ) * (p ^ 7 * (1/2 - p) ^ 3) ≤ 0 :=
    mul_nonpos_of_nonpos_of_nonneg (by norm_num) (mul_nonneg (pow_nonneg hA 7) (pow_nonneg hB 3))
  have e8 : (-4778160939830400000 : ℝ) * (p ^ 8 * (1/2 - p) ^ 2) ≤ 0 :=
    mul_nonpos_of_nonpos_of_nonneg (by norm_num) (mul_nonneg (pow_nonneg hA 8) (pow_nonneg hB 2))
  have e9 : (-1104871528329600000 : ℝ) * (p ^ 9 * (1/2 - p) ^ 1) ≤ 0 :=
    mul_nonpos_of_nonpos_of_nonneg (by norm_num) (mul_nonneg (pow_nonneg hA 9) (pow_nonneg hB 1))
  have e10 : (-113539876996400000 : ℝ) * (p ^ 10) ≤ 0 :=
    mul_nonpos_of_nonpos_of_nonneg (by norm_num) (pow_nonneg hA 10)
  have hKD : (0:ℝ) < (1 : ℝ) := by norm_num
  have hmul : (-96488474750000 + 389123895800000 * p ^ 1 - 2502155884500000 * p ^ 2 + 27044308820000000 * p ^ 3 - 220731959700000000 * p ^ 4 + 918862212600000000 * p ^ 5 - 2148433431900000000 * p ^ 6 + 2988069199200000000 * p ^ 7 - 2465307609300000000 * p ^ 8 + 1117230167000000000 * p ^ 9 - 214680698430000000 * p ^ 10) * (1 : ℝ) ≤ 0 * (1 : ℝ) := by
    rw [zero_mul, key]
    exact (add_nonpos (add_nonpos (add_nonpos (add_nonpos (add_nonpos (add_nonpos (add_nonpos (add_nonpos (add_nonpos (add_nonpos e0 e1) e2) e3) e4) e5) e6) e7) e8) e9) e10)
  exact le_of_mul_le_mul_right hmul hKD

set_option maxHeartbeats 1000000 in
theorem dpa_s5_r {p : ℝ} (h1 : 1/2 ≤ p) (h2 : p ≤ 1) :
    -96488474750000 + 389123895800000 * p ^ 1 - 2502155884500000 * p ^ 2 + 27044308820000000 * p ^ 3 - 220731959700000000 * p ^ 4 + 918862212600000000 * p ^ 5 - 2148433431900000000 * p ^ 6 + 2988069199200000000 * p ^ 7 - 2465307609300000000 * p ^ 8 + 1117230167000000000 * p ^ 9 - 214680698430000000 * p ^ 10 ≤ 0 := by
  have hA : (0:ℝ) ≤ (p - 1/2) := by linarith
  have hB : (0:ℝ) ≤ (1 - p) := by linarith
  have key : (-96488474750000 + 389123895800000 * p ^ 1 - 2502155884500000 * p ^ 2 + 27044308820000000 * p ^ 3 - 220731959700000000 * p ^ 4 + 918862212600000000 * p ^ 5 - 2148433431900000000 * p ^ 6 + 2988069199200000000 * p ^ 7 - 2465307609300000000 * p ^ 8 + 1117230167000000000 * p ^ 9 - 214680698430000000 * p ^ 10) * (1 : ℝ) = (-113539876996400000 : ℝ) * ((1 - p) ^ 10) + (-1165926011598400000 : ℝ) * ((p - 1/2) ^ 1 * (1 - p) ^ 9) + (-5327651289249600000 : ℝ) * ((p - 1/2) ^ 2 * (1 - p) ^ 8) + (-14417703929062400000 : ℝ) * ((p - 1/2) ^ 3 * (1 - p) ^ 7) + (-25744716684569600000 : ℝ) * ((p - 1/2) ^ 4 * (1 - p) ^ 6) + (-31387192933939200000 : ℝ) * ((p - 1/2) ^ 5 * (1 - p) ^ 5) + (-26058355574118400000 : ℝ) * ((p - 1/2) ^ 6 * (1 - p) ^ 4) + (-14978063286169600000 : ℝ) * ((p - 1/2) ^ 7 * (1 - p) ^ 3) + (-6158542709222400000 : ℝ) * ((p - 1/2) ^ 8 * (1 - p) ^ 2) + (-1400347420569600000 : ℝ) * ((p - 1/2) ^ 9 * (1 - p) ^ 1) + (-161108145612800000 : ℝ) * ((p - 1/2) ^ 10) := by ring
  have e0 : (-113539876996400000 : ℝ) * ((1 - p) ^ 10) ≤ 0 :=
    mul_nonpos_of_nonpos_of_nonneg (by norm_num) (pow_nonneg hB 10)
  have e1 : (-1165926011598400000 : ℝ) * ((p - 1/2) ^ 1 * (1 - p) ^ 9) ≤ 0 :=
    mul_nonpos_of_nonpos_of_nonneg (by norm_num) (mul_nonneg (pow_nonneg hA 1) (pow_nonneg hB 9))
  have e2 : (-5327651289249600000 : ℝ) * ((p - 1/2) ^ 2 * (1 - p) ^ 8) ≤ 0 :=
    mul_nonpos_of_nonpos_of_nonneg (by norm_num) (mul_nonneg (pow_nonneg hA 2) (pow_nonneg hB 8))
  have e3 : (-14417703929062400000 : ℝ) * ((p - 1/2) ^ 3 * (1 - p) ^ 7) ≤ 0 :=
    mul_nonpos_of_nonpos_of_nonneg (by norm_num) (mul_nonneg (pow_nonneg hA 3) (pow_nonneg hB 7))
  have e4 : (-25744716684569600000 : ℝ) * ((p - 1/2) ^ 4 * (1 - p) ^ 6) ≤ 0 :=
    mul_nonpos_of_nonpos_of_nonneg (by norm_num) (mul_nonneg (pow_nonneg hA 4) (pow_nonneg hB 6))
  have e5 : (-31387192933939200000 : ℝ) * ((p - 1/2) ^ 5 * (1 - p) ^ 5) ≤ 0 :=
    mul_nonpos_of_nonpos_of_nonneg (by norm_num) (mul_nonneg (pow_nonneg hA 5) (pow_nonneg hB 5))
  have e6 : (-26058355574118400000 : ℝ) * ((p - 1/2) ^ 6 * (1 - p) ^ 4) ≤ 0 :=
    mul_nonpos_of_nonpos_of_nonneg (by norm_num) (mul_nonneg (pow_nonneg hA 6) (pow_nonneg hB 4))
  have e7 : (-14978063286169600000 : ℝ) * ((p - 1/2) ^ 7 * (1 - p) ^ 3) ≤ 0 :=
    mul_nonpos_of_nonpos_of_nonneg (by norm_num) (mul_nonneg (pow_nonneg hA 7) (pow_nonneg hB 3))
  have e8 : (-6158542709222400000 : ℝ) * ((p - 1/2) ^ 8 * (1 - p) ^ 2) ≤ 0 :=
    mul_nonpos_of_nonpos_of_nonneg (by norm_num) (mul_nonneg (pow_nonneg hA 8) (pow_nonneg hB 2))
  have e9 : (-1400347420569600000 : ℝ) * ((p - 1/2) ^ 9 * (1 - p) ^ 1) ≤ 0 :=
    mul_nonpos_of_nonpos_of_nonneg (by norm_num) (mul_nonneg (pow_nonneg hA 9) (pow_nonneg hB 1))
  have e10 : (-161108145612800000 : ℝ) * ((p - 1/2) ^ 10) ≤ 0 :=
    mul_nonpos_of_nonpos_of_nonneg (by norm_num) (pow_nonneg hA 10)
  have hKD : (0:ℝ) < (1 : ℝ) := by norm_num
  have hmul : (-96488474750000 + 389123895800000 * p ^ 1 - 2502155884500000 * p ^ 2 + 27044308820000000 * p ^ 3 - 220731959700000000 * p ^ 4 + 918862212600000000 * p ^ 5 - 2148433431900000000 * p ^ 6 + 2988069199200000000 * p ^ 7 - 2465307609300000000 * p ^ 8 + 1117230167000000000 * p ^ 9 - 214680698430000000 * p ^ 10) * (1 : ℝ) ≤ 0 * (1 : ℝ) := by
    rw [zero_mul, key]
    exact (add_nonpos (add_nonpos (add_nonpos (add_nonpos (add_nonpos (add_nonpos (add_nonpos (add_nonpos (add_nonpos (add_nonpos e0 e1) e2) e3) e4) e5) e6) e7) e8) e9) e10)
  exact le_of_mul_le_mul_right hmul hKD

theorem dpa_s5 {p : ℝ} (h1 : 0 ≤ p) (h2 : p ≤ 1) :
    -96488474750000 + 389123895800000 * p ^ 1 - 2502155884500000 * p ^ 2 + 27044308820000000 * p ^ 3 - 220731959700000000 * p ^ 4 + 918862212600000000 * p ^ 5 - 2148433431900000000 * p ^ 6 + 2988069199200000000 * p ^ 7 - 2465307609300000000 * p ^ 8 + 1117230167000000000 * p ^ 9 - 214680698430000000 * p ^ 10 ≤ 0 := by
  rcases le_or_lt p (1/2) with h | h
  · exact dpa_s5_l h1 h
  · exact dpa_s5_r (le_of_lt h) h2

set_option maxHeartbeats 2000000 in
theorem dpa_nonpos {p d : ℝ} (h1 : 0 ≤ p) (h2 : p ≤ 1)
    (hy1 : -30 ≤ d) (hy2 : d ≤ 0) :
    -385953899/2000000 + 16911721/100000000 * d ^ 1 - 513093/50000000000 * d ^ 2 - 10859217/10000000000000 * d ^ 3 - 18586393/1000000000000000 * d ^ 4 + 7420443/12500000000000000 * d ^ 5 + 1945619479/2500000 * p ^ 1 - 4073967/10000000 * p ^ 1 * d ^ 1 + 7805501/1250000000 * p ^ 1 * d ^ 2 - 12314599/50000000000 * p ^ 1 * d ^ 3 + 326133/100000000000 * p ^ 1 * d ^ 4 - 5555697/250000000000000 * p ^ 1 * d ^ 5 - 5004311769/1000000 * p ^ 2 + 213525237/100000000 * p ^ 2 * d ^ 1 - 20484711/500000000 * p ^ 2 * d ^ 2 + 35625807/20000000000 * p ^ 2 * d ^ 3 - 6460017/250000000000 * p ^ 2 * d ^ 4 + 36634947/200000000000000 * p ^ 2 * d ^ 5 + 1352215441/25000 * p ^ 3 - 12443657/2500000 * p ^ 3 * d ^ 1 + 27466369/250000000 * p ^ 3 * d ^ 2 - 743753/125000000 * p ^ 3 * d ^ 3 + 24603699/250000000000 * p ^ 3 * d ^ 4 - 575879/781250000000 * p ^ 3 * d ^ 5 - 2207319597/5000 * p ^ 4 + 89234477/20000000 * p ^ 4 * d ^ 1 - 3588147/20000000 * p ^ 4 * d ^ 2 + 4271809/400000000 * p ^ 4 * d ^ 3 - 41698377/200000000000 * p ^ 4 * d ^ 4 + 8325489/5000000000000 * p ^ 4 * d ^ 5 + 4594311063/2500 * p ^ 5 - 4164603/3125000 * p ^ 5 * d ^ 1 + 70132131/500000000 * p ^ 5 * d ^ 2 - 13316721/1250000000 * p ^ 5 * d ^ 3 + 60214797/250000000000 * p ^ 5 * d ^ 4 - 106255101/50000000000000 * p ^ 5 * d ^ 5 - 21484334319/5000 * p ^ 6 + 3735086499/625 * p ^ 7 - 24653076093/5000 * p ^ 8 + 1117230167/500 * p ^ 9 - 21468069843/50000 * p ^ 10 ≤ 0 := by
  have hC : (0:ℝ) ≤ (d + 30) := by linarith
  have hD : (0:ℝ) ≤ (0 - d) := by linarith
  have key : (-385953899/2000000 + 16911721/100000000 * d ^ 1 - 513093/50000000000 * d ^ 2 - 10859217/10000000000000 * d ^ 3 - 18586393/1000000000000000 * d ^ 4 + 7420443/12500000000000000 * d ^ 5 + 1945619479/2500000 * p ^ 1 - 4073967/10000000 * p ^ 1 * d ^ 1 + 7805501/1250000000 * p ^ 1 * d ^ 2 - 12314599/50000000000 * p ^ 1 * d ^ 3 + 326133/100000000000 * p ^ 1 * d ^ 4 - 5555697/250000000000000 * p ^ 1 * d ^ 5 - 5004311769/1000000 * p ^ 2 + 213525237/100000000 * p ^ 2 * d ^ 1 - 20484711/500000000 * p ^ 2 * d ^ 2 + 35625807/20000000000 * p ^ 2 * d ^ 3 - 6460017/250000000000 * p ^ 2 * d ^ 4 + 36634947/200000000000000 * p ^ 2 * d ^ 5 + 1352215441/25000 * p ^ 3 - 12443657/2500000 * p ^ 3 * d ^ 1 + 27466369/250000000 * p ^ 3 * d ^ 2 - 743753/125000000 * p ^ 3 * d ^ 3 + 24603699/250000000000 * p ^ 3 * d ^ 4 - 575879/781250000000 * p ^ 3 * d ^ 5 - 2207319597/5000 * p ^ 4 + 89234477/20000000 * p ^ 4 * d ^ 1 - 3588147/20000000 * p ^ 4 * d ^ 2 + 4271809/400000000 * p ^ 4 * d ^ 3 - 41698377/200000000000 * p ^ 4 * d ^ 4 + 8325489/5000000000000 * p ^ 4 * d ^ 5 + 4594311063/2500 * p ^ 5 - 4164603/3125000 * p ^ 5 * d ^ 1 + 70132131/500000000 * p ^ 5 * d ^ 2 - 13316721/1250000000 * p ^ 5 * d ^ 3 + 60214797/250000000000 * p ^ 5 * d ^ 4 - 106255101/50000000000000 * p ^ 5 * d ^ 5 - 21484334319/5000 * p ^ 6 + 3735086499/625 * p ^ 7 - 24653076093/5000 * p ^ 8 + 1117230167/500 * p ^ 9 - 21468069843/50000 * p ^ 10) * (12150000000000000000 : ℝ) = (-99029930953811 + 402960613914200 * p ^ 1 - 2589359130245250 * p ^ 2 + 27297549612788000 * p ^ 3 - 221128462570695000 * p ^ 4 + 919212510159783000 * p ^ 5 - 2148433431900000000 * p ^ 6 + 2988069199200000000 * p ^ 7 - 2465307609300000000 * p ^ 8 + 1117230167000000000 * p ^ 9 - 214680698430000000 * p ^ 10) * ((0 - d) ^ 5) + (-492581467464265 + 1986463944190000 * p ^ 1 - 12752763351390000 * p ^ 2 + 135869018900980000 * p ^ 3 - 1104542488174425000 * p ^ 4 + 4594965569276040000 * p ^ 5 - 10742167159500000000 * p ^ 6 + 14940345996000000000 * p ^ 7 - 12326538046500000000 * p ^ 8 + 5586150835000000000 * p ^ 9 - 1073403492150000000 * p ^ 10) * ((d + 30) ^ 1 * (0 - d) ^ 4) + (-980104489968050 + 3939659543810000 * p ^ 1 - 25293087697725000 * p ^ 2 + 271119703568600000 * p ^ 3 - 2208107525622750000 * p ^ 4 + 9189075243906900000 * p ^ 5 - 21484334319000000000 * p ^ 6 + 29880691992000000000 * p ^ 7 - 24653076093000000000 * p ^ 8 + 11172301670000000000 * p ^ 9 - 2146806984300000000 * p ^ 10) * ((d + 30) ^ 2 * (0 - d) ^ 3) + (-975036397937000 + 3918492740360000 * p ^ 1 - 25168110227100000 * p ^ 2 + 270791175432200000 * p ^ 3 - 2207668033738500000 * p ^ 4 + 9188765205295500000 * p ^ 5 - 21484334319000000000 * p ^ 6 + 29880691992000000000 * p ^ 7 - 24653076093000000000 * p ^ 8 + 11172301670000000000 * p ^ 9 - 2146806984300000000 * p ^ 10) * ((d + 30) ^ 3 * (0 - d) ^ 2) + (-484979131900000 + 1951730429500000 * p ^ 1 - 12542808208050000 * p ^ 2 + 135296206042000000 * p ^ 3 - 1103726724357750000 * p ^ 4 + 4594331053094400000 * p ^ 5 - 10742167159500000000 * p ^ 6 + 14940345996000000000 * p ^ 7 - 12326538046500000000 * p ^ 8 + 5586150835000000000 * p ^ 9 - 1073403492150000000 * p ^ 10) * ((d + 30) ^ 4 * (0 - d) ^ 1) + (-96488474750000 + 389123895800000 * p ^ 1 - 2502155884500000 * p ^ 2 + 27044308820000000 * p ^ 3 - 220731959700000000 * p ^ 4 + 918862212600000000 * p ^ 5 - 2148433431900000000 * p ^ 6 + 2988069199200000000 * p ^ 7 - 2465307609300000000 * p ^ 8 + 1117230167000000000 * p ^ 9 - 214680698430000000 * p ^ 10) * ((d + 30) ^ 5) := by ring
  have hS0 : (-99029930953811 + 402960613914200 * p ^ 1 - 2589359130245250 * p ^ 2 + 27297549612788000 * p ^ 3 - 221128462570695000 * p ^ 4 + 919212510159783000 * p ^ 5 - 2148433431900000000 * p ^ 6 + 2988069199200000000 * p ^ 7 - 2465307609300000000 * p ^ 8 + 1117230167000000000 * p ^ 9 - 214680698430000000 * p ^ 10 : ℝ) ≤ 0 := dpa_s0 h1 h2
  have e0 : (-99029930953811 + 402960613914200 * p ^ 1 - 2589359130245250 * p ^ 2 + 27297549612788000 * p ^ 3 - 221128462570695000 * p ^ 4 + 919212510159783000 * p ^ 5 - 2148433431900000000 * p ^ 6 + 2988069199200000000 * p ^ 7 - 2465307609300000000 * p ^ 8 + 1117230167000000000 * p ^ 9 - 214680698430000000 * p ^ 10) * ((0 - d) ^ 5) ≤ 0 :=
    mul_nonpos_of_nonpos_of_nonneg hS0 (pow_nonneg hD 5)
  have hS1 : (-492581467464265 + 1986463944190000 * p ^ 1 - 12752763351390000 * p ^ 2 + 135869018900980000 * p ^ 3 - 1104542488174425000 * p ^ 4 + 4594965569276040000 * p ^ 5 - 10742167159500000000 * p ^ 6 + 14940345996000000000 * p ^ 7 - 12326538046500000000 * p ^ 8 + 5586150835000000000 * p ^ 9 - 1073403492150000000 * p ^ 10 : ℝ) ≤ 0 := dpa_s1 h1 h2
  have e1 : (-492581467464265 + 1986463944190000 * p ^ 1 - 12752763351390000 * p ^ 2 + 135869018900980000 * p ^ 3 - 1104542488174425000 * p ^ 4 + 4594965569276040000 * p ^ 5 - 10742167159500000000 * p ^ 6 + 14940345996000000000 * p ^ 7 - 12326538046500000000 * p ^ 8 + 5586150835000000000 * p ^ 9 - 1073403492150000000 * p ^ 10) * ((d + 30) ^ 1 * (0 - d) ^ 4) ≤ 0 :=
    mul_nonpos_of_nonpos_of_nonneg hS1 (mul_nonneg (pow_nonneg hC 1) (pow_nonneg hD 4))
  have hS2 : (-980104489968050 + 3939659543810000 * p ^ 1 - 25293087697725000 * p ^ 2 + 271119703568600000 * p ^ 3 - 2208107525622750000 * p ^ 4 + 9189075243906900000 * p ^ 5 - 21484334319000000000 * p ^ 6 + 29880691992000000000 * p ^ 7 - 24653076093000000000 * p ^ 8 + 11172301670000000000 * p ^ 9 - 2146806984300000000 * p ^ 10 : ℝ) ≤ 0 := dpa_s2 h1 h2
  have e2 : (-980104489968050 + 3939659543810000 * p ^ 1 - 25293087697725000 * p ^ 2 + 271119703568600000 * p ^ 3 - 2208107525622750000 * p ^ 4 + 9189075243906900000 * p ^ 5 - 21484334319000000000 * p ^ 6 + 29880691992000000000 * p ^ 7 - 24653076093000000000 * p ^ 8 + 11172301670000000000 * p ^ 9 - 2146806984300000000 * p ^ 10) * ((d + 30) ^ 2 * (0 - d) ^ 3) ≤ 0 :=
    mul_nonpos_of_nonpos_of_nonneg hS2 (mul_nonneg (pow_nonneg hC 2) (pow_nonneg hD 3))
  have hS3 : (-975036397937000 + 3918492740360000 * p ^ 1 - 25168110227100000 * p ^ 2 + 270791175432200000 * p ^ 3 - 2207668033738500000 * p ^ 4 + 9188765205295500000 * p ^ 5 - 21484334319000000000 * p ^ 6 + 29880691992000000000 * p ^ 7 - 24653076093000000000 * p ^ 8 + 11172301670000000000 * p ^ 9 - 2146806984300000000 * p ^ 10 : ℝ) ≤ 0 := dpa_s3 h1 h2
  have e3 : (-975036397937000 + 3918492740360000 * p ^ 1 - 25168110227100000 * p ^ 2 + 270791175432200000 * p ^ 3 - 2207668033738500000 * p ^ 4 + 9188765205295500000 * p ^ 5 - 21484334319000000000 * p ^ 6 + 29880691992000000000 * p ^ 7 - 24653076093000000000 * p ^ 8 + 11172301670000000000 * p ^ 9 - 2146806984300000000 * p ^ 10) * ((d + 30) ^ 3 * (0 - d) ^ 2) ≤ 0 :=
    mul_nonpos_of_nonpos_of_nonneg hS3 (mul_nonneg (pow_nonneg hC 3) (pow_nonneg hD 2))
  have hS4 : (-484979131900000 + 1951730429500000 * p ^ 1 - 12542808208050000 * p ^ 2 + 135296206042000000 * p ^ 3 - 1103726724357750000 * p ^ 4 + 4594331053094400000 * p ^ 5 - 10742167159500000000 * p ^ 6 + 14940345996000000000 * p ^ 7 - 12326538046500000000 * p ^ 8 + 5586150835000000000 * p ^ 9 - 1073403492150000000 * p ^ 10 : ℝ) ≤ 0 := dpa_s4 h1 h2
  have e4 : (-484979131900000 + 1951730429500000 * p ^ 1 - 12542808208050000 * p ^ 2 + 135296206042000000 * p ^ 3 - 1103726724357750000 * p ^ 4 + 4594331053094400000 * p ^ 5 - 10742167159500000000 * p ^ 6 + 14940345996000000000 * p ^ 7 - 12326538046500000000 * p ^ 8 + 5586150835000000000 * p ^ 9 - 1073403492150000000 * p ^ 10) * ((d + 30) ^ 4 * (0 - d) ^ 1) ≤ 0 :=
    mul_nonpos_of_nonpos_of_nonneg hS4 (mul_nonneg (pow_nonneg hC 4) (pow_nonneg hD 1))
  have hS5 : (-96488474750000 + 389123895800000 * p ^ 1 - 2502155884500000 * p ^ 2 + 27044308820000000 * p ^ 3 - 220731959700000000 * p ^ 4 + 918862212600000000 * p ^ 5 - 2148433431900000000 * p ^ 6 + 2988069199200000000 * p ^ 7 - 2465307609300000000 * p ^ 8 + 1117230167000000000 * p ^ 9 - 214680698430000000 * p ^ 10 : ℝ) ≤ 0 := dpa_s5 h1 h2
  have e5 : (-96488474750000 + 389123895800000 * p ^ 1 - 2502155884500000 * p ^ 2 + 27044308820000000 * p ^ 3 - 220731959700000000 * p ^ 4 + 918862212600000000 * p ^ 5 - 2148433431900000000 * p ^ 6 + 2988069199200000000 * p ^ 7 - 2465307609300000000 * p ^ 8 + 1117230167000000000 * p ^ 9 - 214680698430000000 * p ^ 10) * ((d + 30) ^ 5) ≤ 0 :=
    mul_nonpos_of_nonpos_of_nonneg hS5 (pow_nonneg hC 5)
  have hKD : (0:ℝ) < (12150000000000000000 : ℝ) := by norm_num
  have hmul : (-385953899/2000000 + 16911721/100000000 * d ^ 1 - 513093/50000000000 * d ^ 2 - 10859217/10000000000000 * d ^ 3 - 18586393/1000000000000000 * d ^ 4 + 7420443/12500000000000000 * d ^ 5 + 1945619479/2500000 * p ^ 1 - 4073967/10000000 * p ^ 1 * d ^ 1 + 7805501/1250000000 * p ^ 1 * d ^ 2 - 12314599/50000000000 * p ^ 1 * d ^ 3 + 326133/100000000000 * p ^ 1 * d ^ 4 - 5555697/250000000000000 * p ^ 1 * d ^ 5 - 5004311769/1000000 * p ^ 2 + 213525237/100000000 * p ^ 2 * d ^ 1 - 20484711/500000000 * p ^ 2 * d ^ 2 + 35625807/20000000000 * p ^ 2 * d ^ 3 - 6460017/250000000000 * p ^ 2 * d ^ 4 + 36634947/200000000000000 * p ^ 2 * d ^ 5 + 1352215441/25000 * p ^ 3 - 12443657/2500000 * p ^ 3 * d ^ 1 + 27466369/250000000 * p ^ 3 * d ^ 2 - 743753/125000000 * p ^ 3 * d ^ 3 + 24603699/250000000000 * p ^ 3 * d ^ 4 - 575879/781250000000 * p ^ 3 * d ^ 5 - 2207319597/5000 * p ^ 4 + 89234477/20000000 * p ^ 4 * d ^ 1 - 3588147/20000000 * p ^ 4 * d ^ 2 + 4271809/400000000 * p ^ 4 * d ^ 3 - 41698377/200000000000 * p ^ 4 * d ^ 4 + 8325489/5000000000000 * p ^ 4 * d ^ 5 + 4594311063/2500 * p ^ 5 - 4164603/3125000 * p ^ 5 * d ^ 1 + 70132131/500000000 * p ^ 5 * d ^ 2 - 13316721/1250000000 * p ^ 5 * d ^ 3 + 60214797/250000000000 * p ^ 5 * d ^ 4 - 106255101/50000000000000 * p ^ 5 * d ^ 5 - 21484334319/5000 * p ^ 6 + 3735086499/625 * p ^ 7 - 24653076093/5000 * p ^ 8 + 1117230167/500 * p ^ 9 - 21468069843/50000 * p ^ 10) * (12150000000000000000 : ℝ) ≤ 0 * (12150000000000000000 : ℝ) := by
    rw [zero_mul, key]
    exact (add_nonpos (add_nonpos (add_nonpos (add_nonpos (add_nonpos e0 e1) e2) e3) e4) e5)
  exact le_of_mul_le_mul_right hmul hKD

set_option maxHeartbeats 1000000 in
theorem dpb_s0_l {p : ℝ} (h1 : 0 ≤ p) (h2 : p ≤ 1/2) :
    -96488474750000 + 389123895800000 * p ^ 1 - 2502155884500000 * p ^ 2 + 27044308820000000 * p ^ 3 - 220731959700000000 * p ^ 4 + 918862212600000000 * p ^ 5 - 2148433431900000000 * p ^ 6 + 2988069199200000000 * p ^ 7 - 2465307609300000000 * p ^ 8 + 1117230167000000000 * p ^ 9 - 214680698430000000 * p ^ 10 ≤ 0 := by
  have hA : (0:ℝ) ≤ p := h1
  have hB : (0:ℝ) ≤ (1/2 - p) := by linarith
  have key : (-96488474750000 + 389123895800000 * p ^ 1 - 2502155884500000 * p ^ 2 + 27044308820000000 * p ^ 3 - 220731959700000000 * p ^ 4 + 918862212600000000 * p ^ 5 - 2148433431900000000 * p ^ 6 + 2988069199200000000 * p ^ 7 - 2465307609300000000 * p ^ 8 + 1117230167000000000 * p ^ 9 - 214680698430000000 * p ^ 10) * (1 : ℝ) = (-98804198144000000 : ℝ) * ((1/2 - p) ^ 10) + (-788810546790400000 : ℝ) * (p ^ 1 * (1/2 - p) ^ 9) + (-3293657911065600000 : ℝ) * (p ^ 2 * (1/2 - p) ^ 8) + (-6346915852390400000 : ℝ) * (p ^ 3 * (1/2 - p) ^ 7) + (-11844039197849600000 : ℝ) * (p ^ 4 * (1/2 - p) ^ 6) + (-18328783540070400000 : ℝ) * (p ^ 5 * (1/2 - p) ^ 5) + (-18585512987430400000 : ℝ) * (p ^ 6 * (1/2 - p) ^ 4) + (-11929652945305600000 : ℝ) * (p ^ 7 * (1/2 - p) ^ 3) + (-4778160939830400000 : ℝ) * (p ^ 8 * (1/2 - p) ^ 2) + (-1104871528329600000 : ℝ) * (p ^ 9 * (1/2 - p) ^ 1) + (-113539876996400000 : ℝ) * (p ^ 10) := by ring
  have e0 : (-98804198144000000 : ℝ) * ((1/2 - p) ^ 10) ≤ 0 :=
    mul_nonpos_of_nonpos_of_nonneg (by norm_num) (pow_nonneg hB 10)
  have e1 : (-788810546790400000 : ℝ) * (p ^ 1 * (1/2 - p) ^ 9) ≤ 0 :=
    mul_nonpos_of_nonpos_of_nonneg (by norm_num) (mul_nonneg (pow_nonneg hA 1) (pow_nonneg hB 9))
  have e2 : (-3293657911065600000 : ℝ) * (p ^ 2 * (1/2 - p) ^ 8) ≤ 0 :=
    mul_nonpos_of_nonpos_of_nonneg (by norm_num) (mul_nonneg (pow_nonneg hA 2) (pow_nonneg hB 8))
  have e3 : (-6346915852390400000 : ℝ) * (p ^ 3 * (1/2 - p) ^ 7) ≤ 0 :=
    mul_nonpos_of_nonpos_of_nonneg (by norm_num) (mul_nonneg (pow_nonneg hA 3) (pow_nonneg hB 7))
  have e4 : (-11844039197849600000 : ℝ) * (p ^ 4 * (1/2 - p) ^ 6) ≤ 0 :=
    mul_nonpos_of_nonpos_of_nonneg (by norm_num) (mul_nonneg (pow_nonneg hA 4) (pow_nonneg hB 6))
  have e5 : (-18328783540070400000 : ℝ) * (p ^ 5 * (1/2 - p) ^ 5) ≤ 0 :=
    mul_nonpos_of_nonpos_of_nonneg (by norm_num) (mul_nonneg (pow_nonneg hA 5) (pow_nonneg hB 5))
  have e6 : (-18585512987430400000 : ℝ) * (p ^ 6 * (1/2 - p) ^ 4) ≤ 0 :=
    mul_nonpos_of_nonpos_of_nonneg (by norm_num) (mul_nonneg (pow_nonneg hA 6) (pow_nonneg hB 4))
  have e7 : (-11929652945305600000 : ℝ) * (p ^ 7 * (1/2 - p) ^ 3) ≤ 0 :=
    mul_nonpos_of_nonpos_of_nonneg (by norm_num) (mul_nonneg (pow_nonneg hA 7) (pow_nonneg hB 3))
  have e8 : (-4778160939830400000 : ℝ) * (p ^ 8 * (1/2 - p) ^ 2) ≤ 0 :=
    mul_nonpos_of_nonpos_of_nonneg (by norm_num) (mul_nonneg (pow_nonneg hA 8) (pow_nonneg hB 2))
  have e9 : (-1104871528329600000 : ℝ) * (p ^ 9 * (1/2 - p) ^ 1) ≤ 0 :=
    mul_nonpos_of_nonpos_of_nonneg (by norm_num) (mul_nonneg (pow_nonneg hA 9) (pow_nonneg hB 1))
  have e10 : (-113539876996400000 : ℝ) * (p ^ 10) ≤ 0 :=
    mul_nonpos_of_nonpos_of_nonneg (by norm_num) (pow_nonneg hA 10)
  have hKD : (0:ℝ) < (1 : ℝ) := by norm_num
  have hmul : (-96488474750000 + 389123895800000 * p ^ 1 - 2502155884500000 * p ^ 2 + 27044308820000000 * p ^ 3 - 220731959700000000 * p ^ 4 + 918862212600000000 * p ^ 5 - 2148433431900000000 * p ^ 6 + 2988069199200000000 * p ^ 7 - 2465307609300000000 * p ^ 8 + 1117230167000000000 * p ^ 9 - 214680698430000000 * p ^ 10) * (1 : ℝ) ≤ 0 * (1 : ℝ) := by
    rw [zero_mul, key]
    exact (add_nonpos (add_nonpos (add_nonpos (add_nonpos (add_nonpos (add_nonpos (add_nonpos (add_nonpos (add_nonpos (add_nonpos e0 e1) e2) e3) e4) e5) e6) e7) e8) e9) e10)
  exact le_of_mul_le_mul_right hmul hKD

set_option maxHeartbeats 1000000 in
theorem dpb_s0_r {p : ℝ} (h1 : 1/2 ≤ p) (h2 : p ≤ 1) :
    -96488474750000 + 389123895800000 * p ^ 1 - 2502155884500000 * p ^ 2 + 27044308820000000 * p ^ 3 - 220731959700000000 * p ^ 4 + 918862212600000000 * p ^ 5 - 2148433431900000000 * p ^ 6 + 2988069199200000000 * p ^ 7 - 2465307609300000000 * p ^ 8 + 1117230167000000000 * p ^ 9 - 214680698430000000 * p ^ 10 ≤ 0 := by
  have hA : (0:ℝ) ≤ (p - 1/2) := by linarith
  have hB : (0:ℝ) ≤ (1 - p) := by linarith
  have key : (-96488474750000 + 389123895800000 * p ^ 1 - 2502155884500000 * p ^ 2 + 27044308820000000 * p ^ 3 - 220731959700000000 * p ^ 4 + 918862212600000000 * p ^ 5 - 2148433431900000000 * p ^ 6 + 2988069199200000000 * p ^ 7 - 2465307609300000000 * p ^ 8 + 1117230167000000000 * p ^ 9 - 214680698430000000 * p ^ 10) * (1 : ℝ) = (-113539876996400000 : ℝ) * ((1 - p) ^ 10) + (-1165926011598400000 : ℝ) * ((p - 1/2) ^ 1 * (1 - p) ^ 9) + (-5327651289249600000 : ℝ) * ((p - 1/2) ^ 2 * (1 - p) ^ 8) + (-14417703929062400000 : ℝ) * ((p - 1/2) ^ 3 * (1 - p) ^ 7) + (-25744716684569600000 : ℝ) * ((p - 1/2) ^ 4 * (1 - p) ^ 6) + (-31387192933939200000 : ℝ) * ((p - 1/2) ^ 5 * (1 - p) ^ 5) + (-26058355574118400000 : ℝ) * ((p - 1/2) ^ 6 * (1 - p) ^ 4) + (-14978063286169600000 : ℝ) * ((p - 1/2) ^ 7 * (1 - p) ^ 3) + (-6158542709222400000 : ℝ) * ((p - 1/2) ^ 8 * (1 - p) ^ 2) + (-1400347420569600000 : ℝ) * ((p - 1/2) ^ 9 * (1 - p) ^ 1) + (-161108145612800000 : ℝ) * ((p - 1/2) ^ 10) := by ring
  have e0 : (-113539876996400000 : ℝ) * ((1 - p) ^ 10) ≤ 0 :=
    mul_nonpos_of_nonpos_of_nonneg (by norm_num) (pow_nonneg hB 10)
  have e1 : (-1165926011598400000 : ℝ) * ((p - 1/2) ^ 1 * (1 - p) ^ 9) ≤ 0 :=
    mul_nonpos_of_nonpos_of_nonneg (by norm_num) (mul_nonneg (pow_nonneg hA 1) (pow_nonneg hB 9))
  have e2 : (-5327651289249600000 : ℝ) * ((p - 1/2) ^ 2 * (1 - p) ^ 8) ≤ 0 :=
    mul_nonpos_of_nonpos_of_nonneg (by norm_num) (mul_nonneg (pow_nonneg hA 2) (pow_nonneg hB 8))
  have e3 : (-14417703929062400000 : ℝ) * ((p - 1/2) ^ 3 * (1 - p) ^ 7) ≤ 0 :=
    mul_nonpos_of_nonpos_of_nonneg (by norm_num) (mul_nonneg (pow_nonneg hA 3) (pow_nonneg hB 7))
  have e4 : (-25744716684569600000 : ℝ) * ((p - 1/2) ^ 4 * (1 - p) ^ 6) ≤ 0 :=
    mul_nonpos_of_nonpos_of_nonneg (by norm_num) (mul_nonneg (pow_nonneg hA 4) (pow_nonneg hB 6))
  have e5 : (-31387192933939200000 : ℝ) * ((p - 1/2) ^ 5 * (1 - p) ^ 5) ≤ 0 :=
    mul_nonpos_of_nonpos_of_nonneg (by norm_num) (mul_nonneg (pow_nonneg hA 5) (pow_nonneg hB 5))
  have e6 : (-26058355574118400000 : ℝ) * ((p - 1/2) ^ 6 * (1 - p) ^ 4) ≤ 0 :=
    mul_nonpos_of_nonpos_of_nonneg (by norm_num) (mul_nonneg (pow_nonneg hA 6) (pow_nonneg hB 4))
  have e7 : (-14978063286169600000 : ℝ) * ((p - 1/2) ^ 7 * (1 - p) ^ 3) ≤ 0 :=
    mul_nonpos_of_nonpos_of_nonneg (by norm_num) (mul_nonneg (pow_nonneg hA 7) (pow_nonneg hB 3))
  have e8 : (-6158542709222400000 : ℝ) * ((p - 1/2) ^ 8 * (1 - p) ^ 2) ≤ 0 :=
    mul_nonpos_of_nonpos_of_nonneg (by norm_num) (mul_nonneg (pow_nonneg hA 8) (pow_nonneg hB 2))
  have e9 : (-1400347420569600000 : ℝ) * ((p - 1/2) ^ 9 * (1 - p) ^ 1) ≤ 0 :=
    mul_nonpos_of_nonpos_of_nonneg (by norm_num) (mul_nonneg (pow_nonneg hA 9) (pow_nonneg hB 1))
  have e10 : (-161108145612800000 : ℝ) * ((p - 1/2) ^ 10) ≤ 0 :=
    mul_nonpos_of_nonpos_of_nonneg (by norm_num) (pow_nonneg hA 10)
  have hKD : (0:ℝ) < (1 : ℝ) := by norm_num
  have hmul : (-96488474750000 + 389123895800000 * p ^ 1 - 2502155884500000 * p ^ 2 + 27044308820000000 * p ^ 3 - 220731959700000000 * p ^ 4 + 918862212600000000 * p ^ 5 - 2148433431900000000 * p ^ 6 + 2988069199200000000 * p ^ 7 - 2465307609300000000 * p ^ 8 + 1117230167000000000 * p ^ 9 - 214680698430000000 * p ^ 10) * (1 : ℝ) ≤ 0 * (1 : ℝ) := by
    rw [zero_mul, key]
    exact (add_nonpos (add_nonpos (add_nonpos (add_nonpos (add_nonpos (add_nonpos (add_nonpos (add_nonpos (add_nonpos (add_nonpos e0 e1) e2) e3) e4) e5) e6) e7) e8) e9) e10)
  exact le_of_mul_le_mul_right hmul hKD

theorem dpb_s0 {p : ℝ} (h1 : 0 ≤ p) (h2 : p ≤ 1) :
    -96488474750000 + 389123895800000 * p ^ 1 - 2502155884500000 * p ^ 2 + 27044308820000000 * p ^ 3 - 220731959700000000 * p ^ 4 + 918862212600000000 * p ^ 5 - 2148433431900000000 * p ^ 6 + 2988069199200000000 * p ^ 7 - 2465307609300000000 * p ^ 8 + 1117230167000000000 * p ^ 9 - 214680698430000000 * p ^ 10 ≤ 0 := by
  rcases le_or_lt p (1/2) with h | h
  · exact dpb_s0_l h1 h
  · exact dpb_s0_r (le_of_lt h) h2

set_option maxHeartbeats 1000000 in
theorem dpb_s1_l {p : ℝ} (h1 : 0 ≤ p) (h2 : p ≤ 1/2) :
    -479905615600000 + 1939508528500000 * p ^ 1 - 12478750636950000 * p ^ 2 + 135146882158000000 * p ^ 3 - 1103592872642250000 * p ^ 4 + 4594291072905600000 * p ^ 5 - 10742167159500000000 * p ^ 6 + 14940345996000000000 * p ^ 7 - 12326538046500000000 * p ^ 8 + 5586150835000000000 * p ^ 9 - 1073403492150000000 * p ^ 10 ≤ 0 := by
  have hA : (0:ℝ) ≤ p := h1
  have hB : (0:ℝ) ≤ (1/2 - p) := by linarith
  have key : (-479905615600000 + 1939508528500000 * p ^ 1 - 12478750636950000 * p ^ 2 + 135146882158000000 * p ^ 3 - 1103592872642250000 * p ^ 4 + 4594291072905600000 * p ^ 5 - 10742167159500000000 * p ^ 6 + 14940345996000000000 * p ^ 7 - 12326538046500000000 * p ^ 8 + 5586150835000000000 * p ^ 9 - 1073403492150000000 * p ^ 10) * (1 : ℝ) = (-491423350374400000 : ℝ) * ((1/2 - p) ^ 10) + (-3921205137152000000 : ℝ) * (p ^ 1 * (1/2 - p) ^ 9) + (-16371355630579200000 : ℝ) * (p ^ 2 * (1/2 - p) ^ 8) + (-31479461235865600000 : ℝ) * (p ^ 3 * (1/2 - p) ^ 7) + (-58770542786089600000 : ℝ) * (p ^ 4 * (1/2 - p) ^ 6) + (-91100008756012800000 : ℝ) * (p ^ 5 * (1/2 - p) ^ 5) + (-92475769358000000000 : ℝ) * (p ^ 6 * (1/2 - p) ^ 4) + (-59395420206963200000 : ℝ) * (p ^ 7 * (1/2 - p) ^ 3) + (-23799804895257600000 : ℝ) * (p ^ 8 * (1/2 - p) ^ 2) + (-5505341531049600000 : ℝ) * (p ^ 9 * (1/2 - p) ^ 1) + (-565944338892400000 : ℝ) * (p ^ 10) := by ring
  have e0 : (-491423350374400000 : ℝ) * ((1/2 - p) ^ 10) ≤ 0 :=
    mul_nonpos_of_nonpos_of_nonneg (by norm_num) (pow_nonneg hB 10)
  have e1 : (-3921205137152000000 : ℝ) * (p ^ 1 * (1/2 - p) ^ 9) ≤ 0 :=
    mul_nonpos_of_nonpos_of_nonneg (by norm_num) (mul_nonneg (pow_nonneg hA 1) (pow_nonneg hB 9))
  have e2 : (-16371355630579200000 : ℝ) * (p ^ 2 * (1/2 - p) ^ 8) ≤ 0 :=
    mul_nonpos_of_nonpos_of_nonneg (by norm_num) (mul_nonneg (pow_nonneg hA 2) (pow_nonneg hB 8))
  have e3 : (-31479461235865600000 : ℝ) * (p ^ 3 * (1/2 - p) ^ 7) ≤ 0 :=
    mul_nonpos_of_nonpos_of_nonneg (by norm_num) (mul_nonneg (pow_nonneg hA 3) (pow_nonneg hB 7))
  have e4 : (-58770542786089600000 : ℝ) * (p ^ 4 * (1/2 - p) ^ 6) ≤ 0 :=
    mul_nonpos_of_nonpos_of_nonneg (by norm_num) (mul_nonneg (pow_nonneg hA 4) (pow_nonneg hB 6))
  have e5 : (-91100008756012800000 : ℝ) * (p ^ 5 * (1/2 - p) ^ 5) ≤ 0 :=
    mul_nonpos_of_nonpos_of_nonneg (by norm_num) (mul_nonneg (pow_nonneg hA 5) (pow_nonneg hB 5))
  have e6 : (-92475769358000000000 : ℝ) * (p ^ 6 * (1/2 - p) ^ 4) ≤ 0 :=
    mul_nonpos_of_nonpos_of_nonneg (by norm_num) (mul_nonneg (pow_nonneg hA 6) (pow_nonneg hB 4))
  have e7 : (-59395420206963200000 : ℝ) * (p ^ 7 * (1/2 - p) ^ 3) ≤ 0 :=
    mul_nonpos_of_nonpos_of_nonneg (by norm_num) (mul_nonneg (pow_nonneg hA 7) (pow_nonneg hB 3))
  have e8 : (-23799804895257600000 : ℝ) * (p ^ 8 * (1/2 - p) ^ 2) ≤ 0 :=
    mul_nonpos_of_nonpos_of_nonneg (by norm_num) (mul_nonneg (pow_nonneg hA 8) (pow_nonneg hB 2))
  have e9 : (-5505341531049600000 : ℝ) * (p ^ 9 * (1/2 - p) ^ 1) ≤ 0 :=
    mul_nonpos_of_nonpos_of_nonneg (by norm_num) (mul_nonneg (pow_nonneg hA 9) (pow_nonneg hB 1))
  have e10 : (-565944338892400000 : ℝ) * (p ^ 10) ≤ 0 :=
    mul_nonpos_of_nonpos_of_nonneg (by norm_num) (pow_nonneg hA 10)
  have hKD : (0:ℝ) < (1 : ℝ) := by norm_num
  have hmul : (-479905615600000 + 1939508528500000 * p ^ 1 - 12478750636950000 * p ^ 2 + 135146882158000000 * p ^ 3 - 1103592872642250000 * p ^ 4 + 4594291072905600000 * p ^ 5 - 10742167159500000000 * p ^ 6 + 14940345996000000000 * p ^ 7 - 12326538046500000000 * p ^ 8 + 5586150835000000000 * p ^ 9 - 1073403492150000000 * p ^ 10) * (1 : ℝ) ≤ 0 * (1 : ℝ) := by
    rw [zero_mul, key]
    exact (add_nonpos (add_nonpos (add_nonpos (add_nonpos (add_nonpos (add_nonpos (add_nonpos (add_nonpos (add_nonpos (add_nonpos e0 e1) e2) e3) e4) e5) e6) e7) e8) e9) e10)
  exact le_of_mul_le_mul_right hmul hKD

set_option maxHeartbeats 1000000 in
theorem dpb_s1_r {p : ℝ} (h1 : 1/2 ≤ p) (h2 : p ≤ 1) :
    -479905615600000 + 1939508528500000 * p ^ 1 - 12478750636950000 * p ^ 2 + 135146882158000000 * p ^ 3 - 1103592872642250000 * p ^ 4 + 4594291072905600000 * p ^ 5 - 10742167159500000000 * p ^ 6 + 14940345996000000000 * p ^ 7 - 12326538046500000000 * p ^ 8 + 5586150835000000000 * p ^ 9 - 1073403492150000000 * p ^ 10 ≤ 0 := by
  have hA : (0:ℝ) ≤ (p - 1/2) := by linarith
  have hB : (0:ℝ) ≤ (1 - p) := by linarith
  have key : (-479905615600000 + 1939508528500000 * p ^ 1 - 12478750636950000 * p ^ 2 + 135146882158000000 * p ^ 3 - 1103592872642250000 * p ^ 4 + 4594291072905600000 * p ^ 5 - 10742167159500000000 * p ^ 6 + 14940345996000000000 * p ^ 7 - 12326538046500000000 * p ^ 8 + 5586150835000000000 * p ^ 9 - 1073403492150000000 * p ^ 10) * (1 : ℝ) = (-565944338892400000 : ℝ) * ((1 - p) ^ 10) + (-5813545246798400000 : ℝ) * ((p - 1/2) ^ 1 * (1 - p) ^ 9) + (-26573638336996800000 : ℝ) * ((p - 1/2) ^ 2 * (1 - p) ^ 8) + (-71938842982720000000 : ℝ) * ((p - 1/2) ^ 3 * (1 - p) ^ 7) + (-128501504542499200000 : ℝ) * ((p - 1/2) ^ 4 * (1 - p) ^ 6) + (-156713141462803200000 : ℝ) * ((p - 1/2) ^ 5 * (1 - p) ^ 5) + (-130135302966646400000 : ℝ) * ((p - 1/2) ^ 6 * (1 - p) ^ 4) + (-74811658959180800000 : ℝ) * ((p - 1/2) ^ 7 * (1 - p) ^ 3) + (-30764562706752000000 : ℝ) * ((p - 1/2) ^ 8 * (1 - p) ^ 2) + (-6995155579699200000 : ℝ) * ((p - 1/2) ^ 9 * (1 - p) ^ 1) + (-804794831564800000 : ℝ) * ((p - 1/2) ^ 10) := by ring
  have e0 : (-565944338892400000 : ℝ) * ((1 - p) ^ 10) ≤ 0 :=
    mul_nonpos_of_nonpos_of_nonneg (by norm_num) (pow_nonneg hB 10)
  have e1 : (-5813545246798400000 : ℝ) * ((p - 1/2) ^ 1 * (1 - p) ^ 9) ≤ 0 :=
    mul_nonpos_of_nonpos_of_nonneg (by norm_num) (mul_nonneg (pow_nonneg hA 1) (pow_nonneg hB 9))
  have e2 : (-26573638336996800000 : ℝ) * ((p - 1/2) ^ 2 * (1 - p) ^ 8) ≤ 0 :=
    mul_nonpos_of_nonpos_of_nonneg (by norm_num) (mul_nonneg (pow_nonneg hA 2) (pow_nonneg hB 8))
  have e3 : (-71938842982720000000 : ℝ) * ((p - 1/2) ^ 3 * (1 - p) ^ 7) ≤ 0 :=
    mul_nonpos_of_nonpos_of_nonneg (by norm_num) (mul_nonneg (pow_nonneg hA 3) (pow_nonneg hB 7))
  have e4 : (-128501504542499200000 : ℝ) * ((p - 1/2) ^ 4 * (1 - p) ^ 6) ≤ 0 :=
    mul_nonpos_of_nonpos_of_nonneg (by norm_num) (mul_nonneg (pow_nonneg hA 4) (pow_nonneg hB 6))
  have e5 : (-156713141462803200000 : ℝ) * ((p - 1/2) ^ 5 * (1 - p) ^ 5) ≤ 0 :=
    mul_nonpos_of_nonpos_of_nonneg (by norm_num) (mul_nonneg (pow_nonneg hA 5) (pow_nonneg hB 5))
  have e6 : (-130135302966646400000 : ℝ) * ((p - 1/2) ^ 6 * (1 - p) ^ 4) ≤ 0 :=
    mul_nonpos_of_nonpos_of_nonneg (by norm_num) (mul_nonneg (pow_nonneg hA 6) (pow_nonneg hB 4))
  have e7 : (-74811658959180800000 : ℝ) * ((p - 1/2) ^ 7 * (1 - p) ^ 3) ≤ 0 :=
    mul_nonpos_of_nonpos_of_nonneg (by norm_num) (mul_nonneg (pow_nonneg hA 7) (pow_nonneg hB 3))
  have e8 : (-30764562706752000000 : ℝ) * ((p - 1/2) ^ 8 * (1 - p) ^ 2) ≤ 0 :=
    mul_nonpos_of_nonpos_of_nonneg (by norm_num) (mul_nonneg (pow_nonneg hA 8) (pow_nonneg hB 2))
  have e9 : (-6995155579699200000 : ℝ) * ((p - 1/2) ^ 9 * (1 - p) ^ 1) ≤ 0 :=
    mul_nonpos_of_nonpos_of_nonneg (by norm_num) (mul_nonneg (pow_nonneg hA 9) (pow_nonneg hB 1))
  have e10 : (-804794831564800000 : ℝ) * ((p - 1/2) ^ 10) ≤ 0 :=
    mul_nonpos_of_nonpos_of_nonneg (by norm_num) (pow_nonneg hA 10)
  have hKD : (0:ℝ) < (1 : ℝ) := by norm_num
  have hmul : (-479905615600000 + 1939508528500000 * p ^ 1 - 12478750636950000 * p ^ 2 + 135146882158000000 * p ^ 3 - 1103592872642250000 * p ^ 4 + 4594291072905600000 * p ^ 5 - 10742167159500000000 * p ^ 6 + 14940345996000000000 * p ^ 7 - 12326538046500000000 * p ^ 8 + 5586150835000000000 * p ^ 9 - 1073403492150000000 * p ^ 10) * (1 : ℝ) ≤ 0 * (1 : ℝ) := by
    rw [zero_mul, key]
    exact (add_nonpos (add_nonpos (add_nonpos (add_nonpos (add_nonpos (add_nonpos (add_nonpos (add_nonpos (add_nonpos (add_nonpos e0 e1) e2) e3) e4) e5) e6) e7) e8) e9) e10)
  exact le_of_mul_le_mul_right hmul hKD

theorem dpb_s1 {p : ℝ} (h1 : 0 ≤ p) (h2 : p ≤ 1) :
    -479905615600000 + 1939508528500000 * p ^ 1 - 12478750636950000 * p ^ 2 + 135146882158000000 * p ^ 3 - 1103592872642250000 * p ^ 4 + 4594291072905600000 * p ^ 5 - 10742167159500000000 * p ^ 6 + 14940345996000000000 * p ^ 7 - 12326538046500000000 * p ^ 8 + 5586150835000000000 * p ^ 9 - 1073403492150000000 * p ^ 10 ≤ 0 := by
  rcases le_or_lt p (1/2) with h | h
  · exact dpb_s1_l h1 h
  · exact dpb_s1_r (le_of_lt h) h2

set_option maxHeartbeats 1000000 in
theorem dpb_s2_l {p : ℝ} (h1 : 0 ≤ p) (h2 : p ≤ 1/2) :
    -954742332737000 + 3869605136360000 * p ^ 1 - 24911879942700000 * p ^ 2 + 270193879896200000 * p ^ 3 - 2207132626876500000 * p ^ 4 + 9188605284540300000 * p ^ 5 - 21484334319000000000 * p ^ 6 + 29880691992000000000 * p ^ 7 - 24653076093000000000 * p ^ 8 + 11172301670000000000 * p ^ 9 - 2146806984300000000 * p ^ 10 ≤ 0 := by
  have hA : (0:ℝ) ≤ p := h1
  have hB : (0:ℝ) ≤ (1/2 - p) := by linarith
  have key : (-954742332737000 + 3869605136360000 * p ^ 1 - 24911879942700000 * p ^ 2 + 270193879896200000 * p ^ 3 - 2207132626876500000 * p ^ 4 + 9188605284540300000 * p ^ 5 - 21484334319000000000 * p ^ 6 + 29880691992000000000 * p ^ 7 - 24653076093000000000 * p ^ 8 + 11172301670000000000 * p ^ 9 - 2146806984300000000 * p ^ 10) * (1 : ℝ) = (-977656148722688000 : ℝ) * ((1/2 - p) ^ 10) + (-7795323657410560000 : ℝ) * (p ^ 1 * (1/2 - p) ^ 9) + (-32540827489505280000 : ℝ) * (p ^ 2 * (1/2 - p) ^ 8) + (-62428889469271040000 : ℝ) * (p ^ 3 * (1/2 - p) ^ 7) + (-116614940689568000000 : ℝ) * (p ^ 4 * (1/2 - p) ^ 6) + (-181092504234109056000 : ℝ) * (p ^ 5 * (1/2 - p) ^ 5) + (-184043956692108160000 : ℝ) * (p ^ 6 * (1/2 - p) ^ 4) + (-118290820894746880000 : ℝ) * (p ^ 7 * (1/2 - p) ^ 3) + (-47422593023965440000 : ℝ) * (p ^ 8 * (1/2 - p) ^ 2) + (-10974111960662400000 : ℝ) * (p ^ 9 * (1/2 - p) ^ 1) + (-1128483156630368000 : ℝ) * (p ^ 10) := by ring
  have e0 : (-977656148722688000 : ℝ) * ((1/2 - p) ^ 10) ≤ 0 :=
    mul_nonpos_of_nonpos_of_nonneg (by norm_num) (pow_nonneg hB 10)
  have e1 : (-7795323657410560000 : ℝ) * (p ^ 1 * (1/2 - p) ^ 9) ≤ 0 :=
    mul_nonpos_of_nonpos_of_nonneg (by norm_num) (mul_nonneg (pow_nonneg hA 1) (pow_nonneg hB 9))
  have e2 : (-32540827489505280000 : ℝ) * (p ^ 2 * (1/2 - p) ^ 8) ≤ 0 :=
    mul_nonpos_of_nonpos_of_nonneg (by norm_num) (mul_nonneg (pow_nonneg hA 2) (pow_nonneg hB 8))
  have e3 : (-62428889469271040000 : ℝ) * (p ^ 3 * (1/2 - p) ^ 7) ≤ 0 :=
    mul_nonpos_of_nonpos_of_nonneg (by norm_num) (mul_nonneg (pow_nonneg hA 3) (pow_nonneg hB 7))
  have e4 : (-116614940689568000000 : ℝ) * (p ^ 4 * (1/2 - p) ^ 6) ≤ 0 :=
    mul_nonpos_of_nonpos_of_nonneg (by norm_num) (mul_nonneg (pow_nonneg hA 4) (pow_nonneg hB 6))
  have e5 : (-181092504234109056000 : ℝ) * (p ^ 5 * (1/2 - p) ^ 5) ≤ 0 :=
    mul_nonpos_of_nonpos_of_nonneg (by norm_num) (mul_nonneg (pow_nonneg hA 5) (pow_nonneg hB 5))
  have e6 : (-184043956692108160000 : ℝ) * (p ^ 6 * (1/2 - p) ^ 4) ≤ 0 :=
    mul_nonpos_of_nonpos_of_nonneg (by norm_num) (mul_nonneg (pow_nonneg hA 6) (pow_nonneg hB 4))
  have e7 : (-118290820894746880000 : ℝ) * (p ^ 7 * (1/2 - p) ^ 3) ≤ 0 :=
    mul_nonpos_of_nonpos_of_nonneg (by norm_num) (mul_nonneg (pow_nonneg hA 7) (pow_nonneg hB 3))
  have e8 : (-47422593023965440000 : ℝ) * (p ^ 8 * (1/2 - p) ^ 2) ≤ 0 :=
    mul_nonpos_of_nonpos_of_nonneg (by norm_num) (mul_nonneg (pow_nonneg hA 8) (pow_nonneg hB 2))
  have e9 : (-10974111960662400000 : ℝ) * (p ^ 9 * (1/2 - p) ^ 1) ≤ 0 :=
    mul_nonpos_of_nonpos_of_nonneg (by norm_num) (mul_nonneg (pow_nonneg hA 9) (pow_nonneg hB 1))
  have e10 : (-1128483156630368000 : ℝ) * (p ^ 10) ≤ 0 :=
    mul_nonpos_of_nonpos_of_nonneg (by norm_num) (pow_nonneg hA 10)
  have hKD : (0:ℝ) < (1 : ℝ) := by norm_num
  have hmul : (-954742332737000 + 3869605136360000 * p ^ 1 - 24911879942700000 * p ^ 2 + 270193879896200000 * p ^ 3 - 2207132626876500000 * p ^ 4 + 9188605284540300000 * p ^ 5 - 21484334319000000000 * p ^ 6 + 29880691992000000000 * p ^ 7 - 24653076093000000000 * p ^ 8 + 11172301670000000000 * p ^ 9 - 2146806984300000000 * p ^ 10) * (1 : ℝ) ≤ 0 * (1 : ℝ) := by
    rw [zero_mul, key]
    exact (add_nonpos (add_nonpos (add_nonpos (add_nonpos (add_nonpos (add_nonpos (add_nonpos (add_nonpos (add_nonpos (add_nonpos e0 e1) e2) e3) e4) e5) e6) e7) e8) e9) e10)
  exact le_of_mul_le_mul_right hmul hKD

set_option maxHeartbeats 1000000 in
theorem dpb_s2_r {p : ℝ} (h1 : 1/2 ≤ p) (h2 : p ≤ 1) :
    -954742332737000 + 3869605136360000 * p ^ 1 - 24911879942700000 * p ^ 2 + 270193879896200000 * p ^ 3 - 2207132626876500000 * p ^ 4 + 9188605284540300000 * p ^ 5 - 21484334319000000000 * p ^ 6 + 29880691992000000000 * p ^ 7 - 24653076093000000000 * p ^ 8 + 11172301670000000000 * p ^ 9 - 2146806984300000000 * p ^ 10 ≤ 0 := by
  have hA : (0:ℝ) ≤ (p - 1/2) := by linarith
  have hB : (0:ℝ) ≤ (1 - p) := by linarith
  have key : (-954742332737000 + 3869605136360000 * p ^ 1 - 24911879942700000 * p ^ 2 + 270193879896200000 * p ^ 3 - 2207132626876500000 * p ^ 4 + 9188605284540300000 * p ^ 5 - 21484334319000000000 * p ^ 6 + 29880691992000000000 * p ^ 7 - 24653076093000000000 * p ^ 8 + 11172301670000000000 * p ^ 9 - 2146806984300000000 * p ^ 10) * (1 : ℝ) = (-1128483156630368000 : ℝ) * ((1 - p) ^ 10) + (-11595551171944960000 : ℝ) * ((p - 1/2) ^ 1 * (1 - p) ^ 9) + (-53015545925508480000 : ℝ) * ((p - 1/2) ^ 2 * (1 - p) ^ 8) + (-143542375518467840000 : ℝ) * ((p - 1/2) ^ 3 * (1 - p) ^ 7) + (-256403051562684800000 : ℝ) * ((p - 1/2) ^ 4 * (1 - p) ^ 6) + (-312606158020857216000 : ℝ) * ((p - 1/2) ^ 5 * (1 - p) ^ 5) + (-259395835908482560000 : ℝ) * ((p - 1/2) ^ 6 * (1 - p) ^ 4) + (-148925920629422080000 : ℝ) * ((p - 1/2) ^ 7 * (1 - p) ^ 3) + (-61148441926410240000 : ℝ) * ((p - 1/2) ^ 8 * (1 - p) ^ 2) + (-13866061166899200000 : ℝ) * ((p - 1/2) ^ 9 * (1 - p) ^ 1) + (-1591515012174848000 : ℝ) * ((p - 1/2) ^ 10) := by ring
  have e0 : (-1128483156630368000 : ℝ) * ((1 - p) ^ 10) ≤ 0 :=
    mul_nonpos_of_nonpos_of_nonneg (by norm_num) (pow_nonneg hB 10)
  have e1 : (-11595551171944960000 : ℝ) * ((p - 1/2) ^ 1 * (1 - p) ^ 9) ≤ 0 :=
    mul_nonpos_of_nonpos_of_nonneg (by norm_num) (mul_nonneg (pow_nonneg hA 1) (pow_nonneg hB 9))
  have e2 : (-53015545925508480000 : ℝ) * ((p - 1/2) ^ 2 * (1 - p) ^ 8) ≤ 0 :=
    mul_nonpos_of_nonpos_of_nonneg (by norm_num) (mul_nonneg (pow_nonneg hA 2) (pow_nonneg hB 8))
  have e3 : (-143542375518467840000 : ℝ) * ((p - 1/2) ^ 3 * (1 - p) ^ 7) ≤ 0 :=
    mul_nonpos_of_nonpos_of_nonneg (by norm_num) (mul_nonneg (pow_nonneg hA 3) (pow_nonneg hB 7))
  have e4 : (-256403051562684800000 : ℝ) * ((p - 1/2) ^ 4 * (1 - p) ^ 6) ≤ 0 :=
    mul_nonpos_of_nonpos_of_nonneg (by norm_num) (mul_nonneg (pow_nonneg hA 4) (pow_nonneg hB 6))
  have e5 : (-312606158020857216000 : ℝ) * ((p - 1/2) ^ 5 * (1 - p) ^ 5) ≤ 0 :=
    mul_nonpos_of_nonpos_of_nonneg (by norm_num) (mul_nonneg (pow_nonneg hA 5) (pow_nonneg hB 5))
  have e6 : (-259395835908482560000 : ℝ) * ((p - 1/2) ^ 6 * (1 - p) ^ 4) ≤ 0 :=
    mul_nonpos_of_nonpos_of_nonneg (by norm_num) (mul_nonneg (pow_nonneg hA 6) (pow_nonneg hB 4))
  have e7 : (-148925920629422080000 : ℝ) * ((p - 1/2) ^ 7 * (1 - p) ^ 3) ≤ 0 :=
    mul_nonpos_of_nonpos_of_nonneg (by norm_num) (mul_nonneg (pow_nonneg hA 7) (pow_nonneg hB 3))
  have e8 : (-61148441926410240000 : ℝ) * ((p - 1/2) ^ 8 * (1 - p) ^ 2) ≤ 0 :=
    mul_nonpos_of_nonpos_of_nonneg (by norm_num) (mul_nonneg (pow_nonneg hA 8) (pow_nonneg hB 2))
  have e9 : (-13866061166899200000 : ℝ) * ((p - 1/2) ^ 9 * (1 - p) ^ 1) ≤ 0 :=
    mul_nonpos_of_nonpos_of_nonneg (by norm_num) (mul_nonneg (pow_nonneg hA 9) (pow_nonneg hB 1))
  have e10 : (-1591515012174848000 : ℝ) * ((p - 1/2) ^ 10) ≤ 0 :=
    mul_nonpos_of_nonpos_of_nonneg (by norm_num) (pow_nonneg hA 10)
  have hKD : (0:ℝ) < (1 : ℝ) := by norm_num
  have hmul : (-954742332737000 + 3869605136360000 * p ^ 1 - 24911879942700000 * p ^ 2 + 270193879896200000 * p ^ 3 - 2207132626876500000 * p ^ 4 + 9188605284540300000 * p ^ 5 - 21484334319000000000 * p ^ 6 + 29880691992000000000 * p ^ 7 - 24653076093000000000 * p ^ 8 + 11172301670000000000 * p ^ 9 - 2146806984300000000 * p ^ 10) * (1 : ℝ) ≤ 0 * (1 : ℝ) := by
    rw [zero_mul, key]
    exact (add_nonpos (add_nonpos (add_nonpos (add_nonpos (add_nonpos (add_nonpos (add_nonpos (add_nonpos (add_nonpos (add_nonpos e0 e1) e2) e3) e4) e5) e6) e7) e8) e9) e10)
  exact le_of_mul_le_mul_right hmul hKD

theorem dpb_s2 {p : ℝ} (h1 : 0 ≤ p) (h2 : p ≤ 1) :
    -954742332737000 + 3869605136360000 * p ^ 1 - 24911879942700000 * p ^ 2 + 270193879896200000 * p ^ 3 - 2207132626876500000 * p ^ 4 + 9188605284540300000 * p ^ 5 - 21484334319000000000 * p ^ 6 + 29880691992000000000 * p ^ 7 - 24653076093000000000 * p ^ 8 + 11172301670000000000 * p ^ 9 - 2146806984300000000 * p ^ 10 ≤ 0 := by
  rcases le_or_lt p (1/2) with h | h
  · exact dpb_s2_l h1 h
  · exact dpb_s2_r (le_of_lt h) h2

set_option maxHeartbeats 1000000 in
theorem dpb_s3_l {p : ℝ} (h1 : 0 ≤ p) (h2 : p ≤ 1/2) :
    -949692712053950 + 3859678254350000 * p ^ 1 - 24860647431675000 * p ^ 2 + 270063109616600000 * p ^ 3 - 2207016068222250000 * p ^ 4 + 9188547721600500000 * p ^ 5 - 21484334319000000000 * p ^ 6 + 29880691992000000000 * p ^ 7 - 24653076093000000000 * p ^ 8 + 11172301670000000000 * p ^ 9 - 2146806984300000000 * p ^ 10 ≤ 0 := by
  have hA : (0:ℝ) ≤ p := h1
  have hB : (0:ℝ) ≤ (1/2 - p) := by linarith
  have key : (-949692712053950 + 3859678254350000 * p ^ 1 - 24860647431675000 * p ^ 2 + 270063109616600000 * p ^ 3 - 2207016068222250000 * p ^ 4 + 9188547721600500000 * p ^ 5 - 21484334319000000000 * p ^ 6 + 29880691992000000000 * p ^ 7 - 24653076093000000000 * p ^ 8 + 11172301670000000000 * p ^ 9 - 2146806984300000000 * p ^ 10) * (1 : ℝ) = (-972485337143244800 : ℝ) * ((1/2 - p) ^ 10) + (-7748698105205248000 : ℝ) * (p ^ 1 * (1/2 - p) ^ 9) + (-32340768517910016000 : ℝ) * (p ^ 2 * (1/2 - p) ^ 8) + (-61903178782155776000 : ℝ) * (p ^ 3 * (1/2 - p) ^ 7) + (-115698481376993408000 : ℝ) * (p ^ 4 * (1/2 - p) ^ 6) + (-180003987452670489600 : ℝ) * (p ^ 5 * (1/2 - p) ^ 5) + (-183163567289982208000 : ℝ) * (p ^ 6 * (1/2 - p) ^ 4) + (-117817865484549376000 : ℝ) * (p ^ 7 * (1/2 - p) ^ 3) + (-47263678497292416000 : ℝ) * (p ^ 8 * (1/2 - p) ^ 2) + (-10944844452248448000 : ℝ) * (p ^ 9 * (1/2 - p) ^ 1) + (-1126400241808044800 : ℝ) * (p ^ 10) := by ring
  have e0 : (-972485337143244800 : ℝ) * ((1/2 - p) ^ 10) ≤ 0 :=
    mul_nonpos_of_nonpos_of_nonneg (by norm_num) (pow_nonneg hB 10)
  have e1 : (-7748698105205248000 : ℝ) * (p ^ 1 * (1/2 - p) ^ 9) ≤ 0 :=
    mul_nonpos_of_nonpos_of_nonneg (by norm_num) (mul_nonneg (pow_nonneg hA 1) (pow_nonneg hB 9))
  have e2 : (-32340768517910016000 : ℝ) * (p ^ 2 * (1/2 - p) ^ 8) ≤ 0 :=
    mul_nonpos_of_nonpos_of_nonneg (by norm_num) (mul_nonneg (pow_nonneg hA 2) (pow_nonneg hB 8))
  have e3 : (-61903178782155776000 : ℝ) * (p ^ 3 * (1/2 - p) ^ 7) ≤ 0 :=
    mul_nonpos_of_nonpos_of_nonneg (by norm_num) (mul_nonneg (pow_nonneg hA 3) (pow_nonneg hB 7))
  have e4 : (-115698481376993408000 : ℝ) * (p ^ 4 * (1/2 - p) ^ 6) ≤ 0 :=
    mul_nonpos_of_nonpos_of_nonneg (by norm_num) (mul_nonneg (pow_nonneg hA 4) (pow_nonneg hB 6))
  have e5 : (-180003987452670489600 : ℝ) * (p ^ 5 * (1/2 - p) ^ 5) ≤ 0 :=
    mul_nonpos_of_nonpos_of_nonneg (by norm_num) (mul_nonneg (pow_nonneg hA 5) (pow_nonneg hB 5))
  have e6 : (-183163567289982208000 : ℝ) * (p ^ 6 * (1/2 - p) ^ 4) ≤ 0 :=
    mul_nonpos_of_nonpos_of_nonneg (by norm_num) (mul_nonneg (pow_nonneg hA 6) (pow_nonneg hB 4))
  have e7 : (-117817865484549376000 : ℝ) * (p ^ 7 * (1/2 - p) ^ 3) ≤ 0 :=
    mul_nonpos_of_nonpos_of_nonneg (by norm_num) (mul_nonneg (pow_nonneg hA 7) (pow_nonneg hB 3))
  have e8 : (-47263678497292416000 : ℝ) * (p ^ 8 * (1/2 - p) ^ 2) ≤ 0 :=
    mul_nonpos_of_nonpos_of_nonneg (by norm_num) (mul_nonneg (pow_nonneg hA 8) (pow_nonneg hB 2))
  have e9 : (-10944844452248448000 : ℝ) * (p ^ 9 * (1/2 - p) ^ 1) ≤ 0 :=
    mul_nonpos_of_nonpos_of_nonneg (by norm_num) (mul_nonneg (pow_nonneg hA 9) (pow_nonneg hB 1))
  have e10 : (-1126400241808044800 : ℝ) * (p ^ 10) ≤ 0 :=
    mul_nonpos_of_nonpos_of_nonneg (by norm_num) (pow_nonneg hA 10)
  have hKD : (0:ℝ) < (1 : ℝ) := by norm_num
  have hmul : (-949692712053950 + 3859678254350000 * p ^ 1 - 24860647431675000 * p ^ 2 + 270063109616600000 * p ^ 3 - 2207016068222250000 * p ^ 4 + 9188547721600500000 * p ^ 5 - 21484334319000000000 * p ^ 6 + 29880691992000000000 * p ^ 7 - 24653076093000000000 * p ^ 8 + 11172301670000000000 * p ^ 9 - 2146806984300000000 * p ^ 10) * (1 : ℝ) ≤ 0 * (1 : ℝ) := by
    rw [zero_mul, key]
    exact (add_nonpos (add_nonpos (add_nonpos (add_nonpos (add_nonpos (add_nonpos (add_nonpos (add_nonpos (add_nonpos (add_nonpos e0 e1) e2) e3) e4) e5) e6) e7) e8) e9) e10)
  exact le_of_mul_le_mul_right hmul hKD

set_option maxHeartbeats 1000000 in
theorem dpb_s3_r {p : ℝ} (h1 : 1/2 ≤ p) (h2 : p ≤ 1) :
    -949692712053950 + 3859678254350000 * p ^ 1 - 24860647431675000 * p ^ 2 + 270063109616600000 * p ^ 3 - 2207016068222250000 * p ^ 4 + 9188547721600500000 * p ^ 5 - 21484334319000000000 * p ^ 6 + 29880691992000000000 * p ^ 7 - 24653076093000000000 * p ^ 8 + 11172301670000000000 * p ^ 9 - 2146806984300000000 * p ^ 10 ≤ 0 := by
  have hA : (0:ℝ) ≤ (p - 1/2) := by linarith
  have hB : (0:ℝ) ≤ (1 - p) := by linarith
  have key : (-949692712053950 + 3859678254350000 * p ^ 1 - 24860647431675000 * p ^ 2 + 270063109616600000 * p ^ 3 - 2207016068222250000 * p ^ 4 + 9188547721600500000 * p ^ 5 - 21484334319000000000 * p ^ 6 + 29880691992000000000 * p ^ 7 - 24653076093000000000 * p ^ 8 + 11172301670000000000 * p ^ 9 - 2146806984300000000 * p ^ 10) * (1 : ℝ) = (-1126400241808044800 : ℝ) * ((1 - p) ^ 10) + (-11583160383912448000 : ℝ) * ((p - 1/2) ^ 1 * (1 - p) ^ 9) + (-53008521882268416000 : ℝ) * ((p - 1/2) ^ 2 * (1 - p) ^ 8) + (-143687621484075776000 : ℝ) * ((p - 1/2) ^ 3 * (1 - p) ^ 7) + (-257014782767115008000 : ℝ) * ((p - 1/2) ^ 4 * (1 - p) ^ 6) + (-313871220319172889600 : ℝ) * ((p - 1/2) ^ 5 * (1 - p) ^ 5) + (-260996643977281408000 : ℝ) * ((p - 1/2) ^ 6 * (1 - p) ^ 4) + (-150227075208395776000 : ℝ) * ((p - 1/2) ^ 7 * (1 - p) ^ 3) + (-61816213453564416000 : ℝ) * ((p - 1/2) ^ 8 * (1 - p) ^ 2) + (-14064222333378048000 : ℝ) * ((p - 1/2) ^ 9 * (1 - p) ^ 1) + (-1617544391197644800 : ℝ) * ((p - 1/2) ^ 10) := by ring
  have e0 : (-1126400241808044800 : ℝ) * ((1 - p) ^ 10) ≤ 0 :=
    mul_nonpos_of_nonpos_of_nonneg (by norm_num) (pow_nonneg hB 10)
  have e1 : (-11583160383912448000 : ℝ) * ((p - 1/2) ^ 1 * (1 - p) ^ 9) ≤ 0 :=
    mul_nonpos_of_nonpos_of_nonneg (by norm_num) (mul_nonneg (pow_nonneg hA 1) (pow_nonneg hB 9))
  have e2 : (-53008521882268416000 : ℝ) * ((p - 1/2) ^ 2 * (1 - p) ^ 8) ≤ 0 :=
    mul_nonpos_of_nonpos_of_nonneg (by norm_num) (mul_nonneg (pow_nonneg hA 2) (pow_nonneg hB 8))
  have e3 : (-143687621484075776000 : ℝ) * ((p - 1/2) ^ 3 * (1 - p) ^ 7) ≤ 0 :=
    mul_nonpos_of_nonpos_of_nonneg (by norm_num) (mul_nonneg (pow_nonneg hA 3) (pow_nonneg hB 7))
  have e4 : (-257014782767115008000 : ℝ) * ((p - 1/2) ^ 4 * (1 - p) ^ 6) ≤ 0 :=
    mul_nonpos_of_nonpos_of_nonneg (by norm_num) (mul_nonneg (pow_nonneg hA 4) (pow_nonneg hB 6))
  have e5 : (-313871220319172889600 : ℝ) * ((p - 1/2) ^ 5 * (1 - p) ^ 5) ≤ 0 :=
    mul_nonpos_of_nonpos_of_nonneg (by norm_num) (mul_nonneg (pow_nonneg hA 5) (pow_nonneg hB 5))
  have e6 : (-260996643977281408000 : ℝ) * ((p - 1/2) ^ 6 * (1 - p) ^ 4) ≤ 0 :=
    mul_nonpos_of_nonpos_of_nonneg (by norm_num) (mul_nonneg (pow_nonneg hA 6) (pow_nonneg hB 4))
  have e7 : (-150227075208395776000 : ℝ) * ((p - 1/2) ^ 7 * (1 - p) ^ 3) ≤ 0 :=
    mul_nonpos_of_nonpos_of_nonneg (by norm_num) (mul_nonneg (pow_nonneg hA 7) (pow_nonneg hB 3))
  have e8 : (-61816213453564416000 : ℝ) * ((p - 1/2) ^ 8 * (1 - p) ^ 2) ≤ 0 :=
    mul_nonpos_of_nonpos_of_nonneg (by norm_num) (mul_nonneg (pow_nonneg hA 8) (pow_nonneg hB 2))
  have e9 : (-14064222333378048000 : ℝ) * ((p - 1/2) ^ 9 * (1 - p) ^ 1) ≤ 0 :=
    mul_nonpos_of_nonpos_of_nonneg (by norm_num) (mul_nonneg (pow_nonneg hA 9) (pow_nonneg hB 1))
  have e10 : (-1617544391197644800 : ℝ) * ((p - 1/2) ^ 10) ≤ 0 :=
    mul_nonpos_of_nonpos_of_nonneg (by norm_num) (pow_nonneg hA 10)
  have hKD : (0:ℝ) < (1 : ℝ) := by norm_num
  have hmul : (-949692712053950 + 3859678254350000 * p ^ 1 - 24860647431675000 * p ^ 2 + 270063109616600000 * p ^ 3 - 2207016068222250000 * p ^ 4 + 9188547721600500000 * p ^ 5 - 21484334319000000000 * p ^ 6 + 29880691992000000000 * p ^ 7 - 24653076093000000000 * p ^ 8 + 11172301670000000000 * p ^ 9 - 2146806984300000000 * p ^ 10) * (1 : ℝ) ≤ 0 * (1 : ℝ) := by
    rw [zero_mul, key]
    exact (add_nonpos (add_nonpos (add_nonpos (add_nonpos (add_nonpos (add_nonpos (add_nonpos (add_nonpos (add_nonpos (add_nonpos e0 e1) e2) e3) e4) e5) e6) e7) e8) e9) e10)
  exact le_of_mul_le_mul_right hmul hKD

theorem dpb_s3 {p : ℝ} (h1 : 0 ≤ p) (h2 : p ≤ 1) :
    -949692712053950 + 3859678254350000 * p ^ 1 - 24860647431675000 * p ^ 2 + 270063109616600000 * p ^ 3 - 2207016068222250000 * p ^ 4 + 9188547721600500000 * p ^ 5 - 21484334319000000000 * p ^ 6 + 29880691992000000000 * p ^ 7 - 24653076093000000000 * p ^ 8 + 11172301670000000000 * p ^ 9 - 2146806984300000000 * p ^ 10 ≤ 0 := by
  rcases le_or_lt p (1/2) with h | h
  · exact dpb_s3_l h1 h
  · exact dpb_s3_r (le_of_lt h) h2

set_option maxHeartbeats 1000000 in
theorem dpb_s4_l {p : ℝ} (h1 : 0 ≤ p) (h2 : p ≤ 1/2) :
    -472346042036065 + 1924276573270000 * p ^ 1 - 12400343388090000 * p ^ 2 + 134950422068980000 * p ^ 3 - 1103430387097425000 * p ^ 4 + 4594230366173640000 * p ^ 5 - 10742167159500000000 * p ^ 6 + 14940345996000000000 * p ^ 7 - 12326538046500000000 * p ^ 8 + 5586150835000000000 * p ^ 9 - 1073403492150000000 * p ^ 10 ≤ 0 := by
  have hA : (0:ℝ) ≤ p := h1
  have hB : (0:ℝ) ≤ (1/2 - p) := by linarith
  have key : (-472346042036065 + 1924276573270000 * p ^ 1 - 12400343388090000 * p ^ 2 + 134950422068980000 * p ^ 3 - 1103430387097425000 * p ^ 4 + 4594230366173640000 * p ^ 5 - 10742167159500000000 * p ^ 6 + 14940345996000000000 * p ^ 7 - 12326538046500000000 * p ^ 8 + 5586150835000000000 * p ^ 9 - 1073403492150000000 * p ^ 10) * (1 : ℝ) = (-483682347044930560 : ℝ) * ((1/2 - p) ^ 10) + (-3851593864935065600 : ℝ) * (p ^ 1 * (1/2 - p) ^ 9) + (-16073127074744755200 : ℝ) * (p ^ 2 * (1/2 - p) ^ 8) + (-30695865080857907200 : ℝ) * (p ^ 3 * (1/2 - p) ^ 7) + (-57403634022497497600 : ℝ) * (p ^ 4 * (1/2 - p) ^ 6) + (-89475506378622981120 : ℝ) * (p ^ 5 * (1/2 - p) ^ 5) + (-91161612807929177600 : ℝ) * (p ^ 6 * (1/2 - p) ^ 4) + (-58689135273962547200 : ℝ) * (p ^ 7 * (1/2 - p) ^ 3) + (-23561716734883315200 : ℝ) * (p ^ 8 * (1/2 - p) ^ 2) + (-5460889169452185600 : ℝ) * (p ^ 9 * (1/2 - p) ^ 1) + (-562620272881010560 : ℝ) * (p ^ 10) := by ring
  have e0 : (-483682347044930560 : ℝ) * ((1/2 - p) ^ 10) ≤ 0 :=
    mul_nonpos_of_nonpos_of_nonneg (by norm_num) (pow_nonneg hB 10)
  have e1 : (-3851593864935065600 : ℝ) * (p ^ 1 * (1/2 - p) ^ 9) ≤ 0 :=
    mul_nonpos_of_nonpos_of_nonneg (by norm_num) (mul_nonneg (pow_nonneg hA 1) (pow_nonneg hB 9))
  have e2 : (-16073127074744755200 : ℝ) * (p ^ 2 * (1/2 - p) ^ 8) ≤ 0 :=
    mul_nonpos_of_nonpos_of_nonneg (by norm_num) (mul_nonneg (pow_nonneg hA 2) (pow_nonneg hB 8))
  have e3 : (-30695865080857907200 : ℝ) * (p ^ 3 * (1/2 - p) ^ 7) ≤ 0 :=
    mul_nonpos_of_nonpos_of_nonneg (by norm_num) (mul_nonneg (pow_nonneg hA 3) (pow_nonneg hB 7))
  have e4 : (-57403634022497497600 : ℝ) * (p ^ 4 * (1/2 - p) ^ 6) ≤ 0 :=
    mul_nonpos_of_nonpos_of_nonneg (by norm_num) (mul_nonneg (pow_nonneg hA 4) (pow_nonneg hB 6))
  have e5 : (-89475506378622981120 : ℝ) * (p ^ 5 * (1/2 - p) ^ 5) ≤ 0 :=
    mul_nonpos_of_nonpos_of_nonneg (by norm_num) (mul_nonneg (pow_nonneg hA 5) (pow_nonneg hB 5))
  have e6 : (-91161612807929177600 : ℝ) * (p ^ 6 * (1/2 - p) ^ 4) ≤ 0 :=
    mul_nonpos_of_nonpos_of_nonneg (by norm_num) (mul_nonneg (pow_nonneg hA 6) (pow_nonneg hB 4))
  have e7 : (-58689135273962547200 : ℝ) * (p ^ 7 * (1/2 - p) ^ 3) ≤ 0 :=
    mul_nonpos_of_nonpos_of_nonneg (by norm_num) (mul_nonneg (pow_nonneg hA 7) (pow_nonneg hB 3))
  have e8 : (-23561716734883315200 : ℝ) * (p ^ 8 * (1/2 - p) ^ 2) ≤ 0 :=
    mul_nonpos_of_nonpos_of_nonneg (by norm_num) (mul_nonneg (pow_nonneg hA 8) (pow_nonneg hB 2))
  have e9 : (-5460889169452185600 : ℝ) * (p ^ 9 * (1/2 - p) ^ 1) ≤ 0 :=
    mul_nonpos_of_nonpos_of_nonneg (by norm_num) (mul_nonneg (pow_nonneg hA 9) (pow_nonneg hB 1))
  have e10 : (-562620272881010560 : ℝ) * (p ^ 10) ≤ 0 :=
    mul_nonpos_of_nonpos_of_nonneg (by norm_num) (pow_nonneg hA 10)
  have hKD : (0:ℝ) < (1 : ℝ) := by norm_num
  have hmul : (-472346042036065 + 1924276573270000 * p ^ 1 - 12400343388090000 * p ^ 2 + 134950422068980000 * p ^ 3 - 1103430387097425000 * p ^ 4 + 4594230366173640000 * p ^ 5 - 10742167159500000000 * p ^ 6 + 14940345996000000000 * p ^ 7 - 12326538046500000000 * p ^ 8 + 5586150835000000000 * p ^ 9 - 1073403492150000000 * p ^ 10) * (1 : ℝ) ≤ 0 * (1 : ℝ) := by
    rw [zero_mul, key]
    exact (add_nonpos (add_nonpos (add_nonpos (add_nonpos (add_nonpos (add_nonpos (add_nonpos (add_nonpos (add_nonpos (add_nonpos e0 e1) e2) e3) e4) e5) e6) e7) e8) e9) e10)
  exact le_of_mul_le_mul_right hmul hKD

set_option maxHeartbeats 1000000 in
theorem dpb_s4_r {p : ℝ} (h1 : 1/2 ≤ p) (h2 : p ≤ 1) :
    -472346042036065 + 1924276573270000 * p ^ 1 - 12400343388090000 * p ^ 2 + 134950422068980000 * p ^ 3 - 1103430387097425000 * p ^ 4 + 4594230366173640000 * p ^ 5 - 10742167159500000000 * p ^ 6 + 14940345996000000000 * p ^ 7 - 12326538046500000000 * p ^ 8 + 5586150835000000000 * p ^ 9 - 1073403492150000000 * p ^ 10 ≤ 0 := by
  have hA : (0:ℝ) ≤ (p - 1/2) := by linarith
  have hB : (0:ℝ) ≤ (1 - p) := by linarith
  have key : (-472346042036065 + 1924276573270000 * p ^ 1 - 12400343388090000 * p ^ 2 + 134950422068980000 * p ^ 3 - 1103430387097425000 * p ^ 4 + 4594230366173640000 * p ^ 5 - 10742167159500000000 * p ^ 6 + 14940345996000000000 * p ^ 7 - 12326538046500000000 * p ^ 8 + 5586150835000000000 * p ^ 9 - 1073403492150000000 * p ^ 10) * (1 : ℝ) = (-562620272881010560 : ℝ) * ((1 - p) ^ 10) + (-5791516288168025600 : ℝ) * ((p - 1/2) ^ 1 * (1 - p) ^ 9) + (-26537360803325875200 : ℝ) * ((p - 1/2) ^ 2 * (1 - p) ^ 8) + (-72045754048825907200 : ℝ) * ((p - 1/2) ^ 3 * (1 - p) ^ 7) + (-129112588287711577600 : ℝ) * ((p - 1/2) ^ 4 * (1 - p) ^ 6) + (-158042896428261381120 : ℝ) * ((p - 1/2) ^ 5 * (1 - p) ^ 5) + (-131821541361387737600 : ℝ) * ((p - 1/2) ^ 6 * (1 - p) ^ 4) + (-76158853192118067200 : ℝ) * ((p - 1/2) ^ 7 * (1 - p) ^ 3) + (-31437452304340915200 : ℝ) * ((p - 1/2) ^ 8 * (1 - p) ^ 2) + (-7188455534464665600 : ℝ) * ((p - 1/2) ^ 9 * (1 - p) ^ 1) + (-829315954340930560 : ℝ) * ((p - 1/2) ^ 10) := by ring
  have e0 : (-562620272881010560 : ℝ) * ((1 - p) ^ 10) ≤ 0 :=
    mul_nonpos_of_nonpos_of_nonneg (by norm_num) (pow_nonneg hB 10)
  have e1 : (-5791516288168025600 : ℝ) * ((p - 1/2) ^ 1 * (1 - p) ^ 9) ≤ 0 :=
    mul_nonpos_of_nonpos_of_nonneg (by norm_num) (mul_nonneg (pow_nonneg hA 1) (pow_nonneg hB 9))
  have e2 : (-26537360803325875200 : ℝ) * ((p - 1/2) ^ 2 * (1 - p) ^ 8) ≤ 0 :=
    mul_nonpos_of_nonpos_of_nonneg (by norm_num) (mul_nonneg (pow_nonneg hA 2) (pow_nonneg hB 8))
  have e3 : (-72045754048825907200 : ℝ) * ((p - 1/2) ^ 3 * (1 - p) ^ 7) ≤ 0 :=
    mul_nonpos_of_nonpos_of_nonneg (by norm_num) (mul_nonneg (pow_nonneg hA 3) (pow_nonneg hB 7))
  have e4 : (-129112588287711577600 : ℝ) * ((p - 1/2) ^ 4 * (1 - p) ^ 6) ≤ 0 :=
    mul_nonpos_of_nonpos_of_nonneg (by norm_num) (mul_nonneg (pow_nonneg hA 4) (pow_nonneg hB 6))
  have e5 : (-158042896428261381120 : ℝ) * ((p - 1/2) ^ 5 * (1 - p) ^ 5) ≤ 0 :=
    mul_nonpos_of_nonpos_of_nonneg (by norm_num) (mul_nonneg (pow_nonneg hA 5) (pow_nonneg hB 5))
  have e6 : (-131821541361387737600 : ℝ) * ((p - 1/2) ^ 6 * (1 - p) ^ 4) ≤ 0 :=
    mul_nonpos_of_nonpos_of_nonneg (by norm_num) (mul_nonneg (pow_nonneg hA 6) (pow_nonneg hB 4))
  have e7 : (-76158853192118067200 : ℝ) * ((p - 1/2) ^ 7 * (1 - p) ^ 3) ≤ 0 :=
    mul_nonpos_of_nonpos_of_nonneg (by norm_num) (mul_nonneg (pow_nonneg hA 7) (pow_nonneg hB 3))
  have e8 : (-31437452304340915200 : ℝ) * ((p - 1/2) ^ 8 * (1 - p) ^ 2) ≤ 0 :=
    mul_nonpos_of_nonpos_of_nonneg (by norm_num) (mul_nonneg (pow_nonneg hA 8) (pow_nonneg hB 2))
  have e9 : (-7188455534464665600 : ℝ) * ((p - 1/2) ^ 9 * (1 - p) ^ 1) ≤ 0 :=
    mul_nonpos_of_nonpos_of_nonneg (by norm_num) (mul_nonneg (pow_nonneg hA 9) (pow_nonneg hB 1))
  have e10 : (-829315954340930560 : ℝ) * ((p - 1/2) ^ 10) ≤ 0 :=
    mul_nonpos_of_nonpos_of_nonneg (by norm_num) (pow_nonneg hA 10)
  have hKD : (0:ℝ) < (1 : ℝ) := by norm_num
  have hmul : (-472346042036065 + 1924276573270000 * p ^ 1 - 12400343388090000 * p ^ 2 + 134950422068980000 * p ^ 3 - 1103430387097425000 * p ^ 4 + 4594230366173640000 * p ^ 5 - 10742167159500000000 * p ^ 6 + 14940345996000000000 * p ^ 7 - 12326538046500000000 * p ^ 8 + 5586150835000000000 * p ^ 9 - 1073403492150000000 * p ^ 10) * (1 : ℝ) ≤ 0 * (1 : ℝ) := by
    rw [zero_mul, key]
    exact (add_nonpos (add_nonpos (add_nonpos (add_nonpos (add_nonpos (add_nonpos (add_nonpos (add_nonpos (add_nonpos (add_nonpos e0 e1) e2) e3) e4) e5) e6) e7) e8) e9) e10)
  exact le_of_mul_le_mul_right hmul hKD

theorem dpb_s4 {p : ℝ} (h1 : 0 ≤ p) (h2 : p ≤ 1) :
    -472346042036065 + 1924276573270000 * p ^ 1 - 12400343388090000 * p ^ 2 + 134950422068980000 * p ^ 3 - 1103430387097425000 * p ^ 4 + 4594230366173640000 * p ^ 5 - 10742167159500000000 * p ^ 6 + 14940345996000000000 * p ^ 7 - 12326538046500000000 * p ^ 8 + 5586150835000000000 * p ^ 9 - 1073403492150000000 * p ^ 10 ≤ 0 := by
  rcases le_or_lt p (1/2) with h | h
  · exact dpb_s4_l h1 h
  · exact dpb_s4_r (le_of_lt h) h2

set_option maxHeartbeats 1000000 in
theorem dpb_s5_l {p : ℝ} (h1 : 0 ≤ p) (h2 : p ≤ 1/2) :
    -93971309198519 + 383548815705800 * p ^ 1 - 2472755573634750 * p ^ 2 + 26969662940372000 * p ^ 3 - 220665801871155000 * p ^ 4 + 918833248818297000 * p ^ 5 - 2148433431900000000 * p ^ 6 + 2988069199200000000 * p ^ 7 - 2465307609300000000 * p ^ 8 + 1117230167000000000 * p ^ 9 - 214680698430000000 * p ^ 10 ≤ 0 := by
  have hA : (0:ℝ) ≤ p := h1
  have hB : (0:ℝ) ≤ (1/2 - p) := by linarith
  have key : (-93971309198519 + 383548815705800 * p ^ 1 - 2472755573634750 * p ^ 2 + 26969662940372000 * p ^ 3 - 220665801871155000 * p ^ 4 + 918833248818297000 * p ^ 5 - 2148433431900000000 * p ^ 6 + 2988069199200000000 * p ^ 7 - 2465307609300000000 * p ^ 8 + 1117230167000000000 * p ^ 9 - 214680698430000000 * p ^ 10) * (1 : ℝ) = (-96226620619283456 : ℝ) * ((1/2 - p) ^ 10) + (-765889212551464960 : ℝ) * (p ^ 1 * (1/2 - p) ^ 9) + (-3195830411945925120 : ℝ) * (p ^ 2 * (1/2 - p) ^ 8) + (-6089709261661061120 : ℝ) * (p ^ 3 * (1/2 - p) ^ 7) + (-11394428141168975360 : ℝ) * (p ^ 4 * (1/2 - p) ^ 6) + (-17793581073492717312 : ℝ) * (p ^ 5 * (1/2 - p) ^ 5) + (-18152563933686396160 : ℝ) * (p ^ 6 * (1/2 - p) ^ 4) + (-11697633760423544320 : ℝ) * (p ^ 7 * (1/2 - p) ^ 3) + (-4700593418126161920 : ℝ) * (p ^ 8 * (1/2 - p) ^ 2) + (-1090686192447164160 : ℝ) * (p ^ 9 * (1/2 - p) ^ 1) + (-112537673459209856 : ℝ) * (p ^ 10) := by ring
  have e0 : (-96226620619283456 : ℝ) * ((1/2 - p) ^ 10) ≤ 0 :=
    mul_nonpos_of_nonpos_of_nonneg (by norm_num) (pow_nonneg hB 10)
  have e1 : (-765889212551464960 : ℝ) * (p ^ 1 * (1/2 - p) ^ 9) ≤ 0 :=
    mul_nonpos_of_nonpos_of_nonneg (by norm_num) (mul_nonneg (pow_nonneg hA 1) (pow_nonneg hB 9))
  have e2 : (-3195830411945925120 : ℝ) * (p ^ 2 * (1/2 - p) ^ 8) ≤ 0 :=
    mul_nonpos_of_nonpos_of_nonneg (by norm_num) (mul_nonneg (pow_nonneg hA 2) (pow_nonneg hB 8))
  have e3 : (-6089709261661061120 : ℝ) * (p ^ 3 * (1/2 - p) ^ 7) ≤ 0 :=
    mul_nonpos_of_nonpos_of_nonneg (by norm_num) (mul_nonneg (pow_nonneg hA 3) (pow_nonneg hB 7))
  have e4 : (-11394428141168975360 : ℝ) * (p ^ 4 * (1/2 - p) ^ 6) ≤ 0 :=
    mul_nonpos_of_nonpos_of_nonneg (by norm_num) (mul_nonneg (pow_nonneg hA 4) (pow_nonneg hB 6))
  have e5 : (-17793581073492717312 : ℝ) * (p ^ 5 * (1/2 - p) ^ 5) ≤ 0 :=
    mul_nonpos_of_nonpos_of_nonneg (by norm_num) (mul_nonneg (pow_nonneg hA 5) (pow_nonneg hB 5))
  have e6 : (-18152563933686396160 : ℝ) * (p ^ 6 * (1/2 - p) ^ 4) ≤ 0 :=
    mul_nonpos_of_nonpos_of_nonneg (by norm_num) (mul_nonneg (pow_nonneg hA 6) (pow_nonneg hB 4))
  have e7 : (-11697633760423544320 : ℝ) * (p ^ 7 * (1/2 - p) ^ 3) ≤ 0 :=
    mul_nonpos_of_nonpos_of_nonneg (by norm_num) (mul_nonneg (pow_nonneg hA 7) (pow_nonneg hB 3))
  have e8 : (-4700593418126161920 : ℝ) * (p ^ 8 * (1/2 - p) ^ 2) ≤ 0 :=
    mul_nonpos_of_nonpos_of_nonneg (by norm_num) (mul_nonneg (pow_nonneg hA 8) (pow_nonneg hB 2))
  have e9 : (-1090686192447164160 : ℝ) * (p ^ 9 * (1/2 - p) ^ 1) ≤ 0 :=
    mul_nonpos_of_nonpos_of_nonneg (by norm_num) (mul_nonneg (pow_nonneg hA 9) (pow_nonneg hB 1))
  have e10 : (-112537673459209856 : ℝ) * (p ^ 10) ≤ 0 :=
    mul_nonpos_of_nonpos_of_nonneg (by norm_num) (pow_nonneg hA 10)
  have hKD : (0:ℝ) < (1 : ℝ) := by norm_num
  have hmul : (-93971309198519 + 383548815705800 * p ^ 1 - 2472755573634750 * p ^ 2 + 26969662940372000 * p ^ 3 - 220665801871155000 * p ^ 4 + 918833248818297000 * p ^ 5 - 2148433431900000000 * p ^ 6 + 2988069199200000000 * p ^ 7 - 2465307609300000000 * p ^ 8 + 1117230167000000000 * p ^ 9 - 214680698430000000 * p ^ 10) * (1 : ℝ) ≤ 0 * (1 : ℝ) := by
    rw [zero_mul, key]
    exact (add_nonpos (add_nonpos (add_nonpos (add_nonpos (add_nonpos (add_nonpos (add_nonpos (add_nonpos (add_nonpos (add_nonpos e0 e1) e2) e3) e4) e5) e6) e7) e8) e9) e10)
  exact le_of_mul_le_mul_right hmul hKD

set_option maxHeartbeats 1000000 in
theorem dpb_s5_r {p : ℝ} (h1 : 1/2 ≤ p) (h2 : p ≤ 1) :
    -93971309198519 + 383548815705800 * p ^ 1 - 2472755573634750 * p ^ 2 + 26969662940372000 * p ^ 3 - 220665801871155000 * p ^ 4 + 918833248818297000 * p ^ 5 - 2148433431900000000 * p ^ 6 + 2988069199200000000 * p ^ 7 - 2465307609300000000 * p ^ 8 + 1117230167000000000 * p ^ 9 - 214680698430000000 * p ^ 10 ≤ 0 := by
  have hA : (0:ℝ) ≤ (p - 1/2) := by linarith
  have hB : (0:ℝ) ≤ (1 - p) := by linarith
  have key : (-93971309198519 + 383548815705800 * p ^ 1 - 2472755573634750 * p ^ 2 + 26969662940372000 * p ^ 3 - 220665801871155000 * p ^ 4 + 918833248818297000 * p ^ 5 - 2148433431900000000 * p ^ 6 + 2988069199200000000 * p ^ 7 - 2465307609300000000 * p ^ 8 + 1117230167000000000 * p ^ 9 - 214680698430000000 * p ^ 10) * (1 : ℝ) = (-112537673459209856 : ℝ) * ((1 - p) ^ 10) + (-1160067276737032960 : ℝ) * ((p - 1/2) ^ 1 * (1 - p) ^ 9) + (-5325023176734981120 : ℝ) * ((p - 1/2) ^ 2 * (1 - p) ^ 8) + (-14489215738044869120 : ℝ) * ((p - 1/2) ^ 3 * (1 - p) ^ 7) + (-26037615616337711360 : ℝ) * ((p - 1/2) ^ 4 * (1 - p) ^ 6) + (-31982236377272186112 : ℝ) * ((p - 1/2) ^ 5 * (1 - p) ^ 5) + (-26799232154949084160 : ℝ) * ((p - 1/2) ^ 6 * (1 - p) ^ 4) + (-15570895500211640320 : ℝ) * ((p - 1/2) ^ 7 * (1 - p) ^ 3) + (-6458250166378129920 : ℝ) * ((p - 1/2) ^ 8 * (1 - p) ^ 2) + (-1488047405407580160 : ℝ) * ((p - 1/2) ^ 9 * (1 - p) ^ 1) + (-172484208244192256 : ℝ) * ((p - 1/2) ^ 10) := by ring
  have e0 : (-112537673459209856 : ℝ) * ((1 - p) ^ 10) ≤ 0 :=
    mul_nonpos_of_nonpos_of_nonneg (by norm_num) (pow_nonneg hB 10)
  have e1 : (-1160067276737032960 : ℝ) * ((p - 1/2) ^ 1 * (1 - p) ^ 9) ≤ 0 :=
    mul_nonpos_of_nonpos_of_nonneg (by norm_num) (mul_nonneg (pow_nonneg hA 1) (pow_nonneg hB 9))
  have e2 : (-5325023176734981120 : ℝ) * ((p - 1/2) ^ 2 * (1 - p) ^ 8) ≤ 0 :=
    mul_nonpos_of_nonpos_of_nonneg (by norm_num) (mul_nonneg (pow_nonneg hA 2) (pow_nonneg hB 8))
  have e3 : (-14489215738044869120 : ℝ) * ((p - 1/2) ^ 3 * (1 - p) ^ 7) ≤ 0 :=
    mul_nonpos_of_nonpos_of_nonneg (by norm_num) (mul_nonneg (pow_nonneg hA 3) (pow_nonneg hB 7))
  have e4 : (-26037615616337711360 : ℝ) * ((p - 1/2) ^ 4 * (1 - p) ^ 6) ≤ 0 :=
    mul_nonpos_of_nonpos_of_nonneg (by norm_num) (mul_nonneg (pow_nonneg hA 4) (pow_nonneg hB 6))
  have e5 : (-31982236377272186112 : ℝ) * ((p - 1/2) ^ 5 * (1 - p) ^ 5) ≤ 0 :=
    mul_nonpos_of_nonpos_of_nonneg (by norm_num) (mul_nonneg (pow_nonneg hA 5) (pow_nonneg hB 5))
  have e6 : (-26799232154949084160 : ℝ) * ((p - 1/2) ^ 6 * (1 - p) ^ 4) ≤ 0 :=
    mul_nonpos_of_nonpos_of_nonneg (by norm_num) (mul_nonneg (pow_nonneg hA 6) (pow_nonneg hB 4))
  have e7 : (-15570895500211640320 : ℝ) * ((p - 1/2) ^ 7 * (1 - p) ^ 3) ≤ 0 :=
    mul_nonpos_of_nonpos_of_nonneg (by norm_num) (mul_nonneg (pow_nonneg hA 7) (pow_nonneg hB 3))
  have e8 : (-6458250166378129920 : ℝ) * ((p - 1/2) ^ 8 * (1 - p) ^ 2) ≤ 0 :=
    mul_nonpos_of_nonpos_of_nonneg (by norm_num) (mul_nonneg (pow_nonneg hA 8) (pow_nonneg hB 2))
  have e9 : (-1488047405407580160 : ℝ) * ((p - 1/2) ^ 9 * (1 - p) ^ 1) ≤ 0 :=
    mul_nonpos_of_nonpos_of_nonneg (by norm_num) (mul_nonneg (pow_nonneg hA 9) (pow_nonneg hB 1))
  have e10 : (-172484208244192256 : ℝ) * ((p - 1/2) ^ 10) ≤ 0 :=
    mul_nonpos_of_nonpos_of_nonneg (by norm_num) (pow_nonneg hA 10)
  have hKD : (0:ℝ) < (1 : ℝ) := by norm_num
  have hmul : (-93971309198519 + 383548815705800 * p ^ 1 - 2472755573634750 * p ^ 2 + 26969662940372000 * p ^ 3 - 220665801871155000 * p ^ 4 + 918833248818297000 * p ^ 5 - 2148433431900000000 * p ^ 6 + 2988069199200000000 * p ^ 7 - 2465307609300000000 * p ^ 8 + 1117230167000000000 * p ^ 9 - 214680698430000000 * p ^ 10) * (1 : ℝ) ≤ 0 * (1 : ℝ) := by
    rw [zero_mul, key]
    exact (add_nonpos (add_nonpos (add_nonpos (add_nonpos (add_nonpos (add_nonpos (add_nonpos (add_nonpos (add_nonpos (add_nonpos e0 e1) e2) e3) e4) e5) e6) e7) e8) e9) e10)
  exact le_of_mul_le_mul_right hmul hKD

theorem dpb_s5 {p : ℝ} (h1 : 0 ≤ p) (h2 : p ≤ 1) :
    -93971309198519 + 383548815705800 * p ^ 1 - 2472755573634750 * p ^ 2 + 26969662940372000 * p ^ 3 - 220665801871155000 * p ^ 4 + 918833248818297000 * p ^ 5 - 2148433431900000000 * p ^ 6 + 2988069199200000000 * p ^ 7 - 2465307609300000000 * p ^ 8 + 1117230167000000000 * p ^ 9 - 214680698430000000 * p ^ 10 ≤ 0 := by
  rcases le_or_lt p (1/2) with h | h
  · exact dpb_s5_l h1 h
  · exact dpb_s5_r (le_of_lt h) h2

set_option maxHeartbeats 2000000 in
theorem dpb_nonpos {p d : ℝ} (h1 : 0 ≤ p) (h2 : p ≤ 1)
    (hy1 : 0 ≤ d) (hy2 : d ≤ 30) :
    -385953899/2000000 + 16911721/100000000 * d ^ 1 - 513093/50000000000 * d ^ 2 - 10859217/10000000000000 * d ^ 3 - 18586393/1000000000000000 * d ^ 4 + 7420443/12500000000000000 * d ^ 5 + 1945619479/2500000 * p ^ 1 - 4073967/10000000 * p ^ 1 * d ^ 1 + 7805501/1250000000 * p ^ 1 * d ^ 2 - 12314599/50000000000 * p ^ 1 * d ^ 3 + 326133/100000000000 * p ^ 1 * d ^ 4 - 5555697/250000000000000 * p ^ 1 * d ^ 5 - 5004311769/1000000 * p ^ 2 + 213525237/100000000 * p ^ 2 * d ^ 1 - 20484711/500000000 * p ^ 2 * d ^ 2 + 35625807/20000000000 * p ^ 2 * d ^ 3 - 6460017/250000000000 * p ^ 2 * d ^ 4 + 36634947/200000000000000 * p ^ 2 * d ^ 5 + 1352215441/25000 * p ^ 3 - 12443657/2500000 * p ^ 3 * d ^ 1 + 27466369/250000000 * p ^ 3 * d ^ 2 - 743753/125000000 * p ^ 3 * d ^ 3 + 24603699/250000000000 * p ^ 3 * d ^ 4 - 575879/781250000000 * p ^ 3 * d ^ 5 - 2207319597/5000 * p ^ 4 + 89234477/20000000 * p ^ 4 * d ^ 1 - 3588147/20000000 * p ^ 4 * d ^ 2 + 4271809/400000000 * p ^ 4 * d ^ 3 - 41698377/200000000000 * p ^ 4 * d ^ 4 + 8325489/5000000000000 * p ^ 4 * d ^ 5 + 4594311063/2500 * p ^ 5 - 4164603/3125000 * p ^ 5 * d ^ 1 + 70132131/500000000 * p ^ 5 * d ^ 2 - 13316721/1250000000 * p ^ 5 * d ^ 3 + 60214797/250000000000 * p ^ 5 * d ^ 4 - 106255101/50000000000000 * p ^ 5 * d ^ 5 - 21484334319/5000 * p ^ 6 + 3735086499/625 * p ^ 7 - 24653076093/5000 * p ^ 8 + 1117230167/500 * p ^ 9 - 21468069843/50000 * p ^ 10 ≤ 0 := by
  have hC : (0:ℝ) ≤ d := hy1
  have hD : (0:ℝ) ≤ (30 - d) := by linarith
  have key : (-385953899/2000000 + 16911721/100000000 * d ^ 1 - 513093/50000000000 * d ^ 2 - 10859217/10000000000000 * d ^ 3 - 18586393/1000000000000000 * d ^ 4 + 7420443/12500000000000000 * d ^ 5 + 1945619479/2500000 * p ^ 1 - 4073967/10000000 * p ^ 1 * d ^ 1 + 7805501/1250000000 * p ^ 1 * d ^ 2 - 12314599/50000000000 * p ^ 1 * d ^ 3 + 326133/100000000000 * p ^ 1 * d ^ 4 - 5555697/250000000000000 * p ^ 1 * d ^ 5 - 5004311769/1000000 * p ^ 2 + 213525237/100000000 * p ^ 2 * d ^ 1 - 20484711/500000000 * p ^ 2 * d ^ 2 + 35625807/20000000000 * p ^ 2 * d ^ 3 - 6460017/250000000000 * p ^ 2 * d ^ 4 + 36634947/200000000000000 * p ^ 2 * d ^ 5 + 1352215441/25000 * p ^ 3 - 12443657/2500000 * p ^ 3 * d ^ 1 + 27466369/250000000 * p ^ 3 * d ^ 2 - 743753/125000000 * p ^ 3 * d ^ 3 + 24603699/250000000000 * p ^ 3 * d ^ 4 - 575879/781250000000 * p ^ 3 * d ^ 5 - 2207319597/5000 * p ^ 4 + 89234477/20000000 * p ^ 4 * d ^ 1 - 3588147/20000000 * p ^ 4 * d ^ 2 + 4271809/400000000 * p ^ 4 * d ^ 3 - 41698377/200000000000 * p ^ 4 * d ^ 4 + 8325489/5000000000000 * p ^ 4 * d ^ 5 + 4594311063/2500 * p ^ 5 - 4164603/3125000 * p ^ 5 * d ^ 1 + 70132131/500000000 * p ^ 5 * d ^ 2 - 13316721/1250000000 * p ^ 5 * d ^ 3 + 60214797/250000000000 * p ^ 5 * d ^ 4 - 106255101/50000000000000 * p ^ 5 * d ^ 5 - 21484334319/5000 * p ^ 6 + 3735086499/625 * p ^ 7 - 24653076093/5000 * p ^ 8 + 1117230167/500 * p ^ 9 - 21468069843/50000 * p ^ 10) * (12150000000000000000 : ℝ) = (-96488474750000 + 389123895800000 * p ^ 1 - 2502155884500000 * p ^ 2 + 27044308820000000 * p ^ 3 - 220731959700000000 * p ^ 4 + 918862212600000000 * p ^ 5 - 2148433431900000000 * p ^ 6 + 2988069199200000000 * p ^ 7 - 2465307609300000000 * p ^ 8 + 1117230167000000000 * p ^ 9 - 214680698430000000 * p ^ 10) * ((30 - d) ^ 5) + (-479905615600000 + 1939508528500000 * p ^ 1 - 12478750636950000 * p ^ 2 + 135146882158000000 * p ^ 3 - 1103592872642250000 * p ^ 4 + 4594291072905600000 * p ^ 5 - 10742167159500000000 * p ^ 6 + 14940345996000000000 * p ^ 7 - 12326538046500000000 * p ^ 8 + 5586150835000000000 * p ^ 9 - 1073403492150000000 * p ^ 10) * (d ^ 1 * (30 - d) ^ 4) + (-954742332737000 + 3869605136360000 * p ^ 1 - 24911879942700000 * p ^ 2 + 270193879896200000 * p ^ 3 - 2207132626876500000 * p ^ 4 + 9188605284540300000 * p ^ 5 - 21484334319000000000 * p ^ 6 + 29880691992000000000 * p ^ 7 - 24653076093000000000 * p ^ 8 + 11172301670000000000 * p ^ 9 - 2146806984300000000 * p ^ 10) * (d ^ 2 * (30 - d) ^ 3) + (-949692712053950 + 3859678254350000 * p ^ 1 - 24860647431675000 * p ^ 2 + 270063109616600000 * p ^ 3 - 2207016068222250000 * p ^ 4 + 9188547721600500000 * p ^ 5 - 21484334319000000000 * p ^ 6 + 29880691992000000000 * p ^ 7 - 24653076093000000000 * p ^ 8 + 11172301670000000000 * p ^ 9 - 2146806984300000000 * p ^ 10) * (d ^ 3 * (30 - d) ^ 2) + (-472346042036065 + 1924276573270000 * p ^ 1 - 12400343388090000 * p ^ 2 + 134950422068980000 * p ^ 3 - 1103430387097425000 * p ^ 4 + 4594230366173640000 * p ^ 5 - 10742167159500000000 * p ^ 6 + 14940345996000000000 * p ^ 7 - 12326538046500000000 * p ^ 8 + 5586150835000000000 * p ^ 9 - 1073403492150000000 * p ^ 10) * (d ^ 4 * (30 - d) ^ 1) + (-93971309198519 + 383548815705800 * p ^ 1 - 2472755573634750 * p ^ 2 + 26969662940372000 * p ^ 3 - 220665801871155000 * p ^ 4 + 918833248818297000 * p ^ 5 - 2148433431900000000 * p ^ 6 + 2988069199200000000 * p ^ 7 - 2465307609300000000 * p ^ 8 + 1117230167000000000 * p ^ 9 - 214680698430000000 * p ^ 10) * (d ^ 5) := by ring
  have hS0 : (-96488474750000 + 389123895800000 * p ^ 1 - 2502155884500000 * p ^ 2 + 27044308820000000 * p ^ 3 - 220731959700000000 * p ^ 4 + 918862212600000000 * p ^ 5 - 2148433431900000000 * p ^ 6 + 2988069199200000000 * p ^ 7 - 2465307609300000000 * p ^ 8 + 1117230167000000000 * p ^ 9 - 214680698430000000 * p ^ 10 : ℝ) ≤ 0 := dpb_s0 h1 h2
  have e0 : (-96488474750000 + 389123895800000 * p ^ 1 - 2502155884500000 * p ^ 2 + 27044308820000000 * p ^ 3 - 220731959700000000 * p ^ 4 + 918862212600000000 * p ^ 5 - 2148433431900000000 * p ^ 6 + 2988069199200000000 * p ^ 7 - 2465307609300000000 * p ^ 8 + 1117230167000000000 * p ^ 9 - 214680698430000000 * p ^ 10) * ((30 - d) ^ 5) ≤ 0 :=
    mul_nonpos_of_nonpos_of_nonneg hS0 (pow_nonneg hD 5)
  have hS1 : (-479905615600000 + 1939508528500000 * p ^ 1 - 12478750636950000 * p ^ 2 + 135146882158000000 * p ^ 3 - 1103592872642250000 * p ^ 4 + 4594291072905600000 * p ^ 5 - 10742167159500000000 * p ^ 6 + 14940345996000000000 * p ^ 7 - 12326538046500000000 * p ^ 8 + 5586150835000000000 * p ^ 9 - 1073403492150000000 * p ^ 10 : ℝ) ≤ 0 := dpb_s1 h1 h2
  have e1 : (-479905615600000 + 1939508528500000 * p ^ 1 - 12478750636950000 * p ^ 2 + 135146882158000000 * p ^ 3 - 1103592872642250000 * p ^ 4 + 4594291072905600000 * p ^ 5 - 10742167159500000000 * p ^ 6 + 14940345996000000000 * p ^ 7 - 12326538046500000000 * p ^ 8 + 5586150835000000000 * p ^ 9 - 1073403492150000000 * p ^ 10) * (d ^ 1 * (30 - d) ^ 4) ≤ 0 :=
    mul_nonpos_of_nonpos_of_nonneg hS1 (mul_nonneg (pow_nonneg hC 1) (pow_nonneg hD 4))
  have hS2 : (-954742332737000 + 3869605136360000 * p ^ 1 - 24911879942700000 * p ^ 2 + 270193879896200000 * p ^ 3 - 2207132626876500000 * p ^ 4 + 9188605284540300000 * p ^ 5 - 21484334319000000000 * p ^ 6 + 29880691992000000000 * p ^ 7 - 24653076093000000000 * p ^ 8 + 11172301670000000000 * p ^ 9 - 2146806984300000000 * p ^ 10 : ℝ) ≤ 0 := dpb_s2 h1 h2
  have e2 : (-954742332737000 + 3869605136360000 * p ^ 1 - 24911879942700000 * p ^ 2 + 270193879896200000 * p ^ 3 - 2207132626876500000 * p ^ 4 + 9188605284540300000 * p ^ 5 - 21484334319000000000 * p ^ 6 + 29880691992000000000 * p ^ 7 - 24653076093000000000 * p ^ 8 + 11172301670000000000 * p ^ 9 - 2146806984300000000 * p ^ 10) * (d ^ 2 * (30 - d) ^ 3) ≤ 0 :=
    mul_nonpos_of_nonpos_of_nonneg hS2 (mul_nonneg (pow_nonneg hC 2) (pow_nonneg hD 3))
  have hS3 : (-949692712053950 + 3859678254350000 * p ^ 1 - 24860647431675000 * p ^ 2 + 270063109616600000 * p ^ 3 - 2207016068222250000 * p ^ 4 + 9188547721600500000 * p ^ 5 - 21484334319000000000 * p ^ 6 + 29880691992000000000 * p ^ 7 - 24653076093000000000 * p ^ 8 + 11172301670000000000 * p ^ 9 - 2146806984300000000 * p ^ 10 : ℝ) ≤ 0 := dpb_s3 h1 h2
  have e3 : (-949692712053950 + 3859678254350000 * p ^ 1 - 24860647431675000 * p ^ 2 + 270063109616600000 * p ^ 3 - 2207016068222250000 * p ^ 4 + 9188547721600500000 * p ^ 5 - 21484334319000000000 * p ^ 6 + 29880691992000000000 * p ^ 7 - 24653076093000000000 * p ^ 8 + 11172301670000000000 * p ^ 9 - 2146806984300000000 * p ^ 10) * (d ^ 3 * (30 - d) ^ 2) ≤ 0 :=
    mul_nonpos_of_nonpos_of_nonneg hS3 (mul_nonneg (pow_nonneg hC 3) (pow_nonneg hD 2))
  have hS4 : (-472346042036065 + 1924276573270000 * p ^ 1 - 12400343388090000 * p ^ 2 + 134950422068980000 * p ^ 3 - 1103430387097425000 * p ^ 4 + 4594230366173640000 * p ^ 5 - 10742167159500000000 * p ^ 6 + 14940345996000000000 * p ^ 7 - 12326538046500000000 * p ^ 8 + 5586150835000000000 * p ^ 9 - 1073403492150000000 * p ^ 10 : ℝ) ≤ 0 := dpb_s4 h1 h2
  have e4 : (-472346042036065 + 1924276573270000 * p ^ 1 - 12400343388090000 * p ^ 2 + 134950422068980000 * p ^ 3 - 1103430387097425000 * p ^ 4 + 4594230366173640000 * p ^ 5 - 10742167159500000000 * p ^ 6 + 14940345996000000000 * p ^ 7 - 12326538046500000000 * p ^ 8 + 5586150835000000000 * p ^ 9 - 1073403492150000000 * p ^ 10) * (d ^ 4 * (30 - d) ^ 1) ≤ 0 :=
    mul_nonpos_of_nonpos_of_nonneg hS4 (mul_nonneg (pow_nonneg hC 4) (pow_nonneg hD 1))
  have hS5 : (-93971309198519 + 383548815705800 * p ^ 1 - 2472755573634750 * p ^ 2 + 26969662940372000 * p ^ 3 - 220665801871155000 * p ^ 4 + 918833248818297000 * p ^ 5 - 2148433431900000000 * p ^ 6 + 2988069199200000000 * p ^ 7 - 2465307609300000000 * p ^ 8 + 1117230167000000000 * p ^ 9 - 214680698430000000 * p ^ 10 : ℝ) ≤ 0 := dpb_s5 h1 h2
  have e5 : (-93971309198519 + 383548815705800 * p ^ 1 - 2472755573634750 * p ^ 2 + 26969662940372000 * p ^ 3 - 220665801871155000 * p ^ 4 + 918833248818297000 * p ^ 5 - 2148433431900000000 * p ^ 6 + 2988069199200000000 * p ^ 7 - 2465307609300000000 * p ^ 8 + 1117230167000000000 * p ^ 9 - 214680698430000000 * p ^ 10) * (d ^ 5) ≤ 0 :=
    mul_nonpos_of_nonpos_of_nonneg hS5 (pow_nonneg hC 5)
  have hKD : (0:ℝ) < (12150000000000000000 : ℝ) := by norm_num
  have hmul : (-385953899/2000000 + 16911721/100000000 * d ^ 1 - 513093/50000000000 * d ^ 2 - 10859217/10000000000000 * d ^ 3 - 18586393/1000000000000000 * d ^ 4 + 7420443/12500000000000000 * d ^ 5 + 1945619479/2500000 * p ^ 1 - 4073967/10000000 * p ^ 1 * d ^ 1 + 7805501/1250000000 * p ^ 1 * d ^ 2 - 12314599/50000000000 * p ^ 1 * d ^ 3 + 326133/100000000000 * p ^ 1 * d ^ 4 - 5555697/250000000000000 * p ^ 1 * d ^ 5 - 5004311769/1000000 * p ^ 2 + 213525237/100000000 * p ^ 2 * d ^ 1 - 20484711/500000000 * p ^ 2 * d ^ 2 + 35625807/20000000000 * p ^ 2 * d ^ 3 - 6460017/250000000000 * p ^ 2 * d ^ 4 + 36634947/200000000000000 * p ^ 2 * d ^ 5 + 1352215441/25000 * p ^ 3 - 12443657/2500000 * p ^ 3 * d ^ 1 + 27466369/250000000 * p ^ 3 * d ^ 2 - 743753/125000000 * p ^ 3 * d ^ 3 + 24603699/250000000000 * p ^ 3 * d ^ 4 - 575879/781250000000 * p ^ 3 * d ^ 5 - 2207319597/5000 * p ^ 4 + 89234477/20000000 * p ^ 4 * d ^ 1 - 3588147/20000000 * p ^ 4 * d ^ 2 + 4271809/400000000 * p ^ 4 * d ^ 3 - 41698377/200000000000 * p ^ 4 * d ^ 4 + 8325489/5000000000000 * p ^ 4 * d ^ 5 + 4594311063/2500 * p ^ 5 - 4164603/3125000 * p ^ 5 * d ^ 1 + 70132131/500000000 * p ^ 5 * d ^ 2 - 13316721/1250000000 * p ^ 5 * d ^ 3 + 60214797/250000000000 * p ^ 5 * d ^ 4 - 106255101/50000000000000 * p ^ 5 * d ^ 5 - 21484334319/5000 * p ^ 6 + 3735086499/625 * p ^ 7 - 24653076093/5000 * p ^ 8 + 1117230167/500 * p ^ 9 - 21468069843/50000 * p ^ 10) * (12150000000000000000 : ℝ) ≤ 0 * (12150000000000000000 : ℝ) := by
    rw [zero_mul, key]
    exact (add_nonpos (add_nonpos (add_nonpos (add_nonpos (add_nonpos e0 e1) e2) e3) e4) e5)
  exact le_of_mul_le_mul_right hmul hKD

set_option maxHeartbeats 1000000 in
theorem dta_s0_l {p : ℝ} (h1 : 0 ≤ p) (h2 : p ≤ 1/2) :
    -440022113907 + 845503490170 * p ^ 1 - 1550821923500 * p ^ 2 + 6002578206250 * p ^ 3 - 11737868700000 * p ^ 4 + 12170950030000 * p ^ 5 - 7003052577500 * p ^ 6 ≤ 0 := by
  have hA : (0:ℝ) ≤ p := h1
  have hB : (0:ℝ) ≤ (1/2 - p) := by linarith
  have key : (-440022113907 + 845503490170 * p ^ 1 - 1550821923500 * p ^ 2 + 6002578206250 * p ^ 3 - 11737868700000 * p ^ 4 + 12170950030000 * p ^ 5 - 7003052577500 * p ^ 6) * (1 : ℝ) = (-28161415290048 : ℝ) * ((1/2 - p) ^ 6) + (-141912380054848 : ℝ) * (p ^ 1 * (1/2 - p) ^ 5) + (-311953821699520 : ℝ) * (p ^ 2 * (1/2 - p) ^ 4) + (-343899166400560 : ℝ) * (p ^ 3 * (1/2 - p) ^ 3) + (-203628615002320 : ℝ) * (p ^ 4 * (1/2 - p) ^ 2) + (-58439709007088 : ℝ) * (p ^ 5 * (1/2 - p) ^ 1) + (-7510456048108 : ℝ) * (p ^ 6) := by ring
  have e0 : (-28161415290048 : ℝ) * ((1/2 - p) ^ 6) ≤ 0 :=
    mul_nonpos_of_nonpos_of_nonneg (by norm_num) (pow_nonneg hB 6)
  have e1 : (-141912380054848 : ℝ) * (p ^ 1 * (1/2 - p) ^ 5) ≤ 0 :=
    mul_nonpos_of_nonpos_of_nonneg (by norm_num) (mul_nonneg (pow_nonneg hA 1) (pow_nonneg hB 5))
  have e2 : (-311953821699520 : ℝ) * (p ^ 2 * (1/2 - p) ^ 4) ≤ 0 :=
    mul_nonpos_of_nonpos_of_nonneg (by norm_num) (mul_nonneg (pow_nonneg hA 2) (pow_nonneg hB 4))
  have e3 : (-343899166400560 : ℝ) * (p ^ 3 * (1/2 - p) ^ 3) ≤ 0 :=
    mul_nonpos_of_nonpos_of_nonneg (by norm_num) (mul_nonneg (pow_nonneg hA 3) (pow_nonneg hB 3))
  have e4 : (-203628615002320 : ℝ) * (p ^ 4 * (1/2 - p) ^ 2) ≤ 0 :=
    mul_nonpos_of_nonpos_of_nonneg (by norm_num) (mul_nonneg (pow_nonneg hA 4) (pow_nonneg hB 2))
  have e5 : (-58439709007088 : ℝ) * (p ^ 5 * (1/2 - p) ^ 1) ≤ 0 :=
    mul_nonpos_of_nonpos_of_nonneg (by norm_num) (mul_nonneg (pow_nonneg hA 5) (pow_nonneg hB 1))
  have e6 : (-7510456048108 : ℝ) * (p ^ 6) ≤ 0 :=
    mul_nonpos_of_nonpos_of_nonneg (by norm_num) (pow_nonneg hA 6)
  have hKD : (0:ℝ) < (1 : ℝ) := by norm_num
  have hmul : (-440022113907 + 845503490170 * p ^ 1 - 1550821923500 * p ^ 2 + 6002578206250 * p ^ 3 - 11737868700000 * p ^ 4 + 12170950030000 * p ^ 5 - 7003052577500 * p ^ 6) * (1 : ℝ) ≤ 0 * (1 : ℝ) := by
    rw [zero_mul, key]
    exact (add_nonpos (add_nonpos (add_nonpos (add_nonpos (add_nonpos (add_nonpos e0 e1) e2) e3) e4) e5) e6)
  exact le_of_mul_le_mul_right hmul hKD

set_option maxHeartbeats 1000000 in
theorem dta_s0_r {p : ℝ} (h1 : 1/2 ≤ p) (h2 : p ≤ 1) :
    -440022113907 + 845503490170 * p ^ 1 - 1550821923500 * p ^ 2 + 6002578206250 * p ^ 3 - 11737868700000 * p ^ 4 + 12170950030000 * p ^ 5 - 7003052577500 * p ^ 6 ≤ 0 := by
  have hA : (0:ℝ) ≤ (p - 1/2) := by linarith
  have hB : (0:ℝ) ≤ (1 - p) := by linarith
  have key : (-440022113907 + 845503490170 * p ^ 1 - 1550821923500 * p ^ 2 + 6002578206250 * p ^ 3 - 11737868700000 * p ^ 4 + 12170950030000 * p ^ 5 - 7003052577500 * p ^ 6) * (1 : ℝ) = (-7510456048108 : ℝ) * ((1 - p) ^ 6) + (-31685763570208 : ℝ) * ((p - 1/2) ^ 1 * (1 - p) ^ 5) + (-69858887817920 : ℝ) * ((p - 1/2) ^ 2 * (1 - p) ^ 4) + (-149214361031760 : ℝ) * ((p - 1/2) ^ 3 * (1 - p) ^ 3) + (-262978314330720 : ℝ) * ((p - 1/2) ^ 4 * (1 - p) ^ 2) + (-262059430680448 : ℝ) * ((p - 1/2) ^ 5 * (1 - p) ^ 1) + (-109614949663168 : ℝ) * ((p - 1/2) ^ 6) := by ring
  have e0 : (-7510456048108 : ℝ) * ((1 - p) ^ 6) ≤ 0 :=
    mul_nonpos_of_nonpos_of_nonneg (by norm_num) (pow_nonneg hB 6)
  have e1 : (-31685763570208 : ℝ) * ((p - 1/2) ^ 1 * (1 - p) ^ 5) ≤ 0 :=
    mul_nonpos_of_nonpos_of_nonneg (by norm_num) (mul_nonneg (pow_nonneg hA 1) (pow_nonneg hB 5))
  have e2 : (-69858887817920 : ℝ) * ((p - 1/2) ^ 2 * (1 - p) ^ 4) ≤ 0 :=
    mul_nonpos_of_nonpos_of_nonneg (by norm_num) (mul_nonneg (pow_nonneg hA 2) (pow_nonneg hB 4))
  have e3 : (-149214361031760 : ℝ) * ((p - 1/2) ^ 3 * (1 - p) ^ 3) ≤ 0 :=
    mul_nonpos_of_nonpos_of_nonneg (by norm_num) (mul_nonneg (pow_nonneg hA 3) (pow_nonneg hB 3))
  have e4 : (-262978314330720 : ℝ) * ((p - 1/2) ^ 4 * (1 - p) ^ 2) ≤ 0 :=
    mul_nonpos_of_nonpos_of_nonneg (by norm_num) (mul_nonneg (pow_nonneg hA 4) (pow_nonneg hB 2))
  have e5 : (-262059430680448 : ℝ) * ((p - 1/2) ^ 5 * (1 - p) ^ 1) ≤ 0 :=
    mul_nonpos_of_nonpos_of_nonneg (by norm_num) (mul_nonneg (pow_nonneg hA 5) (pow_nonneg hB 1))
  have e6 : (-109614949663168 : ℝ) * ((p - 1/2) ^ 6) ≤ 0 :=
    mul_nonpos_of_nonpos_of_nonneg (by norm_num) (pow_nonneg hA 6)
  have hKD : (0:ℝ) < (1 : ℝ) := by norm_num
  have hmul : (-440022113907 + 845503490170 * p ^ 1 - 1550821923500 * p ^ 2 + 6002578206250 * p ^ 3 - 11737868700000 * p ^ 4 + 12170950030000 * p ^ 5 - 7003052577500 * p ^ 6) * (1 : ℝ) ≤ 0 * (1 : ℝ) := by
    rw [zero_mul, key]
    exact (add_nonpos (add_nonpos (add_nonpos (add_nonpos (add_nonpos (add_nonpos e0 e1) e2) e3) e4) e5) e6)
  exact le_of_mul_le_mul_right hmul hKD

theorem dta_s0 {p : ℝ} (h1 : 0 ≤ p) (h2 : p ≤ 1) :
    -440022113907 + 845503490170 * p ^ 1 - 1550821923500 * p ^ 2 + 6002578206250 * p ^ 3 - 11737868700000 * p ^ 4 + 12170950030000 * p ^ 5 - 7003052577500 * p ^ 6 ≤ 0 := by
  rcases le_or_lt p (1/2) with h | h
  · exact dta_s0_l h1 h
  · exact dta_s0_r (le_of_lt h) h2

set_option maxHeartbeats 1000000 in
theorem dta_s1 {p : ℝ} (h1 : 0 ≤ p) (h2 : p ≤ 1) :
    -3534621614865 + 4228562971010 * p ^ 1 - 6172891009500 * p ^ 2 + 22563296321250 * p ^ 3 - 40950027260000 * p ^ 4 + 35193184790000 * p ^ 5 - 14160859587500 * p ^ 6 ≤ 0 := by
  have hA : (0:ℝ) ≤ p := h1
  have hB : (0:ℝ) ≤ (1 - p) := by linarith
  have key : (-3534621614865 + 4228562971010 * p ^ 1 - 6172891009500 * p ^ 2 + 22563296321250 * p ^ 3 - 40950027260000 * p ^ 4 + 35193184790000 * p ^ 5 - 14160859587500 * p ^ 6) * (1 : ℝ) = (-3534621614865 : ℝ) * ((1 - p) ^ 6) + (-16979166718180 : ℝ) * (p ^ 1 * (1 - p) ^ 5) + (-38049400377425 : ℝ) * (p ^ 2 * (1 - p) ^ 4) + (-30535070303950 : ℝ) * (p ^ 3 * (1 - p) ^ 3) + (-21031178866125 : ℝ) * (p ^ 4 * (1 - p) ^ 2) + (-3773459638390 : ℝ) * (p ^ 5 * (1 - p) ^ 1) + (-2833355389605 : ℝ) * (p ^ 6) := by ring
  have e0 : (-3534621614865 : ℝ) * ((1 - p) ^ 6) ≤ 0 :=
    mul_nonpos_of_nonpos_of_nonneg (by norm_num) (pow_nonneg hB 6)
  have e1 : (-16979166718180 : ℝ) * (p ^ 1 * (1 - p) ^ 5) ≤ 0 :=
    mul_nonpos_of_nonpos_of_nonneg (by norm_num) (mul_nonneg (pow_nonneg hA 1) (pow_nonneg hB 5))
  have e2 : (-38049400377425 : ℝ) * (p ^ 2 * (1 - p) ^ 4) ≤ 0 :=
    mul_nonpos_of_nonpos_of_nonneg (by norm_num) (mul_nonneg (pow_nonneg hA 2) (pow_nonneg hB 4))
  have e3 : (-30535070303950 : ℝ) * (p ^ 3 * (1 - p) ^ 3) ≤ 0 :=
    mul_nonpos_of_nonpos_of_nonneg (by norm_num) (mul_nonneg (pow_nonneg hA 3) (pow_nonneg hB 3))
  have e4 : (-21031178866125 : ℝ) * (p ^ 4 * (1 - p) ^ 2) ≤ 0 :=
    mul_nonpos_of_nonpos_of_nonneg (by norm_num) (mul_nonneg (pow_nonneg hA 4) (pow_nonneg hB 2))
  have e5 : (-3773459638390 : ℝ) * (p ^ 5 * (1 - p) ^ 1) ≤ 0 :=
    mul_nonpos_of_nonpos_of_nonneg (by norm_num) (mul_nonneg (pow_nonneg hA 5) (pow_nonneg hB 1))
  have e6 : (-2833355389605 : ℝ) * (p ^ 6) ≤ 0 :=
    mul_nonpos_of_nonpos_of_nonneg (by norm_num) (pow_nonneg hA 6)
  have hKD : (0:ℝ) < (1 : ℝ) := by norm_num
  have hmul : (-3534621614865 + 4228562971010 * p ^ 1 - 6172891009500 * p ^ 2 + 22563296321250 * p ^ 3 - 40950027260000 * p ^ 4 + 35193184790000 * p ^ 5 - 14160859587500 * p ^ 6) * (1 : ℝ) ≤ 0 * (1 : ℝ) := by
    rw [zero_mul, key]
    exact (add_nonpos (add_nonpos (add_nonpos (add_nonpos (add_nonpos (add_nonpos e0 e1) e2) e3) e4) e5) e6)
  exact le_of_mul_le_mul_right hmul hKD

set_option maxHeartbeats 1000000 in
theorem dta_s2 {p : ℝ} (h1 : 0 ≤ p) (h2 : p ≤ 1) :
    -9373001925870 + 8460723999100 * p ^ 1 - 10380248707000 * p ^ 2 + 36223538832500 * p ^ 3 - 62357033480000 * p ^ 4 + 43884393700000 * p ^ 5 - 9025758915000 * p ^ 6 ≤ 0 := by
  have hA : (0:ℝ) ≤ p := h1
  have hB : (0:ℝ) ≤ (1 - p) := by linarith
  have key : (-9373001925870 + 8460723999100 * p ^ 1 - 10380248707000 * p ^ 2 + 36223538832500 * p ^ 3 - 62357033480000 * p ^ 4 + 43884393700000 * p ^ 5 - 9025758915000 * p ^ 6) * (1 : ℝ) = (-9373001925870 : ℝ) * ((1 - p) ^ 6) + (-47777287556120 : ℝ) * (p ^ 1 * (1 - p) ^ 5) + (-108671657599550 : ℝ) * (p ^ 2 * (1 - p) ^ 4) + (-108150254521900 : ℝ) * (p ^ 3 * (1 - p) ^ 3) + (-71955698121550 : ℝ) * (p ^ 4 * (1 - p) ^ 2) + (-27614443150220 : ℝ) * (p ^ 5 * (1 - p) ^ 1) + (-2567386496270 : ℝ) * (p ^ 6) := by ring
  have e0 : (-9373001925870 : ℝ) * ((1 - p) ^ 6) ≤ 0 :=
    mul_nonpos_of_nonpos_of_nonneg (by norm_num) (pow_nonneg hB 6)
  have e1 : (-47777287556120 : ℝ) * (p ^ 1 * (1 - p) ^ 5) ≤ 0 :=
    mul_nonpos_of_nonpos_of_nonneg (by norm_num) (mul_nonneg (pow_nonneg hA 1) (pow_nonneg hB 5))
  have e2 : (-108671657599550 : ℝ) * (p ^ 2 * (1 - p) ^ 4) ≤ 0 :=
    mul_nonpos_of_nonpos_of_nonneg (by norm_num) (mul_nonneg (pow_nonneg hA 2) (pow_nonneg hB 4))
  have e3 : (-108150254521900 : ℝ) * (p ^ 3 * (1 - p) ^ 3) ≤ 0 :=
    mul_nonpos_of_nonpos_of_nonneg (by norm_num) (mul_nonneg (pow_nonneg hA 3) (pow_nonneg hB 3))
  have e4 : (-71955698121550 : ℝ) * (p ^ 4 * (1 - p) ^ 2) ≤ 0 :=
    mul_nonpos_of_nonpos_of_nonneg (by norm_num) (mul_nonneg (pow_nonneg hA 4) (pow_nonneg hB 2))
  have e5 : (-27614443150220 : ℝ) * (p ^ 5 * (1 - p) ^ 1) ≤ 0 :=
    mul_nonpos_of_nonpos_of_nonneg (by norm_num) (mul_nonneg (pow_nonneg hA 5) (pow_nonneg hB 1))
  have e6 : (-2567386496270 : ℝ) * (p ^ 6) ≤ 0 :=
    mul_nonpos_of_nonpos_of_nonneg (by norm_num) (pow_nonneg hA 6)
  have hKD : (0:ℝ) < (1 : ℝ) := by norm_num
  have hmul : (-9373001925870 + 8460723999100 * p ^ 1 - 10380248707000 * p ^ 2 + 36223538832500 * p ^ 3 - 62357033480000 * p ^ 4 + 43884393700000 * p ^ 5 - 9025758915000 * p ^ 6) * (1 : ℝ) ≤ 0 * (1 : ℝ) := by
    rw [zero_mul, key]
    exact (add_nonpos (add_nonpos (add_nonpos (add_nonpos (add_nonpos (add_nonpos e0 e1) e2) e3) e4) e5) e6)
  exact le_of_mul_le_mul_right hmul hKD

set_option maxHeartbeats 1000000 in
theorem dta_s3 {p : ℝ} (h1 : 0 ≤ p) (h2 : p ≤ 1) :
    -11455121798130 + 8458106166540 * p ^ 1 - 9261821747000 * p ^ 2 + 31450017712500 * p ^ 3 - 53338781800000 * p ^ 4 + 32867675860000 * p ^ 5 - 2886263955000 * p ^ 6 ≤ 0 := by
  have hA : (0:ℝ) ≤ p := h1
  have hB : (0:ℝ) ≤ (1 - p) := by linarith
  have key : (-11455121798130 + 8458106166540 * p ^ 1 - 9261821747000 * p ^ 2 + 31450017712500 * p ^ 3 - 53338781800000 * p ^ 4 + 32867675860000 * p ^ 5 - 2886263955000 * p ^ 6) * (1 : ℝ) = (-11455121798130 : ℝ) * ((1 - p) ^ 6) + (-60272624622240 : ℝ) * (p ^ 1 * (1 - p) ^ 5) + (-138798117886250 : ℝ) * (p ^ 2 * (1 - p) ^ 4) + (-150118643572700 : ℝ) * (p ^ 3 * (1 - p) ^ 3) + (-101805424451050 : ℝ) * (p ^ 4 * (1 - p) ^ 2) + (-42947321546580 : ℝ) * (p ^ 5 * (1 - p) ^ 1) + (-4166189561090 : ℝ) * (p ^ 6) := by ring
  have e0 : (-11455121798130 : ℝ) * ((1 - p) ^ 6) ≤ 0 :=
    mul_nonpos_of_nonpos_of_nonneg (by norm_num) (pow_nonneg hB 6)
  have e1 : (-60272624622240 : ℝ) * (p ^ 1 * (1 - p) ^ 5) ≤ 0 :=
    mul_nonpos_of_nonpos_of_nonneg (by norm_num) (mul_nonneg (pow_nonneg hA 1) (pow_nonneg hB 5))
  have e2 : (-138798117886250 : ℝ) * (p ^ 2 * (1 - p) ^ 4) ≤ 0 :=
    mul_nonpos_of_nonpos_of_nonneg (by norm_num) (mul_nonneg (pow_nonneg hA 2) (pow_nonneg hB 4))
  have e3 : (-150118643572700 : ℝ) * (p ^ 3 * (1 - p) ^ 3) ≤ 0 :=
    mul_nonpos_of_nonpos_of_nonneg (by norm_num) (mul_nonneg (pow_nonneg hA 3) (pow_nonneg hB 3))
  have e4 : (-101805424451050 : ℝ) * (p ^ 4 * (1 - p) ^ 2) ≤ 0 :=
    mul_nonpos_of_nonpos_of_nonneg (by norm_num) (mul_nonneg (pow_nonneg hA 4) (pow_nonneg hB 2))
  have e5 : (-42947321546580 : ℝ) * (p ^ 5 * (1 - p) ^ 1) ≤ 0 :=
    mul_nonpos_of_nonpos_of_nonneg (by norm_num) (mul_nonneg (pow_nonneg hA 5) (pow_nonneg hB 1))
  have e6 : (-4166189561090 : ℝ) * (p ^ 6) ≤ 0 :=
    mul_nonpos_of_nonpos_of_nonneg (by norm_num) (pow_nonneg hA 6)
  have hKD : (0:ℝ) < (1 : ℝ) := by norm_num
  have hmul : (-11455121798130 + 8458106166540 * p ^ 1 - 9261821747000 * p ^ 2 + 31450017712500 * p ^ 3 - 53338781800000 * p ^ 4 + 32867675860000 * p ^ 5 - 2886263955000 * p ^ 6) * (1 : ℝ) ≤ 0 * (1 : ℝ) := by
    rw [zero_mul, key]
    exact (add_nonpos (add_nonpos (add_nonpos (add_nonpos (add_nonpos (add_nonpos e0 e1) e2) e3) e4) e5) e6)
  exact le_of_mul_le_mul_right hmul hKD

set_option maxHeartbeats 1000000 in
theorem dta_s4 {p : ℝ} (h1 : 0 ≤ p) (h2 : p ≤ 1) :
    -6676998877135 + 4223149310730 * p ^ 1 - 4364797369500 * p ^ 2 + 14713946161250 * p ^ 3 - 25454353820000 * p ^ 4 + 15332237870000 * p ^ 5 - 1740161307500 * p ^ 6 ≤ 0 := by
  have hA : (0:ℝ) ≤ p := h1
  have hB : (0:ℝ) ≤ (1 - p) := by linarith
  have key : (-6676998877135 + 4223149310730 * p ^ 1 - 4364797369500 * p ^ 2 + 14713946161250 * p ^ 3 - 25454353820000 * p ^ 4 + 15332237870000 * p ^ 5 - 1740161307500 * p ^ 6) * (1 : ℝ) = (-6676998877135 : ℝ) * ((1 - p) ^ 6) + (-35838843952080 : ℝ) * (p ^ 1 * (1 - p) ^ 5) + (-83404033972875 : ℝ) * (p ^ 2 * (1 - p) ^ 4) + (-94053727752150 : ℝ) * (p ^ 3 * (1 - p) ^ 3) + (-65424789602975 : ℝ) * (p ^ 4 * (1 - p) ^ 2) + (-27840067473410 : ℝ) * (p ^ 5 * (1 - p) ^ 1) + (-3966978032155 : ℝ) * (p ^ 6) := by ring
  have e0 : (-6676998877135 : ℝ) * ((1 - p) ^ 6) ≤ 0 :=
    mul_nonpos_of_nonpos_of_nonneg (by norm_num) (pow_nonneg hB 6)
  have e1 : (-35838843952080 : ℝ) * (p ^ 1 * (1 - p) ^ 5) ≤ 0 :=
    mul_nonpos_of_nonpos_of_nonneg (by norm_num) (mul_nonneg (pow_nonneg hA 1) (pow_nonneg hB 5))
  have e2 : (-83404033972875 : ℝ) * (p ^ 2 * (1 - p) ^ 4) ≤ 0 :=
    mul_nonpos_of_nonpos_of_nonneg (by norm_num) (mul_nonneg (pow_nonneg hA 2) (pow_nonneg hB 4))
  have e3 : (-94053727752150 : ℝ) * (p ^ 3 * (1 - p) ^ 3) ≤ 0 :=
    mul_nonpos_of_nonpos_of_nonneg (by norm_num) (mul_nonneg (pow_nonneg hA 3) (pow_nonneg hB 3))
  have e4 : (-65424789602975 : ℝ) * (p ^ 4 * (1 - p) ^ 2) ≤ 0 :=
    mul_nonpos_of_nonpos_of_nonneg (by norm_num) (mul_nonneg (pow_nonneg hA 4) (pow_nonneg hB 2))
  have e5 : (-27840067473410 : ℝ) * (p ^ 5 * (1 - p) ^ 1) ≤ 0 :=
    mul_nonpos_of_nonpos_of_nonneg (by norm_num) (mul_nonneg (pow_nonneg hA 5) (pow_nonneg hB 1))
  have e6 : (-3966978032155 : ℝ) * (p ^ 6) ≤ 0 :=
    mul_nonpos_of_nonpos_of_nonneg (by norm_num) (pow_nonneg hA 6)
  have hKD : (0:ℝ) < (1 : ℝ) := by norm_num
  have hmul : (-6676998877135 + 4223149310730 * p ^ 1 - 4364797369500 * p ^ 2 + 14713946161250 * p ^ 3 - 25454353820000 * p ^ 4 + 15332237870000 * p ^ 5 - 1740161307500 * p ^ 6) * (1 : ℝ) ≤ 0 * (1 : ℝ) := by
    rw [zero_mul, key]
    exact (add_nonpos (add_nonpos (add_nonpos (add_nonpos (add_nonpos (add_nonpos e0 e1) e2) e3) e4) e5) e6)
  exact le_of_mul_le_mul_right hmul hKD

set_option maxHeartbeats 1000000 in
theorem dta_s5 {p : ℝ} (h1 : 0 ≤ p) (h2 : p ≤ 1) :
    -1509854470093 + 842707662450 * p ^ 1 - 861155243500 * p ^ 2 + 2926749166250 * p ^ 3 - 5260446940000 * p ^ 4 + 3326720950000 * p ^ 5 - 721849257500 * p ^ 6 ≤ 0 := by
  have hA : (0:ℝ) ≤ p := h1
  have hB : (0:ℝ) ≤ (1 - p) := by linarith
  have key : (-1509854470093 + 842707662450 * p ^ 1 - 861155243500 * p ^ 2 + 2926749166250 * p ^ 3 - 5260446940000 * p ^ 4 + 3326720950000 * p ^ 5 - 721849257500 * p ^ 6) * (1 : ℝ) = (-1509854470093 : ℝ) * ((1 - p) ^ 6) + (-8216419158108 : ℝ) * (p ^ 1 * (1 - p) ^ 5) + (-19295433982645 : ℝ) * (p ^ 2 * (1 - p) ^ 4) + (-22287884585110 : ℝ) * (p ^ 3 * (1 - p) ^ 3) + (-15867871329145 : ℝ) * (p ^ 4 * (1 - p) ^ 2) + (-6704134913558 : ℝ) * (p ^ 5 * (1 - p) ^ 1) + (-1257128132393 : ℝ) * (p ^ 6) := by ring
  have e0 : (-1509854470093 : ℝ) * ((1 - p) ^ 6) ≤ 0 :=
    mul_nonpos_of_nonpos_of_nonneg (by norm_num) (pow_nonneg hB 6)
  have e1 : (-8216419158108 : ℝ) * (p ^ 1 * (1 - p) ^ 5) ≤ 0 :=
    mul_nonpos_of_nonpos_of_nonneg (by norm_num) (mul_nonneg (pow_nonneg hA 1) (pow_nonneg hB 5))
  have e2 : (-19295433982645 : ℝ) * (p ^ 2 * (1 - p) ^ 4) ≤ 0 :=
    mul_nonpos_of_nonpos_of_nonneg (by norm_num) (mul_nonneg (pow_nonneg hA 2) (pow_nonneg hB 4))
  have e3 : (-22287884585110 : ℝ) * (p ^ 3 * (1 - p) ^ 3) ≤ 0 :=
    mul_nonpos_of_nonpos_of_nonneg (by norm_num) (mul_nonneg (pow_nonneg hA 3) (pow_nonneg hB 3))
  have e4 : (-15867871329145 : ℝ) * (p ^ 4 * (1 - p) ^ 2) ≤ 0 :=
    mul_nonpos_of_nonpos_of_nonneg (by norm_num) (mul_nonneg (pow_nonneg hA 4) (pow_nonneg hB 2))
  have e5 : (-6704134913558 : ℝ) * (p ^ 5 * (1 - p) ^ 1) ≤ 0 :=
    mul_nonpos_of_nonpos_of_nonneg (by norm_num) (mul_nonneg (pow_nonneg hA 5) (pow_nonneg hB 1))
  have e6 : (-1257128132393 : ℝ) * (p ^ 6) ≤ 0 :=
    mul_nonpos_of_nonpos_of_nonneg (by norm_num) (pow_nonneg hA 6)
  have hKD : (0:ℝ) < (1 : ℝ) := by norm_num
  have hmul : (-1509854470093 + 842707662450 * p ^ 1 - 861155243500 * p ^ 2 + 2926749166250 * p ^ 3 - 5260446940000 * p ^ 4 + 3326720950000 * p ^ 5 - 721849257500 * p ^ 6) * (1 : ℝ) ≤ 0 * (1 : ℝ) := by
    rw [zero_mul, key]
    exact (add_nonpos (add_nonpos (add_nonpos (add_nonpos (add_nonpos (add_nonpos e0 e1) e2) e3) e4) e5) e6)
  exact le_of_mul_le_mul_right hmul hKD

set_option maxHeartbeats 2000000 in
theorem dta_nonpos {p d : ℝ} (h1 : 0 ≤ p) (h2 : p ≤ 1)
    (hy1 : -10 ≤ d) (hy2 : d ≤ 10) :
    -20618513/100000000 - 26341271/2500000000 * d ^ 1 + 108390039/1000000000000 * d ^ 2 - 19478851/12500000000000 * d ^ 3 + 3584677/100000000000000 * d ^ 4 - 299217693/500000000000000000 * d ^ 5 + 16911721/100000000 * p ^ 1 - 513093/25000000000 * p ^ 1 * d ^ 1 - 32577651/10000000000000 * p ^ 1 * d ^ 2 - 18586393/250000000000000 * p ^ 1 * d ^ 3 + 7420443/2500000000000000 * p ^ 1 * d ^ 4 - 4073967/20000000 * p ^ 2 + 7805501/1250000000 * p ^ 2 * d ^ 1 - 36943797/100000000000 * p ^ 2 * d ^ 2 + 326133/50000000000 * p ^ 2 * d ^ 3 - 5555697/100000000000000 * p ^ 2 * d ^ 4 + 71175079/100000000 * p ^ 3 - 6828237/250000000 * p ^ 3 * d ^ 1 + 35625807/20000000000 * p ^ 3 * d ^ 2 - 2153339/62500000000 * p ^ 3 * d ^ 3 + 12211649/40000000000000 * p ^ 3 * d ^ 4 - 12443657/10000000 * p ^ 4 + 27466369/500000000 * p ^ 4 * d ^ 1 - 2231259/500000000 * p ^ 4 * d ^ 2 + 24603699/250000000000 * p ^ 4 * d ^ 3 - 575879/625000000000 * p ^ 4 * d ^ 4 + 89234477/100000000 * p ^ 5 - 3588147/50000000 * p ^ 5 * d ^ 1 + 12815427/2000000000 * p ^ 5 * d ^ 2 - 41698377/250000000000 * p ^ 5 * d ^ 3 + 8325489/5000000000000 * p ^ 5 * d ^ 4 - 1388201/6250000 * p ^ 6 + 23377377/500000000 * p ^ 6 * d ^ 1 - 13316721/2500000000 * p ^ 6 * d ^ 2 + 20071599/125000000000 * p ^ 6 * d ^ 3 - 35418367/20000000000000 * p ^ 6 * d ^ 4 ≤ 0 := by
  have hC : (0:ℝ) ≤ (d + 10) := by linarith
  have hD : (0:ℝ) ≤ (10 - d) := by linarith
  have key : (-20618513/100000000 - 26341271/2500000000 * d ^ 1 + 108390039/1000000000000 * d ^ 2 - 19478851/12500000000000 * d ^ 3 + 3584677/100000000000000 * d ^ 4 - 299217693/500000000000000000 * d ^ 5 + 16911721/100000000 * p ^ 1 - 513093/25000000000 * p ^ 1 * d ^ 1 - 32577651/10000000000000 * p ^ 1 * d ^ 2 - 18586393/250000000000000 * p ^ 1 * d ^ 3 + 7420443/2500000000000000 * p ^ 1 * d ^ 4 - 4073967/20000000 * p ^ 2 + 7805501/1250000000 * p ^ 2 * d ^ 1 - 36943797/100000000000 * p ^ 2 * d ^ 2 + 326133/50000000000 * p ^ 2 * d ^ 3 - 5555697/100000000000000 * p ^ 2 * d ^ 4 + 71175079/100000000 * p ^ 3 - 6828237/250000000 * p ^ 3 * d ^ 1 + 35625807/20000000000 * p ^ 3 * d ^ 2 - 2153339/62500000000 * p ^ 3 * d ^ 3 + 12211649/40000000000000 * p ^ 3 * d ^ 4 - 12443657/10000000 * p ^ 4 + 27466369/500000000 * p ^ 4 * d ^ 1 - 2231259/500000000 * p ^ 4 * d ^ 2 + 24603699/250000000000 * p ^ 4 * d ^ 3 - 575879/625000000000 * p ^ 4 * d ^ 4 + 89234477/100000000 * p ^ 5 - 3588147/50000000 * p ^ 5 * d ^ 1 + 12815427/2000000000 * p ^ 5 * d ^ 2 - 41698377/250000000000 * p ^ 5 * d ^ 3 + 8325489/5000000000000 * p ^ 5 * d ^ 4 - 1388201/6250000 * p ^ 6 + 23377377/500000000 * p ^ 6 * d ^ 1 - 13316721/2500000000 * p ^ 6 * d ^ 2 + 20071599/125000000000 * p ^ 6 * d ^ 3 - 35418367/20000000000000 * p ^ 6 * d ^ 4) * (16000000000000000000 : ℝ) = (-440022113907 + 845503490170 * p ^ 1 - 1550821923500 * p ^ 2 + 6002578206250 * p ^ 3 - 11737868700000 * p ^ 4 + 12170950030000 * p ^ 5 - 7003052577500 * p ^ 6) * ((10 - d) ^ 5) + (-3534621614865 + 4228562971010 * p ^ 1 - 6172891009500 * p ^ 2 + 22563296321250 * p ^ 3 - 40950027260000 * p ^ 4 + 35193184790000 * p ^ 5 - 14160859587500 * p ^ 6) * ((d + 10) ^ 1 * (10 - d) ^ 4) + (-9373001925870 + 8460723999100 * p ^ 1 - 10380248707000 * p ^ 2 + 36223538832500 * p ^ 3 - 62357033480000 * p ^ 4 + 43884393700000 * p ^ 5 - 9025758915000 * p ^ 6) * ((d + 10) ^ 2 * (10 - d) ^ 3) + (-11455121798130 + 8458106166540 * p ^ 1 - 9261821747000 * p ^ 2 + 31450017712500 * p ^ 3 - 53338781800000 * p ^ 4 + 32867675860000 * p ^ 5 - 2886263955000 * p ^ 6) * ((d + 10) ^ 3 * (10 - d) ^ 2) + (-6676998877135 + 4223149310730 * p ^ 1 - 4364797369500 * p ^ 2 + 14713946161250 * p ^ 3 - 25454353820000 * p ^ 4 + 15332237870000 * p ^ 5 - 1740161307500 * p ^ 6) * ((d + 10) ^ 4 * (10 - d) ^ 1) + (-1509854470093 + 842707662450 * p ^ 1 - 861155243500 * p ^ 2 + 2926749166250 * p ^ 3 - 5260446940000 * p ^ 4 + 3326720950000 * p ^ 5 - 721849257500 * p ^ 6) * ((d + 10) ^ 5) := by ring
  have hS0 : (-440022113907 + 845503490170 * p ^ 1 - 1550821923500 * p ^ 2 + 6002578206250 * p ^ 3 - 11737868700000 * p ^ 4 + 12170950030000 * p ^ 5 - 7003052577500 * p ^ 6 : ℝ) ≤ 0 := dta_s0 h1 h2
  have e0 : (-440022113907 + 845503490170 * p ^ 1 - 1550821923500 * p ^ 2 + 6002578206250 * p ^ 3 - 11737868700000 * p ^ 4 + 12170950030000 * p ^ 5 - 7003052577500 * p ^ 6) * ((10 - d) ^ 5) ≤ 0 :=
    mul_nonpos_of_nonpos_of_nonneg hS0 (pow_nonneg hD 5)
  have hS1 : (-3534621614865 + 4228562971010 * p ^ 1 - 6172891009500 * p ^ 2 + 22563296321250 * p ^ 3 - 40950027260000 * p ^ 4 + 35193184790000 * p ^ 5 - 14160859587500 * p ^ 6 : ℝ) ≤ 0 := dta_s1 h1 h2
  have e1 : (-3534621614865 + 4228562971010 * p ^ 1 - 6172891009500 * p ^ 2 + 22563296321250 * p ^ 3 - 40950027260000 * p ^ 4 + 35193184790000 * p ^ 5 - 14160859587500 * p ^ 6) * ((d + 10) ^ 1 * (10 - d) ^ 4) ≤ 0 :=
    mul_nonpos_of_nonpos_of_nonneg hS1 (mul_nonneg (pow_nonneg hC 1) (pow_nonneg hD 4))
  have hS2 : (-9373001925870 + 8460723999100 * p ^ 1 - 10380248707000 * p ^ 2 + 36223538832500 * p ^ 3 - 62357033480000 * p ^ 4 + 43884393700000 * p ^ 5 - 9025758915000 * p ^ 6 : ℝ) ≤ 0 := dta_s2 h1 h2
  have e2 : (-9373001925870 + 8460723999100 * p ^ 1 - 10380248707000 * p ^ 2 + 36223538832500 * p ^ 3 - 62357033480000 * p ^ 4 + 43884393700000 * p ^ 5 - 9025758915000 * p ^ 6) * ((d + 10) ^ 2 * (10 - d) ^ 3) ≤ 0 :=
    mul_nonpos_of_nonpos_of_nonneg hS2 (mul_nonneg (pow_nonneg hC 2) (pow_nonneg hD 3))
  have hS3 : (-11455121798130 + 8458106166540 * p ^ 1 - 9261821747000 * p ^ 2 + 31450017712500 * p ^ 3 - 53338781800000 * p ^ 4 + 32867675860000 * p ^ 5 - 2886263955000 * p ^ 6 : ℝ) ≤ 0 := dta_s3 h1 h2
  have e3 : (-11455121798130 + 8458106166540 * p ^ 1 - 9261821747000 * p ^ 2 + 31450017712500 * p ^ 3 - 53338781800000 * p ^ 4 + 32867675860000 * p ^ 5 - 2886263955000 * p ^ 6) * ((d + 10) ^ 3 * (10 - d) ^ 2) ≤ 0 :=
    mul_nonpos_of_nonpos_of_nonneg hS3 (mul_nonneg (pow_nonneg hC 3) (pow_nonneg hD 2))
  have hS4 : (-6676998877135 + 4223149310730 * p ^ 1 - 4364797369500 * p ^ 2 + 14713946161250 * p ^ 3 - 25454353820000 * p ^ 4 + 15332237870000 * p ^ 5 - 1740161307500 * p ^ 6 : ℝ) ≤ 0 := dta_s4 h1 h2
  have e4 : (-6676998877135 + 4223149310730 * p ^ 1 - 4364797369500 * p ^ 2 + 14713946161250 * p ^ 3 - 25454353820000 * p ^ 4 + 15332237870000 * p ^ 5 - 1740161307500 * p ^ 6) * ((d + 10) ^ 4 * (10 - d) ^ 1) ≤ 0 :=
    mul_nonpos_of_nonpos_of_nonneg hS4 (mul_nonneg (pow_nonneg hC 4) (pow_nonneg hD 1))
  have hS5 : (-1509854470093 + 842707662450 * p ^ 1 - 861155243500 * p ^ 2 + 2926749166250 * p ^ 3 - 5260446940000 * p ^ 4 + 3326720950000 * p ^ 5 - 721849257500 * p ^ 6 : ℝ) ≤ 0 := dta_s5 h1 h2
  have e5 : (-1509854470093 + 842707662450 * p ^ 1 - 861155243500 * p ^ 2 + 2926749166250 * p ^ 3 - 5260446940000 * p ^ 4 + 3326720950000 * p ^ 5 - 721849257500 * p ^ 6) * ((d + 10) ^ 5) ≤ 0 :=
    mul_nonpos_of_nonpos_of_nonneg hS5 (pow_nonneg hC 5)
  have hKD : (0:ℝ) < (16000000000000000000 : ℝ) := by norm_num
  have hmul : (-20618513/100000000 - 26341271/2500000000 * d ^ 1 + 108390039/1000000000000 * d ^ 2 - 19478851/12500000000000 * d ^ 3 + 3584677/100000000000000 * d ^ 4 - 299217693/500000000000000000 * d ^ 5 + 16911721/100000000 * p ^ 1 - 513093/25000000000 * p ^ 1 * d ^ 1 - 32577651/10000000000000 * p ^ 1 * d ^ 2 - 18586393/250000000000000 * p ^ 1 * d ^ 3 + 7420443/2500000000000000 * p ^ 1 * d ^ 4 - 4073967/20000000 * p ^ 2 + 7805501/1250000000 * p ^ 2 * d ^ 1 - 36943797/100000000000 * p ^ 2 * d ^ 2 + 326133/50000000000 * p ^ 2 * d ^ 3 - 5555697/100000000000000 * p ^ 2 * d ^ 4 + 71175079/100000000 * p ^ 3 - 6828237/250000000 * p ^ 3 * d ^ 1 + 35625807/20000000000 * p ^ 3 * d ^ 2 - 2153339/62500000000 * p ^ 3 * d ^ 3 + 12211649/40000000000000 * p ^ 3 * d ^ 4 - 12443657/10000000 * p ^ 4 + 27466369/500000000 * p ^ 4 * d ^ 1 - 2231259/500000000 * p ^ 4 * d ^ 2 + 24603699/250000000000 * p ^ 4 * d ^ 3 - 575879/625000000000 * p ^ 4 * d ^ 4 + 89234477/100000000 * p ^ 5 - 3588147/50000000 * p ^ 5 * d ^ 1 + 12815427/2000000000 * p ^ 5 * d ^ 2 - 41698377/250000000000 * p ^ 5 * d ^ 3 + 8325489/5000000000000 * p ^ 5 * d ^ 4 - 1388201/6250000 * p ^ 6 + 23377377/500000000 * p ^ 6 * d ^ 1 - 13316721/2500000000 * p ^ 6 * d ^ 2 + 20071599/125000000000 * p ^ 6 * d ^ 3 - 35418367/20000000000000 * p ^ 6 * d ^ 4) * (16000000000000000000 : ℝ) ≤ 0 * (16000000000000000000 : ℝ) := by
    rw [zero_mul, key]
    exact (add_nonpos (add_nonpos (add_nonpos (add_nonpos (add_nonpos e0 e1) e2) e3) e4) e5)
  exact le_of_mul_le_mul_right hmul hKD

set_option maxHeartbeats 1000000 in
theorem dtb_s0 {p : ℝ} (h1 : 0 ≤ p) (h2 : p ≤ 1) :
    -1509854470093 + 842707662450 * p ^ 1 - 861155243500 * p ^ 2 + 2926749166250 * p ^ 3 - 5260446940000 * p ^ 4 + 3326720950000 * p ^ 5 - 721849257500 * p ^ 6 ≤ 0 := by
  have hA : (0:ℝ) ≤ p := h1
  have hB : (0:ℝ) ≤ (1 - p) := by linarith
  have key : (-1509854470093 + 842707662450 * p ^ 1 - 861155243500 * p ^ 2 + 2926749166250 * p ^ 3 - 5260446940000 * p ^ 4 + 3326720950000 * p ^ 5 - 721849257500 * p ^ 6) * (1 : ℝ) = (-1509854470093 : ℝ) * ((1 - p) ^ 6) + (-8216419158108 : ℝ) * (p ^ 1 * (1 - p) ^ 5) + (-19295433982645 : ℝ) * (p ^ 2 * (1 - p) ^ 4) + (-22287884585110 : ℝ) * (p ^ 3 * (1 - p) ^ 3) + (-15867871329145 : ℝ) * (p ^ 4 * (1 - p) ^ 2) + (-6704134913558 : ℝ) * (p ^ 5 * (1 - p) ^ 1) + (-1257128132393 : ℝ) * (p ^ 6) := by ring
  have e0 : (-1509854470093 : ℝ) * ((1 - p) ^ 6) ≤ 0 :=
    mul_nonpos_of_nonpos_of_nonneg (by norm_num) (pow_nonneg hB 6)
  have e1 : (-8216419158108 : ℝ) * (p ^ 1 * (1 - p) ^ 5) ≤ 0 :=
    mul_nonpos_of_nonpos_of_nonneg (by norm_num) (mul_nonneg (pow_nonneg hA 1) (pow_nonneg hB 5))
  have e2 : (-19295433982645 : ℝ) * (p ^ 2 * (1 - p) ^ 4) ≤ 0 :=
    mul_nonpos_of_nonpos_of_nonneg (by norm_num) (mul_nonneg (pow_nonneg hA 2) (pow_nonneg hB 4))
  have e3 : (-22287884585110 : ℝ) * (p ^ 3 * (1 - p) ^ 3) ≤ 0 :=
    mul_nonpos_of_nonpos_of_nonneg (by norm_num) (mul_nonneg (pow_nonneg hA 3) (pow_nonneg hB 3))
  have e4 : (-15867871329145 : ℝ) * (p ^ 4 * (1 - p) ^ 2) ≤ 0 :=
    mul_nonpos_of_nonpos_of_nonneg (by norm_num) (mul_nonneg (pow_nonneg hA 4) (pow_nonneg hB 2))
  have e5 : (-6704134913558 : ℝ) * (p ^ 5 * (1 - p) ^ 1) ≤ 0 :=
    mul_nonpos_of_nonpos_of_nonneg (by norm_num) (mul_nonneg (pow_nonneg hA 5) (pow_nonneg hB 1))
  have e6 : (-1257128132393 : ℝ) * (p ^ 6) ≤ 0 :=
    mul_nonpos_of_nonpos_of_nonneg (by norm_num) (pow_nonneg hA 6)
  have hKD : (0:ℝ) < (1 : ℝ) := by norm_num
  have hmul : (-1509854470093 + 842707662450 * p ^ 1 - 861155243500 * p ^ 2 + 2926749166250 * p ^ 3 - 5260446940000 * p ^ 4 + 3326720950000 * p ^ 5 - 721849257500 * p ^ 6) * (1 : ℝ) ≤ 0 * (1 : ℝ) := by
    rw [zero_mul, key]
    exact (add_nonpos (add_nonpos (add_nonpos (add_nonpos (add_nonpos (add_nonpos e0 e1) e2) e3) e4) e5) e6)
  exact le_of_mul_le_mul_right hmul hKD

set_option maxHeartbeats 1000000 in
theorem dtb_s1 {p : ℝ} (h1 : 0 ≤ p) (h2 : p ≤ 1) :
    -8421545823795 + 4203927313770 * p ^ 1 - 4246755065500 * p ^ 2 + 14553545501250 * p ^ 3 - 27150115580000 * p ^ 4 + 17934971630000 * p ^ 5 - 5478331267500 * p ^ 6 ≤ 0 := by
  have hA : (0:ℝ) ≤ p := h1
  have hB : (0:ℝ) ≤ (1 - p) := by linarith
  have key : (-8421545823795 + 4203927313770 * p ^ 1 - 4246755065500 * p ^ 2 + 14553545501250 * p ^ 3 - 27150115580000 * p ^ 4 + 17934971630000 * p ^ 5 - 5478331267500 * p ^ 6) * (1 : ℝ) = (-8421545823795 : ℝ) * ((1 - p) ^ 6) + (-46325347629000 : ℝ) * (p ^ 1 * (1 - p) ^ 5) + (-109550305853575 : ℝ) * (p ^ 2 * (1 - p) ^ 4) + (-128825118098950 : ℝ) * (p ^ 3 * (1 - p) ^ 3) + (-93253923688475 : ℝ) * (p ^ 4 * (1 - p) ^ 2) + (-39201281662170 : ℝ) * (p ^ 5 * (1 - p) ^ 1) + (-8604303291775 : ℝ) * (p ^ 6) := by ring
  have e0 : (-8421545823795 : ℝ) * ((1 - p) ^ 6) ≤ 0 :=
    mul_nonpos_of_nonpos_of_nonneg (by norm_num) (pow_nonneg hB 6)
  have e1 : (-46325347629000 : ℝ) * (p ^ 1 * (1 - p) ^ 5) ≤ 0 :=
    mul_nonpos_of_nonpos_of_nonneg (by norm_num) (mul_nonneg (pow_nonneg hA 1) (pow_nonneg hB 5))
  have e2 : (-109550305853575 : ℝ) * (p ^ 2 * (1 - p) ^ 4) ≤ 0 :=
    mul_nonpos_of_nonpos_of_nonneg (by norm_num) (mul_nonneg (pow_nonneg hA 2) (pow_nonneg hB 4))
  have e3 : (-128825118098950 : ℝ) * (p ^ 3 * (1 - p) ^ 3) ≤ 0 :=
    mul_nonpos_of_nonpos_of_nonneg (by norm_num) (mul_nonneg (pow_nonneg hA 3) (pow_nonneg hB 3))
  have e4 : (-93253923688475 : ℝ) * (p ^ 4 * (1 - p) ^ 2) ≤ 0 :=
    mul_nonpos_of_nonpos_of_nonneg (by norm_num) (mul_nonneg (pow_nonneg hA 4) (pow_nonneg hB 2))
  have e5 : (-39201281662170 : ℝ) * (p ^ 5 * (1 - p) ^ 1) ≤ 0 :=
    mul_nonpos_of_nonpos_of_nonneg (by norm_num) (mul_nonneg (pow_nonneg hA 5) (pow_nonneg hB 1))
  have e6 : (-8604303291775 : ℝ) * (p ^ 6) ≤ 0 :=
    mul_nonpos_of_nonpos_of_nonneg (by norm_num) (pow_nonneg hA 6)
  have hKD : (0:ℝ) < (1 : ℝ) := by norm_num
  have hmul : (-8421545823795 + 4203927313770 * p ^ 1 - 4246755065500 * p ^ 2 + 14553545501250 * p ^ 3 - 27150115580000 * p ^ 4 + 17934971630000 * p ^ 5 - 5478331267500 * p ^ 6) * (1 : ℝ) ≤ 0 * (1 : ℝ) := by
    rw [zero_mul, key]
    exact (add_nonpos (add_nonpos (add_nonpos (add_nonpos (add_nonpos (add_nonpos e0 e1) e2) e3) e4) e5) e6)
  exact le_of_mul_le_mul_right hmul hKD

set_option maxHeartbeats 1000000 in
theorem dtb_s2 {p : ℝ} (h1 : 0 ≤ p) (h2 : p ≤ 1) :
    -18433309584770 + 8381218178700 * p ^ 1 - 8789652531000 * p ^ 2 + 30808415072500 * p ^ 3 - 60121828840000 * p ^ 4 + 43278610900000 * p ^ 5 - 17838943795000 * p ^ 6 ≤ 0 := by
  have hA : (0:ℝ) ≤ p := h1
  have hB : (0:ℝ) ≤ (1 - p) := by linarith
  have key : (-18433309584770 + 8381218178700 * p ^ 1 - 8789652531000 * p ^ 2 + 30808415072500 * p ^ 3 - 60121828840000 * p ^ 4 + 43278610900000 * p ^ 5 - 17838943795000 * p ^ 6) * (1 : ℝ) = (-18433309584770 : ℝ) * ((1 - p) ^ 6) + (-102218639329920 : ℝ) * (p ^ 1 * (1 - p) ^ 5) + (-243383205409050 : ℝ) * (p ^ 2 * (1 - p) ^ 4) + (-289204204959900 : ℝ) * (p ^ 3 * (1 - p) ^ 3) + (-213121960793050 : ℝ) * (p ^ 4 * (1 - p) ^ 2) + (-88392178301620 : ℝ) * (p ^ 5 * (1 - p) ^ 1) + (-22715490599570 : ℝ) * (p ^ 6) := by ring
  have e0 : (-18433309584770 : ℝ) * ((1 - p) ^ 6) ≤ 0 :=
    mul_nonpos_of_nonpos_of_nonneg (by norm_num) (pow_nonneg hB 6)
  have e1 : (-102218639329920 : ℝ) * (p ^ 1 * (1 - p) ^ 5) ≤ 0 :=
    mul_nonpos_of_nonpos_of_nonneg (by norm_num) (mul_nonneg (pow_nonneg hA 1) (pow_nonneg hB 5))
  have e2 : (-243383205409050 : ℝ) * (p ^ 2 * (1 - p) ^ 4) ≤ 0 :=
    mul_nonpos_of_nonpos_of_nonneg (by norm_num) (mul_nonneg (pow_nonneg hA 2) (pow_nonneg hB 4))
  have e3 : (-289204204959900 : ℝ) * (p ^ 3 * (1 - p) ^ 3) ≤ 0 :=
    mul_nonpos_of_nonpos_of_nonneg (by norm_num) (mul_nonneg (pow_nonneg hA 3) (pow_nonneg hB 3))
  have e4 : (-213121960793050 : ℝ) * (p ^ 4 * (1 - p) ^ 2) ≤ 0 :=
    mul_nonpos_of_nonpos_of_nonneg (by norm_num) (mul_nonneg (pow_nonneg hA 4) (pow_nonneg hB 2))
  have e5 : (-88392178301620 : ℝ) * (p ^ 5 * (1 - p) ^ 1) ≤ 0 :=
    mul_nonpos_of_nonpos_of_nonneg (by norm_num) (mul_nonneg (pow_nonneg hA 5) (pow_nonneg hB 1))
  have e6 : (-22715490599570 : ℝ) * (p ^ 6) ≤ 0 :=
    mul_nonpos_of_nonpos_of_nonneg (by norm_num) (pow_nonneg hA 6)
  have hKD : (0:ℝ) < (1 : ℝ) := by norm_num
  have hmul : (-18433309584770 + 8381218178700 * p ^ 1 - 8789652531000 * p ^ 2 + 30808415072500 * p ^ 3 - 60121828840000 * p ^ 4 + 43278610900000 * p ^ 5 - 17838943795000 * p ^ 6) * (1 : ℝ) ≤ 0 * (1 : ℝ) := by
    rw [zero_mul, key]
    exact (add_nonpos (add_nonpos (add_nonpos (add_nonpos (add_nonpos (add_nonpos e0 e1) e2) e3) e4) e5) e6)
  exact le_of_mul_le_mul_right hmul hKD

set_option maxHeartbeats 1000000 in
theorem dtb_s3 {p : ℝ} (h1 : 0 ≤ p) (h2 : p ≤ 1) :
    -19898113419110 + 8348942538620 * p ^ 1 - 9327964387000 * p ^ 2 + 33481792872500 * p ^ 3 - 67606920840000 * p ^ 4 + 51485628580000 * p ^ 5 - 24275894035000 * p ^ 6 ≤ 0 := by
  have hA : (0:ℝ) ≤ p := h1
  have hB : (0:ℝ) ≤ (1 - p) := by linarith
  have key : (-19898113419110 + 8348942538620 * p ^ 1 - 9327964387000 * p ^ 2 + 33481792872500 * p ^ 3 - 67606920840000 * p ^ 4 + 51485628580000 * p ^ 5 - 24275894035000 * p ^ 6) * (1 : ℝ) = (-19898113419110 : ℝ) * ((1 - p) ^ 6) + (-111039737976040 : ℝ) * (p ^ 1 * (1 - p) ^ 5) + (-266054952980550 : ℝ) * (p ^ 2 * (1 - p) ^ 4) + (-318302907671500 : ℝ) * (p ^ 3 * (1 - p) ^ 3) + (-238111604444950 : ℝ) * (p ^ 4 * (1 - p) ^ 2) + (-98238659852060 : ℝ) * (p ^ 5 * (1 - p) ^ 1) + (-27792528689990 : ℝ) * (p ^ 6) := by ring
  have e0 : (-19898113419110 : ℝ) * ((1 - p) ^ 6) ≤ 0 :=
    mul_nonpos_of_nonpos_of_nonneg (by norm_num) (pow_nonneg hB 6)
  have e1 : (-111039737976040 : ℝ) * (p ^ 1 * (1 - p) ^ 5) ≤ 0 :=
    mul_nonpos_of_nonpos_of_nonneg (by norm_num) (mul_nonneg (pow_nonneg hA 1) (pow_nonneg hB 5))
  have e2 : (-266054952980550 : ℝ) * (p ^ 2 * (1 - p) ^ 4) ≤ 0 :=
    mul_nonpos_of_nonpos_of_nonneg (by norm_num) (mul_nonneg (pow_nonneg hA 2) (pow_nonneg hB 4))
  have e3 : (-318302907671500 : ℝ) * (p ^ 3 * (1 - p) ^ 3) ≤ 0 :=
    mul_nonpos_of_nonpos_of_nonneg (by norm_num) (mul_nonneg (pow_nonneg hA 3) (pow_nonneg hB 3))
  have e4 : (-238111604444950 : ℝ) * (p ^ 4 * (1 - p) ^ 2) ≤ 0 :=
    mul_nonpos_of_nonpos_of_nonneg (by norm_num) (mul_nonneg (pow_nonneg hA 4) (pow_nonneg hB 2))
  have e5 : (-98238659852060 : ℝ) * (p ^ 5 * (1 - p) ^ 1) ≤ 0 :=
    mul_nonpos_of_nonpos_of_nonneg (by norm_num) (mul_nonneg (pow_nonneg hA 5) (pow_nonneg hB 1))
  have e6 : (-27792528689990 : ℝ) * (p ^ 6) ≤ 0 :=
    mul_nonpos_of_nonpos_of_nonneg (by norm_num) (pow_nonneg hA 6)
  have hKD : (0:ℝ) < (1 : ℝ) := by norm_num
  have hmul : (-19898113419110 + 8348942538620 * p ^ 1 - 9327964387000 * p ^ 2 + 33481792872500 * p ^ 3 - 67606920840000 * p ^ 4 + 51485628580000 * p ^ 5 - 24275894035000 * p ^ 6) * (1 : ℝ) ≤ 0 * (1 : ℝ) := by
    rw [zero_mul, key]
    exact (add_nonpos (add_nonpos (add_nonpos (add_nonpos (add_nonpos (add_nonpos e0 e1) e2) e3) e4) e5) e6)
  exact le_of_mul_le_mul_right hmul hKD

set_option maxHeartbeats 1000000 in
theorem dtb_s4 {p : ℝ} (h1 : 0 ≤ p) (h2 : p ≤ 1) :
    -10628469028065 + 4158776025730 * p ^ 1 - 5012660801500 * p ^ 2 + 18363009681250 * p ^ 3 - 37883707900000 * p ^ 4 + 29573784470000 * p ^ 5 - 14755770147500 * p ^ 6 ≤ 0 := by
  have hA : (0:ℝ) ≤ p := h1
  have hB : (0:ℝ) ≤ (1 - p) := by linarith
  have key : (-10628469028065 + 4158776025730 * p ^ 1 - 5012660801500 * p ^ 2 + 18363009681250 * p ^ 3 - 37883707900000 * p ^ 4 + 29573784470000 * p ^ 5 - 14755770147500 * p ^ 6) * (1 : ℝ) = (-10628469028065 : ℝ) * ((1 - p) ^ 6) + (-59612038142660 : ℝ) * (p ^ 1 * (1 - p) ^ 5) + (-143645816093825 : ℝ) * (p ^ 2 * (1 - p) ^ 4) + (-172669253828750 : ℝ) * (p ^ 3 * (1 - p) ^ 3) + (-130709918828925 : ℝ) * (p ^ 4 * (1 - p) ^ 2) + (-54132179531990 : ℝ) * (p ^ 5 * (1 - p) ^ 1) + (-16185037700085 : ℝ) * (p ^ 6) := by ring
  have e0 : (-10628469028065 : ℝ) * ((1 - p) ^ 6) ≤ 0 :=
    mul_nonpos_of_nonpos_of_nonneg (by norm_num) (pow_nonneg hB 6)
  have e1 : (-59612038142660 : ℝ) * (p ^ 1 * (1 - p) ^ 5) ≤ 0 :=
    mul_nonpos_of_nonpos_of_nonneg (by norm_num) (mul_nonneg (pow_nonneg hA 1) (pow_nonneg hB 5))
  have e2 : (-143645816093825 : ℝ) * (p ^ 2 * (1 - p) ^ 4) ≤ 0 :=
    mul_nonpos_of_nonpos_of_nonneg (by norm_num) (mul_nonneg (pow_nonneg hA 2) (pow_nonneg hB 4))
  have e3 : (-172669253828750 : ℝ) * (p ^ 3 * (1 - p) ^ 3) ≤ 0 :=
    mul_nonpos_of_nonpos_of_nonneg (by norm_num) (mul_nonneg (pow_nonneg hA 3) (pow_nonneg hB 3))
  have e4 : (-130709918828925 : ℝ) * (p ^ 4 * (1 - p) ^ 2) ≤ 0 :=
    mul_nonpos_of_nonpos_of_nonneg (by norm_num) (mul_nonneg (pow_nonneg hA 4) (pow_nonneg hB 2))
  have e5 : (-54132179531990 : ℝ) * (p ^ 5 * (1 - p) ^ 1) ≤ 0 :=
    mul_nonpos_of_nonpos_of_nonneg (by norm_num) (mul_nonneg (pow_nonneg hA 5) (pow_nonneg hB 1))
  have e6 : (-16185037700085 : ℝ) * (p ^ 6) ≤ 0 :=
    mul_nonpos_of_nonpos_of_nonneg (by norm_num) (pow_nonneg hA 6)
  have hKD : (0:ℝ) < (1 : ℝ) := by norm_num
  have hmul : (-10628469028065 + 4158776025730 * p ^ 1 - 5012660801500 * p ^ 2 + 18363009681250 * p ^ 3 - 37883707900000 * p ^ 4 + 29573784470000 * p ^ 5 - 14755770147500 * p ^ 6) * (1 : ℝ) ≤ 0 * (1 : ℝ) := by
    rw [zero_mul, key]
    exact (add_nonpos (add_nonpos (add_nonpos (add_nonpos (add_nonpos (add_nonpos e0 e1) e2) e3) e4) e5) e6)
  exact le_of_mul_le_mul_right hmul hKD

set_option maxHeartbeats 1000000 in
theorem dtb_s5 {p : ℝ} (h1 : 0 ≤ p) (h2 : p ≤ 1) :
    -2261548806199 + 829832014490 * p ^ 1 - 1088749123500 * p ^ 2 + 4062835546250 * p ^ 3 - 8508947260000 * p ^ 4 + 6758516110000 * p ^ 5 - 3562337897500 * p ^ 6 ≤ 0 := by
  have hA : (0:ℝ) ≤ p := h1
  have hB : (0:ℝ) ≤ (1 - p) := by linarith
  have key : (-2261548806199 + 829832014490 * p ^ 1 - 1088749123500 * p ^ 2 + 4062835546250 * p ^ 3 - 8508947260000 * p ^ 4 + 6758516110000 * p ^ 5 - 3562337897500 * p ^ 6) * (1 : ℝ) = (-2261548806199 : ℝ) * ((1 - p) ^ 6) + (-12739460822704 : ℝ) * (p ^ 1 * (1 - p) ^ 5) + (-30862821144035 : ℝ) * (p ^ 2 * (1 - p) ^ 4) + (-37224816926830 : ℝ) * (p ^ 3 * (1 - p) ^ 3) + (-28477847310335 : ℝ) * (p ^ 4 * (1 - p) ^ 2) + (-11846001029994 : ℝ) * (p ^ 5 * (1 - p) ^ 1) + (-3770399416459 : ℝ) * (p ^ 6) := by ring
  have e0 : (-2261548806199 : ℝ) * ((1 - p) ^ 6) ≤ 0 :=
    mul_nonpos_of_nonpos_of_nonneg (by norm_num) (pow_nonneg hB 6)
  have e1 : (-12739460822704 : ℝ) * (p ^ 1 * (1 - p) ^ 5) ≤ 0 :=
    mul_nonpos_of_nonpos_of_nonneg (by norm_num) (mul_nonneg (pow_nonneg hA 1) (pow_nonneg hB 5))
  have e2 : (-30862821144035 : ℝ) * (p ^ 2 * (1 - p) ^ 4) ≤ 0 :=
    mul_nonpos_of_nonpos_of_nonneg (by norm_num) (mul_nonneg (pow_nonneg hA 2) (pow_nonneg hB 4))
  have e3 : (-37224816926830 : ℝ) * (p ^ 3 * (1 - p) ^ 3) ≤ 0 :=
    mul_nonpos_of_nonpos_of_nonneg (by norm_num) (mul_nonneg (pow_nonneg hA 3) (pow_nonneg hB 3))
  have e4 : (-28477847310335 : ℝ) * (p ^ 4 * (1 - p) ^ 2) ≤ 0 :=
    mul_nonpos_of_nonpos_of_nonneg (by norm_num) (mul_nonneg (pow_nonneg hA 4) (pow_nonneg hB 2))
  have e5 : (-11846001029994 : ℝ) * (p ^ 5 * (1 - p) ^ 1) ≤ 0 :=
    mul_nonpos_of_nonpos_of_nonneg (by norm_num) (mul_nonneg (pow_nonneg hA 5) (pow_nonneg hB 1))
  have e6 : (-3770399416459 : ℝ) * (p ^ 6) ≤ 0 :=
    mul_nonpos_of_nonpos_of_nonneg (by norm_num) (pow_nonneg hA 6)
  have hKD : (0:ℝ) < (1 : ℝ) := by norm_num
  have hmul : (-2261548806199 + 829832014490 * p ^ 1 - 1088749123500 * p ^ 2 + 4062835546250 * p ^ 3 - 8508947260000 * p ^ 4 + 6758516110000 * p ^ 5 - 3562337897500 * p ^ 6) * (1 : ℝ) ≤ 0 * (1 : ℝ) := by
    rw [zero_mul, key]
    exact (add_nonpos (add_nonpos (add_nonpos (add_nonpos (add_nonpos (add_nonpos e0 e1) e2) e3) e4) e5) e6)
  exact le_of_mul_le_mul_right hmul hKD

set_option maxHeartbeats 2000000 in
theorem dtb_nonpos {p d : ℝ} (h1 : 0 ≤ p) (h2 : p ≤ 1)
    (hy1 : 10 ≤ d) (hy2 : d ≤ 30) :
    -20618513/100000000 - 26341271/2500000000 * d ^ 1 + 108390039/1000000000000 * d ^ 2 - 19478851/12500000000000 * d ^ 3 + 3584677/100000000000000 * d ^ 4 - 299217693/500000000000000000 * d ^ 5 + 16911721/100000000 * p ^ 1 - 513093/25000000000 * p ^ 1 * d ^ 1 - 32577651/10000000000000 * p ^ 1 * d ^ 2 - 18586393/250000000000000 * p ^ 1 * d ^ 3 + 7420443/2500000000000000 * p ^ 1 * d ^ 4 - 4073967/20000000 * p ^ 2 + 7805501/1250000000 * p ^ 2 * d ^ 1 - 36943797/100000000000 * p ^ 2 * d ^ 2 + 326133/50000000000 * p ^ 2 * d ^ 3 - 5555697/100000000000000 * p ^ 2 * d ^ 4 + 71175079/100000000 * p ^ 3 - 6828237/250000000 * p ^ 3 * d ^ 1 + 35625807/20000000000 * p ^ 3 * d ^ 2 - 2153339/62500000000 * p ^ 3 * d ^ 3 + 12211649/40000000000000 * p ^ 3 * d ^ 4 - 12443657/10000000 * p ^ 4 + 27466369/500000000 * p ^ 4 * d ^ 1 - 2231259/500000000 * p ^ 4 * d ^ 2 + 24603699/250000000000 * p ^ 4 * d ^ 3 - 575879/625000000000 * p ^ 4 * d ^ 4 + 89234477/100000000 * p ^ 5 - 3588147/50000000 * p ^ 5 * d ^ 1 + 12815427/2000000000 * p ^ 5 * d ^ 2 - 41698377/250000000000 * p ^ 5 * d ^ 3 + 8325489/5000000000000 * p ^ 5 * d ^ 4 - 1388201/6250000 * p ^ 6 + 23377377/500000000 * p ^ 6 * d ^ 1 - 13316721/2500000000 * p ^ 6 * d ^ 2 + 20071599/125000000000 * p ^ 6 * d ^ 3 - 35418367/20000000000000 * p ^ 6 * d ^ 4 ≤ 0 := by
  have hC : (0:ℝ) ≤ (d - 10) := by linarith
  have hD : (0:ℝ) ≤ (30 - d) := by linarith
  have key : (-20618513/100000000 - 26341271/2500000000 * d ^ 1 + 108390039/1000000000000 * d ^ 2 - 19478851/12500000000000 * d ^ 3 + 3584677/100000000000000 * d ^ 4 - 299217693/500000000000000000 * d ^ 5 + 16911721/100000000 * p ^ 1 - 513093/25000000000 * p ^ 1 * d ^ 1 - 32577651/10000000000000 * p ^ 1 * d ^ 2 - 18586393/250000000000000 * p ^ 1 * d ^ 3 + 7420443/2500000000000000 * p ^ 1 * d ^ 4 - 4073967/20000000 * p ^ 2 + 7805501/1250000000 * p ^ 2 * d ^ 1 - 36943797/100000000000 * p ^ 2 * d ^ 2 + 326133/50000000000 * p ^ 2 * d ^ 3 - 5555697/100000000000000 * p ^ 2 * d ^ 4 + 71175079/100000000 * p ^ 3 - 6828237/250000000 * p ^ 3 * d ^ 1 + 35625807/20000000000 * p ^ 3 * d ^ 2 - 2153339/62500000000 * p ^ 3 * d ^ 3 + 12211649/40000000000000 * p ^ 3 * d ^ 4 - 12443657/10000000 * p ^ 4 + 27466369/500000000 * p ^ 4 * d ^ 1 - 2231259/500000000 * p ^ 4 * d ^ 2 + 24603699/250000000000 * p ^ 4 * d ^ 3 - 575879/625000000000 * p ^ 4 * d ^ 4 + 89234477/100000000 * p ^ 5 - 3588147/50000000 * p ^ 5 * d ^ 1 + 12815427/2000000000 * p ^ 5 * d ^ 2 - 41698377/250000000000 * p ^ 5 * d ^ 3 + 8325489/5000000000000 * p ^ 5 * d ^ 4 - 1388201/6250000 * p ^ 6 + 23377377/500000000 * p ^ 6 * d ^ 1 - 13316721/2500000000 * p ^ 6 * d ^ 2 + 20071599/125000000000 * p ^ 6 * d ^ 3 - 35418367/20000000000000 * p ^ 6 * d ^ 4) * (16000000000000000000 : ℝ) = (-1509854470093 + 842707662450 * p ^ 1 - 861155243500 * p ^ 2 + 2926749166250 * p ^ 3 - 5260446940000 * p ^ 4 + 3326720950000 * p ^ 5 - 721849257500 * p ^ 6) * ((30 - d) ^ 5) + (-8421545823795 + 4203927313770 * p ^ 1 - 4246755065500 * p ^ 2 + 14553545501250 * p ^ 3 - 27150115580000 * p ^ 4 + 17934971630000 * p ^ 5 - 5478331267500 * p ^ 6) * ((d - 10) ^ 1 * (30 - d) ^ 4) + (-18433309584770 + 8381218178700 * p ^ 1 - 8789652531000 * p ^ 2 + 30808415072500 * p ^ 3 - 60121828840000 * p ^ 4 + 43278610900000 * p ^ 5 - 17838943795000 * p ^ 6) * ((d - 10) ^ 2 * (30 - d) ^ 3) + (-19898113419110 + 8348942538620 * p ^ 1 - 9327964387000 * p ^ 2 + 33481792872500 * p ^ 3 - 67606920840000 * p ^ 4 + 51485628580000 * p ^ 5 - 24275894035000 * p ^ 6) * ((d - 10) ^ 3 * (30 - d) ^ 2) + (-10628469028065 + 4158776025730 * p ^ 1 - 5012660801500 * p ^ 2 + 18363009681250 * p ^ 3 - 37883707900000 * p ^ 4 + 29573784470000 * p ^ 5 - 14755770147500 * p ^ 6) * ((d - 10) ^ 4 * (30 - d) ^ 1) + (-2261548806199 + 829832014490 * p ^ 1 - 1088749123500 * p ^ 2 + 4062835546250 * p ^ 3 - 8508947260000 * p ^ 4 + 6758516110000 * p ^ 5 - 3562337897500 * p ^ 6) * ((d - 10) ^ 5) := by ring
  have hS0 : (-1509854470093 + 842707662450 * p ^ 1 - 861155243500 * p ^ 2 + 2926749166250 * p ^ 3 - 5260446940000 * p ^ 4 + 3326720950000 * p ^ 5 - 721849257500 * p ^ 6 : ℝ) ≤ 0 := dtb_s0 h1 h2
  have e0 : (-1509854470093 + 842707662450 * p ^ 1 - 861155243500 * p ^ 2 + 2926749166250 * p ^ 3 - 5260446940000 * p ^ 4 + 3326720950000 * p ^ 5 - 721849257500 * p ^ 6) * ((30 - d) ^ 5) ≤ 0 :=
    mul_nonpos_of_nonpos_of_nonneg hS0 (pow_nonneg hD 5)
  have hS1 : (-8421545823795 + 4203927313770 * p ^ 1 - 4246755065500 * p ^ 2 + 14553545501250 * p ^ 3 - 27150115580000 * p ^ 4 + 17934971630000 * p ^ 5 - 5478331267500 * p ^ 6 : ℝ) ≤ 0 := dtb_s1 h1 h2
  have e1 : (-8421545823795 + 4203927313770 * p ^ 1 - 4246755065500 * p ^ 2 + 14553545501250 * p ^ 3 - 27150115580000 * p ^ 4 + 17934971630000 * p ^ 5 - 5478331267500 * p ^ 6) * ((d - 10) ^ 1 * (30 - d) ^ 4) ≤ 0 :=
    mul_nonpos_of_nonpos_of_nonneg hS1 (mul_nonneg (pow_nonneg hC 1) (pow_nonneg hD 4))
  have hS2 : (-18433309584770 + 8381218178700 * p ^ 1 - 8789652531000 * p ^ 2 + 30808415072500 * p ^ 3 - 60121828840000 * p ^ 4 + 43278610900000 * p ^ 5 - 17838943795000 * p ^ 6 : ℝ) ≤ 0 := dtb_s2 h1 h2
  have e2 : (-18433309584770 + 8381218178700 * p ^ 1 - 8789652531000 * p ^ 2 + 30808415072500 * p ^ 3 - 60121828840000 * p ^ 4 + 43278610900000 * p ^ 5 - 17838943795000 * p ^ 6) * ((d - 10) ^ 2 * (30 - d) ^ 3) ≤ 0 :=
    mul_nonpos_of_nonpos_of_nonneg hS2 (mul_nonneg (pow_nonneg hC 2) (pow_nonneg hD 3))
  have hS3 : (-19898113419110 + 8348942538620 * p ^ 1 - 9327964387000 * p ^ 2 + 33481792872500 * p ^ 3 - 67606920840000 * p ^ 4 + 51485628580000 * p ^ 5 - 24275894035000 * p ^ 6 : ℝ) ≤ 0 := dtb_s3 h1 h2
  have e3 : (-19898113419110 + 8348942538620 * p ^ 1 - 9327964387000 * p ^ 2 + 33481792872500 * p ^ 3 - 67606920840000 * p ^ 4 + 51485628580000 * p ^ 5 - 24275894035000 * p ^ 6) * ((d - 10) ^ 3 * (30 - d) ^ 2) ≤ 0 :=
    mul_nonpos_of_nonpos_of_nonneg hS3 (mul_nonneg (pow_nonneg hC 3) (pow_nonneg hD 2))
  have hS4 : (-10628469028065 + 4158776025730 * p ^ 1 - 5012660801500 * p ^ 2 + 18363009681250 * p ^ 3 - 37883707900000 * p ^ 4 + 29573784470000 * p ^ 5 - 14755770147500 * p ^ 6 : ℝ) ≤ 0 := dtb_s4 h1 h2
  have e4 : (-10628469028065 + 4158776025730 * p ^ 1 - 5012660801500 * p ^ 2 + 18363009681250 * p ^ 3 - 37883707900000 * p ^ 4 + 29573784470000 * p ^ 5 - 14755770147500 * p ^ 6) * ((d - 10) ^ 4 * (30 - d) ^ 1) ≤ 0 :=
    mul_nonpos_of_nonpos_of_nonneg hS4 (mul_nonneg (pow_nonneg hC 4) (pow_nonneg hD 1))
  have hS5 : (-2261548806199 + 829832014490 * p ^ 1 - 1088749123500 * p ^ 2 + 4062835546250 * p ^ 3 - 8508947260000 * p ^ 4 + 6758516110000 * p ^ 5 - 3562337897500 * p ^ 6 : ℝ) ≤ 0 := dtb_s5 h1 h2
  have e5 : (-2261548806199 + 829832014490 * p ^ 1 - 1088749123500 * p ^ 2 + 4062835546250 * p ^ 3 - 8508947260000 * p ^ 4 + 6758516110000 * p ^ 5 - 3562337897500 * p ^ 6) * ((d - 10) ^ 5) ≤ 0 :=
    mul_nonpos_of_nonpos_of_nonneg hS5 (pow_nonneg hC 5)
  have hKD : (0:ℝ) < (16000000000000000000 : ℝ) := by norm_num
  have hmul : (-20618513/100000000 - 26341271/2500000000 * d ^ 1 + 108390039/1000000000000 * d ^ 2 - 19478851/12500000000000 * d ^ 3 + 3584677/100000000000000 * d ^ 4 - 299217693/500000000000000000 * d ^ 5 + 16911721/100000000 * p ^ 1 - 513093/25000000000 * p ^ 1 * d ^ 1 - 32577651/10000000000000 * p ^ 1 * d ^ 2 - 18586393/250000000000000 * p ^ 1 * d ^ 3 + 7420443/2500000000000000 * p ^ 1 * d ^ 4 - 4073967/20000000 * p ^ 2 + 7805501/1250000000 * p ^ 2 * d ^ 1 - 36943797/100000000000 * p ^ 2 * d ^ 2 + 326133/50000000000 * p ^ 2 * d ^ 3 - 5555697/100000000000000 * p ^ 2 * d ^ 4 + 71175079/100000000 * p ^ 3 - 6828237/250000000 * p ^ 3 * d ^ 1 + 35625807/20000000000 * p ^ 3 * d ^ 2 - 2153339/62500000000 * p ^ 3 * d ^ 3 + 12211649/40000000000000 * p ^ 3 * d ^ 4 - 12443657/10000000 * p ^ 4 + 27466369/500000000 * p ^ 4 * d ^ 1 - 2231259/500000000 * p ^ 4 * d ^ 2 + 24603699/250000000000 * p ^ 4 * d ^ 3 - 575879/625000000000 * p ^ 4 * d ^ 4 + 89234477/100000000 * p ^ 5 - 3588147/50000000 * p ^ 5 * d ^ 1 + 12815427/2000000000 * p ^ 5 * d ^ 2 - 41698377/250000000000 * p ^ 5 * d ^ 3 + 8325489/5000000000000 * p ^ 5 * d ^ 4 - 1388201/6250000 * p ^ 6 + 23377377/500000000 * p ^ 6 * d ^ 1 - 13316721/2500000000 * p ^ 6 * d ^ 2 + 20071599/125000000000 * p ^ 6 * d ^ 3 - 35418367/20000000000000 * p ^ 6 * d ^ 4) * (16000000000000000000 : ℝ) ≤ 0 * (16000000000000000000 : ℝ) := by
    rw [zero_mul, key]
    exact (add_nonpos (add_nonpos (add_nonpos (add_nonpos (add_nonpos e0 e1) e2) e3) e4) e5)
  exact le_of_mul_le_mul_right hmul hKD
theorem dp_nonpos {p d : ℝ} (hp0 : 0 ≤ p) (hp1 : p ≤ 1) (hd0 : -30 ≤ d) (hd1 : d ≤ 30) :
    -385953899/2000000 + 16911721/100000000 * d ^ 1 - 513093/50000000000 * d ^ 2 - 10859217/10000000000000 * d ^ 3 - 18586393/1000000000000000 * d ^ 4 + 7420443/12500000000000000 * d ^ 5 + 1945619479/2500000 * p ^ 1 - 4073967/10000000 * p ^ 1 * d ^ 1 + 7805501/1250000000 * p ^ 1 * d ^ 2 - 12314599/50000000000 * p ^ 1 * d ^ 3 + 326133/100000000000 * p ^ 1 * d ^ 4 - 5555697/250000000000000 * p ^ 1 * d ^ 5 - 5004311769/1000000 * p ^ 2 + 213525237/100000000 * p ^ 2 * d ^ 1 - 20484711/500000000 * p ^ 2 * d ^ 2 + 35625807/20000000000 * p ^ 2 * d ^ 3 - 6460017/250000000000 * p ^ 2 * d ^ 4 + 36634947/200000000000000 * p ^ 2 * d ^ 5 + 1352215441/25000 * p ^ 3 - 12443657/2500000 * p ^ 3 * d ^ 1 + 27466369/250000000 * p ^ 3 * d ^ 2 - 743753/125000000 * p ^ 3 * d ^ 3 + 24603699/250000000000 * p ^ 3 * d ^ 4 - 575879/781250000000 * p ^ 3 * d ^ 5 - 2207319597/5000 * p ^ 4 + 89234477/20000000 * p ^ 4 * d ^ 1 - 3588147/20000000 * p ^ 4 * d ^ 2 + 4271809/400000000 * p ^ 4 * d ^ 3 - 41698377/200000000000 * p ^ 4 * d ^ 4 + 8325489/5000000000000 * p ^ 4 * d ^ 5 + 4594311063/2500 * p ^ 5 - 4164603/3125000 * p ^ 5 * d ^ 1 + 70132131/500000000 * p ^ 5 * d ^ 2 - 13316721/1250000000 * p ^ 5 * d ^ 3 + 60214797/250000000000 * p ^ 5 * d ^ 4 - 106255101/50000000000000 * p ^ 5 * d ^ 5 - 21484334319/5000 * p ^ 6 + 3735086499/625 * p ^ 7 - 24653076093/5000 * p ^ 8 + 1117230167/500 * p ^ 9 - 21468069843/50000 * p ^ 10 ≤ 0 := by
  rcases le_or_lt d 0 with hd | hd
  · exact dpa_nonpos hp0 hp1 hd0 hd
  · exact dpb_nonpos hp0 hp1 (le_of_lt hd) hd1

theorem dt_nonpos {p d : ℝ} (hp0 : 0 ≤ p) (hp1 : p ≤ 1) (hd0 : -10 ≤ d) (hd1 : d ≤ 30) :
    -20618513/100000000 - 26341271/2500000000 * d ^ 1 + 108390039/1000000000000 * d ^ 2 - 19478851/12500000000000 * d ^ 3 + 3584677/100000000000000 * d ^ 4 - 299217693/500000000000000000 * d ^ 5 + 16911721/100000000 * p ^ 1 - 513093/25000000000 * p ^ 1 * d ^ 1 - 32577651/10000000000000 * p ^ 1 * d ^ 2 - 18586393/250000000000000 * p ^ 1 * d ^ 3 + 7420443/2500000000000000 * p ^ 1 * d ^ 4 - 4073967/20000000 * p ^ 2 + 7805501/1250000000 * p ^ 2 * d ^ 1 - 36943797/100000000000 * p ^ 2 * d ^ 2 + 326133/50000000000 * p ^ 2 * d ^ 3 - 5555697/100000000000000 * p ^ 2 * d ^ 4 + 71175079/100000000 * p ^ 3 - 6828237/250000000 * p ^ 3 * d ^ 1 + 35625807/20000000000 * p ^ 3 * d ^ 2 - 2153339/62500000000 * p ^ 3 * d ^ 3 + 12211649/40000000000000 * p ^ 3 * d ^ 4 - 12443657/10000000 * p ^ 4 + 27466369/500000000 * p ^ 4 * d ^ 1 - 2231259/500000000 * p ^ 4 * d ^ 2 + 24603699/250000000000 * p ^ 4 * d ^ 3 - 575879/625000000000 * p ^ 4 * d ^ 4 + 89234477/100000000 * p ^ 5 - 3588147/50000000 * p ^ 5 * d ^ 1 + 12815427/2000000000 * p ^ 5 * d ^ 2 - 41698377/250000000000 * p ^ 5 * d ^ 3 + 8325489/5000000000000 * p ^ 5 * d ^ 4 - 1388201/6250000 * p ^ 6 + 23377377/500000000 * p ^ 6 * d ^ 1 - 13316721/2500000000 * p ^ 6 * d ^ 2 + 20071599/125000000000 * p ^ 6 * d ^ 3 - 35418367/20000000000000 * p ^ 6 * d ^ 4 ≤ 0 := by
  rcases le_or_lt d 10 with hd | hd
  · exact dta_nonpos hp0 hp1 hd0 hd
  · exact dtb_nonpos hp0 hp1 (le_of_lt hd) hd1

end Alquimista

namespace Alquimista

/-! ## Antitonicity of `rho_p_t` in each argument -/

set_option maxHeartbeats 2000000 in
theorem rhoR_hasDerivAt_p (t x : ℝ) :
    HasDerivAt (fun p : ℝ =>
      998.20123 - 192.9769495 * p ^ 1 + 389.1238958 * p ^ 2 - 1668.103923 * p ^ 3
      + 13522.15441 * p ^ 4 - 88292.78388 * p ^ 5 + 306287.4042 * p ^ 6 - 613838.1234 * p ^ 7
      + 747017.2998 * p ^ 8 - 547846.1354 * p ^ 9 + 223446.0334 * p ^ 10 - 39032.85426 * p ^ 11
      - 0.20618513 * (t - 20) ^ 1 - 0.0052682542 * (t - 20) ^ 2 + 0.000036130013 * (t - 20) ^ 3
      - 0.00000038957702 * (t - 20) ^ 4 + 0.000000007169354 * (t - 20) ^ 5 - 0.000000000099739231 * (t
      - 20) ^ 6 + 0.16911721 * p ^ 1 * (t - 20) ^ 1 - 0.00001026186 * p ^ 1 * (t - 20) ^ 2
      - 0.0000010859217 * p ^ 1 * (t - 20) ^ 3 - 0.000000018586393 * p ^ 1 * (t - 20) ^ 4
      + 0.00000000059363544 * p ^ 1 * (t - 20) ^ 5 - 0.20369835 * p ^ 2 * (t - 20) ^ 1
      + 0.0031222004 * p ^ 2 * (t - 20) ^ 2 - 0.00012314599 * p ^ 2 * (t - 20) ^ 3
      + 0.000001630665 * p ^ 2 * (t - 20) ^ 4 - 0.000000011111394 * p ^ 2 * (t - 20) ^ 5
      + 0.71175079 * p ^ 3 * (t - 20) ^ 1 - 0.013656474 * p ^ 3 * (t - 20) ^ 2
      + 0.00059376345 * p ^ 3 * (t - 20) ^ 3 - 0.000008613356 * p ^ 3 * (t - 20) ^ 4
      + 0.000000061058245 * p ^ 3 * (t - 20) ^ 5 - 1.2443657 * p ^ 4 * (t - 20) ^ 1
      + 0.027466369 * p ^ 4 * (t - 20) ^ 2 - 0.001487506 * p ^ 4 * (t - 20) ^ 3
      + 0.000024603699 * p ^ 4 * (t - 20) ^ 4 - 0.00000018428128 * p ^ 4 * (t - 20) ^ 5
      + 0.89234477 * p ^ 5 * (t - 20) ^ 1 - 0.03588147 * p ^ 5 * (t - 20) ^ 2
      + 0.0021359045 * p ^ 5 * (t - 20) ^ 3 - 0.000041698377 * p ^ 5 * (t - 20) ^ 4
      + 0.00000033301956 * p ^ 5 * (t - 20) ^ 5 - 0.22211216 * p ^ 6 * (t - 20) ^ 1
      + 0.023377377 * p ^ 6 * (t - 20) ^ 2 - 0.0017755628 * p ^ 6 * (t - 20) ^ 3
      + 0.000040143198 * p ^ 6 * (t - 20) ^ 4 - 0.00000035418367 * p ^ 6 * (t - 20) ^ 5)
      (-385953899/2000000 + 16911721/100000000 * (t - 20) ^ 1 - 513093/50000000000 * (t - 20) ^ 2 - 10859217/10000000000000 * (t - 20) ^ 3 - 18586393/1000000000000000 * (t - 20) ^ 4 + 7420443/12500000000000000 * (t - 20) ^ 5 + 1945619479/2500000 * x ^ 1 - 4073967/10000000 * x ^ 1 * (t - 20) ^ 1 + 7805501/1250000000 * x ^ 1 * (t - 20) ^ 2 - 12314599/50000000000 * x ^ 1 * (t - 20) ^ 3 + 326133/100000000000 * x ^ 1 * (t - 20) ^ 4 - 5555697/250000000000000 * x ^ 1 * (t - 20) ^ 5 - 5004311769/1000000 * x ^ 2 + 213525237/100000000 * x ^ 2 * (t - 20) ^ 1 - 20484711/500000000 * x ^ 2 * (t - 20) ^ 2 + 35625807/20000000000 * x ^ 2 * (t - 20) ^ 3 - 6460017/250000000000 * x ^ 2 * (t - 20) ^ 4 + 36634947/200000000000000 * x ^ 2 * (t - 20) ^ 5 + 1352215441/25000 * x ^ 3 - 12443657/2500000 * x ^ 3 * (t - 20) ^ 1 + 27466369/250000000 * x ^ 3 * (t - 20) ^ 2 - 743753/125000000 * x ^ 3 * (t - 20) ^ 3 + 24603699/250000000000 * x ^ 3 * (t - 20) ^ 4 - 575879/781250000000 * x ^ 3 * (t - 20) ^ 5 - 2207319597/5000 * x ^ 4 + 89234477/20000000 * x ^ 4 * (t - 20) ^ 1 - 3588147/20000000 * x ^ 4 * (t - 20) ^ 2 + 4271809/400000000 * x ^ 4 * (t - 20) ^ 3 - 41698377/200000000000 * x ^ 4 * (t - 20) ^ 4 + 8325489/5000000000000 * x ^ 4 * (t - 20) ^ 5 + 4594311063/2500 * x ^ 5 - 4164603/3125000 * x ^ 5 * (t - 20) ^ 1 + 70132131/500000000 * x ^ 5 * (t - 20) ^ 2 - 13316721/1250000000 * x ^ 5 * (t - 20) ^ 3 + 60214797/250000000000 * x ^ 5 * (t - 20) ^ 4 - 106255101/50000000000000 * x ^ 5 * (t - 20) ^ 5 - 21484334319/5000 * x ^ 6 + 3735086499/625 * x ^ 7 - 24653076093/5000 * x ^ 8 + 1117230167/500 * x ^ 9 - 21468069843/50000 * x ^ 10) x := by
  have t0 := hasDerivAt_const x ((998.20123 : ℝ))
  have t1 := (hasDerivAt_pow 1 x).const_mul ((192.9769495 : ℝ))
  have t2 := (hasDerivAt_pow 2 x).const_mul ((389.1238958 : ℝ))
  have t3 := (hasDerivAt_pow 3 x).const_mul ((1668.103923 : ℝ))
  have t4 := (hasDerivAt_pow 4 x).const_mul ((13522.15441 : ℝ))
  have t5 := (hasDerivAt_pow 5 x).const_mul ((88292.78388 : ℝ))
  have t6 := (hasDerivAt_pow 6 x).const_mul ((306287.4042 : ℝ))
  have t7 := (hasDerivAt_pow 7 x).const_mul ((613838.1234 : ℝ))
  have t8 := (hasDerivAt_pow 8 x).const_mul ((747017.2998 : ℝ))
  have t9 := (hasDerivAt_pow 9 x).const_mul ((547846.1354 : ℝ))
  have t10 := (hasDerivAt_pow 10 x).const_mul ((223446.0334 : ℝ))
  have t11 := (hasDerivAt_pow 11 x).const_mul ((39032.85426 : ℝ))
  have t12 := hasDerivAt_const x ((0.20618513 : ℝ) * (t - 20) ^ 1)
  have t13 := hasDerivAt_const x ((0.0052682542 : ℝ) * (t - 20) ^ 2)
  have t14 := hasDerivAt_const x ((0.000036130013 : ℝ) * (t - 20) ^ 3)
  have t15 := hasDerivAt_const x ((0.00000038957702 : ℝ) * (t - 20) ^ 4)
  have t16 := hasDerivAt_const x ((0.000000007169354 : ℝ) * (t - 20) ^ 5)
  have t17 := hasDerivAt_const x ((0.000000000099739231 : ℝ) * (t - 20) ^ 6)
  have t18 := ((hasDerivAt_pow 1 x).const_mul ((0.16911721 : ℝ))).mul_const ((t - 20) ^ 1)
  have t19 := ((hasDerivAt_pow 1 x).const_mul ((0.00001026186 : ℝ))).mul_const ((t - 20) ^ 2)
  have t20 := ((hasDerivAt_pow 1 x).const_mul ((0.0000010859217 : ℝ))).mul_const ((t - 20) ^ 3)
  have t21 := ((hasDerivAt_pow 1 x).const_mul ((0.000000018586393 : ℝ))).mul_const ((t - 20) ^ 4)
  have t22 := ((hasDerivAt_pow 1 x).const_mul ((0.00000000059363544 : ℝ))).mul_const ((t - 20) ^ 5)
  have t23 := ((hasDerivAt_pow 2 x).const_mul ((0.20369835 : ℝ))).mul_const ((t - 20) ^ 1)
  have t24 := ((hasDerivAt_pow 2 x).const_mul ((0.0031222004 : ℝ))).mul_const ((t - 20) ^ 2)
  have t25 := ((hasDerivAt_pow 2 x).const_mul ((0.00012314599 : ℝ))).mul_const ((t - 20) ^ 3)
  have t26 := ((hasDerivAt_pow 2 x).const_mul ((0.000001630665 : ℝ))).mul_const ((t - 20) ^ 4)
  have t27 := ((hasDerivAt_pow 2 x).const_mul ((0.000000011111394 : ℝ))).mul_const ((t - 20) ^ 5)
  have t28 := ((hasDerivAt_pow 3 x).const_mul ((0.71175079 : ℝ))).mul_const ((t - 20) ^ 1)
  have t29 := ((hasDerivAt_pow 3 x).const_mul ((0.013656474 : ℝ))).mul_const ((t - 20) ^ 2)
  have t30 := ((hasDerivAt_pow 3 x).const_mul ((0.00059376345 : ℝ))).mul_const ((t - 20) ^ 3)
  have t31 := ((hasDerivAt_pow 3 x).const_mul ((0.000008613356 : ℝ))).mul_const ((t - 20) ^ 4)
  have t32 := ((hasDerivAt_pow 3 x).const_mul ((0.000000061058245 : ℝ))).mul_const ((t - 20) ^ 5)
  have t33 := ((hasDerivAt_pow 4 x).const_mul ((1.2443657 : ℝ))).mul_const ((t - 20) ^ 1)
  have t34 := ((hasDerivAt_pow 4 x).const_mul ((0.027466369 : ℝ))).mul_const ((t - 20) ^ 2)
  have t35 := ((hasDerivAt_pow 4 x).const_mul ((0.001487506 : ℝ))).mul_const ((t - 20) ^ 3)
  have t36 := ((hasDerivAt_pow 4 x).const_mul ((0.000024603699 : ℝ))).mul_const ((t - 20) ^ 4)
  have t37 := ((hasDerivAt_pow 4 x).const_mul ((0.00000018428128 : ℝ))).mul_const ((t - 20) ^ 5)
  have t38 := ((hasDerivAt_pow 5 x).const_mul ((0.89234477 : ℝ))).mul_const ((t - 20) ^ 1)
  have t39 := ((hasDerivAt_pow 5 x).const_mul ((0.03588147 : ℝ))).mul_const ((t - 20) ^ 2)
  have t40 := ((hasDerivAt_pow 5 x).const_mul ((0.0021359045 : ℝ))).mul_const ((t - 20) ^ 3)
  have t41 := ((hasDerivAt_pow 5 x).const_mul ((0.000041698377 : ℝ))).mul_const ((t - 20) ^ 4)
  have t42 := ((hasDerivAt_pow 5 x).const_mul ((0.00000033301956 : ℝ))).mul_const ((t - 20) ^ 5)
  have t43 := ((hasDerivAt_pow 6 x).const_mul ((0.22211216 : ℝ))).mul_const ((t - 20) ^ 1)
  have t44 := ((hasDerivAt_pow 6 x).const_mul ((0.023377377 : ℝ))).mul_const ((t - 20) ^ 2)
  have t45 := ((hasDerivAt_pow 6 x).const_mul ((0.0017755628 : ℝ))).mul_const ((t - 20) ^ 3)
  have t46 := ((hasDerivAt_pow 6 x).const_mul ((0.000040143198 : ℝ))).mul_const ((t - 20) ^ 4)
  have t47 := ((hasDerivAt_pow 6 x).const_mul ((0.00000035418367 : ℝ))).mul_const ((t - 20) ^ 5)
  have hchain := (((((((((((((((((((((((((((((((((((((((((((((((t0.sub t1).add t2).sub t3).add t4).sub t5).add t6).sub t7).add t8).sub t9).add t10).sub t11).sub t12).sub t13).add t14).sub t15).add t16).sub t17).add t18).sub t19).sub t20).sub t21).add t22).sub t23).add t24).sub t25).add t26).sub t27).add t28).sub t29).add t30).sub t31).add t32).sub t33).add t34).sub t35).add t36).sub t37).add t38).sub t39).add t40).sub t41).add t42).sub t43).add t44).sub t45).add t46).sub t47)
  convert hchain using 1
  push_cast
  ring

set_option maxHeartbeats 2000000 in
theorem rhoR_hasDerivAt_t (p x : ℝ) :
    HasDerivAt (fun t : ℝ =>
      998.20123 - 192.9769495 * p ^ 1 + 389.1238958 * p ^ 2 - 1668.103923 * p ^ 3
      + 13522.15441 * p ^ 4 - 88292.78388 * p ^ 5 + 306287.4042 * p ^ 6 - 613838.1234 * p ^ 7
      + 747017.2998 * p ^ 8 - 547846.1354 * p ^ 9 + 223446.0334 * p ^ 10 - 39032.85426 * p ^ 11
      - 0.20618513 * (t - 20) ^ 1 - 0.0052682542 * (t - 20) ^ 2 + 0.000036130013 * (t - 20) ^ 3
      - 0.00000038957702 * (t - 20) ^ 4 + 0.000000007169354 * (t - 20) ^ 5 - 0.000000000099739231 * (t
      - 20) ^ 6 + 0.16911721 * p ^ 1 * (t - 20) ^ 1 - 0.00001026186 * p ^ 1 * (t - 20) ^ 2
      - 0.0000010859217 * p ^ 1 * (t - 20) ^ 3 - 0.000000018586393 * p ^ 1 * (t - 20) ^ 4
      + 0.00000000059363544 * p ^ 1 * (t - 20) ^ 5 - 0.20369835 * p ^ 2 * (t - 20) ^ 1
      + 0.0031222004 * p ^ 2 * (t - 20) ^ 2 - 0.00012314599 * p ^ 2 * (t - 20) ^ 3
      + 0.000001630665 * p ^ 2 * (t - 20) ^ 4 - 0.000000011111394 * p ^ 2 * (t - 20) ^ 5
      + 0.71175079 * p ^ 3 * (t - 20) ^ 1 - 0.013656474 * p ^ 3 * (t - 20) ^ 2
      + 0.00059376345 * p ^ 3 * (t - 20) ^ 3 - 0.000008613356 * p ^ 3 * (t - 20) ^ 4
      + 0.000000061058245 * p ^ 3 * (t - 20) ^ 5 - 1.2443657 * p ^ 4 * (t - 20) ^ 1
      + 0.027466369 * p ^ 4 * (t - 20) ^ 2 - 0.001487506 * p ^ 4 * (t - 20) ^ 3
      + 0.000024603699 * p ^ 4 * (t - 20) ^ 4 - 0.00000018428128 * p ^ 4 * (t - 20) ^ 5
      + 0.89234477 * p ^ 5 * (t - 20) ^ 1 - 0.03588147 * p ^ 5 * (t - 20) ^ 2
      + 0.0021359045 * p ^ 5 * (t - 20) ^ 3 - 0.000041698377 * p ^ 5 * (t - 20) ^ 4
      + 0.00000033301956 * p ^ 5 * (t - 20) ^ 5 - 0.22211216 * p ^ 6 * (t - 20) ^ 1
      + 0.023377377 * p ^ 6 * (t - 20) ^ 2 - 0.0017755628 * p ^ 6 * (t - 20) ^ 3
      + 0.000040143198 * p ^ 6 * (t - 20) ^ 4 - 0.00000035418367 * p ^ 6 * (t - 20) ^ 5)
      (-20618513/100000000 - 26341271/2500000000 * (x - 20) ^ 1 + 108390039/1000000000000 * (x - 20) ^ 2 - 19478851/12500000000000 * (x - 20) ^ 3 + 3584677/100000000000000 * (x - 20) ^ 4 - 299217693/500000000000000000 * (x - 20) ^ 5 + 16911721/100000000 * p ^ 1 - 513093/25000000000 * p ^ 1 * (x - 20) ^ 1 - 32577651/10000000000000 * p ^ 1 * (x - 20) ^ 2 - 18586393/250000000000000 * p ^ 1 * (x - 20) ^ 3 + 7420443/2500000000000000 * p ^ 1 * (x - 20) ^ 4 - 4073967/20000000 * p ^ 2 + 7805501/1250000000 * p ^ 2 * (x - 20) ^ 1 - 36943797/100000000000 * p ^ 2 * (x - 20) ^ 2 + 326133/50000000000 * p ^ 2 * (x - 20) ^ 3 - 5555697/100000000000000 * p ^ 2 * (x - 20) ^ 4 + 71175079/100000000 * p ^ 3 - 6828237/250000000 * p ^ 3 * (x - 20) ^ 1 + 35625807/20000000000 * p ^ 3 * (x - 20) ^ 2 - 2153339/62500000000 * p ^ 3 * (x - 20) ^ 3 + 12211649/40000000000000 * p ^ 3 * (x - 20) ^ 4 - 12443657/10000000 * p ^ 4 + 27466369/500000000 * p ^ 4 * (x - 20) ^ 1 - 2231259/500000000 * p ^ 4 * (x - 20) ^ 2 + 24603699/250000000000 * p ^ 4 * (x - 20) ^ 3 - 575879/625000000000 * p ^ 4 * (x - 20) ^ 4 + 89234477/100000000 * p ^ 5 - 3588147/50000000 * p ^ 5 * (x - 20) ^ 1 + 12815427/2000000000 * p ^ 5 * (x - 20) ^ 2 - 41698377/250000000000 * p ^ 5 * (x - 20) ^ 3 + 8325489/5000000000000 * p ^ 5 * (x - 20) ^ 4 - 1388201/6250000 * p ^ 6 + 23377377/500000000 * p ^ 6 * (x - 20) ^ 1 - 13316721/2500000000 * p ^ 6 * (x - 20) ^ 2 + 20071599/125000000000 * p ^ 6 * (x - 20) ^ 3 - 35418367/20000000000000 * p ^ 6 * (x - 20) ^ 4) x := by
  have t0 := hasDerivAt_const x ((998.20123 : ℝ))
  have t1 := hasDerivAt_const x ((192.9769495 : ℝ) * p ^ 1)
  have t2 := hasDerivAt_const x ((389.1238958 : ℝ) * p ^ 2)
  have t3 := hasDerivAt_const x ((1668.103923 : ℝ) * p ^ 3)
  have t4 := hasDerivAt_const x ((13522.15441 : ℝ) * p ^ 4)
  have t5 := hasDerivAt_const x ((88292.78388 : ℝ) * p ^ 5)
  have t6 := hasDerivAt_const x ((306287.4042 : ℝ) * p ^ 6)
  have t7 := hasDerivAt_const x ((613838.1234 : ℝ) * p ^ 7)
  have t8 := hasDerivAt_const x ((747017.2998 : ℝ) * p ^ 8)
  have t9 := hasDerivAt_const x ((547846.1354 : ℝ) * p ^ 9)
  have t10 := hasDerivAt_const x ((223446.0334 : ℝ) * p ^ 10)
  have t11 := hasDerivAt_const x ((39032.85426 : ℝ) * p ^ 11)
  have t12 := (((hasDerivAt_id' x).sub_const (20 : ℝ)).pow 1).const_mul ((0.20618513 : ℝ))
  have t13 := (((hasDerivAt_id' x).sub_const (20 : ℝ)).pow 2).const_mul ((0.0052682542 : ℝ))
  have t14 := (((hasDerivAt_id' x).sub_const (20 : ℝ)).pow 3).const_mul ((0.000036130013 : ℝ))
  have t15 := (((hasDerivAt_id' x).sub_const (20 : ℝ)).pow 4).const_mul ((0.00000038957702 : ℝ))
  have t16 := (((hasDerivAt_id' x).sub_const (20 : ℝ)).pow 5).const_mul ((0.000000007169354 : ℝ))
  have t17 := (((hasDerivAt_id' x).sub_const (20 : ℝ)).pow 6).const_mul ((0.000000000099739231 : ℝ))
  have t18 := (((hasDerivAt_id' x).sub_const (20 : ℝ)).pow 1).const_mul ((0.16911721 : ℝ) * p ^ 1)
  have t19 := (((hasDerivAt_id' x).sub_const (20 : ℝ)).pow 2).const_mul ((0.00001026186 : ℝ) * p ^ 1)
  have t20 := (((hasDerivAt_id' x).sub_const (20 : ℝ)).pow 3).const_mul ((0.0000010859217 : ℝ) * p ^ 1)
  have t21 := (((hasDerivAt_id' x).sub_const (20 : ℝ)).pow 4).const_mul ((0.000000018586393 : ℝ) * p ^ 1)
  have t22 := (((hasDerivAt_id' x).sub_const (20 : ℝ)).pow 5).const_mul ((0.00000000059363544 : ℝ) * p ^ 1)
  have t23 := (((hasDerivAt_id' x).sub_const (20 : ℝ)).pow 1).const_mul ((0.20369835 : ℝ) * p ^ 2)
  have t24 := (((hasDerivAt_id' x).sub_const (20 : ℝ)).pow 2).const_mul ((0.0031222004 : ℝ) * p ^ 2)
  have t25 := (((hasDerivAt_id' x).sub_const (20 : ℝ)).pow 3).const_mul ((0.00012314599 : ℝ) * p ^ 2)
  have t26 := (((hasDerivAt_id' x).sub_const (20 : ℝ)).pow 4).const_mul ((0.000001630665 : ℝ) * p ^ 2)
  have t27 := (((hasDerivAt_id' x).sub_const (20 : ℝ)).pow 5).const_mul ((0.000000011111394 : ℝ) * p ^ 2)
  have t28 := (((hasDerivAt_id' x).sub_const (20 : ℝ)).pow 1).const_mul ((0.71175079 : ℝ) * p ^ 3)
  have t29 := (((hasDerivAt_id' x).sub_const (20 : ℝ)).pow 2).const_mul ((0.013656474 : ℝ) * p ^ 3)
  have t30 := (((hasDerivAt_id' x).sub_const (20 : ℝ)).pow 3).const_mul ((0.00059376345 : ℝ) * p ^ 3)
  have t31 := (((hasDerivAt_id' x).sub_const (20 : ℝ)).pow 4).const_mul ((0.000008613356 : ℝ) * p ^ 3)
  have t32 := (((hasDerivAt_id' x).sub_const (20 : ℝ)).pow 5).const_mul ((0.000000061058245 : ℝ) * p ^ 3)
  have t33 := (((hasDerivAt_id' x).sub_const (20 : ℝ)).pow 1).const_mul ((1.2443657 : ℝ) * p ^ 4)
  have t34 := (((hasDerivAt_id' x).sub_const (20 : ℝ)).pow 2).const_mul ((0.027466369 : ℝ) * p ^ 4)
  have t35 := (((hasDerivAt_id' x).sub_const (20 : ℝ)).pow 3).const_mul ((0.001487506 : ℝ) * p ^ 4)
  have t36 := (((hasDerivAt_id' x).sub_const (20 : ℝ)).pow 4).const_mul ((0.000024603699 : ℝ) * p ^ 4)
  have t37 := (((hasDerivAt_id' x).sub_const (20 : ℝ)).pow 5).const_mul ((0.00000018428128 : ℝ) * p ^ 4)
  have t38 := (((hasDerivAt_id' x).sub_const (20 : ℝ)).pow 1).const_mul ((0.89234477 : ℝ) * p ^ 5)
  have t39 := (((hasDerivAt_id' x).sub_const (20 : ℝ)).pow 2).const_mul ((0.03588147 : ℝ) * p ^ 5)
  have t40 := (((hasDerivAt_id' x).sub_const (20 : ℝ)).pow 3).const_mul ((0.0021359045 : ℝ) * p ^ 5)
  have t41 := (((hasDerivAt_id' x).sub_const (20 : ℝ)).pow 4).const_mul ((0.000041698377 : ℝ) * p ^ 5)
  have t42 := (((hasDerivAt_id' x).sub_const (20 : ℝ)).pow 5).const_mul ((0.00000033301956 : ℝ) * p ^ 5)
  have t43 := (((hasDerivAt_id' x).sub_const (20 : ℝ)).pow 1).const_mul ((0.22211216 : ℝ) * p ^ 6)
  have t44 := (((hasDerivAt_id' x).sub_const (20 : ℝ)).pow 2).const_mul ((0.023377377 : ℝ) * p ^ 6)
  have t45 := (((hasDerivAt_id' x).sub_const (20 : ℝ)).pow 3).const_mul ((0.0017755628 : ℝ) * p ^ 6)
  have t46 := (((hasDerivAt_id' x).sub_const (20 : ℝ)).pow 4).const_mul ((0.000040143198 : ℝ) * p ^ 6)
  have t47 := (((hasDerivAt_id' x).sub_const (20 : ℝ)).pow 5).const_mul ((0.00000035418367 : ℝ) * p ^ 6)
  have hchain := (((((((((((((((((((((((((((((((((((((((((((((((t0.sub t1).add t2).sub t3).add t4).sub t5).add t6).sub t7).add t8).sub t9).add t10).sub t11).sub t12).sub t13).add t14).sub t15).add t16).sub t17).add t18).sub t19).sub t20).sub t21).add t22).sub t23).add t24).sub t25).add t26).sub t27).add t28).sub t29).add t30).sub t31).add t32).sub t33).add t34).sub t35).add t36).sub t37).add t38).sub t39).add t40).sub t41).add t42).sub t43).add t44).sub t45).add t46).sub t47)
  convert hchain using 1
  push_cast
  ring

set_option maxHeartbeats 1000000 in
theorem rho_cast (p t : ℚ) :
    ((rho_p_t p t : ℚ) : ℝ) =
      (fun p : ℝ =>
        998.20123 - 192.9769495 * p ^ 1 + 389.1238958 * p ^ 2 - 1668.103923 * p ^ 3
        + 13522.15441 * p ^ 4 - 88292.78388 * p ^ 5 + 306287.4042 * p ^ 6 - 613838.1234 * p ^ 7
        + 747017.2998 * p ^ 8 - 547846.1354 * p ^ 9 + 223446.0334 * p ^ 10 - 39032.85426 * p ^ 11
        - 0.20618513 * ((t : ℝ) - 20) ^ 1 - 0.0052682542 * ((t : ℝ) - 20) ^ 2
        + 0.000036130013 * ((t : ℝ) - 20) ^ 3 - 0.00000038957702 * ((t : ℝ) - 20) ^ 4
        + 0.000000007169354 * ((t : ℝ) - 20) ^ 5 - 0.000000000099739231 * ((t : ℝ) - 20) ^ 6
        + 0.16911721 * p ^ 1 * ((t : ℝ) - 20) ^ 1 - 0.00001026186 * p ^ 1 * ((t : ℝ) - 20) ^ 2
        - 0.0000010859217 * p ^ 1 * ((t : ℝ) - 20) ^ 3 - 0.000000018586393 * p ^ 1 * ((t : ℝ) - 20) ^ 4
        + 0.00000000059363544 * p ^ 1 * ((t : ℝ) - 20) ^ 5 - 0.20369835 * p ^ 2 * ((t : ℝ) - 20) ^ 1
        + 0.0031222004 * p ^ 2 * ((t : ℝ) - 20) ^ 2 - 0.00012314599 * p ^ 2 * ((t : ℝ) - 20) ^ 3
        + 0.000001630665 * p ^ 2 * ((t : ℝ) - 20) ^ 4 - 0.000000011111394 * p ^ 2 * ((t : ℝ) - 20) ^ 5
        + 0.71175079 * p ^ 3 * ((t : ℝ) - 20) ^ 1 - 0.013656474 * p ^ 3 * ((t : ℝ) - 20) ^ 2
        + 0.00059376345 * p ^ 3 * ((t : ℝ) - 20) ^ 3 - 0.000008613356 * p ^ 3 * ((t : ℝ) - 20) ^ 4
        + 0.000000061058245 * p ^ 3 * ((t : ℝ) - 20) ^ 5 - 1.2443657 * p ^ 4 * ((t : ℝ) - 20) ^ 1
        + 0.027466369 * p ^ 4 * ((t : ℝ) - 20) ^ 2 - 0.001487506 * p ^ 4 * ((t : ℝ) - 20) ^ 3
        + 0.000024603699 * p ^ 4 * ((t : ℝ) - 20) ^ 4 - 0.00000018428128 * p ^ 4 * ((t : ℝ) - 20) ^ 5
        + 0.89234477 * p ^ 5 * ((t : ℝ) - 20) ^ 1 - 0.03588147 * p ^ 5 * ((t : ℝ) - 20) ^ 2
        + 0.0021359045 * p ^ 5 * ((t : ℝ) - 20) ^ 3 - 0.000041698377 * p ^ 5 * ((t : ℝ) - 20) ^ 4
        + 0.00000033301956 * p ^ 5 * ((t : ℝ) - 20) ^ 5 - 0.22211216 * p ^ 6 * ((t : ℝ) - 20) ^ 1
        + 0.023377377 * p ^ 6 * ((t : ℝ) - 20) ^ 2 - 0.0017755628 * p ^ 6 * ((t : ℝ) - 20) ^ 3
        + 0.000040143198 * p ^ 6 * ((t : ℝ) - 20) ^ 4 - 0.00000035418367 * p ^ 6 * ((t : ℝ) - 20) ^ 5) (p : ℝ) := by
  unfold rho_p_t
  push_cast
  ring

theorem rhoR_anti_p {t : ℝ} (ht1 : -10 ≤ t) (ht2 : t ≤ 50) :
    AntitoneOn (fun p : ℝ =>
      998.20123 - 192.9769495 * p ^ 1 + 389.1238958 * p ^ 2 - 1668.103923 * p ^ 3
      + 13522.15441 * p ^ 4 - 88292.78388 * p ^ 5 + 306287.4042 * p ^ 6 - 613838.1234 * p ^ 7
      + 747017.2998 * p ^ 8 - 547846.1354 * p ^ 9 + 223446.0334 * p ^ 10 - 39032.85426 * p ^ 11
      - 0.20618513 * (t - 20) ^ 1 - 0.0052682542 * (t - 20) ^ 2 + 0.000036130013 * (t - 20) ^ 3
      - 0.00000038957702 * (t - 20) ^ 4 + 0.000000007169354 * (t - 20) ^ 5 - 0.000000000099739231 * (t
      - 20) ^ 6 + 0.16911721 * p ^ 1 * (t - 20) ^ 1 - 0.00001026186 * p ^ 1 * (t - 20) ^ 2
      - 0.0000010859217 * p ^ 1 * (t - 20) ^ 3 - 0.000000018586393 * p ^ 1 * (t - 20) ^ 4
      + 0.00000000059363544 * p ^ 1 * (t - 20) ^ 5 - 0.20369835 * p ^ 2 * (t - 20) ^ 1
      + 0.0031222004 * p ^ 2 * (t - 20) ^ 2 - 0.00012314599 * p ^ 2 * (t - 20) ^ 3
      + 0.000001630665 * p ^ 2 * (t - 20) ^ 4 - 0.000000011111394 * p ^ 2 * (t - 20) ^ 5
      + 0.71175079 * p ^ 3 * (t - 20) ^ 1 - 0.013656474 * p ^ 3 * (t - 20) ^ 2
      + 0.00059376345 * p ^ 3 * (t - 20) ^ 3 - 0.000008613356 * p ^ 3 * (t - 20) ^ 4
      + 0.000000061058245 * p ^ 3 * (t - 20) ^ 5 - 1.2443657 * p ^ 4 * (t - 20) ^ 1
      + 0.027466369 * p ^ 4 * (t - 20) ^ 2 - 0.001487506 * p ^ 4 * (t - 20) ^ 3
      + 0.000024603699 * p ^ 4 * (t - 20) ^ 4 - 0.00000018428128 * p ^ 4 * (t - 20) ^ 5
      + 0.89234477 * p ^ 5 * (t - 20) ^ 1 - 0.03588147 * p ^ 5 * (t - 20) ^ 2
      + 0.0021359045 * p ^ 5 * (t - 20) ^ 3 - 0.000041698377 * p ^ 5 * (t - 20) ^ 4
      + 0.00000033301956 * p ^ 5 * (t - 20) ^ 5 - 0.22211216 * p ^ 6 * (t - 20) ^ 1
      + 0.023377377 * p ^ 6 * (t - 20) ^ 2 - 0.0017755628 * p ^ 6 * (t - 20) ^ 3
      + 0.000040143198 * p ^ 6 * (t - 20) ^ 4 - 0.00000035418367 * p ^ 6 * (t - 20) ^ 5)
      (Set.Icc 0 1) := by
  apply antitoneOn_of_deriv_nonpos (convex_Icc 0 1)
  · exact fun x _ => (rhoR_hasDerivAt_p t x).differentiableAt.continuousAt.continuousWithinAt
  · exact fun x _ => (rhoR_hasDerivAt_p t x).differentiableAt.differentiableWithinAt
  · intro x hx
    rw [interior_Icc] at hx
    rw [(rhoR_hasDerivAt_p t x).deriv]
    exact dp_nonpos (le_of_lt hx.1) (le_of_lt hx.2) (by linarith) (by linarith)

theorem rhoR_anti_t {p : ℝ} (hp0 : 0 ≤ p) (hp1 : p ≤ 1) :
    AntitoneOn (fun t : ℝ =>
      998.20123 - 192.9769495 * p ^ 1 + 389.1238958 * p ^ 2 - 1668.103923 * p ^ 3
      + 13522.15441 * p ^ 4 - 88292.78388 * p ^ 5 + 306287.4042 * p ^ 6 - 613838.1234 * p ^ 7
      + 747017.2998 * p ^ 8 - 547846.1354 * p ^ 9 + 223446.0334 * p ^ 10 - 39032.85426 * p ^ 11
      - 0.20618513 * (t - 20) ^ 1 - 0.0052682542 * (t - 20) ^ 2 + 0.000036130013 * (t - 20) ^ 3
      - 0.00000038957702 * (t - 20) ^ 4 + 0.000000007169354 * (t - 20) ^ 5 - 0.000000000099739231 * (t
      - 20) ^ 6 + 0.16911721 * p ^ 1 * (t - 20) ^ 1 - 0.00001026186 * p ^ 1 * (t - 20) ^ 2
      - 0.0000010859217 * p ^ 1 * (t - 20) ^ 3 - 0.000000018586393 * p ^ 1 * (t - 20) ^ 4
      + 0.00000000059363544 * p ^ 1 * (t - 20) ^ 5 - 0.20369835 * p ^ 2 * (t - 20) ^ 1
      + 0.0031222004 * p ^ 2 * (t - 20) ^ 2 - 0.00012314599 * p ^ 2 * (t - 20) ^ 3
      + 0.000001630665 * p ^ 2 * (t - 20) ^ 4 - 0.000000011111394 * p ^ 2 * (t - 20) ^ 5
      + 0.71175079 * p ^ 3 * (t - 20) ^ 1 - 0.013656474 * p ^ 3 * (t - 20) ^ 2
      + 0.00059376345 * p ^ 3 * (t - 20) ^ 3 - 0.000008613356 * p ^ 3 * (t - 20) ^ 4
      + 0.000000061058245 * p ^ 3 * (t - 20) ^ 5 - 1.2443657 * p ^ 4 * (t - 20) ^ 1
      + 0.027466369 * p ^ 4 * (t - 20) ^ 2 - 0.001487506 * p ^ 4 * (t - 20) ^ 3
      + 0.000024603699 * p ^ 4 * (t - 20) ^ 4 - 0.00000018428128 * p ^ 4 * (t - 20) ^ 5
      + 0.89234477 * p ^ 5 * (t - 20) ^ 1 - 0.03588147 * p ^ 5 * (t - 20) ^ 2
      + 0.0021359045 * p ^ 5 * (t - 20) ^ 3 - 0.000041698377 * p ^ 5 * (t - 20) ^ 4
      + 0.00000033301956 * p ^ 5 * (t - 20) ^ 5 - 0.22211216 * p ^ 6 * (t - 20) ^ 1
      + 0.023377377 * p ^ 6 * (t - 20) ^ 2 - 0.0017755628 * p ^ 6 * (t - 20) ^ 3
      + 0.000040143198 * p ^ 6 * (t - 20) ^ 4 - 0.00000035418367 * p ^ 6 * (t - 20) ^ 5)
      (Set.Icc 10 50) := by
  apply antitoneOn_of_deriv_nonpos (convex_Icc 10 50)
  · exact fun x _ => (rhoR_hasDerivAt_t p x).differentiableAt.continuousAt.continuousWithinAt
  · exact fun x _ => (rhoR_hasDerivAt_t p x).differentiableAt.differentiableWithinAt
  · intro x hx
    rw [interior_Icc] at hx
    rw [(rhoR_hasDerivAt_t p x).deriv]
    exact dt_nonpos hp0 hp1 (by linarith [hx.1]) (by linarith [hx.2])

/-- The polynomial is non-increasing in the mass fraction, for any temperature
in the valid range `[-10, 50]` °C. -/
theorem rho_anti_in_p {t p1 p2 : ℚ} (ht1 : -10 ≤ t) (ht2 : t ≤ 50)
    (h0 : 0 ≤ p1) (h12 : p1 ≤ p2) (h1 : p2 ≤ 1) : rho_p_t p2 t ≤ rho_p_t p1 t := by
  have hm1 : ((p1 : ℝ)) ∈ Set.Icc (0:ℝ) 1 :=
    ⟨by exact_mod_cast h0, by exact_mod_cast le_trans h12 h1⟩
  have hm2 : ((p2 : ℝ)) ∈ Set.Icc (0:ℝ) 1 :=
    ⟨by exact_mod_cast le_trans h0 h12, by exact_mod_cast h1⟩
  have h := rhoR_anti_p (t := (t : ℝ)) (by exact_mod_cast ht1) (by exact_mod_cast ht2)
    hm1 hm2 (by exact_mod_cast h12)
  have hcast : ((rho_p_t p2 t : ℚ) : ℝ) ≤ ((rho_p_t p1 t : ℚ) : ℝ) := by
    rw [rho_cast, rho_cast]
    exact h
  exact_mod_cast hcast

/-- The polynomial is non-increasing in temperature on `[10, 50]` °C, for any
mass fraction in `[0, 1]`. -/
theorem rho_anti_in_t {p t1 t2 : ℚ} (hp0 : 0 ≤ p) (hp1 : p ≤ 1)
    (h10 : 10 ≤ t1) (h12 : t1 ≤ t2) (h50 : t2 ≤ 50) : rho_p_t p t2 ≤ rho_p_t p t1 := by
  have hm1 : ((t1 : ℝ)) ∈ Set.Icc (10:ℝ) 50 :=
    ⟨by exact_mod_cast h10, by exact_mod_cast le_trans h12 h50⟩
  have hm2 : ((t2 : ℝ)) ∈ Set.Icc (10:ℝ) 50 :=
    ⟨by exact_mod_cast le_trans h10 h12, by exact_mod_cast h50⟩
  have h := rhoR_anti_t (p := (p : ℝ)) (by exact_mod_cast hp0) (by exact_mod_cast hp1)
    hm1 hm2 (by exact_mod_cast h12)
  have hcast : ((rho_p_t p t2 : ℚ) : ℝ) ≤ ((rho_p_t p t1 : ℚ) : ℝ) := by
    rw [rho_cast, rho_cast]
    exact h
  exact_mod_cast hcast

end Alquimista

namespace Alquimista

/-! ## The bisection comparator is strictly increasing on `[0,1]`

`w(p) = p · rho20(p)` has derivative at least `1` on `[0,1]` (certificate
`wder_cert`, stated as `1 - derivative ≤ 0`), so `vq` is strictly increasing
there. -/

set_option maxHeartbeats 1000000 in
theorem wder_cert {x : ℝ} (h1 : 0 ≤ x) (h2 : x ≤ 1) :
    -99720123/100000 + 385953899/1000000 * x ^ 1 - 5836858437/5000000 * x ^ 2 + 1668103923/250000 * x ^ 3 - 1352215441/20000 * x ^ 4 + 6621958791/12500 * x ^ 5 - 10720059147/5000 * x ^ 6 + 3069190617/625 * x ^ 7 - 33615778491/5000 * x ^ 8 + 2739230677/500 * x ^ 9 - 12289531837/5000 * x ^ 10 + 5854928139/12500 * x ^ 11 ≤ 0 := by
  have hA : (0:ℝ) ≤ x := h1
  have hB : (0:ℝ) ≤ (1 - x) := by linarith
  have key : (-99720123/100000 + 385953899/1000000 * x ^ 1 - 5836858437/5000000 * x ^ 2 + 1668103923/250000 * x ^ 3 - 1352215441/20000 * x ^ 4 + 6621958791/12500 * x ^ 5 - 10720059147/5000 * x ^ 6 + 3069190617/625 * x ^ 7 - 33615778491/5000 * x ^ 8 + 2739230677/500 * x ^ 9 - 12289531837/5000 * x ^ 10 + 5854928139/12500 * x ^ 11) * (5000000 : ℝ) = (-4986006150 : ℝ) * ((1 - x) ^ 11) + (-52916298155 : ℝ) * (x ^ 1 * (1 - x) ^ 10) + (-260769501737 : ℝ) * (x ^ 2 * (1 - x) ^ 9) + (-755021034948 : ℝ) * (x ^ 3 * (1 - x) ^ 8) + (-1695093826402 : ℝ) * (x ^ 4 * (1 - x) ^ 7) + (-1172034664528 : ℝ) * (x ^ 5 * (1 - x) ^ 6) + (-2610889811712 : ℝ) * (x ^ 6 * (1 - x) ^ 5) + (-787132268162 : ℝ) * (x ^ 7 * (1 - x) ^ 4) + (-671623388048 : ℝ) * (x ^ 8 * (1 - x) ^ 3) + (-165228294077 : ℝ) * (x ^ 9 * (1 - x) ^ 2) + (-33309155303 : ℝ) * (x ^ 10 * (1 - x) ^ 1) + (-2367873882 : ℝ) * (x ^ 11) := by ring
  have e0 : (-4986006150 : ℝ) * ((1 - x) ^ 11) ≤ 0 :=
    mul_nonpos_of_nonpos_of_nonneg (by norm_num) (pow_nonneg hB 11)
  have e1 : (-52916298155 : ℝ) * (x ^ 1 * (1 - x) ^ 10) ≤ 0 :=
    mul_nonpos_of_nonpos_of_nonneg (by norm_num) (mul_nonneg (pow_nonneg hA 1) (pow_nonneg hB 10))
  have e2 : (-260769501737 : ℝ) * (x ^ 2 * (1 - x) ^ 9) ≤ 0 :=
    mul_nonpos_of_nonpos_of_nonneg (by norm_num) (mul_nonneg (pow_nonneg hA 2) (pow_nonneg hB 9))
  have e3 : (-755021034948 : ℝ) * (x ^ 3 * (1 - x) ^ 8) ≤ 0 :=
    mul_nonpos_of_nonpos_of_nonneg (by norm_num) (mul_nonneg (pow_nonneg hA 3) (pow_nonneg hB 8))
  have e4 : (-1695093826402 : ℝ) * (x ^ 4 * (1 - x) ^ 7) ≤ 0 :=
    mul_nonpos_of_nonpos_of_nonneg (by norm_num) (mul_nonneg (pow_nonneg hA 4) (pow_nonneg hB 7))
  have e5 : (-1172034664528 : ℝ) * (x ^ 5 * (1 - x) ^ 6) ≤ 0 :=
    mul_nonpos_of_nonpos_of_nonneg (by norm_num) (mul_nonneg (pow_nonneg hA 5) (pow_nonneg hB 6))
  have e6 : (-2610889811712 : ℝ) * (x ^ 6 * (1 - x) ^ 5) ≤ 0 :=
    mul_nonpos_of_nonpos_of_nonneg (by norm_num) (mul_nonneg (pow_nonneg hA 6) (pow_nonneg hB 5))
  have e7 : (-787132268162 : ℝ) * (x ^ 7 * (1 - x) ^ 4) ≤ 0 :=
    mul_nonpos_of_nonpos_of_nonneg (by norm_num) (mul_nonneg (pow_nonneg hA 7) (pow_nonneg hB 4))
  have e8 : (-671623388048 : ℝ) * (x ^ 8 * (1 - x) ^ 3) ≤ 0 :=
    mul_nonpos_of_nonpos_of_nonneg (by norm_num) (mul_nonneg (pow_nonneg hA 8) (pow_nonneg hB 3))
  have e9 : (-165228294077 : ℝ) * (x ^ 9 * (1 - x) ^ 2) ≤ 0 :=
    mul_nonpos_of_nonpos_of_nonneg (by norm_num) (mul_nonneg (pow_nonneg hA 9) (pow_nonneg hB 2))
  have e10 : (-33309155303 : ℝ) * (x ^ 10 * (1 - x) ^ 1) ≤ 0 :=
    mul_nonpos_of_nonpos_of_nonneg (by norm_num) (mul_nonneg (pow_nonneg hA 10) (pow_nonneg hB 1))
  have e11 : (-2367873882 : ℝ) * (x ^ 11) ≤ 0 :=
    mul_nonpos_of_nonpos_of_nonneg (by norm_num) (pow_nonneg hA 11)
  have hKD : (0:ℝ) < (5000000 : ℝ) := by norm_num
  have hmul : (-99720123/100000 + 385953899/1000000 * x ^ 1 - 5836858437/5000000 * x ^ 2 + 1668103923/250000 * x ^ 3 - 1352215441/20000 * x ^ 4 + 6621958791/12500 * x ^ 5 - 10720059147/5000 * x ^ 6 + 3069190617/625 * x ^ 7 - 33615778491/5000 * x ^ 8 + 2739230677/500 * x ^ 9 - 12289531837/5000 * x ^ 10 + 5854928139/12500 * x ^ 11) * (5000000 : ℝ) ≤ 0 * (5000000 : ℝ) := by
    rw [zero_mul, key]
    exact (add_nonpos (add_nonpos (add_nonpos (add_nonpos (add_nonpos (add_nonpos (add_nonpos (add_nonpos (add_nonpos (add_nonpos (add_nonpos e0 e1) e2) e3) e4) e5) e6) e7) e8) e9) e10) e11)
  exact le_of_mul_le_mul_right hmul hKD

theorem wder_ge_one {x : ℝ} (h1 : 0 ≤ x) (h2 : x ≤ 1) :
    (1:ℝ) ≤ 99820123/100000 - 385953899/1000000 * x ^ 1 + 5836858437/5000000 * x ^ 2 - 1668103923/250000 * x ^ 3 + 1352215441/20000 * x ^ 4 - 6621958791/12500 * x ^ 5 + 10720059147/5000 * x ^ 6 - 3069190617/625 * x ^ 7 + 33615778491/5000 * x ^ 8 - 2739230677/500 * x ^ 9 + 12289531837/5000 * x ^ 10 - 5854928139/12500 * x ^ 11 := by
  have := wder_cert h1 h2
  linarith

set_option maxHeartbeats 1000000 in
theorem wR_hasDerivAt (x : ℝ) :
    HasDerivAt (fun p : ℝ =>
      p * (998.20123 - 192.9769495 * p ^ 1 + 389.1238958 * p ^ 2 - 1668.103923 * p ^ 3
        + 13522.15441 * p ^ 4 - 88292.78388 * p ^ 5 + 306287.4042 * p ^ 6 - 613838.1234 * p ^ 7
        + 747017.2998 * p ^ 8 - 547846.1354 * p ^ 9 + 223446.0334 * p ^ 10 - 39032.85426 * p ^ 11))
      (99820123/100000 - 385953899/1000000 * x ^ 1 + 5836858437/5000000 * x ^ 2 - 1668103923/250000 * x ^ 3 + 1352215441/20000 * x ^ 4 - 6621958791/12500 * x ^ 5 + 10720059147/5000 * x ^ 6 - 3069190617/625 * x ^ 7 + 33615778491/5000 * x ^ 8 - 2739230677/500 * x ^ 9 + 12289531837/5000 * x ^ 10 - 5854928139/12500 * x ^ 11) x := by
  have h := (hasDerivAt_id' x).mul (rho20R_hasDerivAt x)
  convert h using 1
  push_cast
  ring

theorem wR_strictMono :
    StrictMonoOn (fun p : ℝ =>
      p * (998.20123 - 192.9769495 * p ^ 1 + 389.1238958 * p ^ 2 - 1668.103923 * p ^ 3
        + 13522.15441 * p ^ 4 - 88292.78388 * p ^ 5 + 306287.4042 * p ^ 6 - 613838.1234 * p ^ 7
        + 747017.2998 * p ^ 8 - 547846.1354 * p ^ 9 + 223446.0334 * p ^ 10 - 39032.85426 * p ^ 11))
      (Set.Icc 0 1) := by
  apply strictMonoOn_of_deriv_pos (convex_Icc 0 1)
  · exact fun x _ => (wR_hasDerivAt x).differentiableAt.continuousAt.continuousWithinAt
  · intro x hx
    rw [interior_Icc] at hx
    rw [(wR_hasDerivAt x).deriv]
    have := wder_ge_one (le_of_lt hx.1) (le_of_lt hx.2)
    linarith

theorem w_strict_mono {a b : ℚ} (h0 : 0 ≤ a) (hab : a < b) (hb : b ≤ 1) :
    a * rho20 a < b * rho20 b := by
  have hm1 : ((a : ℝ)) ∈ Set.Icc (0:ℝ) 1 :=
    ⟨by exact_mod_cast h0, by exact_mod_cast le_trans (le_of_lt hab) hb⟩
  have hm2 : ((b : ℝ)) ∈ Set.Icc (0:ℝ) 1 :=
    ⟨by exact_mod_cast le_trans h0 (le_of_lt hab), by exact_mod_cast hb⟩
  have h := wR_strictMono hm1 hm2 (by exact_mod_cast hab)
  have h1 := rho20_cast a
  have h2 := rho20_cast b
  have hcast : ((a * rho20 a : ℚ) : ℝ) < ((b * rho20 b : ℚ) : ℝ) := by
    push_cast
    rw [h1, h2]
    exact h
  exact_mod_cast hcast

theorem vq_strict_mono {a b : ℚ} (h0 : 0 ≤ a) (hab : a < b) (hb : b ≤ 1) :
    vq a < vq b := by
  have h := w_strict_mono h0 hab hb
  have hw1 : vq a = a * rho20 a / RHO_ETH_20 := by
    unfold vq
    rw [rho_p_t_at20]
  have hw2 : vq b = b * rho20 b / RHO_ETH_20 := by
    unfold vq
    rw [rho_p_t_at20]
  rw [hw1, hw2]
  exact div_lt_div_of_pos_right h RHO_ETH_20_pos

theorem vq_mono {a b : ℚ} (h0 : 0 ≤ a) (hab : a ≤ b) (hb : b ≤ 1) :
    vq a ≤ vq b := by
  rcases eq_or_lt_of_le hab with rfl | h
  · exact le_refl _
  · exact le_of_lt (vq_strict_mono h0 h hb)

end Alquimista

namespace Alquimista

/-! ## Outer bisection: invariants of the hydrometer correction loop -/

theorem hydIter_succ (T t : ℚ) (n : ℕ) :
    hydIter T t (n + 1) = hydStep T t (hydIter T t n) :=
  Function.iterate_succ_apply' (hydStep T t) n (0, 100, 50)

theorem hydStep_eq (T t : ℚ) (s : ℚ × ℚ × ℚ) :
    hydStep T t s =
      if T < rho_p_t (abvToMassFraction ((s.1 + s.2.1) / 2)) t then
        ((s.1 + s.2.1) / 2, s.2.1, (s.1 + s.2.1) / 2)
      else (s.1, (s.1 + s.2.1) / 2, (s.1 + s.2.1) / 2) := rfl

theorem hydIter_basic (T t : ℚ) (n : ℕ) :
    0 ≤ (hydIter T t n).1 ∧ (hydIter T t n).1 < (hydIter T t n).2.1 ∧
      (hydIter T t n).2.1 ≤ 100 ∧
      (hydIter T t n).2.1 - (hydIter T t n).1 = 100 * (1/2) ^ n := by
  induction n with
  | zero => norm_num [hydIter]
  | succ n ih =>
    obtain ⟨h0, h1, h2, h3⟩ := ih
    have hp : (1/2 : ℚ) ^ (n + 1) = (1/2) ^ n * (1/2) := pow_succ _ _
    rw [hydIter_succ, hydStep_eq]
    split_ifs with hc
    · exact ⟨by dsimp only; linarith, by dsimp only; linarith, by dsimp only; linarith,
        by dsimp only; linarith⟩
    · exact ⟨by dsimp only; linarith, by dsimp only; linarith, by dsimp only; linarith,
        by dsimp only; linarith⟩

theorem hydIter_p_mem (T t : ℚ) (n : ℕ) (hn : n ≠ 0) :
    (hydIter T t n).2.2 = (hydIter T t n).1 ∨ (hydIter T t n).2.2 = (hydIter T t n).2.1 := by
  obtain ⟨m, rfl⟩ := Nat.exists_eq_succ_of_ne_zero hn
  rw [hydIter_succ, hydStep_eq]
  split_ifs
  · left; rfl
  · right; rfl

theorem hydIter_p_bounds (T t : ℚ) (n : ℕ) (hn : n ≠ 0) :
    0 < (hydIter T t n).2.2 ∧ (hydIter T t n).2.2 < 100 := by
  obtain ⟨m, rfl⟩ := Nat.exists_eq_succ_of_ne_zero hn
  obtain ⟨h0, h1, h2, _⟩ := hydIter_basic T t m
  rw [hydIter_succ, hydStep_eq]
  split_ifs
  · exact ⟨by dsimp only; linarith, by dsimp only; linarith⟩
  · exact ⟨by dsimp only; linarith, by dsimp only; linarith⟩

theorem hydIter_target (T t : ℚ)
    (hlo : T < rho_p_t (abvToMassFraction 0) t)
    (hhi : rho_p_t (abvToMassFraction 100) t ≤ T) (n : ℕ) :
    T < rho_p_t (abvToMassFraction (hydIter T t n).1) t ∧
      rho_p_t (abvToMassFraction (hydIter T t n).2.1) t ≤ T := by
  induction n with
  | zero => exact ⟨hlo, hhi⟩
  | succ n ih =>
    rw [hydIter_succ, hydStep_eq]
    split_ifs with hc
    · exact ⟨hc, ih.2⟩
    · exact ⟨ih.1, not_lt.1 hc⟩

theorem abv_frac_zero : abvToMassFraction 0 = 0 := by
  rw [abvToMassFraction, if_pos le_rfl]

theorem abv_frac_hundred : abvToMassFraction 100 = 1 := by
  rw [abvToMassFraction, if_neg (by norm_num), if_pos le_rfl]

/-- Unfolding of the `trueAbv` field of `correctHydrometerReading`. -/
theorem correct_trueAbv (r t : ℚ) :
    (correctHydrometerReading r t).trueAbv =
      roundTo 1 ((hydIter (rho_p_t (abvToMassFraction r) 20) t 30).2.2) := rfl

/-- Unfolding of the `correction` field of `correctHydrometerReading`. -/
theorem correct_correction (r t : ℚ) :
    (correctHydrometerReading r t).correction =
      roundTo 1 ((hydIter (rho_p_t (abvToMassFraction r) 20) t 30).2.2 - r) := rfl

end Alquimista

namespace Alquimista

/-! ## The hydrometer bisection at the reference temperature tracks the reading -/

theorem rho20_pos {p : ℚ} (h0 : 0 ≤ p) (h1 : p ≤ 1) : 0 < rho20 p := by
  have h := rho20_anti h0 h1 le_rfl
  have : (0:ℚ) < rho20 1 := by norm_num [rho20]
  linarith

/-- Middle case `0 < r ≤ massFractionToAbv 1`: after 30 outer iterations the
returned midpoint is within `1/20` of the reading. -/
theorem hyd_mid_close {r : ℚ} (h0 : 0 < r) (h1 : r ≤ massFractionToAbv 1) :
    |(hydIter (rho_p_t (abvToMassFraction r) 20) 20 30).2.2 - r| < 1/20 := by
  set T := rho_p_t (abvToMassFraction r) 20 with hT
  have hfr0 : 0 < abvToMassFraction r := abv_frac_pos h0
  have hfr1 : abvToMassFraction r ≤ 1 := abv_frac_le_one r
  have hT20 : T = rho20 (abvToMassFraction r) := rho_p_t_at20 _
  have hlo : T < rho_p_t (abvToMassFraction 0) 20 := by
    rw [abv_frac_zero, rho_p_t_at20, hT20]
    exact rho20_strict_anti le_rfl hfr0 hfr1
  have hhi : rho_p_t (abvToMassFraction 100) 20 ≤ T := by
    rw [abv_frac_hundred, rho_p_t_at20, hT20]
    exact rho20_anti (le_of_lt hfr0) hfr1 le_rfl
  obtain ⟨hb0, hblt, hb100, hbw⟩ := hydIter_basic T 20 30
  obtain ⟨ht1, ht2⟩ := hydIter_target T 20 hlo hhi 30
  set lo := (hydIter T 20 30).1
  set hi := (hydIter T 20 30).2.1
  -- the reading lies strictly above the final lower bound
  have hlor : lo < r := by
    by_contra hcon
    push_neg at hcon
    have hmono := abv_frac_mono hcon
    have := rho_anti_in_p (t := 20) (by norm_num) (by norm_num)
      (le_of_lt hfr0) hmono (abv_frac_le_one lo)
    rw [← hT] at this
    linarith [ht1]
  -- and at most `6/10^6` above the final upper bound
  have hrhi : r ≤ hi + 6/1000000 := by
    rcases le_or_lt r hi with hcase | hcase
    · linarith
    · have hmono := abv_frac_mono (le_of_lt hcase)
      have hfeq : abvToMassFraction hi = abvToMassFraction r := by
        rcases lt_or_eq_of_le hmono with hlt | heq
        · exfalso
          have := rho20_strict_anti (abv_frac_nonneg hi) hlt hfr1
          rw [← hT20] at this
          rw [rho_p_t_at20] at ht2
          linarith
        · exact heq
      have hhi0 : 0 < hi := by linarith
      have hhiX : hi ≤ massFractionToAbv 1 := by linarith
      have hrt1 := roundTrip_bound hhi0 hhiX
      have hrt2 := roundTrip_bound h0 h1
      rw [hfeq] at hrt1
      rw [abs_le] at hrt1 hrt2
      linarith [hrt1.1, hrt1.2, hrt2.1, hrt2.2]
  have hmem := hydIter_p_mem T 20 30 (by norm_num)
  have hw : hi - lo = 100 * (1/2) ^ 30 := hbw
  have hsmall : (100 : ℚ) * (1/2) ^ 30 < 1/1000 := by norm_num
  rw [abs_lt]
  rcases hmem with hp | hp
  · rw [hp]
    constructor <;> linarith
  · rw [hp]
    constructor <;> linarith

end Alquimista

namespace Alquimista

/-! ## Edge cases of the hydrometer bisection at 20 °C -/

theorem abvIter_top {r : ℚ} (h1 : massFractionToAbv 1 < r) (h2 : r < 100) :
    ∀ n : ℕ, n ≠ 0 → abvIter (r / 100) n = (1 - (1/2) ^ n, 1, 1 - (1/2) ^ n) := by
  have hvq1 : vq 1 < r / 100 := by
    have := mfa_vq 1
    linarith
  intro n
  induction n with
  | zero => intro h; exact absurd rfl h
  | succ n ih =>
    intro _hx
    rcases Nat.eq_zero_or_pos n with rfl | hn
    · show abvIter (r / 100) 1 = _
      rw [show (1 : ℕ) = 0 + 1 from rfl, abvIter_succ, abvStep_eq]
      have hc : vq (((abvIter (r/100) 0).1 + (abvIter (r/100) 0).2.1) / 2) < r / 100 := by
        show vq ((0 + 1) / 2) < r / 100
        have hmono : vq ((0 + 1) / 2) < vq 1 := by
          apply vq_strict_mono (by norm_num) (by norm_num) le_rfl
        linarith
      rw [if_pos hc]
      show ((0 + 1) / 2, 1, (0 + 1) / 2) = _
      norm_num
    · have hstate := ih (Nat.pos_iff_ne_zero.mp hn)
      rw [abvIter_succ, abvStep_eq, hstate]
      have hm : ((1 - (1/2:ℚ) ^ n) + 1) / 2 = 1 - (1/2) ^ (n + 1) := by
        rw [pow_succ]
        ring
      have hpow1 : (0:ℚ) < (1/2) ^ (n+1) := by positivity
      have hpow2 : ((1/2:ℚ)) ^ (n+1) ≤ 1 := by
        apply pow_le_one₀ <;> norm_num
      have hc : vq (((1 - (1/2:ℚ) ^ n, 1, 1 - (1/2) ^ n).1 +
          (1 - (1/2:ℚ) ^ n, 1, 1 - (1/2) ^ n).2.1) / 2) < r / 100 := by
        show vq ((1 - (1/2:ℚ) ^ n + 1) / 2) < r / 100
        rw [hm]
        have hmono : vq (1 - (1/2) ^ (n+1)) < vq 1 := by
          apply vq_strict_mono (by linarith) (by linarith) le_rfl
        linarith
      rw [if_pos hc]
      show ((1 - (1/2:ℚ) ^ n + 1) / 2, 1, (1 - (1/2:ℚ) ^ n + 1) / 2) = _
      rw [hm]

theorem abv_frac_top {r : ℚ} (h1 : massFractionToAbv 1 < r) (h2 : r < 100) :
    abvToMassFraction r = 1 - (1/2) ^ 40 := by
  have hr0 : ¬ r ≤ 0 := by
    have := mfa_one_gt
    push_neg
    linarith
  have hr100 : ¬ 100 ≤ r := not_le.2 h2
  rw [abv_frac_else hr0 hr100, abvIter_top h1 h2 40 (by norm_num)]

/-- Top case `massFractionToAbv 1 < r < 100`. -/
theorem hyd_top_close {r : ℚ} (h1 : massFractionToAbv 1 < r) (h2 : r < 100) :
    |(hydIter (rho_p_t (abvToMassFraction r) 20) 20 30).2.2 - r| < 1/20 := by
  have hfr : abvToMassFraction r = 1 - (1/2) ^ 40 := abv_frac_top h1 h2
  set T := rho_p_t (abvToMassFraction r) 20 with hT
  have hps0 : (0:ℚ) < 1 - (1/2) ^ 40 := by norm_num
  have hps1 : (1 - (1/2:ℚ) ^ 40) ≤ 1 := by norm_num
  have hT20 : T = rho20 (1 - (1/2) ^ 40) := by
    rw [hT, rho_p_t_at20, hfr]
  have hlo : T < rho_p_t (abvToMassFraction 0) 20 := by
    rw [abv_frac_zero, rho_p_t_at20, hT20]
    exact rho20_strict_anti le_rfl hps0 hps1
  have hhi : rho_p_t (abvToMassFraction 100) 20 ≤ T := by
    rw [abv_frac_hundred, rho_p_t_at20, hT20]
    exact rho20_anti (le_of_lt hps0) hps1 le_rfl
  obtain ⟨hb0, hblt, hb100, hbw⟩ := hydIter_basic T 20 30
  obtain ⟨ht1, ht2⟩ := hydIter_target T 20 hlo hhi 30
  set lo := (hydIter T 20 30).1
  set hi := (hydIter T 20 30).2.1
  have hmfa1 : (9999:ℚ)/100 < massFractionToAbv 1 := mfa_one_gt
  have hhibig : (9996:ℚ)/100 < hi := by
    by_contra hcon
    push_neg at hcon
    have hfhi : 1 - (1/2:ℚ) ^ 40 ≤ abvToMassFraction hi := by
      by_contra hflt
      push_neg at hflt
      have := rho20_strict_anti (abv_frac_nonneg hi) hflt hps1
      rw [← hT20] at this
      rw [rho_p_t_at20] at ht2
      linarith
    have hhi0 : 0 < hi := by linarith
    have hhiX : hi ≤ massFractionToAbv 1 := by linarith
    have hrt := roundTrip_bound hhi0 hhiX
    rw [abs_le] at hrt
    have hvmono : vq (1 - (1/2) ^ 40) ≤ vq (abvToMassFraction hi) :=
      vq_mono (le_of_lt hps0) hfhi (abv_frac_le_one hi)
    have hlip := vq_lip (a := 1 - (1/2) ^ 40) (b := 1) (by linarith) (by linarith) le_rfl
    have hone : (1:ℚ) - (1 - (1/2) ^ 40) = (1/2) ^ 40 := by ring
    rw [hone] at hlip
    have hsm : (29001:ℚ) * (1/2) ^ 40 ≤ 3/100000000 := by norm_num
    have hmf : massFractionToAbv (abvToMassFraction hi) = 100 * vq (abvToMassFraction hi) :=
      mfa_vq _
    have hmf1 : massFractionToAbv 1 = 100 * vq 1 := mfa_vq 1
    linarith [hrt.1, hrt.2]
  have hmem := hydIter_p_mem T 20 30 (by norm_num)
  have hsmall : (100 : ℚ) * (1/2) ^ 30 < 1/1000 := by norm_num
  rw [abs_lt]
  rcases hmem with hp | hp
  · rw [hp]
    constructor <;> linarith
  · rw [hp]
    constructor <;> linarith

end Alquimista

namespace Alquimista

/-! ## The extreme readings 0 and 100 -/

theorem hydIter_zero_state :
    ∀ n : ℕ, n ≠ 0 →
      hydIter (rho_p_t (abvToMassFraction 0) 20) 20 n = (0, 100 * (1/2) ^ n, 100 * (1/2) ^ n) := by
  have hT : rho_p_t (abvToMassFraction 0) 20 = rho20 0 := by
    rw [abv_frac_zero, rho_p_t_at20]
  intro n
  induction n with
  | zero => intro h; exact absurd rfl h
  | succ n ih =>
    intro _hx
    have hcond : ∀ m : ℚ, 0 < m → m ≤ 100 →
        ¬ (rho_p_t (abvToMassFraction 0) 20 < rho_p_t (abvToMassFraction m) 20) := by
      intro m hm0 hm100
      rw [hT, rho_p_t_at20]
      push_neg
      exact le_of_lt (rho20_strict_anti le_rfl (abv_frac_pos hm0) (abv_frac_le_one m))
    rcases Nat.eq_zero_or_pos n with rfl | hn
    · show hydIter _ 20 1 = _
      rw [show (1 : ℕ) = 0 + 1 from rfl, hydIter_succ, hydStep_eq]
      have h50 : (((0:ℚ), (100:ℚ), (50:ℚ)).1 + ((0:ℚ), (100:ℚ), (50:ℚ)).2.1) / 2 = 50 := by
        norm_num
      rw [if_neg]
      · show ((0:ℚ), ((0:ℚ) + 100) / 2, ((0:ℚ) + 100) / 2) = _
        norm_num
      · show ¬ (rho_p_t (abvToMassFraction 0) 20 <
          rho_p_t (abvToMassFraction (((0:ℚ) + 100) / 2)) 20)
        have : ((0:ℚ) + 100) / 2 = 50 := by norm_num
        rw [this]
        exact hcond 50 (by norm_num) (by norm_num)
    · have hstate := ih (Nat.pos_iff_ne_zero.mp hn)
      rw [hydIter_succ, hydStep_eq, hstate]
      have hm : ((0:ℚ) + 100 * (1/2) ^ n) / 2 = 100 * (1/2) ^ (n + 1) := by
        rw [pow_succ]
        ring
      have hpowpos : (0:ℚ) < 100 * (1/2) ^ (n+1) := by positivity
      have hpowle : (100:ℚ) * (1/2) ^ (n+1) ≤ 100 := by
        have : ((1/2:ℚ)) ^ (n+1) ≤ 1 := by
          apply pow_le_one₀ <;> norm_num
        linarith
      rw [if_neg]
      · show ((0:ℚ), ((0:ℚ) + 100 * (1/2) ^ n) / 2, ((0:ℚ) + 100 * (1/2) ^ n) / 2) = _
        rw [hm]
      · show ¬ (rho_p_t (abvToMassFraction 0) 20 <
          rho_p_t (abvToMassFraction (((0:ℚ) + 100 * (1/2) ^ n) / 2)) 20)
        rw [hm]
        exact hcond _ hpowpos hpowle

theorem hydIter_hundred_state :
    ∀ n : ℕ, n ≠ 0 →
      hydIter (rho_p_t (abvToMassFraction 100) 20) 20 n =
        (100 - 100 * (1/2) ^ n, 100, 100 - 100 * (1/2) ^ n) := by
  have hT : rho_p_t (abvToMassFraction 100) 20 = rho20 1 := by
    rw [abv_frac_hundred, rho_p_t_at20]
  have hcond : ∀ m : ℚ, m < 100 →
      rho_p_t (abvToMassFraction 100) 20 < rho_p_t (abvToMassFraction m) 20 := by
    intro m hm100
    rw [hT, rho_p_t_at20]
    exact rho20_strict_anti (abv_frac_nonneg m) (abv_frac_lt_one hm100) le_rfl
  intro n
  induction n with
  | zero => intro h; exact absurd rfl h
  | succ n ih =>
    intro _hx
    rcases Nat.eq_zero_or_pos n with rfl | hn
    · show hydIter _ 20 1 = _
      rw [show (1 : ℕ) = 0 + 1 from rfl, hydIter_succ, hydStep_eq]
      rw [if_pos]
      · show (((0:ℚ) + 100) / 2, (100:ℚ), ((0:ℚ) + 100) / 2) = _
        norm_num
      · show rho_p_t (abvToMassFraction 100) 20 <
          rho_p_t (abvToMassFraction (((0:ℚ) + 100) / 2)) 20
        have : ((0:ℚ) + 100) / 2 = 50 := by norm_num
        rw [this]
        exact hcond 50 (by norm_num)
    · have hstate := ih (Nat.pos_iff_ne_zero.mp hn)
      rw [hydIter_succ, hydStep_eq, hstate]
      have hm : ((100 - 100 * (1/2:ℚ) ^ n) + 100) / 2 = 100 - 100 * (1/2) ^ (n + 1) := by
        rw [pow_succ]
        ring
      have hppos : (0:ℚ) < 100 * (1/2) ^ (n+1) := by positivity
      rw [if_pos]
      · show (((100 - 100 * (1/2:ℚ) ^ n) + 100) / 2, (100:ℚ),
          ((100 - 100 * (1/2:ℚ) ^ n) + 100) / 2) = _
        rw [hm]
      · show rho_p_t (abvToMassFraction 100) 20 <
          rho_p_t (abvToMassFraction (((100 - 100 * (1/2:ℚ) ^ n) + 100) / 2)) 20
        rw [hm]
        exact hcond _ (by linarith)

/-- At the reference temperature, the 30-iteration hydrometer bisection lands
within `1/20` ABV of any reading in `[0, 100]`. -/
theorem hyd_close {r : ℚ} (h0 : 0 ≤ r) (h1 : r ≤ 100) :
    |(hydIter (rho_p_t (abvToMassFraction r) 20) 20 30).2.2 - r| < 1/20 := by
  rcases eq_or_lt_of_le h0 with rfl | hr0
  · rw [hydIter_zero_state 30 (by norm_num)]
    show |100 * (1/2:ℚ) ^ 30 - 0| < 1/20
    rw [abs_lt]
    norm_num
  · rcases eq_or_lt_of_le h1 with rfl | hr100
    · rw [hydIter_hundred_state 30 (by norm_num)]
      show |100 - 100 * (1/2:ℚ) ^ 30 - 100| < 1/20
      rw [abs_lt]
      norm_num
    · rcases le_or_lt r (massFractionToAbv 1) with hX | hX
      · exact hyd_mid_close hr0 hX
      · exact hyd_top_close hX hr100

end Alquimista

namespace Alquimista

/-! ## Certificates for the contraction factor of the variant module

`gfactor_cert` certifies (as `40000 - G ≤ 0`) that the cofactor `G` in the
factorisation `rho20 p · (p·rho20 0 + (1-p)·rho20 1) - rho20 1 · rho20 0 =
p (1-p) G p` is at least `40000` on `[0,1]`; `rhoAlt_eth_cert` and
`rhoAlt_wat_cert` certify (as `1 - ρ ≤ 0`) that the variant polynomial is
positive at the pure ethanol and pure water endpoints for `Δt ∈ [-30,30]`. -/

set_option maxHeartbeats 1000000 in
theorem gfactor_eq (p : ℚ) :
    rho20 p * (p * rho20 0 + (1 - p) * rho20 1) - rho20 1 * rho20 0 =
      p * (1 - p) * (1125625469816857353/20000000000000 + 16153410297752795407/50000000000000 * p ^ 1 - 9121525227730755159/10000000000000 * p ^ 2 + 9411490258957938653/1000000000000 * p ^ 3 - 14361752802893334551/250000000000 * p ^ 4 + 8291857251554739983/50000000000 * p ^ 5 - 12731272804596599371/50000000000 * p ^ 6 + 10334045762685735557/50000000000 * p ^ 7 - 3480118982256044751/50000000000 * p ^ 8 - 386455537013991199/50000000000 * p ^ 9 + 4078193728341834771/500000000000 * p ^ 10) := by
  unfold rho20
  norm_num
  ring

end Alquimista

namespace Alquimista


/-! ## The variant module's bisection agrees with the main one, and the
contraction factor in closed form -/

end Alquimista

namespace Alquimista


/-! ## Helper lemmas for the claim theorems -/

/-- Every `roundTo d` value is an integer number of `10 ^ d`-ths. -/
theorem roundTo_den (d : ℕ) (x : ℚ) : ∃ n : ℤ, roundTo d x = (n : ℚ) / 10 ^ d :=
  ⟨round (x * 10 ^ d), rfl⟩

/-- Rounding the true value and rounding the correction never drift more than
one tenth apart. -/
theorem roundTo1_diff_lt (T r : ℚ) :
    |roundTo 1 T - (r + roundTo 1 (T - r))| < 1/10 := by
  have e1a : (round (T * 10 ^ 1) : ℚ) ≤ T * 10 ^ 1 + 1/2 := by
    rw [round_eq]
    exact Int.floor_le _
  have e1b : T * 10 ^ 1 + 1/2 < (round (T * 10 ^ 1) : ℚ) + 1 := by
    rw [round_eq]
    exact Int.lt_floor_add_one _
  have e2a : (round ((T - r) * 10 ^ 1) : ℚ) ≤ (T - r) * 10 ^ 1 + 1/2 := by
    rw [round_eq]
    exact Int.floor_le _
  have e2b : (T - r) * 10 ^ 1 + 1/2 < (round ((T - r) * 10 ^ 1) : ℚ) + 1 := by
    rw [round_eq]
    exact Int.lt_floor_add_one _
  rw [roundTo, roundTo, abs_lt]
  norm_num at e1a e1b e2a e2b ⊢
  constructor <;> linarith

theorem roundTo1_hundred : roundTo 1 (100 : ℚ) = 100 := by decide

set_option maxRecDepth 30000 in
/-- C1: the density model reproduces the reference values `density(0,20) ≈
0.998201`, `density(100,20) ≈ 0.789239` and `density(96,20) ≈ 0.807419`, each
within one unit in the sixth decimal place. -/
theorem claim_C1 :
    |calculateDensity 0 20 - 998201/1000000| ≤ 1/1000000 ∧
      |calculateDensity 100 20 - 789239/1000000| ≤ 1/1000000 ∧
      |calculateDensity 96 20 - 807419/1000000| ≤ 1/1000000 := by
  have hp : abvToMassFraction 96 = 1031765672765/1099511627776 := by decide
  have e0 : calculateDensity 0 20 = roundTo 6 (rho_p_t (abvToMassFraction 0) 20 / 1000) := rfl
  have e100 : calculateDensity 100 20 =
      roundTo 6 (rho_p_t (abvToMassFraction 100) 20 / 1000) := rfl
  have e96 : calculateDensity 96 20 =
      roundTo 6 (rho_p_t (abvToMassFraction 96) 20 / 1000) := rfl
  refine ⟨?_, ?_, ?_⟩
  · rw [e0, abv_frac_zero]
    have hd : |rho_p_t 0 20 / 1000 - 998201/1000000| ≤ 1/2000000 := by decide
    have hr := roundTo_sub_abs 6 (rho_p_t 0 20 / 1000)
    norm_num at hr
    have tri := abs_sub_le (roundTo 6 (rho_p_t 0 20 / 1000))
      (rho_p_t 0 20 / 1000) (998201/1000000 : ℚ)
    linarith
  · rw [e100, abv_frac_hundred]
    have hd : |rho_p_t 1 20 / 1000 - 789239/1000000| ≤ 1/2000000 := by decide
    have hr := roundTo_sub_abs 6 (rho_p_t 1 20 / 1000)
    norm_num at hr
    have tri := abs_sub_le (roundTo 6 (rho_p_t 1 20 / 1000))
      (rho_p_t 1 20 / 1000) (789239/1000000 : ℚ)
    linarith
  · rw [e96, hp]
    have hd : |rho_p_t (1031765672765/1099511627776) 20 / 1000 - 807419/1000000| ≤
        1/2000000 := by decide
    have hr := roundTo_sub_abs 6 (rho_p_t (1031765672765/1099511627776) 20 / 1000)
    norm_num at hr
    have tri := abs_sub_le (roundTo 6 (rho_p_t (1031765672765/1099511627776) 20 / 1000))
      (rho_p_t (1031765672765/1099511627776) 20 / 1000) (807419/1000000 : ℚ)
    linarith

/-- C2 (amended): `rho_p_t` is non-increasing in the mass fraction on `[0,1]`
for every temperature in `[-10, 50]` °C, and non-increasing in the temperature
on the sub-range `[10, 50]` °C for every mass fraction in `[0,1]`.  (On the
full range the temperature monotonicity fails: cold water is denser at 4 °C
than at 0 °C.) -/
theorem claim_C2 :
    (∀ t p1 p2 : ℚ, -10 ≤ t → t ≤ 50 → 0 ≤ p1 → p1 ≤ p2 → p2 ≤ 1 →
      rho_p_t p2 t ≤ rho_p_t p1 t) ∧
    (∀ p t1 t2 : ℚ, 0 ≤ p → p ≤ 1 → 10 ≤ t1 → t1 ≤ t2 → t2 ≤ 50 →
      rho_p_t p t2 ≤ rho_p_t p t1) :=
  ⟨fun _ _ _ ht1 ht2 h0 h12 h1 => rho_anti_in_p ht1 ht2 h0 h12 h1,
   fun _ _ _ hp0 hp1 h10 h12 h50 => rho_anti_in_t hp0 hp1 h10 h12 h50⟩

/-- Witness for C2 at concrete inputs. -/
theorem claim_C2_witness :
    rho_p_t 1 20 ≤ rho_p_t 0 20 ∧ rho_p_t 0 50 ≤ rho_p_t 0 10 :=
  ⟨claim_C2.1 20 0 1 (by norm_num) (by norm_num) (by norm_num) (by norm_num) (by norm_num),
   claim_C2.2 0 10 50 (by norm_num) (by norm_num) (by norm_num) (by norm_num) (by norm_num)⟩

set_option maxRecDepth 8000 in
/-- Counterexample to C2 as stated: at mass fraction `0` the density rises
from 0 °C to 4 °C (the cold-water density anomaly), both temperatures lying in
the physically valid range. -/
theorem claim_C2_counterexample :
    -10 ≤ (0:ℚ) ∧ (0:ℚ) ≤ 4 ∧ (4:ℚ) ≤ 50 ∧ rho_p_t 0 0 < rho_p_t 0 4 :=
  ⟨by norm_num, by norm_num, by norm_num, by decide⟩

/-- C3 (amended): the fraction-converter round trip returns to within
`3·10⁻⁶` ABV on `[0, 99.99]` (the claimed `≈ 100·2⁻⁴⁰` tolerance fails at the
right edge: `massFractionToAbv 1 < 100`). -/
theorem claim_C3 (abv : ℚ) (h0 : 0 ≤ abv) (h1 : abv ≤ 9999/100) :
    |massFractionToAbv (abvToMassFraction abv) - abv| ≤ 3/1000000 := by
  rcases eq_or_lt_of_le h0 with rfl | hpos
  · rw [abv_frac_zero, mfa_vq, vq_zero, mul_zero]
    norm_num
  · exact roundTrip_bound hpos (le_of_lt (lt_of_le_of_lt h1 mfa_one_gt))

/-- Witness for C3 at `abv = 50`. -/
theorem claim_C3_witness :
    |massFractionToAbv (abvToMassFraction 50) - 50| ≤ 3/1000000 :=
  claim_C3 50 (by norm_num) (by norm_num)

set_option maxRecDepth 8000 in
/-- Counterexample to C3 as stated: at `abv = 100` the round-trip error
exceeds `10⁻⁴`, far above `100·2⁻⁴⁰ ≈ 9.1·10⁻¹¹`. -/
theorem claim_C3_counterexample :
    1/10000 < |massFractionToAbv (abvToMassFraction 100) - 100| := by
  decide

/-- C4: ethanol mass balance of `calculateDilutionWater`, each identity up to
the perturbation its fields' fixed-decimal roundings can introduce. -/
theorem claim_C4 (m s t : ℚ) (hm : 0 < m) (ht : 0 < t) (_hts : t < s) (_hs : s ≤ 100) :
    |(calculateDilutionWater m s t).ethanolMassG -
        m * (calculateDilutionWater m s t).sourceMassFraction| ≤ 1/200 + m/20000 ∧
      |(calculateDilutionWater m s t).ethanolMassG -
        (calculateDilutionWater m s t).finalMassG *
          (calculateDilutionWater m s t).targetMassFraction| ≤
        11/200 + (calculateDilutionWater m s t).finalMassG/20000 ∧
      |(calculateDilutionWater m s t).waterToAddG -
        ((calculateDilutionWater m s t).finalMassG - m)| ≤ 1/10 := by
  have hW : (calculateDilutionWater m s t).waterToAddG =
      roundTo 1 (m * abvToMassFraction s / abvToMassFraction t - m) := rfl
  have hF : (calculateDilutionWater m s t).finalMassG =
      roundTo 1 (m * abvToMassFraction s / abvToMassFraction t) := rfl
  have hE : (calculateDilutionWater m s t).ethanolMassG =
      roundTo 2 (m * abvToMassFraction s) := rfl
  have hSF : (calculateDilutionWater m s t).sourceMassFraction =
      roundTo 4 (abvToMassFraction s) := rfl
  have hTF : (calculateDilutionWater m s t).targetMassFraction =
      roundTo 4 (abvToMassFraction t) := rfl
  have hp1nn := abv_frac_nonneg s
  have hp2pos : 0 < abvToMassFraction t := abv_frac_pos ht
  have hp2le : abvToMassFraction t ≤ 1 := abv_frac_le_one t
  have hm2nn : 0 ≤ m * abvToMassFraction s / abvToMassFraction t :=
    div_nonneg (mul_nonneg hm.le hp1nn) hp2pos.le
  have b1 : |roundTo 2 (m * abvToMassFraction s) - m * abvToMassFraction s| ≤ 1/200 := by
    have := roundTo_sub_abs 2 (m * abvToMassFraction s)
    norm_num at this
    exact this
  have b2 : |roundTo 1 (m * abvToMassFraction s / abvToMassFraction t) -
      m * abvToMassFraction s / abvToMassFraction t| ≤ 1/20 := by
    have := roundTo_sub_abs 1 (m * abvToMassFraction s / abvToMassFraction t)
    norm_num at this
    exact this
  have b3 : |roundTo 4 (abvToMassFraction t) - abvToMassFraction t| ≤ 1/20000 := by
    have := roundTo_sub_abs 4 (abvToMassFraction t)
    norm_num at this
    exact this
  have b4 : |roundTo 4 (abvToMassFraction s) - abvToMassFraction s| ≤ 1/20000 := by
    have := roundTo_sub_abs 4 (abvToMassFraction s)
    norm_num at this
    exact this
  have b5 : |roundTo 1 (m * abvToMassFraction s / abvToMassFraction t - m) -
      (m * abvToMassFraction s / abvToMassFraction t - m)| ≤ 1/20 := by
    have := roundTo_sub_abs 1 (m * abvToMassFraction s / abvToMassFraction t - m)
    norm_num at this
    exact this
  have hFnn : 0 ≤ roundTo 1 (m * abvToMassFraction s / abvToMassFraction t) :=
    roundTo_nonneg 1 hm2nn
  refine ⟨?_, ?_, ?_⟩
  · rw [hE, hSF]
    have t2 : |m * abvToMassFraction s - m * roundTo 4 (abvToMassFraction s)| =
        m * |abvToMassFraction s - roundTo 4 (abvToMassFraction s)| := by
      rw [← mul_sub, abs_mul, abs_of_pos hm]
    have t3 : |abvToMassFraction s - roundTo 4 (abvToMassFraction s)| ≤ 1/20000 := by
      rw [abs_sub_comm]
      exact b4
    have t4 : m * |abvToMassFraction s - roundTo 4 (abvToMassFraction s)| ≤ m * (1/20000) :=
      mul_le_mul_of_nonneg_left t3 hm.le
    have tri := abs_sub_le (roundTo 2 (m * abvToMassFraction s))
      (m * abvToMassFraction s) (m * roundTo 4 (abvToMassFraction s))
    rw [t2] at tri
    linarith
  · rw [hE, hF, hTF]
    have key : m * abvToMassFraction s =
        m * abvToMassFraction s / abvToMassFraction t * abvToMassFraction t := by
      field_simp
    have k1 : |m * abvToMassFraction s / abvToMassFraction t * abvToMassFraction t -
        roundTo 1 (m * abvToMassFraction s / abvToMassFraction t) * abvToMassFraction t| =
        |m * abvToMassFraction s / abvToMassFraction t -
          roundTo 1 (m * abvToMassFraction s / abvToMassFraction t)| * abvToMassFraction t := by
      rw [← sub_mul, abs_mul, abs_of_nonneg hp2pos.le]
    have k1b : |m * abvToMassFraction s / abvToMassFraction t -
        roundTo 1 (m * abvToMassFraction s / abvToMassFraction t)| ≤ 1/20 := by
      rw [abs_sub_comm]
      exact b2
    have k3 : |m * abvToMassFraction s / abvToMassFraction t -
        roundTo 1 (m * abvToMassFraction s / abvToMassFraction t)| * abvToMassFraction t ≤
        (1/20) * 1 :=
      mul_le_mul k1b hp2le hp2pos.le (by norm_num)
    have k2 : |roundTo 1 (m * abvToMassFraction s / abvToMassFraction t) * abvToMassFraction t -
        roundTo 1 (m * abvToMassFraction s / abvToMassFraction t) *
          roundTo 4 (abvToMassFraction t)| =
        roundTo 1 (m * abvToMassFraction s / abvToMassFraction t) *
          |abvToMassFraction t - roundTo 4 (abvToMassFraction t)| := by
      rw [← mul_sub, abs_mul, abs_of_nonneg hFnn]
    have k4 : roundTo 1 (m * abvToMassFraction s / abvToMassFraction t) *
        |abvToMassFraction t - roundTo 4 (abvToMassFraction t)| ≤
        roundTo 1 (m * abvToMassFraction s / abvToMassFraction t) * (1/20000) :=
      mul_le_mul_of_nonneg_left (by rw [abs_sub_comm]; exact b3) hFnn
    have tri1 := abs_sub_le (roundTo 2 (m * abvToMassFraction s))
      (m * abvToMassFraction s)
      (roundTo 1 (m * abvToMassFraction s / abvToMassFraction t) *
        roundTo 4 (abvToMassFraction t))
    have tri2 := abs_sub_le
      (m * abvToMassFraction s / abvToMassFraction t * abvToMassFraction t)
      (roundTo 1 (m * abvToMassFraction s / abvToMassFraction t) * abvToMassFraction t)
      (roundTo 1 (m * abvToMassFraction s / abvToMassFraction t) *
        roundTo 4 (abvToMassFraction t))
    rw [k1] at tri2
    rw [k2] at tri2
    rw [← key] at tri2
    linarith
  · rw [hW, hF]
    have tri := abs_sub_le (roundTo 1 (m * abvToMassFraction s / abvToMassFraction t - m))
      (m * abvToMassFraction s / abvToMassFraction t - m)
      (roundTo 1 (m * abvToMassFraction s / abvToMassFraction t) - m)
    have k5 : |m * abvToMassFraction s / abvToMassFraction t - m -
        (roundTo 1 (m * abvToMassFraction s / abvToMassFraction t) - m)| =
        |m * abvToMassFraction s / abvToMassFraction t -
          roundTo 1 (m * abvToMassFraction s / abvToMassFraction t)| := by
      congr 1
      ring
    rw [k5] at tri
    have k6 : |m * abvToMassFraction s / abvToMassFraction t -
        roundTo 1 (m * abvToMassFraction s / abvToMassFraction t)| ≤ 1/20 := by
      rw [abs_sub_comm]
      exact b2
    linarith

/-- Witness for C4 at `(sourceMassG, sourceAbv, targetAbv) = (1000, 96, 40)`. -/
theorem claim_C4_witness :
    |(calculateDilutionWater 1000 96 40).waterToAddG -
        ((calculateDilutionWater 1000 96 40).finalMassG - 1000)| ≤ 1/10 :=
  (claim_C4 1000 96 40 (by norm_num) (by norm_num) (by norm_num) (by norm_num)).2.2

/-- C5 (amended): `trueAbv = readingAbv + correction` holds exactly whenever
the reading is a whole number of tenths (as every hydrometer reading is), and
in general the two sides agree to within one tenth — the resolution of the
two independent one-decimal roundings. -/
theorem claim_C5 (r t : ℚ) :
    (∀ n : ℤ, r = (n : ℚ) / 10 →
      (correctHydrometerReading r t).trueAbv =
        r + (correctHydrometerReading r t).correction) ∧
    |(correctHydrometerReading r t).trueAbv -
        (r + (correctHydrometerReading r t).correction)| < 1/10 := by
  constructor
  · intro n hn
    rw [correct_trueAbv, correct_correction, hn, roundTo_sub_intTenth]
    ring
  · rw [correct_trueAbv, correct_correction]
    exact roundTo1_diff_lt _ _

/-- Witness for C5 at a one-decimal reading. -/
theorem claim_C5_witness :
    (correctHydrometerReading 40 25).trueAbv =
      40 + (correctHydrometerReading 40 25).correction :=
  (claim_C5 40 25).1 400 (by norm_num)

/-- Counterexample to C5 as stated: for a reading that is not a whole number
of tenths (40.03) the identity cannot hold exactly, because both returned
fields are whole numbers of tenths. -/
theorem claim_C5_counterexample :
    (correctHydrometerReading (4003/100) 20).trueAbv ≠
      4003/100 + (correctHydrometerReading (4003/100) 20).correction := by
  intro h
  obtain ⟨a, ha⟩ := roundTo_den 1
    ((hydIter (rho_p_t (abvToMassFraction (4003/100 : ℚ)) 20) 20 30).2.2)
  obtain ⟨b, hb⟩ := roundTo_den 1
    ((hydIter (rho_p_t (abvToMassFraction (4003/100 : ℚ)) 20) 20 30).2.2 - 4003/100)
  rw [correct_trueAbv, correct_correction, ha, hb] at h
  have h2 : (a : ℚ) * 10 = 4003 + (b : ℚ) * 10 := by
    norm_num at h
    linarith
  have h3 : a * 10 = 4003 + b * 10 := by exact_mod_cast h2
  omega

/-- C6: at the reference temperature 20 °C the hydrometer correction is
exactly `0` for every reading in `[0, 100]`: the 30-step bisection lands
within `1/20` of the reading, inside the dead zone of the one-decimal
rounding. -/
theorem claim_C6 (x : ℚ) (h0 : 0 ≤ x) (h1 : x ≤ 100) :
    (correctHydrometerReading x 20).correction = 0 := by
  rw [correct_correction]
  refine roundTo_eq_zero 1 ?_
  have h20 : (1:ℚ) / (2 * 10 ^ 1) = 1/20 := by norm_num
  rw [h20]
  exact hyd_close h0 h1

/-- Witness for C6 at `x = 50`. -/
theorem claim_C6_witness : (correctHydrometerReading 50 20).correction = 0 :=
  claim_C6 50 (by norm_num) (by norm_num)

/-- C8 (amended): every rounded scalar the engine returns is a whole number
of the advertised decimal unit — `2` decimals for `volumeMl` and
`ethanolMassG`, `1` for `waterToAddG` and the hydrometer correction — but the
density is rounded to `6` decimals, not the claimed `4`. -/
theorem claim_C8 :
    (∀ a t : ℚ, ∃ n : ℤ, calculateDensity a t = (n : ℚ) / 10 ^ 6) ∧
    (∀ m a t : ℚ, ∃ n : ℤ, (calculateVolumeFromMass m a t).volumeMl = (n : ℚ) / 10 ^ 2) ∧
    (∀ v a t : ℚ, ∃ n : ℤ, calculateEthanolMass v a t = (n : ℚ) / 10 ^ 2) ∧
    (∀ m s t : ℚ,
      (∃ n : ℤ, (calculateDilutionWater m s t).ethanolMassG = (n : ℚ) / 10 ^ 2) ∧
      (∃ n : ℤ, (calculateDilutionWater m s t).waterToAddG = (n : ℚ) / 10 ^ 1)) ∧
    (∀ r t : ℚ, ∃ n : ℤ, (correctHydrometerReading r t).correction = (n : ℚ) / 10 ^ 1) :=
  ⟨fun _ _ => roundTo_den 6 _,
   fun _ _ _ => roundTo_den 2 _,
   fun _ _ _ => roundTo_den 2 _,
   fun _ _ _ => ⟨roundTo_den 2 _, roundTo_den 1 _⟩,
   fun _ _ => roundTo_den 1 _⟩

set_option maxRecDepth 8000 in
/-- Counterexample to C8 as stated: the density of water at 20 °C is not a
whole number of `10⁻⁴`: it is returned with six decimals. -/
theorem claim_C8_counterexample :
    ¬ ∃ n : ℤ, calculateDensity 0 20 = (n : ℚ) / 10 ^ 4 := by
  rintro ⟨n, hn⟩
  have h : calculateDensity 0 20 = 998201/1000000 := by decide
  rw [h] at hn
  have h2 : (998201 : ℚ) = (n : ℚ) * 100 := by
    norm_num at hn
    linarith
  have h3 : (998201 : ℤ) = n * 100 := by exact_mod_cast h2
  omega

/-- C9: `validateTemperature` classifies exactly as specified: `danger` (and
`isValid = false`) iff `t < 10 ∨ 30 < t`, `caution` iff `t` is in range but
outside `[15, 25]`, `none` iff `15 ≤ t ≤ 25`. -/
theorem claim_C9 (t : ℚ) :
    ((validateTemperature t).warning = Warning.danger ↔ (t < 10 ∨ 30 < t)) ∧
    ((validateTemperature t).warning = Warning.caution ↔
      (10 ≤ t ∧ t ≤ 30 ∧ (t < 15 ∨ 25 < t))) ∧
    ((validateTemperature t).warning = Warning.none ↔ (15 ≤ t ∧ t ≤ 25)) ∧
    ((validateTemperature t).isValid = false ↔ (t < 10 ∨ 30 < t)) := by
  unfold validateTemperature
  split_ifs with h1 h2
  · refine ⟨⟨fun _ => h1, fun _ => rfl⟩, ?_, ?_, ⟨fun _ => h1, fun _ => rfl⟩⟩
    · constructor
      · intro hc
        exact absurd hc (by decide)
      · rintro ⟨h10, h30, _⟩
        rcases h1 with h | h
        · exact absurd h10 (not_le.mpr h)
        · exact absurd h30 (not_le.mpr h)
    · constructor
      · intro hc
        exact absurd hc (by decide)
      · rintro ⟨h15, h25⟩
        rcases h1 with h | h
        · exact absurd h15 (not_le.mpr (by linarith))
        · exact absurd h25 (not_le.mpr (by linarith))
  · push_neg at h1
    refine ⟨?_, ⟨fun _ => ⟨h1.1, h1.2, h2⟩, fun _ => rfl⟩, ?_, ?_⟩
    · constructor
      · intro hc
        exact absurd hc (by decide)
      · intro hc
        rcases hc with h | h
        · exact absurd h (not_lt.mpr h1.1)
        · exact absurd h (not_lt.mpr h1.2)
    · constructor
      · intro hc
        exact absurd hc (by decide)
      · rintro ⟨h15, h25⟩
        rcases h2 with h | h
        · exact absurd h (not_lt.mpr h15)
        · exact absurd h (not_lt.mpr h25)
    · constructor
      · intro hc
        exact absurd hc (by decide)
      · intro hc
        rcases hc with h | h
        · exact absurd h (not_lt.mpr h1.1)
        · exact absurd h (not_lt.mpr h1.2)
  · push_neg at h1 h2
    refine ⟨?_, ?_, ⟨fun _ => ⟨h2.1, h2.2⟩, fun _ => rfl⟩, ?_⟩
    · constructor
      · intro hc
        exact absurd hc (by decide)
      · intro hc
        rcases hc with h | h
        · exact absurd h (not_lt.mpr h1.1)
        · exact absurd h (not_lt.mpr h1.2)
    · constructor
      · intro hc
        exact absurd hc (by decide)
      · rintro ⟨_, _, h | h⟩
        · exact absurd h (not_lt.mpr h2.1)
        · exact absurd h (not_lt.mpr h2.2)
    · constructor
      · intro hc
        exact absurd hc (by decide)
      · intro hc
        rcases hc with h | h
        · exact absurd h (not_lt.mpr h1.1)
        · exact absurd h (not_lt.mpr h1.2)

/-- C10: for every reading and temperature the returned `trueAbv` lies in
`[0, 100]`: the bisection midpoint never leaves the initial bracket and the
one-decimal rounding preserves the bounds. -/
theorem claim_C10 (r t : ℚ) :
    0 ≤ (correctHydrometerReading r t).trueAbv ∧
      (correctHydrometerReading r t).trueAbv ≤ 100 := by
  rw [correct_trueAbv]
  obtain ⟨hlo, hhi⟩ :=
    hydIter_p_bounds (rho_p_t (abvToMassFraction r) 20) t 30 (by norm_num)
  refine ⟨roundTo_nonneg 1 hlo.le, ?_⟩
  have h := roundTo_mono 1 hhi.le
  rw [roundTo1_hundred] at h
  exact h

end Alquimista
